import Mathlib

/-!
# RZ/G trusted firmware storage stack: xSPI memory-mapped flash and SDHI mount

Shallow embedding of `plat/renesas/rz/common/drivers/io/io_xspidrv.c` and
`plat/renesas/rz/common/drivers/sd/sd_mount.c` (with the card presence check of `sd_cd.c`
and the data transfer loops of `sd_trns.c`), followed by theorems about them.

Conventions
* C unsigned integers are natural numbers reduced modulo `2 ^ w` wherever the C
  arithmetic can wrap; the target is AArch64 (LP64), so `unsigned long long`,
  `uintptr_t` and `size_t` are 64 bits wide and `uint32_t` is 32 bits wide.
* Memory (the flash window, the scratch page and caller buffers) is a function from
  byte index to byte value.
* A failed `assert` stops the function; the result records this in `asserts_ok`.
-/

namespace Xspi

/-! ## xSPI memory-mapped flash driver (`io_xspidrv.c`) -/

/-- Modulus of 64-bit unsigned arithmetic. -/
def W64 : Nat := 2 ^ 64

/-- Modulus of 32-bit unsigned arithmetic. -/
def W32 : Nat := 2 ^ 32

/-- Byte-addressed memory: the value stored at every index. -/
abbrev Mem := Nat → Nat

/-- Value of errno `ENOENT`. -/
def ENOENT : Int := 2

/-- Value of errno `EIO`. -/
def EIO : Int := 5

/-- Value of errno `ENOMEM`. -/
def ENOMEM : Int := 12

/-- Value of `IO_SEEK_SET` in the enumeration of seek modes of the IO framework. -/
def IO_SEEK_SET : Int := 1

/-- The struct `memmap_file_state_t`: the single open-file slot of the driver. -/
structure memmap_file_state_t where
  in_use : Int
  base : Nat
  file_pos : Nat
  size : Nat

/-- The static `current_memmap_file = {0}`. -/
def current_memmap_file_init : memmap_file_state_t := ⟨0, 0, 0, 0⟩

/-- The struct `io_block_spec_t` passed to open: device offset and length of a region. -/
structure io_block_spec_t where
  offset : Nat
  length : Nat

/-- Modelled from the spec: the macro `round_down` (of `lib/utils_def.h`, not part of the
sources at hand) yields the start of the page that contains `value`, for the fixed device
page size `boundary`. -/
def round_down (value boundary : Nat) : Nat := value - value % boundary

/-- The C library `memcpy`: `len` bytes of `src` starting at `s` are stored into `dst`
starting at `d`. -/
def memcpy (dst : Mem) (d : Nat) (src : Mem) (s len : Nat) : Mem :=
  fun a => if d ≤ a ∧ a < d + len then src (s + (a - d)) else dst a

/-- Where the data of a page-program call comes from. -/
inductive ProgSrc where
  | scratch : ProgSrc
  | caller (buffer_offset : Nat) : ProgSrc
deriving DecidableEq, Repr

/-- Device accesses made by `memmap_block_write`, in program order. -/
inductive FlashEv where
  | page_read (addr : Nat) : FlashEv
  | program (addr len : Nat) (src : ProgSrc) : FlashEv
  | flush (addr len : Nat) : FlashEv
deriving DecidableEq, Repr

/-- Modelled from the spec: `xspi_write` (declared in `xspi.h`, not part of the sources at
hand) is the page-program call; when it succeeds it stores `len` bytes of the source at
device address `addr`. -/
def xspi_write (dev : Mem) (addr : Nat) (src : Mem) (s len : Nat) : Mem :=
  memcpy dev addr src s len

/-- Outcome of `memmap_block_open`. -/
structure OpenResult where
  ret : Int
  fp : memmap_file_state_t

/-- Outcome of `memmap_block_seek`. -/
structure SeekResult where
  ret : Int
  asserts_ok : Bool
  fp : memmap_file_state_t

/-- Outcome of `memmap_block_read`: `buffer` is the caller buffer after the call and
`length_read` the value stored through the out-pointer, if any. -/
structure ReadResult where
  ret : Int
  asserts_ok : Bool
  fp : memmap_file_state_t
  buffer : Mem
  length_read : Option Nat

/-- Outcome of `memmap_block_write`: the device and scratch page after the call, the
value stored through `length_written` (if any), and the device accesses made, the most
recent first. -/
structure WriteResult where
  ret : Int
  asserts_ok : Bool
  fp : memmap_file_state_t
  dev : Mem
  page_buf : Mem
  length_written : Option Nat
  trace : List FlashEv

/-- Source function `memmap_block_open`. -/
def memmap_block_open (cur : memmap_file_state_t) (block_spec : io_block_spec_t) :
    OpenResult :=
  if cur.in_use = 0 then
    ⟨0, { in_use := 1, base := block_spec.offset, file_pos := 0,
          size := block_spec.length }⟩
  else
    ⟨-ENOMEM, cur⟩

/-- Source function `memmap_block_seek`; `offset` is a `signed long long`. -/
def memmap_block_seek (fp : memmap_file_state_t) (mode : Int) (offset : Int) :
    SeekResult :=
  if mode = IO_SEEK_SET then
    if 0 ≤ offset ∧ offset.toNat < fp.size then
      ⟨0, true, { fp with file_pos := offset.toNat }⟩
    else
      ⟨-ENOENT, false, fp⟩
  else
    ⟨-ENOENT, true, fp⟩

/-- Source function `memmap_block_len`: the value stored through `length`. -/
def memmap_block_len (fp : memmap_file_state_t) : Int × Nat := (0, fp.size)

/-- Source function `memmap_block_read`. -/
def memmap_block_read (fp : memmap_file_state_t) (dev : Mem) (buffer : Mem)
    (length : Nat) : ReadResult :=
  let pos_after := (fp.file_pos + length) % W64
  if fp.file_pos ≤ pos_after ∧ pos_after ≤ fp.size then
    ⟨0, true, { fp with file_pos := pos_after },
      memcpy buffer 0 dev ((fp.base + fp.file_pos) % W64) length, some length⟩
  else
    ⟨0, false, fp, buffer, none⟩

/-- Source function `memmap_block_close`: the slot is zeroed. -/
def memmap_block_close (_cur : memmap_file_state_t) : Int × memmap_file_state_t :=
  (0, ⟨0, 0, 0, 0⟩)

/-- Lines 273-282 of `memmap_block_write`: the position assertion, the store through
`length_written` and the cursor update. -/
def memmap_block_write_tail (fp : memmap_file_state_t) (dev page_buf : Mem)
    (length : Nat) (trace : List FlashEv) : WriteResult :=
  let pos_after := (fp.file_pos + length) % W64
  if fp.file_pos ≤ pos_after ∧ pos_after ≤ fp.size then
    ⟨0, true, { fp with file_pos := pos_after }, dev, page_buf, some length, trace⟩
  else
    ⟨0, false, fp, dev, page_buf, none, trace⟩

/-- Lines 263-270 of `memmap_block_write` ("Middle Page") and the tail. `calls` counts
the page-program calls made so far; `prog_ok k` tells whether call number `k` succeeds. -/
def memmap_block_write_middle (P : Nat) (prog_ok : Nat → Bool)
    (fp : memmap_file_state_t) (buffer : Mem) (length : Nat)
    (first_page buffer_offset page_count calls : Nat)
    (dev page_buf : Mem) (trace : List FlashEv) : WriteResult :=
  if 0 < page_count then
    let addr := (fp.base + first_page) % W64
    let len := (page_count * P) % W32
    if prog_ok calls then
      memmap_block_write_tail fp (xspi_write dev addr buffer buffer_offset len) page_buf
        length
        (FlashEv.flush addr len :: FlashEv.program addr len (ProgSrc.caller buffer_offset)
          :: trace)
    else
      ⟨- EIO, true, fp, dev, page_buf, none,
        FlashEv.program addr len (ProgSrc.caller buffer_offset) :: trace⟩
  else
    memmap_block_write_tail fp dev page_buf length trace

/-- Lines 248-261 of `memmap_block_write` ("Last Page") and what follows. -/
def memmap_block_write_last (P : Nat) (prog_ok : Nat → Bool)
    (fp : memmap_file_state_t) (buffer : Mem) (length : Nat)
    (first_page last_page last_offset buffer_offset page_count calls : Nat)
    (dev page_buf : Mem) (trace : List FlashEv) : WriteResult :=
  if 0 < page_count ∧ 0 < last_offset then
    let addr := (fp.base + last_page) % W64
    let pb1 := memcpy page_buf 0 dev addr P
    let pb2 := memcpy pb1 0 buffer ((length + W64 - last_offset) % W64) last_offset
    if prog_ok calls then
      memmap_block_write_middle P prog_ok fp buffer length first_page buffer_offset
        ((page_count + W32 - 1) % W32) (calls + 1)
        (xspi_write dev addr pb2 0 P) pb2
        (FlashEv.flush addr P :: FlashEv.program addr P ProgSrc.scratch
          :: FlashEv.page_read addr :: trace)
    else
      ⟨- EIO, true, fp, dev, pb2, none,
        FlashEv.program addr P ProgSrc.scratch :: FlashEv.page_read addr :: trace⟩
  else
    memmap_block_write_middle P prog_ok fp buffer length first_page buffer_offset
      page_count calls dev page_buf trace

/-- Source function `memmap_block_write`, for the page size `P = XSPI_WRITE_PROG_SIZE`
(a positive plain integer constant of `xspi.h`, so `page_count * XSPI_WRITE_PROG_SIZE`
is formed in 32-bit unsigned arithmetic). Lines 218-246 are spelled out here ("First
Page"); the later blocks are `memmap_block_write_last`, `memmap_block_write_middle` and
`memmap_block_write_tail`. -/
def memmap_block_write (P : Nat) (prog_ok : Nat → Bool) (fp : memmap_file_state_t)
    (dev page_buf : Mem) (buffer : Mem) (length : Nat) : WriteResult :=
  if 0 < length then
    let first_page := round_down fp.file_pos P
    let first_offset := fp.file_pos % P
    let last_page := round_down ((fp.file_pos + length - 1) % W64) P
    let last_offset := ((fp.file_pos + length) % W64) % P
    let page_count := (((last_page + W64 - first_page) % W64) / P + 1) % W32
    if 0 < first_offset then
      let addr := (fp.base + first_page) % W64
      let pb1 := memcpy page_buf 0 dev addr P
      let bo := P - (fp.file_pos - first_page)
      let buffer_offset := if length < bo then length else bo
      let pb2 := memcpy pb1 first_offset buffer 0 buffer_offset
      if prog_ok 0 then
        memmap_block_write_last P prog_ok fp buffer length ((first_page + P) % W64)
          last_page last_offset buffer_offset ((page_count + W32 - 1) % W32) 1
          (xspi_write dev addr pb2 0 P) pb2
          [FlashEv.flush addr P, FlashEv.program addr P ProgSrc.scratch,
            FlashEv.page_read addr]
      else
        ⟨- EIO, true, fp, dev, pb2, none,
          [FlashEv.program addr P ProgSrc.scratch, FlashEv.page_read addr]⟩
    else
      memmap_block_write_last P prog_ok fp buffer length first_page last_page last_offset
        0 page_count 0 dev page_buf []
  else
    memmap_block_write_tail fp dev page_buf length []

/-! ### Sequences of calls and observations used in the theorems -/

/-- The session slot together with the device and the scratch page: what a call of the
driver can change. -/
structure FlashState where
  fp : memmap_file_state_t
  dev : Mem
  page_buf : Mem

/-- A call of the driver on the open session, with its arguments: seek, size
(`memmap_block_len`), read into a caller buffer, and write from a caller buffer on a
device whose page-program call number `k` succeeds when `prog_ok k`. -/
inductive FlashOp where
  | seek (mode offset : Int) : FlashOp
  | size : FlashOp
  | read (buffer : Mem) (length : Nat) : FlashOp
  | write (buffer : Mem) (length : Nat) (prog_ok : Nat → Bool) : FlashOp

/-- One call on the session; the result is `none` when an assertion of the call
fails. -/
def flash_step (P : Nat) (st : FlashState) : FlashOp → Option FlashState
  | FlashOp.seek mode offset =>
    if (memmap_block_seek st.fp mode offset).asserts_ok = true then
      some { st with fp := (memmap_block_seek st.fp mode offset).fp }
    else none
  | FlashOp.size => some st
  | FlashOp.read buffer length =>
    if (memmap_block_read st.fp st.dev buffer length).asserts_ok = true then
      some { st with fp := (memmap_block_read st.fp st.dev buffer length).fp }
    else none
  | FlashOp.write buffer length prog_ok =>
    if (memmap_block_write P prog_ok st.fp st.dev st.page_buf buffer length).asserts_ok
        = true then
      some
        { fp := (memmap_block_write P prog_ok st.fp st.dev st.page_buf buffer length).fp,
          dev := (memmap_block_write P prog_ok st.fp st.dev st.page_buf buffer length).dev,
          page_buf :=
            (memmap_block_write P prog_ok st.fp st.dev st.page_buf buffer length).page_buf }
    else none

/-- A sequence of calls on the session, in order; `none` when an assertion fails on the
way. -/
def flash_run (P : Nat) : FlashState → List FlashOp → Option FlashState
  | st, [] => some st
  | st, op :: ops =>
    match flash_step P st op with
    | none => none
    | some st2 => flash_run P st2 ops

/-- Number of page-program calls among the device accesses `tr`. -/
def programs : List FlashEv → Nat
  | [] => 0
  | FlashEv.program _ _ _ :: tr => programs tr + 1
  | _ :: tr => programs tr

/-- The two ways a write can end, given that the page-program calls are numbered from 0
in program order and call `k` succeeds when `prog_ok k`: either the last device access
is a page-program call that failed (all earlier ones having succeeded) and the write
returned `-EIO` with the session and the reported length untouched, or every
page-program call made succeeded and the write ended in its final block (lines
273-282). -/
def WriteOutcome (prog_ok : Nat → Bool) (fp : memmap_file_state_t) (length : Nat)
    (r : WriteResult) : Prop :=
  (r.ret = - EIO ∧ r.asserts_ok = true ∧ r.fp = fp ∧ r.length_written = none ∧
    ∃ addr len src tr, r.trace = FlashEv.program addr len src :: tr ∧
      prog_ok (programs tr) = false ∧ ∀ k, k < programs tr → prog_ok k = true) ∨
  ((∀ k, k < programs r.trace → prog_ok k = true) ∧
    ∃ dev2 pb2, r = memmap_block_write_tail fp dev2 pb2 length r.trace)

/-! ### The local variables of `memmap_block_write` -/

/-- The variable `first_page` as set at line 220. -/
def write_first_page (P : Nat) (fp : memmap_file_state_t) : Nat :=
  round_down fp.file_pos P

/-- The variable `first_offset` (line 221). -/
def write_first_offset (P : Nat) (fp : memmap_file_state_t) : Nat := fp.file_pos % P

/-- The variable `last_page` (line 223). -/
def write_last_page (P : Nat) (fp : memmap_file_state_t) (length : Nat) : Nat :=
  round_down ((fp.file_pos + length - 1) % W64) P

/-- The variable `last_offset` (line 224). -/
def write_last_offset (P : Nat) (fp : memmap_file_state_t) (length : Nat) : Nat :=
  ((fp.file_pos + length) % W64) % P

/-- The variable `page_count` as set at line 227, a `uint32_t`. -/
def write_page_count (P : Nat) (fp : memmap_file_state_t) (length : Nat) : Nat :=
  (((write_last_page P fp length + W64 - write_first_page P fp) % W64) / P + 1) % W32

/-- The variable `buffer_offset` after the first-page block (lines 226-246). -/
def write_buffer_offset (P : Nat) (fp : memmap_file_state_t) (length : Nat) : Nat :=
  if 0 < write_first_offset P fp then
    if length < P - (fp.file_pos - write_first_page P fp) then length
    else P - (fp.file_pos - write_first_page P fp)
  else 0

/-- The variable `first_page` after the first-page block (line 244). -/
def write_first_page1 (P : Nat) (fp : memmap_file_state_t) : Nat :=
  if 0 < write_first_offset P fp then (write_first_page P fp + P) % W64
  else write_first_page P fp

/-- The variable `page_count` after the first-page block (line 245). -/
def write_page_count1 (P : Nat) (fp : memmap_file_state_t) (length : Nat) : Nat :=
  if 0 < write_first_offset P fp then (write_page_count P fp length + W32 - 1) % W32
  else write_page_count P fp length

/-- The condition of the last-page block (line 249). -/
abbrev write_last_taken (P : Nat) (fp : memmap_file_state_t) (length : Nat) : Prop :=
  0 < write_page_count1 P fp length ∧ 0 < write_last_offset P fp length

/-- The variable `page_count` after the last-page block (line 260). -/
def write_page_count2 (P : Nat) (fp : memmap_file_state_t) (length : Nat) : Nat :=
  if write_last_taken P fp length then (write_page_count1 P fp length + W32 - 1) % W32
  else write_page_count1 P fp length

/-- The expression `length - last_offset` of line 252, a `size_t`. -/
def write_last_src (P : Nat) (fp : memmap_file_state_t) (length : Nat) : Nat :=
  (length + W64 - write_last_offset P fp length) % W64

/-- The scratch page after the two copies of the first-page block (lines 231-236). -/
def first_overlay (P : Nat) (fp : memmap_file_state_t) (dev page_buf buffer : Mem)
    (length : Nat) : Mem :=
  memcpy (memcpy page_buf 0 dev ((fp.base + write_first_page P fp) % W64) P)
    (write_first_offset P fp) buffer 0 (write_buffer_offset P fp length)

/-- The scratch page after the two copies of the last-page block (lines 250-252). -/
def last_overlay (P : Nat) (fp : memmap_file_state_t) (dev page_buf buffer : Mem)
    (length : Nat) : Mem :=
  memcpy (memcpy page_buf 0 dev ((fp.base + write_last_page P fp length) % W64) P)
    0 buffer (write_last_src P fp length) (write_last_offset P fp length)

/-- The device accesses of the middle block when its page-program call succeeds, the
most recent first, for the page counter `pc`, the first page `fpg` and the buffer offset
`bo`. -/
def middle_accesses (P : Nat) (fp : memmap_file_state_t) (fpg bo pc : Nat) :
    List FlashEv :=
  if 0 < pc then
    [FlashEv.flush ((fp.base + fpg) % W64) ((pc * P) % W32),
     FlashEv.program ((fp.base + fpg) % W64) ((pc * P) % W32) (ProgSrc.caller bo)]
  else []

/-- The device accesses of a block that programs the page at `page` through the scratch
page, when the page-program call succeeds, the most recent first. -/
def page_accesses (P : Nat) (fp : memmap_file_state_t) (page : Nat) : List FlashEv :=
  [FlashEv.flush ((fp.base + page) % W64) P,
   FlashEv.program ((fp.base + page) % W64) P ProgSrc.scratch,
   FlashEv.page_read ((fp.base + page) % W64)]

/-- The device accesses of a write of `length > 0` bytes whose page-program calls all
succeed, the most recent first: those of the middle block, of the last-page block and
of the first-page block, each if taken. -/
def write_accesses (P : Nat) (fp : memmap_file_state_t) (length : Nat) : List FlashEv :=
  middle_accesses P fp (write_first_page1 P fp) (write_buffer_offset P fp length)
      (write_page_count2 P fp length)
    ++ ((if write_last_taken P fp length then
          page_accesses P fp (write_last_page P fp length) else [])
      ++ (if 0 < write_first_offset P fp then
            page_accesses P fp (write_first_page P fp) else []))

/-- What the claims on programming require of a device access: a page-program call
targets a whole number of pages from the session base and has a length that is a
positive whole number of pages. -/
def aligned_program (P base : Nat) : FlashEv → Prop
  | FlashEv.program addr len _ => base ≤ addr ∧ (addr - base) % P = 0 ∧ 0 < len ∧ len % P = 0
  | _ => True

/-- Number of page-program calls taken directly from the caller's buffer among the
device accesses `tr`. -/
def direct_programs : List FlashEv → Nat
  | [] => 0
  | FlashEv.program _ _ (ProgSrc.caller _) :: tr => direct_programs tr + 1
  | _ :: tr => direct_programs tr

/-- An environment in which every page-program call succeeds. -/
def all_ok : Nat → Bool := fun _ => true

/-! ### Concrete inputs used by the closed theorems -/

/-- A session open on the region `[0, 2 ^ 41)` with the cursor at 0. -/
def huge_fp : memmap_file_state_t := ⟨1, 0, 0, 2 ^ 41⟩

/-- A session open on the region `[4096, 4096 + 2048)` with the cursor at 100. -/
def small_fp : memmap_file_state_t := ⟨1, 4096, 100, 2048⟩

/-- A device (or buffer) filled with the byte `v`. -/
def fill (v : Nat) : Mem := fun _ => v

/-- A buffer holding the bytes `1, 2, 3, ...` (modulo 251). -/
def ramp : Mem := fun i => (i + 1) % 251

/-- A session open on the region `[0, 16)` with the cursor at 0. -/
def tiny_fp : memmap_file_state_t := ⟨1, 0, 0, 16⟩

/-- A device on which the second page-program call (number 1) fails. -/
def second_fails : Nat → Bool := fun k => k ≠ 1

/-- A sequence of calls on a session: seek to 100, read 50 bytes, ask the size, write
700 bytes (every page-program call succeeding). -/
def demo_ops : List FlashOp :=
  [FlashOp.seek IO_SEEK_SET 100, FlashOp.read (fill 0) 50, FlashOp.size,
   FlashOp.write ramp 700 all_ok]

/-- A session open on the region `[0, 2 ^ 41)` with the cursor at 1. -/
def huge_fp1 : memmap_file_state_t := ⟨1, 0, 1, 2 ^ 41⟩

end Xspi

namespace Sdhi

/-! ## SDHI driver: card detection, mount and data transfer (`sd_cd.c`, `sd_mount.c`,
`sd_trns.c`)

The interface headers `r_sdif.h`, `sd.h` and `sdmmc_iodefine.h` are not part of the
sources at hand. The constants below carry the values of the SDHI driver interface; the
theorems only rely on the status codes being pairwise distinct and on the bit layout of
the media-type flags. -/

/-! ### Status codes (`r_sdif.h`) -/

/-- Status `SD_OK_LOCKED_CARD`: the card is locked (a success-class code). -/
def SD_OK_LOCKED_CARD : Int := 1
/-- Status `SD_OK`. -/
def SD_OK : Int := 0
/-- Status `SD_ERR`: general error. -/
def SD_ERR : Int := -1
/-- Status `SD_ERR_RES_TOE`: response time out. -/
def SD_ERR_RES_TOE : Int := -4
/-- Status `SD_ERR_CARD_TOE`: card time out. -/
def SD_ERR_CARD_TOE : Int := -5
/-- Status `SD_ERR_END_BIT`: end bit error. -/
def SD_ERR_END_BIT : Int := -6
/-- Status `SD_ERR_CRC`: CRC error. -/
def SD_ERR_CRC : Int := -7
/-- Status `SD_ERR_HOST_TOE`: host time out. -/
def SD_ERR_HOST_TOE : Int := -9
/-- Status `SD_ERR_CARD_LOCK`: the card is locked. -/
def SD_ERR_CARD_LOCK : Int := -11
/-- Status `SD_ERR_CARD_CC`: internal card controller error. -/
def SD_ERR_CARD_CC : Int := -15
/-- Status `SD_ERR_CARD_ERROR`: unknown card error. -/
def SD_ERR_CARD_ERROR : Int := -16
/-- Status `SD_ERR_CARD_TYPE`: unsupported card type. -/
def SD_ERR_CARD_TYPE : Int := -17
/-- Status `SD_ERR_NO_CARD`: no card. -/
def SD_ERR_NO_CARD : Int := -18
/-- Status `SD_ERR_CPU_IF`: error of the target CPU interface function. -/
def SD_ERR_CPU_IF : Int := -30
/-- Status `SD_ERR_IFCOND_VER`: interface condition version is invalid. -/
def SD_ERR_IFCOND_VER : Int := -70
/-- Status `SD_ERR_IFCOND_ECHO`: interface condition echo back pattern is invalid. -/
def SD_ERR_IFCOND_ECHO : Int := -72

/-! ### Media types, modes, mount flags, spec versions (`r_sdif.h`) -/

/-- Media type `SD_MEDIA_UNKNOWN`. -/
def SD_MEDIA_UNKNOWN : Nat := 0x0000
/-- Media type `SD_MEDIA_MMC`. -/
def SD_MEDIA_MMC : Nat := 0x0010
/-- Media type `SD_MEDIA_SD`. -/
def SD_MEDIA_SD : Nat := 0x0020
/-- Media type `SD_MEDIA_IO`. -/
def SD_MEDIA_IO : Nat := 0x0001
/-- Media type `SD_MEDIA_MEM`: the memory bits. -/
def SD_MEDIA_MEM : Nat := 0x0030
/-- Media type `SD_MEDIA_COMBO`. -/
def SD_MEDIA_COMBO : Nat := 0x0021

/-- Mode bit `SD_MODE_VER2X`: version 2 host. -/
def SD_MODE_VER2X : Nat := 0x0080

/-- Mount flag `SD_UNMOUNT_CARD`. -/
def SD_UNMOUNT_CARD : Nat := 0x00
/-- Mount flag `SD_MOUNT_UNLOCKED_CARD`. -/
def SD_MOUNT_UNLOCKED_CARD : Nat := 0x01
/-- Mount flag `SD_MOUNT_LOCKED_CARD`. -/
def SD_MOUNT_LOCKED_CARD : Nat := 0x02
/-- Mount flag `SD_CARD_LOCKED`. -/
def SD_CARD_LOCKED : Nat := 0x04

/-- Spec version `SD_SPEC_10`. -/
def SD_SPEC_10 : Nat := 0x0100
/-- Spec version `SD_SPEC_11`. -/
def SD_SPEC_11 : Nat := 0x0110
/-- Spec version `SD_SPEC_20`. -/
def SD_SPEC_20 : Nat := 0x0200
/-- Spec version `SD_SPEC_30`. -/
def SD_SPEC_30 : Nat := 0x0300
/-- SCR mask `SD_SPEC_REGISTER_MASK`. -/
def SD_SPEC_REGISTER_MASK : Nat := 0x0F00
/-- SCR value `SD_SPEC_11_REGISTER`. -/
def SD_SPEC_11_REGISTER : Nat := 0x0100
/-- SCR value `SD_SPEC_20_REGISTER`. -/
def SD_SPEC_20_REGISTER : Nat := 0x0200
/-- SCR bit `SD_SPEC_30_REGISTER`. -/
def SD_SPEC_30_REGISTER : Nat := 0x8000

/-- Write-protect flag `SD_WP_ROM`. -/
def SD_WP_ROM : Nat := 0x10
/-- Area selector `SD_USER_AREA`. -/
def SD_USER_AREA : Nat := 1
/-- Area selector `SD_PROT_AREA`. -/
def SD_PROT_AREA : Nat := 2
/-- Default erase sector count `SD_ERASE_SECTOR`. -/
def SD_ERASE_SECTOR : Nat := 0x1000

/-- Card-detect port `SD_CD_SOCKET`. -/
def SD_CD_SOCKET : Nat := 0x0001
/-- Register value `SD_CD_DETECT` used when no detect layout exists ("always inserted"). -/
def SD_CD_DETECT : Nat := 0x0001

/-! ### Clock, port and time-out parameters (`sd.h`) -/

/-- Clock rate selector `SD_CLK_400KHZ`. -/
def SD_CLK_400KHZ : Nat := 0x0006
/-- Clock rate selector `SD_CLK_25MHZ`. -/
def SD_CLK_25MHZ : Nat := 0x0001
/-- Clock switch `SD_CLOCK_ENABLE`. -/
def SD_CLOCK_ENABLE : Nat := 1
/-- Clock switch `SD_CLOCK_DISABLE`. -/
def SD_CLOCK_DISABLE : Nat := 0
/-- Bus width `SD_PORT_SERIAL`. -/
def SD_PORT_SERIAL : Nat := 0
/-- Time-out `SD_TIMEOUT_MULTIPLE`. -/
def SD_TIMEOUT_MULTIPLE : Nat := 5000
/-- Time-out `SD_TIMEOUT_RESP`. -/
def SD_TIMEOUT_RESP : Nat := 2000
/-- Time-out `SD_TIMEOUT_ERASE_CMD` of a forced erase. -/
def SD_TIMEOUT_ERASE_CMD : Nat := 10000
/-- Transfer direction `SD_TRANS_READ`: from the card to the host. -/
def SD_TRANS_READ : Int := 0
/-- Transfer direction `SD_TRANS_WRITE`: from the host to the card. -/
def SD_TRANS_WRITE : Int := 1

/-! ### Commands and response shapes (`sd.h`) -/

/-- Command index `CMD0` (GO_IDLE_STATE). -/
def CMD0 : Nat := 0
/-- Command index `CMD2` (ALL_SEND_CID). -/
def CMD2 : Nat := 2
/-- Command index `CMD3` (SEND_RELATIVE_ADDR). -/
def CMD3 : Nat := 3
/-- Command index `CMD4` (SET_DSR). -/
def CMD4 : Nat := 4
/-- Command index `CMD7` (SELECT_CARD). -/
def CMD7 : Nat := 7
/-- Command index `CMD8` (SEND_IF_COND). -/
def CMD8 : Nat := 8
/-- Command index `CMD9` (SEND_CSD). -/
def CMD9 : Nat := 9
/-- Command index `CMD13` (SEND_STATUS). -/
def CMD13 : Nat := 13
/-- Command index `CMD16` (SET_BLOCKLEN). -/
def CMD16 : Nat := 16
/-- Command index `CMD42` (LOCK_UNLOCK). -/
def CMD42 : Nat := 42
/-- Command index `CMD43` (SELECT_PARTITION). -/
def CMD43 : Nat := 43
/-- Command index `CMD45` (QUERY_PARTITIONS). -/
def CMD45 : Nat := 45
/-- Application command `ACMD13` (SD_STATUS), that is `0x40 | 13`. -/
def ACMD13 : Nat := 77
/-- Application command `ACMD42` (SET_CLR_CARD_DETECT), that is `0x40 | 42`. -/
def ACMD42 : Nat := 106
/-- Application command `ACMD51` (SEND_SCR), that is `0x40 | 51`. -/
def ACMD51 : Nat := 115

/-- Response shape `SD_RSP_NON`. -/
def SD_RSP_NON : Nat := 0
/-- Response shape `SD_RSP_R1`. -/
def SD_RSP_R1 : Nat := 1
/-- Response shape `SD_RSP_R1B`. -/
def SD_RSP_R1B : Nat := 2
/-- Response shape `SD_RSP_R2_CID`. -/
def SD_RSP_R2_CID : Nat := 4
/-- Response shape `SD_RSP_R2_CSD`. -/
def SD_RSP_R2_CSD : Nat := 5
/-- Response shape `SD_RSP_R6`. -/
def SD_RSP_R6 : Nat := 7
/-- Response shape `SD_RSP_R7`. -/
def SD_RSP_R7 : Nat := 10

/-- Byte count `SD_STATUS_BYTE` of the SD status. -/
def SD_STATUS_BYTE : Nat := 64
/-- Byte count `SD_SCR_REGISTER_BYTE` of the SCR. -/
def SD_SCR_REGISTER_BYTE : Nat := 8
/-- Byte count `SD_QUERY_PARTITION_SIZE` of the partition list. -/
def SD_QUERY_PARTITION_SIZE : Nat := 512

/-! ### Interrupt flag masks (`sd.h`) -/

/-- Mask `SD_INFO1_MASK_DATA_TRNS`. -/
def SD_INFO1_MASK_DATA_TRNS : Nat := 0x0004
/-- Mask `SD_INFO1_MASK_STATE_CD`: level of the CD pin. -/
def SD_INFO1_MASK_STATE_CD : Nat := 0x0020
/-- Mask `SD_INFO1_MASK_STATE_DAT3`: level of the DAT3 line. -/
def SD_INFO1_MASK_STATE_DAT3 : Nat := 0x0400
/-- Mask `SD_INFO2_MASK_BRE`. -/
def SD_INFO2_MASK_BRE : Nat := 0x8100
/-- Mask `SD_INFO2_MASK_RE`. -/
def SD_INFO2_MASK_RE : Nat := 0x0100
/-- Mask `SD_INFO2_MASK_ERR`: the error flags. -/
def SD_INFO2_MASK_ERR : Nat := 0x807f
/-- Mask `SD_INFO2_MASK_BWE`. -/
def SD_INFO2_MASK_BWE : Nat := 0x8200
/-- Mask `SD_INFO2_MASK_WE`. -/
def SD_INFO2_MASK_WE : Nat := 0x0200
/-- Mask `SD_INFO1_MASK_TRNS_RESP`. -/
def SD_INFO1_MASK_TRNS_RESP : Nat := 0x0005
/-- Bit `CC_EXT_MODE_DMASDRW`: DMA enable. -/
def CC_EXT_MODE_DMASDRW : Nat := 0x0002

/-! ### Data model -/

/-- The fields of the struct `st_sdhndl_t` that the embedded functions read or write.
Arrays are functions from the index; `p_rw_buff` is the address of the work buffer (0
when none is allocated) and `rw_buff` its contents. -/
structure st_sdhndl_t where
  sd_port : Int
  p_rw_buff : Nat
  rw_buff : Nat → Nat
  cd_port : Nat
  mount : Nat
  media_type : Nat
  error : Int
  sup_ver : Nat
  sup_if_mode : Nat
  write_protect : Nat
  sd_spec : Nat
  partition_id : Int
  resp_status : Nat
  int_info2 : Nat
  if_cond : Nat → Nat
  rca : Nat → Nat
  csd : Nat → Nat
  dsr : Nat → Nat
  scr : Nat → Nat
  sdstatus : Nat → Nat
  csd_tran_speed : Nat
  speed_class : Nat
  perform_move : Nat
  erase_sect : Nat

/-- Calls that leave this translation unit: driver helpers defined in other files of the
driver (`_sd_*`) and functions of the target layer (`sddev_*`), with their arguments.
The argument `buff` of `sddev_write_data` and `sddev_read_data_at` is the offset of the
buffer pointer handed over from the start of the caller's buffer; `sddev_read_data_at`
is the target function `sddev_read_data` called from `sd_trns.c`. -/
inductive Call where
  | sddev_cd_layout (sd_port : Int)
  | sd_init_hndl (mode voltage : Nat)
  | sddev_power_on (sd_port : Int)
  | sd_set_port (port : Nat)
  | sd_set_clock (clock enable : Nat)
  | sddev_int_wait (sd_port : Int) (time : Nat)
  | sddev_loc_cpu (sd_port : Int)
  | sddev_unl_cpu (sd_port : Int)
  | sd_send_cmd (cmd : Nat)
  | sd_card_send_cmd_arg (cmd resp h_arg l_arg : Nat)
  | sd_card_send_ocr (type : Nat)
  | sd_check_csd
  | sd_get_size (area : Nat)
  | sd_iswp
  | sd_send_acmd (cmd h_arg l_arg : Nat)
  | sd_get_resp (resp : Nat)
  | sd_set_arg (h_arg l_arg : Nat)
  | sd_set_int_mask (mask1 mask2 : Nat)
  | sd_clear_int_mask (mask1 mask2 : Nat)
  | sd_clear_info (clear1 clear2 : Nat)
  | sd_check_info2_err
  | sddev_read_data (sd_port : Int) (num : Nat)
  | sddev_write_data (sd_port : Int) (buff : Nat) (num : Nat)
  | sddev_read_data_at (sd_port : Int) (buff : Nat) (num : Nat)
  | sd_wait_rbusy (time : Nat)
  | sddev_wait_dma_end (sd_port : Int) (cnt : Int)
  | sddev_disable_dma (sd_port : Int)
deriving DecidableEq, Repr

/-- What a call hands back: its return value and the values it leaves in the handle
fields that helpers of its kind write (see `hcall`, `vcall`, `dcall`). -/
structure Reply where
  ret : Int
  error : Int
  resp_status : Nat
  int_info2 : Nat
  if_cond : Nat → Nat
  rca : Nat → Nat
  csd : Nat → Nat
  csd_tran_speed : Nat
  sup_ver : Nat
  sup_if_mode : Nat
  data : Nat → Nat

/-- The environment of the embedded functions: the reply to call number `n` (counting
from 0 the calls made since the trace was empty) when that call is `c`. -/
abbrev Env := Nat → Call → Reply

/-- Hardware registers of the SDMMC block that the embedded functions access (their
64-bit `LONGLONG` view), the static buffer `s_stat_buff` of the port in use (as bytes),
and the calls made so far, the most recent first. -/
structure Hw where
  SD_INFO1 : Nat
  SD_INFO2 : Nat
  CC_EXT_MODE : Nat
  SD_STOP : Nat
  SD_SIZE : Nat
  s_stat_buff : Nat → Nat
  trace : List Call

/-- Driver state while a handle is in use. -/
structure Sd extends Hw where
  hndl : st_sdhndl_t

/-- Destination of a byte transfer: the static status buffer or the work buffer of the
handle. -/
inductive BufId where
  | stat
  | rw
deriving DecidableEq, Repr

/-- The `return` statement of `sd_mount` that ended a run (by source line). -/
inductive MountExit where
  | bad_port        -- line 86
  | not_initialized -- line 91
  | no_buffer       -- line 96
  | no_card         -- line 106
  | power_on        -- line 113
  | clock           -- line 121
  | card_init       -- line 147
  | check_csd       -- line 154
  | get_size        -- line 161
  | mem_mount       -- line 170
  | locked          -- line 177
  | get_scr         -- line 184
  | done            -- line 218
deriving DecidableEq, Repr

/-- Outcome of `sd_mount`: return value, the `return` statement taken, the handle (if it
was resolved) and the hardware state. -/
structure MountResult where
  ret : Int
  exit : MountExit
  hndl : Option st_sdhndl_t
  hw : Hw

/-! ### Calls into the rest of the driver -/

/-- Modelled from the spec: `_sd_set_err` (defined in another file of the driver, not
part of the sources at hand) records an error code in the handle; the error is sticky:
a code already recorded is kept until the error is cleared. -/
def _sd_set_err (h : st_sdhndl_t) (error : Int) : st_sdhndl_t :=
  if h.error = SD_OK then { h with error := error } else h

/-- Stores in the handle what a command-level helper leaves there. -/
def Reply.apply (r : Reply) (h : st_sdhndl_t) : st_sdhndl_t :=
  { h with error := r.error, resp_status := r.resp_status, int_info2 := r.int_info2,
           if_cond := r.if_cond, rca := r.rca, csd := r.csd,
           csd_tran_speed := r.csd_tran_speed }

/-- A call of a helper that takes the handle and reports a status (`_sd_send_cmd`,
`_sd_card_send_cmd_arg`, `_sd_send_acmd`, `_sd_get_resp`, `_sd_card_send_ocr`,
`_sd_set_clock`, `_sd_check_csd`, `_sd_get_size`, `_sd_check_info2_err`,
`_sd_wait_rbusy`): it may leave
any value in the error field, the response status, the interrupt flags and the response
registers of the handle. -/
def hcall (env : Env) (s : Sd) (c : Call) : Int × Sd :=
  ((env s.trace.length c).ret,
    { s with hndl := (env s.trace.length c).apply s.hndl, trace := c :: s.trace })

/-- A call of a helper that only does interrupt and register bookkeeping
(`_sd_set_port`, `_sd_set_arg`, `_sd_set_int_mask`, `_sd_clear_int_mask`,
`_sd_clear_info`) or of the interrupt wait `sddev_int_wait`: of the modelled handle
fields it may change the interrupt flags only. -/
def vcall (env : Env) (s : Sd) (c : Call) : Int × Sd :=
  ((env s.trace.length c).ret,
    { s with hndl := { s.hndl with int_info2 := (env s.trace.length c).int_info2 },
             trace := c :: s.trace })

/-- A call of a function that cannot write the handle: the target functions that take
the port but not the handle (`sddev_cd_layout`, `sddev_power_on`, `sddev_loc_cpu`,
`sddev_unl_cpu`, `sddev_write_data`, `sddev_wait_dma_end`, `sddev_disable_dma`, and
`sddev_read_data` into a buffer of the caller) and the query `_sd_iswp`. -/
def dcall (env : Env) (s : Sd) (c : Call) : Int × Sd :=
  ((env s.trace.length c).ret, { s with trace := c :: s.trace })

/-- Modelled from the spec: `_sd_init_hndl` (defined in another file of the driver, not
part of the sources at hand) stores the operating parameters chosen by the caller at
mount time in the handle and resets the negotiation state; the mount flag, the port and
the work buffer are not touched. -/
def _sd_init_hndl (env : Env) (s : Sd) (mode voltage : Nat) : Sd :=
  { s with
    hndl := { (env s.trace.length (Call.sd_init_hndl mode voltage)).apply s.hndl with
              sup_ver := (env s.trace.length (Call.sd_init_hndl mode voltage)).sup_ver,
              sup_if_mode :=
                (env s.trace.length (Call.sd_init_hndl mode voltage)).sup_if_mode,
              media_type := SD_MEDIA_UNKNOWN, write_protect := 0 },
    trace := Call.sd_init_hndl mode voltage :: s.trace }

/-- The target function `sddev_read_data`: `num` bytes arrive in the buffer `buf`. -/
def sddev_read_data (env : Env) (s : Sd) (buf : BufId) (num : Nat) : Int × Sd :=
  let c := Call.sddev_read_data s.hndl.sd_port num
  let r := env s.trace.length c
  match buf with
  | BufId.stat =>
    (r.ret, { s with s_stat_buff := fun i => if i < num then r.data i % 256
                                             else s.s_stat_buff i,
                     trace := c :: s.trace })
  | BufId.rw =>
    (r.ret, { s with hndl := { s.hndl with rw_buff := fun i =>
                                 if i < num then r.data i % 256 else s.hndl.rw_buff i },
                     trace := c :: s.trace })

/-- The 16-bit word `s_stat_buff[port][i]` (little-endian target). -/
def stat_word (s : Sd) (i : Nat) : Nat :=
  s.s_stat_buff (2 * i) + 256 * s.s_stat_buff (2 * i + 1)

/-- The expression `(w << 8) | (w >> 8)` stored in a `uint16_t`. -/
def swap16 (w : Nat) : Nat := ((w <<< 8) ||| (w >>> 8)) % 65536

/-! ### `sd_cd.c` -/

/-- Source function `_sd_check_media`; `SD_INFO1.WORD.LL` is the low 16-bit word of the
register. -/
def _sd_check_media (env : Env) (s : Sd) : Int × Sd :=
  let r := dcall env s (Call.sddev_cd_layout s.hndl.sd_port)
  let reg :=
    if r.1 = SD_OK then
      if s.hndl.cd_port = SD_CD_SOCKET then
        (r.2.SD_INFO1 % 65536) &&& SD_INFO1_MASK_STATE_CD
      else
        (r.2.SD_INFO1 % 65536) &&& SD_INFO1_MASK_STATE_DAT3
    else SD_CD_DETECT
  if reg ≠ 0 then (SD_OK, r.2) else (SD_ERR, r.2)

/-- Source function `sd_check_media`. `SD_GET_HNDLS` maps a port to its handle, if the
port was initialised. The result is the return value and the hardware state (with the
calls made). -/
def sd_check_media (env : Env) (SD_GET_HNDLS : Int → Option st_sdhndl_t) (hw : Hw)
    (sd_port : Int) : Int × Hw :=
  if sd_port ≠ 0 ∧ sd_port ≠ 1 then (SD_ERR, hw)
  else
    match SD_GET_HNDLS sd_port with
    | none => (SD_ERR, hw)
    | some h =>
      ((_sd_check_media env { toHw := hw, hndl := h }).1,
        (_sd_check_media env { toHw := hw, hndl := h }).2.toHw)

/-! ### `sd_mount.c`: byte transfers -/

/-- Source function `_sd_read_byte_error`. -/
def _sd_read_byte_error (env : Env) (s : Sd) : Int × Sd :=
  let s1 : Sd := { s with SD_STOP := 1 }
  let s2 := (vcall env s1 (Call.sd_clear_info SD_INFO1_MASK_DATA_TRNS SD_INFO2_MASK_ERR)).2
  let s3 :=
    (vcall env s2 (Call.sd_clear_int_mask SD_INFO1_MASK_DATA_TRNS SD_INFO2_MASK_BRE)).2
  (SD_ERR, s3)

/-- Lines 698-747 of `_sd_read_byte`: from the R1 response check to the end. -/
def _sd_read_byte_data (env : Env) (s : Sd) (buf : BufId) (byte : Nat) : Int × Sd :=
  let r1 := hcall env s (Call.sd_get_resp SD_RSP_R1)
  if r1.1 ≠ SD_OK then _sd_read_byte_error env r1.2
  else
    let s2 :=
      (vcall env r1.2 (Call.sd_set_int_mask SD_INFO1_MASK_DATA_TRNS SD_INFO2_MASK_BRE)).2
    let r3 := vcall env s2 (Call.sddev_int_wait s2.hndl.sd_port SD_TIMEOUT_MULTIPLE)
    if r3.1 ≠ SD_OK then
      _sd_read_byte_error env { r3.2 with hndl := _sd_set_err r3.2.hndl SD_ERR_HOST_TOE }
    else if r3.2.hndl.int_info2 &&& SD_INFO2_MASK_ERR ≠ 0 then
      _sd_read_byte_error env (hcall env r3.2 Call.sd_check_info2_err).2
    else
      let s4 := (vcall env r3.2 (Call.sd_clear_info 0 SD_INFO2_MASK_RE)).2
      let r5 := sddev_read_data env s4 buf byte
      if r5.1 ≠ SD_OK then
        _sd_read_byte_error env { r5.2 with hndl := _sd_set_err r5.2.hndl SD_ERR_CPU_IF }
      else
        let r6 := vcall env r5.2 (Call.sddev_int_wait r5.2.hndl.sd_port SD_TIMEOUT_RESP)
        if r6.1 ≠ SD_OK then
          _sd_read_byte_error env
            { r6.2 with hndl := _sd_set_err r6.2.hndl SD_ERR_HOST_TOE }
        else if r6.2.hndl.int_info2 &&& SD_INFO2_MASK_ERR ≠ 0 then
          _sd_read_byte_error env (hcall env r6.2 Call.sd_check_info2_err).2
        else
          let s7 :=
            (vcall env r6.2
              (Call.sd_clear_info SD_INFO1_MASK_DATA_TRNS SD_INFO2_MASK_ERR)).2
          let s8 :=
            (vcall env s7
              (Call.sd_clear_int_mask SD_INFO1_MASK_DATA_TRNS SD_INFO2_MASK_BRE)).2
          (SD_OK, s8)

/-- Source function `_sd_read_byte`, reading `byte` bytes into the buffer `buf`. -/
def _sd_read_byte (env : Env) (s : Sd) (cmd h_arg l_arg : Nat) (buf : BufId)
    (byte : Nat) : Int × Sd :=
  let s0 : Sd := { s with SD_STOP := 0, SD_SIZE := byte }
  if cmd &&& 0x0040 ≠ 0 then
    let r := hcall env s0 (Call.sd_send_acmd cmd h_arg l_arg)
    if r.1 ≠ SD_OK then
      if r.2.hndl.error = SD_ERR_END_BIT ∨ r.2.hndl.error = SD_ERR_CRC then
        _sd_read_byte_data env r.2 buf byte
      else
        _sd_read_byte_error env r.2
    else
      _sd_read_byte_data env r.2 buf byte
  else
    let s1 := (vcall env s0 (Call.sd_set_arg h_arg l_arg)).2
    let r := hcall env s1 (Call.sd_send_cmd cmd)
    if r.1 ≠ SD_OK then (SD_ERR, r.2)
    else _sd_read_byte_data env r.2 buf byte

/-- Source function `_sd_write_byte_error`. -/
def _sd_write_byte_error (env : Env) (s : Sd) : Int × Sd :=
  let s1 : Sd := { s with SD_STOP := 1 }
  let s2 := (vcall env s1 (Call.sd_clear_info SD_INFO1_MASK_DATA_TRNS 0x0000)).2
  let s3 :=
    (vcall env s2 (Call.sd_clear_int_mask SD_INFO1_MASK_DATA_TRNS SD_INFO2_MASK_BWE)).2
  (SD_ERR, s3)

/-- Lines 874-880 of `_sd_write_byte`: the successful end. -/
def _sd_write_byte_end (env : Env) (s : Sd) : Int × Sd :=
  let s1 := (vcall env s (Call.sd_clear_info SD_INFO1_MASK_DATA_TRNS 0x0000)).2
  let s2 :=
    (vcall env s1 (Call.sd_clear_int_mask SD_INFO1_MASK_DATA_TRNS SD_INFO2_MASK_BWE)).2
  (SD_OK, s2)

/-- Lines 842-880 of `_sd_write_byte`: the choice of the time-out, the wait for the end
of the transfer and what follows it. -/
def _sd_write_byte_wait (env : Env) (s : Sd) (cmd byte : Nat) : Int × Sd :=
  let time_out :=
    if CMD42 = cmd ∧ 1 = byte then SD_TIMEOUT_ERASE_CMD else SD_TIMEOUT_RESP
  let r6 := vcall env s (Call.sddev_int_wait s.hndl.sd_port time_out)
  if r6.1 ≠ SD_OK then
    _sd_write_byte_error env { r6.2 with hndl := _sd_set_err r6.2.hndl SD_ERR_HOST_TOE }
  else if r6.2.hndl.int_info2 &&& SD_INFO2_MASK_ERR ≠ 0 then
    let r7 := hcall env r6.2 Call.sd_check_info2_err
    if SD_TIMEOUT_ERASE_CMD = time_out then
      if SD_ERR_CARD_TOE = r7.2.hndl.error then
        let s8 :=
          (vcall env r7.2
            (Call.sd_clear_info SD_INFO1_MASK_TRNS_RESP SD_INFO2_MASK_ERR)).2
        let r9 := hcall env s8 (Call.sd_wait_rbusy 10000000)
        if r9.1 ≠ SD_OK then _sd_write_byte_error env r9.2
        else _sd_write_byte_end env r9.2
      else _sd_write_byte_error env r7.2
    else _sd_write_byte_error env r7.2
  else _sd_write_byte_end env r6.2

/-- Lines 817-880 of `_sd_write_byte`: from the interrupt mask to the end. -/
def _sd_write_byte_data (env : Env) (s : Sd) (cmd byte : Nat) : Int × Sd :=
  let s2 :=
    (vcall env s (Call.sd_set_int_mask SD_INFO1_MASK_DATA_TRNS SD_INFO2_MASK_BWE)).2
  let r3 := vcall env s2 (Call.sddev_int_wait s2.hndl.sd_port SD_TIMEOUT_MULTIPLE)
  if r3.1 ≠ SD_OK then
    _sd_write_byte_error env { r3.2 with hndl := _sd_set_err r3.2.hndl SD_ERR_HOST_TOE }
  else if r3.2.hndl.int_info2 &&& SD_INFO2_MASK_ERR ≠ 0 then
    _sd_write_byte_error env (hcall env r3.2 Call.sd_check_info2_err).2
  else
    let s4 := (vcall env r3.2 (Call.sd_clear_info 0x0000 SD_INFO2_MASK_WE)).2
    let r5 := dcall env s4 (Call.sddev_write_data s4.hndl.sd_port 0 byte)
    if r5.1 ≠ SD_OK then
      _sd_write_byte_error env { r5.2 with hndl := _sd_set_err r5.2.hndl SD_ERR_CPU_IF }
    else
      _sd_write_byte_wait env r5.2 cmd byte

/-- Source function `_sd_write_byte`, writing `byte` bytes of the caller's buffer. -/
def _sd_write_byte (env : Env) (s : Sd) (cmd h_arg l_arg byte : Nat) : Int × Sd :=
  let s0 : Sd := { s with SD_STOP := 0, SD_SIZE := byte }
  let s1 := (vcall env s0 (Call.sd_set_arg h_arg l_arg)).2
  let r := hcall env s1 (Call.sd_send_cmd cmd)
  if r.1 ≠ SD_OK then (SD_ERR, r.2)
  else
    let r1 := hcall env r.2 (Call.sd_get_resp SD_RSP_R1)
    if r1.1 ≠ SD_OK then
      if SD_ERR_CARD_LOCK = r1.2.hndl.error then
        _sd_write_byte_data env
          { r1.2 with hndl := { r1.2.hndl with error := SD_OK } } cmd byte
      else
        _sd_write_byte_error env r1.2
    else
      _sd_write_byte_data env r1.2 cmd byte

/-- Source function `_sd_card_get_status`. -/
def _sd_card_get_status (env : Env) (s : Sd) : Int × Sd :=
  let r := _sd_read_byte env s ACMD13 0 0 BufId.stat SD_STATUS_BYTE
  if r.1 ≠ SD_OK then (SD_ERR, r.2)
  else
    let b := r.2.s_stat_buff
    let ret : Int := if b 2 &&& 0xff = 0 then SD_OK else SD_ERR
    let h1 : st_sdhndl_t :=
      if b 2 &&& 0xff = 0 then
        if b 3 &&& 0xff = 0x01 then
          { r.2.hndl with write_protect := (r.2.hndl.write_protect ||| SD_WP_ROM) % 256 }
        else r.2.hndl
      else _sd_set_err r.2.hndl SD_ERR_CARD_ERROR
    let h2 : st_sdhndl_t :=
      { h1 with speed_class := b 8, perform_move := b 9,
                sdstatus := fun i => if i < 8 then swap16 (stat_word r.2 i)
                                     else h1.sdstatus i }
    (ret, { r.2 with hndl := h2 })

/-- Source function `_sd_card_get_scr`. -/
def _sd_card_get_scr (env : Env) (s : Sd) : Int × Sd :=
  let r := _sd_read_byte env s ACMD51 0 0 BufId.stat SD_SCR_REGISTER_BYTE
  if r.1 ≠ SD_OK then (SD_ERR, r.2)
  else
    (SD_OK, { r.2 with hndl := { r.2.hndl with
                scr := fun i => if i < 4 then swap16 (stat_word r.2 i)
                                else r.2.hndl.scr i } })

/-- Source function `_sd_calc_erase_sector`; `erase_sect` is a `uint32_t`, `au` and
`erase_size` are `uint16_t`. -/
def _sd_calc_erase_sector (h : st_sdhndl_t) : Int × st_sdhndl_t :=
  if h.scr 0 &&& 0x0f00 = 0x0200 then
    let au := (h.sdstatus 5 >>> 12) % 65536
    if 0 < au ∧ au < 0x0a then
      let sect := (16 <<< au) % 2 ^ 32
      let erase_size := ((h.sdstatus 5 <<< 8) ||| (h.sdstatus 6 >>> 8)) % 65536
      if erase_size ≠ 0 then (SD_OK, { h with erase_sect := (sect * erase_size) % 2 ^ 32 })
      else (SD_OK, { h with erase_sect := sect })
    else (SD_OK, { h with erase_sect := SD_ERASE_SECTOR })
  else (SD_OK, h)

/-! ### `sd_mount.c`: enhanced partitions -/

/-- Source function `_esd_card_query_partitions`. -/
def _esd_card_query_partitions (env : Env) (s : Sd) (opcode : Nat) (buf : BufId) :
    Int × Sd :=
  let s1 :=
    (_sd_read_byte env s CMD45 ((opcode <<< 8) % 65536) 0 buf SD_QUERY_PARTITION_SIZE).2
  let tmp := s1.hndl.error
  let s2 :=
    (hcall env s1 (Call.sd_card_send_cmd_arg CMD13 SD_RSP_R1 (s1.hndl.rca 0) 0x0000)).2
  let s3 : Sd := if tmp ≠ SD_OK then { s2 with hndl := { s2.hndl with error := tmp } }
                 else s2
  (s3.hndl.error, s3)

/-- Source function `_esd_card_select_partition`. -/
def _esd_card_select_partition (env : Env) (s : Sd) (id : Nat) : Int × Sd :=
  let s1 :=
    (hcall env s (Call.sd_card_send_cmd_arg CMD43 SD_RSP_R1B ((id <<< 8) % 65536) 0x0000)).2
  let tmp := s1.hndl.error
  let s2 :=
    (hcall env s1 (Call.sd_card_send_cmd_arg CMD13 SD_RSP_R1 (s1.hndl.rca 0) 0x0000)).2
  let s3 : Sd := if tmp ≠ SD_OK then { s2 with hndl := { s2.hndl with error := tmp } }
                 else s2
  (s3.hndl.error, s3)

/-- Source function `_esd_get_partition_id`, called with `id = &p_hndl->partition_id`. -/
def _esd_get_partition_id (env : Env) (s : Sd) : Int × Sd :=
  let r := _esd_card_query_partitions env s 0xA1 BufId.rw
  if r.1 ≠ SD_OK then (r.2.hndl.error, r.2)
  else
    (SD_OK, { r.2 with hndl := { r.2.hndl with
                partition_id := (r.2.hndl.rw_buff 511 : Int) } })

/-! ### `sd_mount.c`: card initialisation -/

/-- The loop `for (i = 0; i < 3; i++) { ret = _sd_send_cmd(p_hndl, CMD0); if (SD_OK ==
ret) break; }` with `n` iterations left; `ret` is the value of the variable `ret` so
far. Used as `cmd0_loop env 3 ret s`. -/
def cmd0_loop (env : Env) : Nat → Int → Sd → Int × Sd
  | 0, ret, s => (ret, s)
  | n + 1, _, s =>
    if (hcall env s (Call.sd_send_cmd CMD0)).1 = SD_OK then
      hcall env s (Call.sd_send_cmd CMD0)
    else
      cmd0_loop env n (hcall env s (Call.sd_send_cmd CMD0)).1
        (hcall env s (Call.sd_send_cmd CMD0)).2

/-- The loop of lines 376-383 of `_sd_card_init_get_rca` with `n` iterations left and
loop variable `i`: the result tells whether the function returned from inside the loop
(a failed CMD3), the final value of `i`, and the state. -/
def rca_loop (env : Env) : Nat → Nat → Sd → Bool × Nat × Sd
  | 0, i, s => (false, i, s)
  | n + 1, i, s =>
    if (hcall env s (Call.sd_card_send_cmd_arg CMD3 SD_RSP_R6 0 0)).1 ≠ SD_OK then
      (true, i, (hcall env s (Call.sd_card_send_cmd_arg CMD3 SD_RSP_R6 0 0)).2)
    else if (hcall env s (Call.sd_card_send_cmd_arg CMD3 SD_RSP_R6 0 0)).2.hndl.rca 0 ≠ 0
    then
      (false, i, (hcall env s (Call.sd_card_send_cmd_arg CMD3 SD_RSP_R6 0 0)).2)
    else
      rca_loop env n (i + 1) (hcall env s (Call.sd_card_send_cmd_arg CMD3 SD_RSP_R6 0 0)).2

/-- Lines 398-420 of `_sd_card_init_get_rca`: CMD9 and the optional CMD4. -/
def _sd_card_init_get_csd (env : Env) (s : Sd) : Int × Sd :=
  let r := hcall env s (Call.sd_card_send_cmd_arg CMD9 SD_RSP_R2_CSD (s.hndl.rca 0) 0x0000)
  if r.1 ≠ SD_OK then (SD_ERR, r.2)
  else
    let s1 : Sd := { r.2 with hndl := { r.2.hndl with
                       dsr := fun i => if i = 0 then 0x0000 else r.2.hndl.dsr i } }
    if s1.hndl.media_type &&& SD_MEDIA_MEM ≠ 0 then
      if s1.hndl.csd 3 &&& 0x0010 ≠ 0 then
        let s2 : Sd := { s1 with hndl := { s1.hndl with
                           dsr := fun i => if i = 0 then 0x0404 else s1.hndl.dsr i } }
        let r2 := hcall env s2 (Call.sd_card_send_cmd_arg CMD4 SD_RSP_NON 0x0404 0x0000)
        if r2.1 ≠ SD_OK then (SD_ERR, r2.2) else (SD_OK, r2.2)
      else (SD_OK, s1)
    else (SD_OK, s1)

/-- Source function `_sd_card_init_get_rca`. -/
def _sd_card_init_get_rca (env : Env) (s : Sd) : Int × Sd :=
  if s.hndl.media_type &&& SD_MEDIA_COMBO ≠ 0 then
    if (rca_loop env 3 0 s).1 = true then (SD_ERR, (rca_loop env 3 0 s).2.2)
    else if (rca_loop env 3 0 s).2.1 = 3 then
      (SD_ERR, { (rca_loop env 3 0 s).2.2 with
                 hndl := _sd_set_err (rca_loop env 3 0 s).2.2.hndl SD_ERR_CARD_CC })
    else _sd_card_init_get_csd env (rca_loop env 3 0 s).2.2
  else
    let s1 : Sd := { s with hndl := { s.hndl with
                       rca := fun i => if i = 0 then 1 else s.hndl.rca i } }
    let r := hcall env s1 (Call.sd_card_send_cmd_arg CMD3 SD_RSP_R1 1 0x0000)
    if r.1 ≠ SD_OK then (SD_ERR, r.2)
    else _sd_card_init_get_csd env r.2

/-- Lines 351-357 of `_sd_card_init`: CMD2 (the CID) and the call of
`_sd_card_init_get_rca`. -/
def _sd_card_init_cid (env : Env) (s : Sd) : Int × Sd :=
  let r3 := hcall env s (Call.sd_card_send_cmd_arg CMD2 SD_RSP_R2_CID 0 0)
  if r3.1 ≠ SD_OK then (SD_ERR, r3.2)
  else _sd_card_init_get_rca env r3.2

/-- Lines 318-358 of `_sd_card_init`: operating-condition negotiation (ACMD41, then
CMD1), CMD2 and the call of `_sd_card_init_get_rca`. -/
def _sd_card_init_ocr (env : Env) (s : Sd) : Int × Sd :=
  let r := hcall env s (Call.sd_card_send_ocr s.hndl.media_type)
  let s1 : Sd := { r.2 with hndl := { r.2.hndl with error := SD_OK } }
  if r.1 ≠ SD_OK then
    let l := cmd0_loop env 3 r.1 s1
    if l.1 ≠ SD_OK then (SD_ERR, l.2)
    else
      let s2 : Sd := { l.2 with hndl := { l.2.hndl with error := SD_OK } }
      let r2 := hcall env s2 (Call.sd_card_send_ocr SD_MEDIA_MMC)
      if r2.1 = SD_OK then
        let s3 : Sd := { r2.2 with hndl := { r2.2.hndl with
                           media_type := SD_MEDIA_MMC, error := SD_OK } }
        let r3 := hcall env s3 (Call.sd_card_send_cmd_arg CMD2 SD_RSP_R2_CID 0 0)
        if r3.1 ≠ SD_OK then (SD_ERR, r3.2)
        else _sd_card_init_get_rca env r3.2
      else
        let h3 : st_sdhndl_t := { r2.2.hndl with media_type := SD_MEDIA_UNKNOWN }
        (SD_ERR, { r2.2 with hndl := _sd_set_err h3 SD_ERR_CARD_TYPE })
  else
    let r3 := hcall env s1 (Call.sd_card_send_cmd_arg CMD2 SD_RSP_R2_CID 0 0)
    if r3.1 ≠ SD_OK then (SD_ERR, r3.2)
    else _sd_card_init_get_rca env r3.2

/-- Lines 276-316 of `_sd_card_init`: what follows a successful CMD0 loop, up to the
operating-condition negotiation. `if_cond_0`, `if_cond_1` are the values saved on
entry. -/
def _sd_card_init_if_cond (env : Env) (s : Sd) (if_cond_0 if_cond_1 : Nat) : Int × Sd :=
  let s1 : Sd := { s with hndl := { s.hndl with
                     error := SD_OK,
                     media_type := (s.hndl.media_type ||| SD_MEDIA_SD),
                     partition_id := 0 } }
  if s1.hndl.sup_ver = SD_MODE_VER2X then
    let r := hcall env s1 (Call.sd_card_send_cmd_arg CMD8 SD_RSP_R7 if_cond_0 if_cond_1)
    if r.1 = SD_OK then
      if r.2.hndl.if_cond 0 &&& 0xf000 ≠ 0 then
        (SD_ERR, { r.2 with hndl := { r.2.hndl with error := SD_ERR_IFCOND_VER } })
      else if r.2.hndl.if_cond 1 &&& 0x00ff ≠ 0x00aa then
        (SD_ERR, { r.2 with hndl := { r.2.hndl with error := SD_ERR_IFCOND_ECHO } })
      else
        _sd_card_init_ocr env { r.2 with hndl := { r.2.hndl with sd_spec := SD_SPEC_20 } }
    else
      let l := cmd0_loop env 3 r.1 r.2
      _sd_card_init_ocr env
        { l.2 with hndl := { l.2.hndl with error := SD_OK, sd_spec := SD_SPEC_10 } }
  else
    _sd_card_init_ocr env { s1 with hndl := { s1.hndl with sd_spec := SD_SPEC_10 } }

/-- Source function `_sd_card_init`. The variable `ret` is not initialised before the
first CMD0 loop; the loop runs at least once, so its initial value (0 here) is never
read. -/
def _sd_card_init (env : Env) (s : Sd) : Int × Sd :=
  let s0 : Sd := { s with hndl := { s.hndl with media_type := SD_MEDIA_UNKNOWN } }
  let if_cond_0 := s0.hndl.if_cond 0
  let if_cond_1 := s0.hndl.if_cond 1
  if SD_MEDIA_UNKNOWN = s0.hndl.media_type then
    let l := cmd0_loop env 3 0 s0
    if l.1 ≠ SD_OK then (SD_ERR, l.2)
    else _sd_card_init_if_cond env l.2 if_cond_0 if_cond_1
  else
    _sd_card_init_ocr env s0

/-! ### `sd_mount.c`: memory mount -/

/-- Source function `_sd_mem_mount_error`. -/
def _sd_mem_mount_error (env : Env) (s : Sd) : Int × Sd :=
  let s1 := (hcall env s (Call.sd_set_clock 0 SD_CLOCK_DISABLE)).2
  (s1.hndl.error, s1)

/-- Lines 469-477 of `_sd_mem_mount`: selection of the physical partition #1 and the
re-query of the active partition. The result is the state in which CMD16 is issued. -/
def _sd_mem_mount_partition (env : Env) (s : Sd) : Sd :=
  if (_esd_card_select_partition env s 1).1 = SD_OK then
    (_esd_get_partition_id env (_esd_card_select_partition env s 1).2).2
  else
    { (_esd_card_select_partition env s 1).2 with
      hndl := { (_esd_card_select_partition env s 1).2.hndl with error := SD_OK } }

/-- Lines 479-513 of `_sd_mem_mount`: CMD16 and what follows. -/
def _sd_mem_mount_blocklen (env : Env) (s : Sd) : Int × Sd :=
  let r := hcall env s (Call.sd_card_send_cmd_arg CMD16 SD_RSP_R1 0x0000 0x0200)
  if r.1 ≠ SD_OK then _sd_mem_mount_error env r.2
  else
    let s1 : Sd :=
      if r.2.hndl.media_type &&& SD_MEDIA_SD ≠ 0 then
        (vcall env r.2 (Call.sd_set_port r.2.hndl.sup_if_mode)).2
      else r.2
    if s1.hndl.media_type &&& SD_MEDIA_SD ≠ 0 then
      let r2 := hcall env s1 (Call.sd_send_acmd ACMD42 0 0)
      if r2.1 ≠ SD_OK then _sd_mem_mount_error env r2.2
      else
        let r3 := hcall env r2.2 (Call.sd_get_resp SD_RSP_R1)
        if r3.1 ≠ SD_OK then _sd_mem_mount_error env r3.2
        else if r3.2.hndl.media_type &&& SD_MEDIA_SD ≠ 0 then
          let r4 := _sd_card_get_status env r3.2
          if r4.1 ≠ SD_OK then _sd_mem_mount_error env r4.2
          else
            let r5 := hcall env r4.2 (Call.sd_get_size SD_PROT_AREA)
            if r5.1 ≠ SD_OK then _sd_mem_mount_error env r5.2
            else (SD_OK, r5.2)
        else (SD_OK, r3.2)
    else (SD_OK, s1)

/-- Lines 458-513 of `_sd_mem_mount`: CMD7, the lock check and what follows. -/
def _sd_mem_mount_select (env : Env) (s : Sd) : Int × Sd :=
  let r := hcall env s (Call.sd_card_send_cmd_arg CMD7 SD_RSP_R1B (s.hndl.rca 0) 0x0000)
  if r.1 ≠ SD_OK then _sd_mem_mount_error env r.2
  else if r.2.hndl.resp_status &&& 0x02000000 ≠ 0 then
    (SD_OK, { r.2 with hndl := _sd_set_err r.2.hndl SD_ERR_CARD_LOCK })
  else
    _sd_mem_mount_blocklen env (_sd_mem_mount_partition env r.2)

/-- Source function `_sd_mem_mount`. -/
def _sd_mem_mount (env : Env) (s : Sd) : Int × Sd :=
  if s.hndl.media_type &&& SD_MEDIA_IO = 0 then
    let s1 : Sd :=
      if s.hndl.csd_tran_speed > SD_CLK_25MHZ then
        { s with hndl := { s.hndl with csd_tran_speed := SD_CLK_25MHZ } }
      else s
    let r := hcall env s1 (Call.sd_set_clock s1.hndl.csd_tran_speed SD_CLOCK_ENABLE)
    if r.1 ≠ SD_OK then _sd_mem_mount_error env r.2
    else _sd_mem_mount_select env r.2
  else
    _sd_mem_mount_select env s

/-! ### `sd_mount.c`: `sd_mount` -/

/-- Source function `_sd_mount_error`. -/
def _sd_mount_error (env : Env) (s : Sd) : Int × Sd :=
  let s1 := (hcall env s (Call.sd_set_clock 0 SD_CLOCK_DISABLE)).2
  (s1.hndl.error, s1)

/-- Lines 213-218 of `sd_mount`: the mount flag, the clock halt and the return. -/
def sd_mount_done (env : Env) (s : Sd) : Int × MountExit × Sd :=
  let s1 : Sd := { s with hndl := { s.hndl with mount := SD_MOUNT_UNLOCKED_CARD } }
  let s2 := (hcall env s1 (Call.sd_set_clock 0 SD_CLOCK_DISABLE)).2
  (s2.hndl.error, MountExit.done, s2)

/-- Lines 181-218 of `sd_mount`: the SCR of an SD memory card, the spec version, the
erase sector size, and the end of the function. -/
def sd_mount_scr (env : Env) (s : Sd) : Int × MountExit × Sd :=
  if s.hndl.media_type &&& SD_MEDIA_SD ≠ 0 then
    let r := _sd_card_get_scr env s
    if r.1 ≠ SD_OK then
      ((_sd_mount_error env r.2).1, MountExit.get_scr, (_sd_mount_error env r.2).2)
    else
      let sd_spec := (r.2.hndl.scr 0 &&& SD_SPEC_REGISTER_MASK) % 65536
      let sd_spec3 := (r.2.hndl.scr 1 &&& SD_SPEC_30_REGISTER) % 65536
      let h1 : st_sdhndl_t :=
        if SD_SPEC_20 = r.2.hndl.sd_spec then
          if SD_SPEC_20_REGISTER = sd_spec ∧ SD_SPEC_30_REGISTER = sd_spec3 then
            { r.2.hndl with sd_spec := SD_SPEC_30 }
          else
            { r.2.hndl with sd_spec := SD_SPEC_20 }
        else
          if SD_SPEC_11_REGISTER = sd_spec then { r.2.hndl with sd_spec := SD_SPEC_11 }
          else { r.2.hndl with sd_spec := SD_SPEC_10 }
      sd_mount_done env { r.2 with hndl := (_sd_calc_erase_sector h1).2 }
  else
    sd_mount_done env s

/-- Lines 168-218 of `sd_mount`: the memory mount, the locked-card return, and what
follows. -/
def sd_mount_mem (env : Env) (s : Sd) : Int × MountExit × Sd :=
  if s.hndl.media_type &&& SD_MEDIA_MEM ≠ 0 then
    let r := _sd_mem_mount env s
    if r.1 ≠ SD_OK then
      ((_sd_mount_error env r.2).1, MountExit.mem_mount, (_sd_mount_error env r.2).2)
    else if SD_ERR_CARD_LOCK = r.2.hndl.error then
      let s1 : Sd := { r.2 with hndl := { r.2.hndl with
                         mount := (SD_CARD_LOCKED ||| SD_MOUNT_LOCKED_CARD) } }
      (SD_OK_LOCKED_CARD, MountExit.locked,
        (hcall env s1 (Call.sd_set_clock 0 SD_CLOCK_DISABLE)).2)
    else
      sd_mount_scr env r.2
  else
    sd_mount_scr env s

/-- Lines 145-218 of `sd_mount`: card initialisation, the register checks of a memory
card, and what follows. -/
def sd_mount_init (env : Env) (s : Sd) : Int × MountExit × Sd :=
  let r := _sd_card_init env s
  if r.1 ≠ SD_OK then
    ((_sd_mount_error env r.2).1, MountExit.card_init, (_sd_mount_error env r.2).2)
  else if r.2.hndl.media_type &&& SD_MEDIA_MEM ≠ 0 then
    let r1 := hcall env r.2 Call.sd_check_csd
    if r1.1 ≠ SD_OK then
      ((_sd_mount_error env r1.2).1, MountExit.check_csd, (_sd_mount_error env r1.2).2)
    else
      let r2 := hcall env r1.2 (Call.sd_get_size SD_USER_AREA)
      if r2.1 ≠ SD_OK then
        ((_sd_mount_error env r2.2).1, MountExit.get_size, (_sd_mount_error env r2.2).2)
      else
        let r3 := dcall env r2.2 Call.sd_iswp
        sd_mount_mem env
          { r3.2 with hndl := { r3.2.hndl with
              write_protect := (r3.2.hndl.write_protect ||| (r3.1 % 256).toNat) % 256 } }
  else
    sd_mount_mem env r.2

/-- Lines 99-218 of `sd_mount`: the function once the handle `p_hndl` is resolved and
its work buffer is known to be allocated. -/
def sd_mount_hndl (env : Env) (s : Sd) (sd_port : Int) (mode voltage : Nat) :
    Int × MountExit × Sd :=
  let s0 := _sd_init_hndl env s mode voltage
  let s1 : Sd := { s0 with hndl := { s0.hndl with error := SD_OK } }
  let m := _sd_check_media env s1
  if m.1 ≠ SD_OK then
    let s2 : Sd := { m.2 with hndl := _sd_set_err m.2.hndl SD_ERR_NO_CARD }
    (s2.hndl.error, MountExit.no_card, s2)
  else
    let p := dcall env m.2 (Call.sddev_power_on sd_port)
    if p.1 ≠ SD_OK then
      let s2 : Sd := { p.2 with hndl := _sd_set_err p.2.hndl SD_ERR_CPU_IF }
      ((_sd_mount_error env s2).1, MountExit.power_on, (_sd_mount_error env s2).2)
    else
      let s3 := (vcall env p.2 (Call.sd_set_port SD_PORT_SERIAL)).2
      let c := hcall env s3 (Call.sd_set_clock SD_CLK_400KHZ SD_CLOCK_ENABLE)
      if c.1 ≠ SD_OK then (c.2.hndl.error, MountExit.clock, c.2)
      else
        let s4 := (vcall env c.2 (Call.sddev_int_wait sd_port 2)).2
        let s5 := (dcall env s4 (Call.sddev_loc_cpu sd_port)).2
        let s6 : Sd :=
          { s5 with SD_INFO1 := s5.SD_INFO1 &&& 0xfff8, SD_INFO2 := 0,
                    CC_EXT_MODE := s5.CC_EXT_MODE &&&
                      (0xFFFFFFFFFFFFFFFF - CC_EXT_MODE_DMASDRW) }
        let s7 := (dcall env s6 (Call.sddev_unl_cpu sd_port)).2
        sd_mount_init env s7

/-- Source function `sd_mount`. `SD_GET_HNDLS` maps a port to its handle, if the port
was initialised. -/
def sd_mount (env : Env) (SD_GET_HNDLS : Int → Option st_sdhndl_t) (hw : Hw)
    (sd_port : Int) (mode voltage : Nat) : MountResult :=
  if sd_port ≠ 0 ∧ sd_port ≠ 1 then ⟨SD_ERR, MountExit.bad_port, none, hw⟩
  else
    match SD_GET_HNDLS sd_port with
    | none => ⟨SD_ERR, MountExit.not_initialized, none, hw⟩
    | some h =>
      if h.p_rw_buff = 0 then ⟨SD_ERR, MountExit.no_buffer, some h, hw⟩
      else
        let r := sd_mount_hndl env { toHw := hw, hndl := h } sd_port mode voltage
        ⟨r.1, r.2.1, some r.2.2.hndl, r.2.2.toHw⟩

/-! ### `sd_trns.c` -/

/-- The value of an `int32_t` expression whose exact result is `x` (two's complement). -/
def int32 (x : Int) : Int := (x + 2 ^ 31) % 2 ^ 32 - 2 ^ 31

/-- The loop of `_sd_software_trans` with `j` iterations left; `buff` is the offset of
the buffer pointer from its value at entry. -/
def software_trans_loop (env : Env) (dir : Int) : Nat → Nat → Sd → Sd
  | 0, _, s => s
  | j + 1, buff, s =>
    if (vcall env s (Call.sddev_int_wait s.hndl.sd_port SD_TIMEOUT_MULTIPLE)).1 ≠ SD_OK
    then
      { (vcall env s (Call.sddev_int_wait s.hndl.sd_port SD_TIMEOUT_MULTIPLE)).2 with
        hndl := _sd_set_err
          (vcall env s (Call.sddev_int_wait s.hndl.sd_port SD_TIMEOUT_MULTIPLE)).2.hndl
          SD_ERR_HOST_TOE }
    else if
      (vcall env s (Call.sddev_int_wait s.hndl.sd_port SD_TIMEOUT_MULTIPLE)).2.hndl.int_info2
        &&& SD_INFO2_MASK_ERR ≠ 0
    then
      (hcall env (vcall env s (Call.sddev_int_wait s.hndl.sd_port SD_TIMEOUT_MULTIPLE)).2
        Call.sd_check_info2_err).2
    else
      let s2 :=
        (vcall env (vcall env s (Call.sddev_int_wait s.hndl.sd_port SD_TIMEOUT_MULTIPLE)).2
          (Call.sd_clear_info 0x0000
            (if SD_TRANS_READ = dir then SD_INFO2_MASK_RE else SD_INFO2_MASK_WE))).2
      let r3 :=
        dcall env s2
          (if SD_TRANS_READ = dir then Call.sddev_read_data_at s2.hndl.sd_port buff 512
           else Call.sddev_write_data s2.hndl.sd_port buff 512)
      if r3.1 ≠ SD_OK then
        { r3.2 with hndl := _sd_set_err r3.2.hndl SD_ERR_CPU_IF }
      else
        software_trans_loop env dir j (buff + 512) r3.2

/-- Source function `_sd_software_trans`; `cnt` is an `int32_t`, so the loop `for (j =
cnt; j > 0; j--)` runs `cnt` times when `cnt` is positive and not at all otherwise. -/
def _sd_software_trans (env : Env) (s : Sd) (cnt : Int) (dir : Int) : Int × Sd :=
  ((software_trans_loop env dir cnt.toNat 0 s).hndl.error,
    software_trans_loop env dir cnt.toNat 0 s)

/-- Source function `_sd_dma_trans`. -/
def _sd_dma_trans (env : Env) (s : Sd) (cnt : Int) : Int × Sd :=
  let r1 := dcall env s (Call.sddev_wait_dma_end s.hndl.sd_port (int32 (cnt * 512)))
  if r1.1 ≠ SD_OK then
    let r2 := dcall env r1.2 (Call.sddev_disable_dma r1.2.hndl.sd_port)
    ((_sd_set_err r2.2.hndl SD_ERR_CPU_IF).error,
      { r2.2 with hndl := _sd_set_err r2.2.hndl SD_ERR_CPU_IF })
  else
    let r2 := dcall env r1.2 (Call.sddev_disable_dma r1.2.hndl.sd_port)
    if r2.1 ≠ SD_OK then
      ((_sd_set_err r2.2.hndl SD_ERR_CPU_IF).error,
        { r2.2 with hndl := _sd_set_err r2.2.hndl SD_ERR_CPU_IF })
    else
      (r2.2.hndl.error, r2.2)

/-! ### Observations used in the theorems -/

/-- The handle fields that only `sd_mount` and the card initialisation write: mount
flag, media type, spec version and supported host version. -/
def st_sdhndl_t.card (h : st_sdhndl_t) : Nat × Nat × Nat × Nat :=
  (h.mount, h.media_type, h.sd_spec, h.sup_ver)

/-- The handle fields that the card initialisation does not write either: mount flag and
supported host version. -/
def st_sdhndl_t.host (h : st_sdhndl_t) : Nat × Nat := (h.mount, h.sup_ver)

/-- The state of `_sd_card_init` after its line 259 (`media_type = SD_MEDIA_UNKNOWN`). -/
def card_init_entry (s : Sd) : Sd :=
  { s with hndl := { s.hndl with media_type := SD_MEDIA_UNKNOWN } }

/-- The state of `_sd_card_init` after its lines 279-283, when the first CMD0 loop has
succeeded: the error cleared, the SD bit set in the media type, partition 0. -/
def if_cond_entry (s : Sd) : Sd :=
  { s with hndl := { s.hndl with
                     error := SD_OK,
                     media_type := (s.hndl.media_type ||| SD_MEDIA_SD),
                     partition_id := 0 } }

/-- The state of `_sd_card_init` after its lines 305-306, which follow the CMD0 loop
that answers a failed CMD8: the error cleared and `sd_spec` set to `SD_SPEC_10`. -/
def cmd8_fallback (s : Sd) : Sd :=
  { s with hndl := { s.hndl with error := SD_OK, sd_spec := SD_SPEC_10 } }

/-- The assignment `p_hndl->error = SD_OK` (lines 322 and 337 of `_sd_card_init`). -/
def clear_error (s : Sd) : Sd := { s with hndl := { s.hndl with error := SD_OK } }

/-- Lines 342-343 of `_sd_card_init`, after a successful CMD1 negotiation: the media
type set to `SD_MEDIA_MMC` and the error cleared. -/
def mmc_found (s : Sd) : Sd :=
  { s with hndl := { s.hndl with media_type := SD_MEDIA_MMC, error := SD_OK } }

/-- Lines 346-348 of `_sd_card_init`, after both negotiations failed: the media type
set to `SD_MEDIA_UNKNOWN` and `_sd_set_err(p_hndl, SD_ERR_CARD_TYPE)`. -/
def unknown_card (s : Sd) : Sd :=
  { s with hndl := _sd_set_err { s.hndl with media_type := SD_MEDIA_UNKNOWN }
                     SD_ERR_CARD_TYPE }

/-- Lines 324-331 of `_sd_card_init`, reached from state `s` when the ACMD41
negotiation failed: the error cleared (line 322) and the CMD0 loop. -/
def ocr_reset (env : Env) (s : Sd) : Int × Sd :=
  cmd0_loop env 3 (hcall env s (Call.sd_card_send_ocr s.hndl.media_type)).1
    (clear_error (hcall env s (Call.sd_card_send_ocr s.hndl.media_type)).2)

/-- Lines 337-340 of `_sd_card_init`: the error cleared and the CMD1 negotiation, after
the CMD0 loop of `ocr_reset`. -/
def ocr_cmd1 (env : Env) (s : Sd) : Int × Sd :=
  hcall env (clear_error (ocr_reset env s).2) (Call.sd_card_send_ocr SD_MEDIA_MMC)

/-- Whether a call issues the command with index `n` through `_sd_send_cmd` or
`_sd_card_send_cmd_arg`. -/
def Call.is_cmd (n : Nat) : Call → Bool
  | Call.sd_send_cmd cmd => decide (cmd = n)
  | Call.sd_card_send_cmd_arg cmd _ _ _ => decide (cmd = n)
  | _ => false

/-- The number of commands with index `n` in a sequence of calls. -/
def cmd_count (n : Nat) (t : List Call) : Nat := t.countP (Call.is_cmd n)

/-- The assignment `p_hndl->sd_spec = v` (lines 295, 307 and 312 of `_sd_card_init`). -/
def set_sd_spec (s : Sd) (v : Nat) : Sd := { s with hndl := { s.hndl with sd_spec := v } }

/-- The CMD8 of `_sd_card_init` (line 284), issued from the state `s` at function entry
once the first CMD0 loop is through. -/
def card_init_cmd8 (env : Env) (s : Sd) : Int × Sd :=
  hcall env (if_cond_entry (cmd0_loop env 3 0 (card_init_entry s)).2)
    (Call.sd_card_send_cmd_arg CMD8 SD_RSP_R7 (s.hndl.if_cond 0) (s.hndl.if_cond 1))

/-- The first interrupt wait of `_sd_read_byte` (for the buffer to be ready, line 707),
from the state `s` at the R1 response check of line 699. -/
def read_byte_wait1 (env : Env) (s : Sd) : Int × Sd :=
  vcall env
    (vcall env (hcall env s (Call.sd_get_resp SD_RSP_R1)).2
      (Call.sd_set_int_mask SD_INFO1_MASK_DATA_TRNS SD_INFO2_MASK_BRE)).2
    (Call.sddev_int_wait s.hndl.sd_port SD_TIMEOUT_MULTIPLE)

/-- The data copy of `_sd_read_byte` (line 723), after the first wait. -/
def read_byte_copy (env : Env) (s : Sd) (buf : BufId) (byte : Nat) : Int × Sd :=
  sddev_read_data env
    (vcall env (read_byte_wait1 env s).2 (Call.sd_clear_info 0 SD_INFO2_MASK_RE)).2
    buf byte

/-- The second interrupt wait of `_sd_read_byte` (for the end of the transfer, line
729), after the data copy. -/
def read_byte_wait2 (env : Env) (s : Sd) (buf : BufId) (byte : Nat) : Int × Sd :=
  vcall env (read_byte_copy env s buf byte).2
    (Call.sddev_int_wait s.hndl.sd_port SD_TIMEOUT_RESP)

/-- The time-out chosen at lines 843-848 of `_sd_write_byte`. -/
def write_byte_time_out (cmd byte : Nat) : Nat :=
  if CMD42 = cmd ∧ 1 = byte then SD_TIMEOUT_ERASE_CMD else SD_TIMEOUT_RESP

/-- The wait for the end of the transfer in `_sd_write_byte` (line 850), from the state
`s` after the data copy. -/
def write_byte_wait2 (env : Env) (s : Sd) (cmd byte : Nat) : Int × Sd :=
  vcall env s (Call.sddev_int_wait s.hndl.sd_port (write_byte_time_out cmd byte))

/-- The decoding of the error flags after that wait (line 857). -/
def write_byte_check (env : Env) (s : Sd) (cmd byte : Nat) : Int × Sd :=
  hcall env (write_byte_wait2 env s cmd byte).2 Call.sd_check_info2_err

/-- The busy-wait poll of a forced erase (lines 862-863), after the decoding of the
error flags. -/
def write_byte_rbusy (env : Env) (s : Sd) (cmd byte : Nat) : Int × Sd :=
  hcall env
    (vcall env (write_byte_check env s cmd byte).2
      (Call.sd_clear_info SD_INFO1_MASK_TRNS_RESP SD_INFO2_MASK_ERR)).2
    (Call.sd_wait_rbusy 10000000)

/-- The sector transfer of `_sd_software_trans` at the buffer offset `buff`: the call
made through `func`. -/
def sector_call (dir : Int) (sd_port : Int) (buff : Nat) : Call :=
  if SD_TRANS_READ = dir then Call.sddev_read_data_at sd_port buff 512
  else Call.sddev_write_data sd_port buff 512

/-- The clearing of the buffer flag in a cycle of `_sd_software_trans`. -/
def sector_clear (dir : Int) : Call :=
  Call.sd_clear_info 0x0000
    (if SD_TRANS_READ = dir then SD_INFO2_MASK_RE else SD_INFO2_MASK_WE)

/-- The calls of the complete cycle number `i` (counted from 0) of
`_sd_software_trans`, the most recent first: the wait, the clearing of the flag, and the
transfer of 512 bytes at the buffer offset `512 * i`. -/
def sector_cycle (dir : Int) (sd_port : Int) (i : Nat) : List Call :=
  [sector_call dir sd_port (512 * i), sector_clear dir,
   Call.sddev_int_wait sd_port SD_TIMEOUT_MULTIPLE]

/-- The calls of the complete cycles `0 .. k - 1`, the most recent first. -/
def sectors (dir : Int) (sd_port : Int) : Nat → List Call
  | 0 => []
  | k + 1 => sector_cycle dir sd_port k ++ sectors dir sd_port k

/-- Whether a call is a sector transfer of `_sd_software_trans`. -/
def Call.is_transfer : Call → Bool
  | Call.sddev_read_data_at _ _ _ => true
  | Call.sddev_write_data _ _ _ => true
  | _ => false

/-- The reply to the wait of cycle `i`, when `n0` calls were made before the loop and
the cycles before `i` were complete. -/
def cycle_wait (env : Env) (sd_port : Int) (n0 i : Nat) : Reply :=
  env (n0 + 3 * i) (Call.sddev_int_wait sd_port SD_TIMEOUT_MULTIPLE)

/-- The reply to the decoding of the error flags in cycle `i`. -/
def cycle_check (env : Env) (n0 i : Nat) : Reply :=
  env (n0 + 3 * i + 1) Call.sd_check_info2_err

/-- The reply to the transfer of cycle `i`. -/
def cycle_transfer (env : Env) (dir : Int) (sd_port : Int) (n0 i : Nat) : Reply :=
  env (n0 + 3 * i + 2) (sector_call dir sd_port (512 * i))

/-- Cycle `i` is complete: the wait returns `SD_OK` with no error flag raised and the
transfer returns `SD_OK`. -/
abbrev cycle_ok (env : Env) (dir : Int) (sd_port : Int) (n0 i : Nat) : Prop :=
  (cycle_wait env sd_port n0 i).ret = SD_OK ∧
  (cycle_wait env sd_port n0 i).int_info2 &&& SD_INFO2_MASK_ERR = 0 ∧
  (cycle_transfer env dir sd_port n0 i).ret = SD_OK

/-- The state after a complete cycle of `_sd_software_trans` at the buffer offset
`buff`. -/
def cycle_done (env : Env) (dir : Int) (buff : Nat) (s : Sd) : Sd :=
  (dcall env
    (vcall env (vcall env s (Call.sddev_int_wait s.hndl.sd_port SD_TIMEOUT_MULTIPLE)).2
      (sector_clear dir)).2
    (sector_call dir s.hndl.sd_port buff)).2

/-- The completion wait of `_sd_dma_trans` (line 123). -/
def dma_wait (env : Env) (s : Sd) (cnt : Int) : Int × Sd :=
  dcall env s (Call.sddev_wait_dma_end s.hndl.sd_port (int32 (cnt * 512)))

/-- The disabling of the DMA engine in `_sd_dma_trans` (lines 125 and 131), after the
completion wait. -/
def dma_disable (env : Env) (s : Sd) (cnt : Int) : Int × Sd :=
  dcall env (dma_wait env s cnt).2 (Call.sddev_disable_dma s.hndl.sd_port)

/-- The clock halt `_sd_set_clock(p_hndl, 0, SD_CLOCK_DISABLE)`. -/
def clock_halt : Call := Call.sd_set_clock 0 SD_CLOCK_DISABLE

/-- What holds of the part of a run of `sd_mount` from state `s` to the `return`
statement: the value returned is the recorded error except at the locked-card return;
the mount flag is written only at the locked-card return and at the final return; and
except at the no-card and clock-failure returns the last call is the clock halt. -/
def ExitInv (s : Sd) (r : Int × MountExit × Sd) : Prop :=
  (r.2.1 ≠ MountExit.locked → r.1 = r.2.2.hndl.error) ∧
  (r.2.1 ≠ MountExit.locked → r.2.1 ≠ MountExit.done →
    r.2.2.hndl.mount = s.hndl.mount) ∧
  (r.2.1 ≠ MountExit.no_card → r.2.1 ≠ MountExit.clock →
    r.2.2.trace.head? = some clock_halt) ∧
  (r.2.1 = MountExit.locked →
    r.1 = SD_OK_LOCKED_CARD ∧
    r.2.2.hndl.mount = (SD_CARD_LOCKED ||| SD_MOUNT_LOCKED_CARD)) ∧
  (r.2.1 = MountExit.done → r.2.2.hndl.mount = SD_MOUNT_UNLOCKED_CARD)

/-- The result of a successful mount of an SD card: what `sd_mount` returns, the
`return` statement taken, and the recorded error, mount flag, media type and spec
version, the last in terms of the SCR words held by the handle. -/
def MountedSd (r : Int × MountExit × Sd) : Prop :=
  r.1 = SD_OK ∧ r.2.1 = MountExit.done ∧ r.2.2.hndl.error = SD_OK ∧
  r.2.2.hndl.mount = SD_MOUNT_UNLOCKED_CARD ∧
  r.2.2.hndl.media_type = SD_MEDIA_SD ∧
  r.2.2.hndl.sd_spec
    = if r.2.2.hndl.scr 0 &&& SD_SPEC_REGISTER_MASK = SD_SPEC_20_REGISTER ∧
         r.2.2.hndl.scr 1 &&& SD_SPEC_30_REGISTER = SD_SPEC_30_REGISTER
      then SD_SPEC_30 else SD_SPEC_20

/-- Word `i` of the SCR as lines 645-648 of `_sd_card_get_scr` store it in the handle,
for the register bytes `data` that `sddev_read_data` delivered: the bytes `2 * i` and
`2 * i + 1` form the word `s_stat_buff[port][i]`, which is stored byte-swapped. -/
def scr_word (data : Nat → Nat) (i : Nat) : Nat :=
  swap16 (data (2 * i) % 256 + 256 * (data (2 * i + 1) % 256))

/-- The SCR at the end of a successful mount of an SD card: the run ends with the data
read of the SCR register (ACMD51), the end of that transfer and the clock halt, and the
handle holds the SCR words of the bytes which that data read delivered (the reply to
the call number `t.length` of the run). -/
def MountedScr (env : Env) (r : Int × MountExit × Sd) : Prop :=
  ∃ p t,
    r.2.2.trace
      = Call.sd_set_clock 0 SD_CLOCK_DISABLE
        :: Call.sd_clear_int_mask SD_INFO1_MASK_DATA_TRNS SD_INFO2_MASK_BRE
        :: Call.sd_clear_info SD_INFO1_MASK_DATA_TRNS SD_INFO2_MASK_ERR
        :: Call.sddev_int_wait p SD_TIMEOUT_RESP
        :: Call.sddev_read_data p SD_SCR_REGISTER_BYTE :: t ∧
    ∀ i, i < 4 →
      r.2.2.hndl.scr i
        = scr_word (env t.length (Call.sddev_read_data p SD_SCR_REGISTER_BYTE)).data i

/-! ### Concrete handles and environments used by the closed theorems -/

/-- A handle of port 0 with a work buffer, not mounted, CD-pin card detection. -/
def hndl0 : st_sdhndl_t :=
  { sd_port := 0, p_rw_buff := 0x1000, rw_buff := fun _ => 0, cd_port := SD_CD_SOCKET,
    mount := SD_UNMOUNT_CARD, media_type := SD_MEDIA_UNKNOWN, error := SD_ERR,
    sup_ver := 0, sup_if_mode := 0, write_protect := 0, sd_spec := 0, partition_id := 0,
    resp_status := 0, int_info2 := 0, if_cond := fun _ => 0, rca := fun _ => 0,
    csd := fun _ => 0, dsr := fun _ => 0, scr := fun _ => 0, sdstatus := fun _ => 0,
    csd_tran_speed := 0, speed_class := 0, perform_move := 0, erase_sect := 0 }

/-- The handle table with port 0 initialised and port 1 not. -/
def hndls0 : Int → Option st_sdhndl_t := fun p => if p = 0 then some hndl0 else none

/-- A handle table with no port initialised. -/
def hndls_none : Int → Option st_sdhndl_t := fun _ => none

/-- A handle table whose port 0 has no work buffer. -/
def hndls_nobuf : Int → Option st_sdhndl_t :=
  fun p => if p = 0 then some { hndl0 with p_rw_buff := 0 } else none

/-- Idle hardware with an empty trace. -/
def hw0 : Hw :=
  { SD_INFO1 := 0, SD_INFO2 := 0, CC_EXT_MODE := 0, SD_STOP := 0, SD_SIZE := 0,
    s_stat_buff := fun _ => 0, trace := [] }

/-- The driver state with the handle `hndl0` on idle hardware. -/
def sd0 : Sd := { toHw := hw0, hndl := hndl0 }

/-- The reply of a call that succeeds: no error, no lock bit, no error flag, a valid
CMD8 echo (`0x01aa`), the RCA `0x1234`, a version 2 host. -/
def reply_ok : Reply :=
  { ret := SD_OK, error := SD_OK, resp_status := 0, int_info2 := 0,
    if_cond := fun i => if i = 1 then 0x01aa else 0,
    rca := fun i => if i = 0 then 0x1234 else 0,
    csd := fun _ => 0, csd_tran_speed := SD_CLK_25MHZ,
    sup_ver := SD_MODE_VER2X, sup_if_mode := 1, data := fun _ => 0 }

/-- A fresh SD card of spec 3.0 on a board without card-detect layout: every command
and transfer succeeds; the SCR reads spec field 2 with the SPEC3 bit set. -/
def env_ok : Env := fun _ c =>
  match c with
  | Call.sddev_cd_layout _ => { reply_ok with ret := SD_ERR }
  | Call.sddev_read_data _ 8 =>
    { reply_ok with data := fun i => if i = 0 then 0x02 else if i = 2 then 0x80 else 0 }
  | _ => reply_ok

/-- As `env_ok`, but the card answers CMD7 with the card-locked bit set; the clock halt
that follows leaves the recorded error (`SD_ERR_CARD_LOCK`) as it is. -/
def env_locked : Env := fun n c =>
  match c with
  | Call.sd_card_send_cmd_arg 7 _ _ _ => { reply_ok with resp_status := 0x02000000 }
  | Call.sd_set_clock _ 0 => { reply_ok with error := SD_ERR_CARD_LOCK }
  | _ => env_ok n c

/-- A board with a card-detect layout (the level of the CD pin is read from `SD_INFO1`,
which is 0 in `hw0`: no card); every other call succeeds. -/
def env_no_card : Env := fun _ _ => reply_ok

/-- As `env_ok`, but every attempt to enable the clock fails with the CPU interface
error. -/
def env_clock_fail : Env := fun n c =>
  match c with
  | Call.sd_set_clock _ 1 => { reply_ok with ret := SD_ERR, error := SD_ERR_CPU_IF }
  | _ => env_ok n c

/-- As `env_ok`, but the card does not answer CMD43 (response time-out). -/
def env_cmd43_fail : Env := fun n c =>
  match c with
  | Call.sd_card_send_cmd_arg 43 _ _ _ =>
    { reply_ok with ret := SD_ERR, error := SD_ERR_RES_TOE }
  | _ => env_ok n c

/-- As `env_ok`, but the card does not answer CMD45 (response time-out). -/
def env_cmd45_fail : Env := fun n c =>
  match c with
  | Call.sd_send_cmd 45 => { reply_ok with ret := SD_ERR, error := SD_ERR_RES_TOE }
  | _ => env_ok n c

/-- As `env_ok`, but the first `k` calls of the run are not answered (response
time-out). -/
def env_fail_first (k : Nat) : Env := fun n c =>
  if n < k then { reply_ok with ret := SD_ERR, error := SD_ERR_RES_TOE } else env_ok n c

/-- The state `sd0` with a host configured for version 2 cards. -/
def sd_v2 : Sd := { sd0 with hndl := { hndl0 with sup_ver := SD_MODE_VER2X } }

/-- The state `sd0` with the media type of a combo card (SD memory and IO). -/
def sd_combo : Sd := { sd0 with hndl := { hndl0 with media_type := SD_MEDIA_COMBO } }

/-- The state `sd0` with the media type SD, as when the negotiation is reached. -/
def sd_sd : Sd := { sd0 with hndl := { hndl0 with media_type := SD_MEDIA_SD } }

/-- A handle of a spec 2.0 card whose SD status reports the AU exponent 9 and the
erase-size multiplier `0xffff`. -/
def hndl_au9 : st_sdhndl_t :=
  { hndl0 with scr := fun i => if i = 0 then 0x0200 else 0,
               sdstatus := fun i => if i = 5 then 0x90ff else if i = 6 then 0xff00 else 0 }

/-- As `env_ok`, but the card answers CMD8 with the response words `w0`, `w1`. -/
def env_if_cond (w0 w1 : Nat) : Env := fun n c =>
  match c with
  | Call.sd_card_send_cmd_arg 8 _ _ _ =>
    { reply_ok with if_cond := fun i => if i = 0 then w0 else if i = 1 then w1 else 0 }
  | _ => env_ok n c

/-- The state `sd0` with no error recorded. -/
def sd_clean : Sd := { sd0 with hndl := { hndl0 with error := SD_OK } }

/-- As `env_ok`, but the interrupt wait with the time-out `t` times out. -/
def env_wait_timeout (t : Nat) : Env := fun n c =>
  match c with
  | Call.sddev_int_wait _ t1 => if t1 = t then { reply_ok with ret := SD_ERR } else reply_ok
  | _ => env_ok n c

/-- As `env_ok`, but the application command fails with a CRC error, which the
response check that follows leaves recorded, and every interrupt wait times out. -/
def env_crc_timeout : Env := fun n c =>
  match c with
  | Call.sd_send_acmd _ _ _ => { reply_ok with ret := SD_ERR, error := SD_ERR_CRC }
  | Call.sd_get_resp _ => { reply_ok with error := SD_ERR_CRC }
  | Call.sddev_int_wait _ _ => { reply_ok with ret := SD_ERR }
  | _ => env_ok n c

/-- As `env_ok`, but the card answers no command sent by `_sd_send_cmd` or
`_sd_send_acmd` (response time-out). -/
def env_send_fail : Env := fun n c =>
  match c with
  | Call.sd_send_cmd _ => { reply_ok with ret := SD_ERR, error := SD_ERR_RES_TOE }
  | Call.sd_send_acmd _ _ _ => { reply_ok with ret := SD_ERR, error := SD_ERR_RES_TOE }
  | _ => env_ok n c

/-- As `env_ok`, but the interrupt wait with the time-out `t` ends with an error flag
raised, which is decoded as `error`; the busy-wait poll returns `busy`. -/
def env_wait_flag (t : Nat) (error busy : Int) : Env := fun n c =>
  match c with
  | Call.sddev_int_wait _ t1 =>
    if t1 = t then { reply_ok with int_info2 := 0x0040 } else reply_ok
  | Call.sd_check_info2_err => { reply_ok with ret := SD_ERR, error := error }
  | Call.sd_wait_rbusy _ => { reply_ok with ret := busy, error := error }
  | _ => env_ok n c

/-- The state `sd0` with a response time-out recorded. -/
def sd_res_toe : Sd := { sd0 with hndl := { hndl0 with error := SD_ERR_RES_TOE } }

/-- As `env_ok`, but the wait for the end of the DMA transfer times out. -/
def env_dma_timeout : Env := fun n c =>
  match c with
  | Call.sddev_wait_dma_end _ _ => { reply_ok with ret := SD_ERR }
  | _ => env_ok n c

/-- As `env_ok`, but the DMA engine cannot be disabled. -/
def env_dma_disable_fail : Env := fun n c =>
  match c with
  | Call.sddev_disable_dma _ => { reply_ok with ret := SD_ERR }
  | _ => env_ok n c

/-- As `env_ok`, but the sector transfer at the buffer offset `buff` fails. -/
def env_sector_fail (buff : Nat) : Env := fun n c =>
  match c with
  | Call.sddev_read_data_at _ b _ =>
    if b = buff then { reply_ok with ret := SD_ERR } else reply_ok
  | Call.sddev_write_data _ b _ =>
    if b = buff then { reply_ok with ret := SD_ERR } else reply_ok
  | _ => env_ok n c

/-- As `env_ok`, but call number `k` of the run, if it is an interrupt wait, times
out. -/
def env_wait_fail_at (k : Nat) : Env := fun n c =>
  match c with
  | Call.sddev_int_wait _ _ => if n = k then { reply_ok with ret := SD_ERR } else reply_ok
  | _ => env_ok n c

/-- As `env_ok`, but call number `k` of the run, if it is an interrupt wait, ends with
an error flag raised, which is decoded as a CRC error. -/
def env_flag_at (k : Nat) : Env := fun n c =>
  match c with
  | Call.sddev_int_wait _ _ =>
    if n = k then { reply_ok with int_info2 := 0x0002 } else reply_ok
  | Call.sd_check_info2_err => { reply_ok with ret := SD_ERR, error := SD_ERR_CRC }
  | _ => env_ok n c

/-- Idle hardware on which the CD pin reports a card. -/
def hw_cd : Hw := { hw0 with SD_INFO1 := SD_INFO1_MASK_STATE_CD }

/-- As `env_ok`, but the card answers neither CMD8 nor any CMD0 after the first call of
the run (response time-out). -/
def env_cmd8_cmd0_fail : Env := fun n c =>
  match c with
  | Call.sd_send_cmd 0 =>
    if n = 0 then reply_ok else { reply_ok with ret := SD_ERR, error := SD_ERR_RES_TOE }
  | Call.sd_card_send_cmd_arg 8 _ _ _ =>
    { reply_ok with ret := SD_ERR, error := SD_ERR_RES_TOE }
  | _ => env_ok n c

/-- As `env_ok`, but neither operating-condition negotiation (ACMD41, CMD1) is answered
(response time-out). -/
def env_ocr_fail : Env := fun n c =>
  match c with
  | Call.sd_card_send_ocr _ => { reply_ok with ret := SD_ERR, error := SD_ERR_RES_TOE }
  | _ => env_ok n c

/-- As `env_ok`, but only the negotiation with ACMD41 is not answered; CMD1 is. -/
def env_mmc : Env := fun n c =>
  match c with
  | Call.sd_card_send_ocr 0x20 => { reply_ok with ret := SD_ERR, error := SD_ERR_RES_TOE }
  | _ => env_ok n c

/-- As `env_ok`, but CMD3 publishes the RCA 0 during the first `k` calls of the run. -/
def env_rca_zero (k : Nat) : Env := fun n c =>
  match c with
  | Call.sd_card_send_cmd_arg 3 _ _ _ =>
    if n < k then { reply_ok with rca := fun _ => 0 } else reply_ok
  | _ => env_ok n c

/-- As `env_rca_zero 3`, but every CMD3, while it returns `SD_OK` with the RCA 0, leaves
the error `SD_ERR_CARD_ERROR` in the handle. -/
def env_rca_zero_err : Env := fun n c =>
  match c with
  | Call.sd_card_send_cmd_arg 3 _ _ _ =>
    { reply_ok with rca := fun _ => 0, error := SD_ERR_CARD_ERROR }
  | _ => env_ok n c

/-- As `env_ok`, but the card does not answer CMD8 (response time-out). -/
def env_cmd8_fail : Env := fun n c =>
  match c with
  | Call.sd_card_send_cmd_arg 8 _ _ _ =>
    { reply_ok with ret := SD_ERR, error := SD_ERR_RES_TOE }
  | _ => env_ok n c

end Sdhi

namespace Xspi

/-! ## Theorems about the flash driver -/

/-- Page geometry of a write of `n ≥ 1` bytes at cursor `p` with page size `P > 0`:
the first and last touched pages are `k` pages apart. -/
theorem write_geometry (P p n : Nat) (hP : 0 < P) (hn : 1 ≤ n) :
    ∃ k : Nat,
      round_down (p + n - 1) P = round_down p P + k * P ∧
      (round_down (p + n - 1) P - round_down p P) / P = k ∧
      round_down p P + p % P = p ∧ p % P < P ∧
      round_down (p + n - 1) P ≤ p + n - 1 ∧
      p + n - 1 < round_down (p + n - 1) P + P ∧
      (0 < (p + n) % P → round_down (p + n - 1) P + (p + n) % P = p + n) ∧
      ((p + n) % P = 0 → round_down (p + n - 1) P + P = p + n) ∧
      (k = 0 → k * P = 0) ∧ (1 ≤ k → P ≤ k * P) ∧ (k = 1 → k * P = P) ∧
      k ≤ k * P ∧ k - 1 ≤ k * P - P := by
  have hle : p / P ≤ (p + n - 1) / P := Nat.div_le_div_right (by omega)
  obtain ⟨k, hk⟩ := Nat.exists_eq_add_of_le hle
  have e1 := Nat.div_add_mod p P
  have e2 := Nat.div_add_mod (p + n - 1) P
  have m1 := Nat.mod_lt p hP
  have m2 := Nat.mod_lt (p + n - 1) hP
  have hA : round_down p P = P * (p / P) := by unfold round_down; omega
  have hB : round_down (p + n - 1) P = P * (p / P) + k * P := by
    unfold round_down
    have : P * ((p + n - 1) / P) = P * (p / P) + k * P := by rw [hk]; ring
    omega
  have hlo : (p + n) % P = ((p + n - 1) % P + 1) % P := by
    rw [Nat.mod_add_mod]; congr 1; omega
  have hkP : k ≤ k * P := Nat.le_mul_of_pos_right k hP
  have hk1 : k - 1 ≤ k * P - P := by
    have h := Nat.le_mul_of_pos_right (k - 1) hP
    rwa [Nat.sub_mul, Nat.one_mul] at h
  refine ⟨k, ?_, ?_, ?_, m1, ?_, ?_, ?_, ?_, ?_, ?_, ?_, hkP, hk1⟩
  · rw [hB, hA]
  · rw [hB, hA, Nat.add_sub_cancel_left, Nat.mul_div_cancel k hP]
  · unfold round_down; omega
  · unfold round_down; omega
  · unfold round_down; omega
  · intro h
    rcases Nat.lt_or_ge ((p + n - 1) % P + 1) P with h1 | h1
    · rw [hlo, Nat.mod_eq_of_lt h1]; unfold round_down; omega
    · have : (p + n - 1) % P + 1 = P := by omega
      rw [hlo, this, Nat.mod_self] at h; omega
  · intro h
    rcases Nat.lt_or_ge ((p + n - 1) % P + 1) P with h1 | h1
    · rw [hlo, Nat.mod_eq_of_lt h1] at h; omega
    · unfold round_down; omega
  · intro h; rw [h, Nat.zero_mul]
  · intro h; exact Nat.le_mul_of_pos_left P h
  · intro h; rw [h, Nat.one_mul]

/-- A read-modify-write of one page equals a copy of just the overlaid bytes. -/
theorem rmw_page (dev pb buffer : Mem) (addr off s len P : Nat) (h : off + len ≤ P) :
    xspi_write dev addr (memcpy (memcpy pb 0 dev addr P) off buffer s len) 0 P
      = memcpy dev (addr + off) buffer s len := by
  funext a
  simp only [xspi_write, memcpy]
  split_ifs <;> first | rfl | omega | (congr 1; omega)

/-- The tail of the write leaves the device as it is. -/
theorem tail_dev (fp : memmap_file_state_t) (dev pb : Mem) (n : Nat) (tr : List FlashEv) :
    (memmap_block_write_tail fp dev pb n tr).dev = dev := by
  simp only [memmap_block_write_tail]
  split_ifs <;> rfl

/-- Device after the middle block when every program call succeeds. -/
theorem middle_dev (P : Nat) (fp : memmap_file_state_t) (buffer : Mem)
    (n fpg bo pc calls : Nat) (dev pb : Mem) (tr : List FlashEv) :
    (memmap_block_write_middle P all_ok fp buffer n fpg bo pc calls dev pb tr).dev
      = if 0 < pc then memcpy dev ((fp.base + fpg) % W64) buffer bo ((pc * P) % W32)
        else dev := by
  unfold memmap_block_write_middle
  split_ifs with h1 h2
  · simp only [tail_dev, xspi_write]
  · exact absurd rfl h2
  · exact tail_dev _ _ _ _ _

/-- Device after the last-page block when every program call succeeds. -/
theorem last_dev (P : Nat) (fp : memmap_file_state_t) (buffer : Mem)
    (n fpg lpg lo bo pc calls : Nat) (dev pb : Mem) (tr : List FlashEv) (hlo : lo ≤ P) :
    (memmap_block_write_last P all_ok fp buffer n fpg lpg lo bo pc calls dev pb tr).dev
      = if 0 < pc ∧ 0 < lo then
          (if 0 < (pc + W32 - 1) % W32 then
            memcpy (memcpy dev ((fp.base + lpg) % W64) buffer ((n + W64 - lo) % W64) lo)
              ((fp.base + fpg) % W64) buffer bo ((((pc + W32 - 1) % W32) * P) % W32)
           else memcpy dev ((fp.base + lpg) % W64) buffer ((n + W64 - lo) % W64) lo)
        else
          (if 0 < pc then memcpy dev ((fp.base + fpg) % W64) buffer bo ((pc * P) % W32)
           else dev) := by
  simp only [memmap_block_write_last]
  by_cases h1 : 0 < pc ∧ 0 < lo
  · rw [if_pos h1, if_pos h1]
    have h2 : all_ok calls = true := rfl
    rw [if_pos h2, middle_dev, rmw_page dev pb buffer _ 0 _ lo P (by omega)]
    simp only [Nat.add_zero]
  · rw [if_neg h1, if_neg h1, middle_dev]

/-- Device after the whole write when every program call succeeds, in terms of the page
geometry: `A`, `B` are the first and last page, `fo`, `lo` the in-page offsets of the
start and the end, and `pc` the 32-bit page counter. -/
theorem write_dev (P : Nat) (fp : memmap_file_state_t) (dev pb buffer : Mem) (n : Nat)
    (hP : 0 < P) (hn : 0 < n) (A B fo lo pc : Nat)
    (hA : round_down fp.file_pos P = A) (hfo : fp.file_pos % P = fo)
    (hB : round_down ((fp.file_pos + n - 1) % W64) P = B)
    (hlo : ((fp.file_pos + n) % W64) % P = lo)
    (hpc : (((B + W64 - A) % W64) / P + 1) % W32 = pc)
    (hAfo : A + fo = fp.file_pos) :
    (memmap_block_write P all_ok fp dev pb buffer n).dev
      = if 0 < fo then
          (memmap_block_write_last P all_ok fp buffer n ((A + P) % W64) B lo
            (if n < P - fo then n else P - fo) ((pc + W32 - 1) % W32) 1
            (memcpy dev ((fp.base + A) % W64 + fo) buffer 0 (if n < P - fo then n else P - fo))
            (memcpy (memcpy pb 0 dev ((fp.base + A) % W64) P) fo buffer 0
              (if n < P - fo then n else P - fo))
            [FlashEv.flush ((fp.base + A) % W64) P,
              FlashEv.program ((fp.base + A) % W64) P ProgSrc.scratch,
              FlashEv.page_read ((fp.base + A) % W64)]).dev
        else
          (memmap_block_write_last P all_ok fp buffer n A B lo 0 pc 0 dev pb []).dev := by
  simp only [memmap_block_write]
  rw [if_pos hn, hA, hfo, hB, hlo, hpc]
  have hsub : P - (fp.file_pos - A) = P - fo := by omega
  have hfoP : fo < P := hfo ▸ Nat.mod_lt _ hP
  by_cases h1 : 0 < fo
  · have h2 : all_ok 0 = true := rfl
    rw [if_pos h1, if_pos h1, if_pos h2, hsub]
    rw [rmw_page dev pb buffer _ fo 0 _ P (by split_ifs <;> omega)]
  · rw [if_neg h1, if_neg h1]

/-- A copy leaves every address outside its destination window as it was. -/
theorem memcpy_outside (dst : Mem) (d : Nat) (src : Mem) (s len a : Nat)
    (h : a < d ∨ d + len ≤ a) : memcpy dst d src s len a = dst a := by
  simp only [memcpy]
  rw [if_neg (by omega)]

/-- A copy stores the source bytes inside its destination window. -/
theorem memcpy_inside (dst : Mem) (d : Nat) (src : Mem) (s len a : Nat)
    (h : d ≤ a ∧ a < d + len) : memcpy dst d src s len a = src (s + (a - d)) := by
  simp only [memcpy]
  rw [if_pos h]

/-- Byte length of the middle run, when `X` pages are left of `k + 1` after `d` pages
were handled one by one. -/
theorem mid_len_le (X d k P : Nat) (h : X + d ≤ k + 1) :
    (X * P) % W32 + d * P ≤ k * P + P := by
  have h1 := Nat.mul_le_mul_right P h
  rw [Nat.add_mul, Nat.add_mul, Nat.one_mul] at h1
  have h2 := Nat.mod_le (X * P) W32
  omega

/-- The 32-bit page counter `pc0` and its two decrements never exceed the number of
pages really left, and the byte length of the middle run is bounded accordingly. -/
theorem pc_bounds (k P : Nat) (pc0 pc1 pc2 : Nat)
    (h0 : (k + 1) % W32 = pc0) (h1 : (pc0 + W32 - 1) % W32 = pc1)
    (h2 : (pc1 + W32 - 1) % W32 = pc2) :
    (k = 0 → pc1 = 0) ∧ (0 < pc1 → 1 ≤ k) ∧
    (pc0 * P) % W32 ≤ k * P + P ∧ (pc1 * P) % W32 ≤ k * P ∧
    (0 < pc1 → (pc2 * P) % W32 + P ≤ k * P) := by
  simp only [W32] at h0 h1 h2
  have a0 : pc0 + 0 ≤ k + 1 := by omega
  have a1 : pc1 + 1 ≤ k + 1 := by omega
  have m0 := mid_len_le pc0 0 k P a0
  have m1 := mid_len_le pc1 1 k P a1
  refine ⟨by omega, by omega, by omega, by omega, ?_⟩
  intro hp
  have a2 : pc2 + 2 ≤ k + 1 := by omega
  have m2 := mid_len_le pc2 2 k P a2
  omega

/-- When the page count fits in 32 bits the counter is exact, and so is the byte length
of the middle run as long as it fits in 32 bits. -/
theorem pc_exact (k P : Nat) (hk : k + 1 < W32) :
    (k + 1) % W32 = k + 1 ∧ (k + 1 + W32 - 1) % W32 = k ∧
    (k * P + P < W32 → ((k + 1) * P) % W32 = k * P + P) ∧
    (k * P < W32 → (k * P) % W32 = k * P) ∧
    (1 ≤ k → k * P - P < W32 → (((k + W32 - 1) % W32) * P) % W32 = k * P - P) ∧
    (1 ≤ k → (k + W32 - 1) % W32 + 1 = k) := by
  simp only [W32] at hk ⊢
  refine ⟨by omega, by omega, ?_, ?_, ?_, ?_⟩
  · intro h; rw [Nat.add_mul, Nat.one_mul]; exact Nat.mod_eq_of_lt h
  · intro h; exact Nat.mod_eq_of_lt h
  · intro h1k h
    have a2 : (k + 2 ^ 32 - 1) % 2 ^ 32 = k - 1 := by omega
    have e : (k - 1) * P = k * P - P := by rw [Nat.sub_mul, Nat.one_mul]
    rw [a2, e]; exact Nat.mod_eq_of_lt h
  · intro h1k; omega

/-- C2: read-modify-write frame. On a device on which every page-program call succeeds
and stores its bytes, for every cursor `p` and every length `n ≥ 1` (the written range
lying in the 64-bit address space), every device byte outside `[base+p, base+p+n)` has
the same value after `memmap_block_write` as before it; this includes the bytes of the
first and last touched pages before the start and after the end of the range. -/
theorem flash_write_frame (P : Nat) (fp : memmap_file_state_t) (dev pb buffer : Mem) (n : Nat)
    (hP : 0 < P) (hn : 1 ≤ n)
    (hnw : fp.file_pos + n < 2 ^ 64)
    (haddr : fp.base + fp.file_pos + n ≤ 2 ^ 64)
    (a : Nat)
    (ha : a < fp.base + fp.file_pos ∨ fp.base + fp.file_pos + n ≤ a) :
    (memmap_block_write P all_ok fp dev pb buffer n).dev a = dev a := by
  obtain ⟨k, g1, g2, g3, g4, g5, g6, g7, g8, -, g9, -, g10, -⟩ :=
    write_geometry P fp.file_pos n hP hn
  have hlt : (fp.file_pos + n) % P < P := Nat.mod_lt _ hP
  have e1 : (fp.file_pos + n - 1) % W64 = fp.file_pos + n - 1 :=
    Nat.mod_eq_of_lt (by simp only [W64]; omega)
  have e2 : (fp.file_pos + n) % W64 = fp.file_pos + n :=
    Nat.mod_eq_of_lt (by simp only [W64]; omega)
  have e3 : (round_down (fp.file_pos + n - 1) P + W64 - round_down fp.file_pos P) % W64
      = round_down (fp.file_pos + n - 1) P - round_down fp.file_pos P := by
    simp only [W64]; omega
  rw [write_dev P fp dev pb buffer n hP hn (round_down fp.file_pos P)
    (round_down (fp.file_pos + n - 1) P) (fp.file_pos % P) ((fp.file_pos + n) % P)
    ((k + 1) % W32) rfl rfl (by rw [e1]) (by rw [e2]) (by rw [e3, g2]) g3]
  clear e1 e2 e3 g2
  obtain ⟨b1, b2, b3, b4, b5⟩ := pc_bounds k P _ _ _ rfl rfl rfl
  generalize round_down fp.file_pos P = A at *
  generalize round_down (fp.file_pos + n - 1) P = B at *
  generalize fp.file_pos % P = fo at *
  generalize (fp.file_pos + n) % P = lo at *
  generalize fp.file_pos = p at *
  generalize hb : fp.base = base at *
  generalize k * P = K at *
  by_cases h1 : 0 < fo
  · rw [if_pos h1, last_dev _ _ _ _ _ _ _ _ _ _ _ _ _ (by omega)]
    generalize (((k + 1) % W32 + W32 - 1) % W32 + W32 - 1) % W32 = pc2 at *
    generalize ((k + 1) % W32 + W32 - 1) % W32 = pc1 at *
    generalize (pc2 * P) % W32 = L2 at *
    generalize (pc1 * P) % W32 = L1 at *
    clear b3
    simp only [W64, hb] at *
    by_cases h2 : 0 < pc1 ∧ 0 < lo
    · rw [if_pos h2]
      by_cases h3 : 0 < pc2
      · rw [if_pos h3, memcpy_outside _ _ _ _ _ _ (by omega),
          memcpy_outside _ _ _ _ _ _ (by omega),
          memcpy_outside _ _ _ _ _ _ (by split_ifs <;> omega)]
      · rw [if_neg h3, memcpy_outside _ _ _ _ _ _ (by omega),
          memcpy_outside _ _ _ _ _ _ (by split_ifs <;> omega)]
    · rw [if_neg h2]
      by_cases h3 : 0 < pc1
      · rw [if_pos h3, memcpy_outside _ _ _ _ _ _ (by omega),
          memcpy_outside _ _ _ _ _ _ (by split_ifs <;> omega)]
      · rw [if_neg h3, memcpy_outside _ _ _ _ _ _ (by split_ifs <;> omega)]
  · rw [if_neg h1, last_dev _ _ _ _ _ _ _ _ _ _ _ _ _ (by omega)]
    clear b5
    generalize ((k + 1) % W32 + W32 - 1) % W32 = pc1 at *
    generalize (k + 1) % W32 = pc0 at *
    generalize (pc1 * P) % W32 = L1 at *
    generalize (pc0 * P) % W32 = L0 at *
    simp only [W64, hb] at *
    by_cases h2 : 0 < pc0 ∧ 0 < lo
    · rw [if_pos h2]
      by_cases h3 : 0 < pc1
      · rw [if_pos h3, memcpy_outside _ _ _ _ _ _ (by omega),
          memcpy_outside _ _ _ _ _ _ (by omega)]
      · rw [if_neg h3, memcpy_outside _ _ _ _ _ _ (by omega)]
    · rw [if_neg h2]
      by_cases h3 : 0 < pc0
      · rw [if_pos h3, memcpy_outside _ _ _ _ _ _ (by omega)]
      · rw [if_neg h3]

/-- Contents property of the write on a device on which every program call succeeds:
for lengths below `2 ^ 32` every byte of the written range holds the buffer byte. -/
theorem write_range (P : Nat) (fp : memmap_file_state_t) (dev pb buffer : Mem) (n : Nat)
    (hP : 0 < P) (hn : 1 ≤ n) (hn32 : n < 2 ^ 32)
    (hnw : fp.file_pos + n < 2 ^ 64)
    (haddr : fp.base + fp.file_pos + n ≤ 2 ^ 64)
    (i : Nat) (hi : i < n) :
    (memmap_block_write P all_ok fp dev pb buffer n).dev (fp.base + fp.file_pos + i)
      = buffer i := by
  obtain ⟨k, g1, g2, g3, g4, g5, g6, g7, g8, g9a, g9b, g9c, g10, g11⟩ :=
    write_geometry P fp.file_pos n hP hn
  have hlt : (fp.file_pos + n) % P < P := Nat.mod_lt _ hP
  have e1 : (fp.file_pos + n - 1) % W64 = fp.file_pos + n - 1 :=
    Nat.mod_eq_of_lt (by simp only [W64]; omega)
  have e2 : (fp.file_pos + n) % W64 = fp.file_pos + n :=
    Nat.mod_eq_of_lt (by simp only [W64]; omega)
  have e3 : (round_down (fp.file_pos + n - 1) P + W64 - round_down fp.file_pos P) % W64
      = round_down (fp.file_pos + n - 1) P - round_down fp.file_pos P := by
    simp only [W64]; omega
  rw [write_dev P fp dev pb buffer n hP hn (round_down fp.file_pos P)
    (round_down (fp.file_pos + n - 1) P) (fp.file_pos % P) ((fp.file_pos + n) % P)
    ((k + 1) % W32) rfl rfl (by rw [e1]) (by rw [e2]) (by rw [e3, g2]) g3]
  clear e1 e2 e3 g2
  have hk : k + 1 < W32 := by
    simp only [W32]; clear g7 g8 g9a g9b g9c g6; omega
  obtain ⟨x0, x1, x2, x3, x4, x5⟩ := pc_exact k P hk
  rw [last_dev _ _ _ _ _ _ _ _ _ _ _ _ _ (Nat.le_of_lt hlt),
    last_dev _ _ _ _ _ _ _ _ _ _ _ _ _ (Nat.le_of_lt hlt)]
  simp only [x0, x1]
  generalize round_down fp.file_pos P = A at *
  generalize round_down (fp.file_pos + n - 1) P = B at *
  generalize fp.file_pos % P = fo at *
  generalize (fp.file_pos + n) % P = lo at *
  generalize fp.file_pos = p at *
  generalize hb : fp.base = base at *
  generalize k * P = K at *
  clear hk g10 g11 x0 x1
  simp only [W64, W32] at *
  have hsrc : ∀ m : Nat, m ≤ n → (n + 2 ^ 64 - m) % 2 ^ 64 = n - m := by
    intro m h; clear g7 g8 g9a g9b g9c x2 x3 x4 x5; omega
  have hA0 : (base + A) % 2 ^ 64 = base + A :=
    Nat.mod_eq_of_lt (by clear g7 g8 g9a g9b g9c x2 x3 x4 x5; omega)
  have hB : (base + B) % 2 ^ 64 = base + B :=
    Nat.mod_eq_of_lt (by clear g7 g8 g9a g9b g9c x2 x3 x4 x5; omega)
  simp only [hb, hA0, hB]
  clear hA0 hB hb
  by_cases h1 : 0 < fo
  · rw [if_pos h1]
    clear x2
    by_cases h2 : 0 < k ∧ 0 < lo
    · rw [if_pos h2]
      have f7 := g7 h2.2
      have x5a := x5 h2.1
      have hKP : P ≤ K := g9b h2.1
      have x4a := x4 h2.1
      clear g7 g8 g9a g9b x3 x4 x5
      have hA : (base + (A + P) % 2 ^ 64) % 2 ^ 64 = base + A + P := by
        clear g9c x4a x5a; omega
      have hbo : (if n < P - fo then n else P - fo) = P - fo := by
        rw [if_neg (by clear g9c x4a x5a; omega)]
      rw [hA, hbo, hsrc lo (by clear g9c x4a x5a; omega)]
      clear hA hbo hsrc
      by_cases h3 : 0 < (k + 2 ^ 32 - 1) % 2 ^ 32
      · rw [if_pos h3]
        rw [x4a (by clear g9c x5a h3; omega)]
        clear x4a x5a h3 g9c
        by_cases c3 : base + A + P ≤ base + p + i ∧ base + p + i < base + A + P + (K - P)
        · rw [memcpy_inside _ _ _ _ _ _ c3]; congr 1; omega
        · rw [memcpy_outside _ _ _ _ _ _ (by omega)]
          by_cases c2 : base + B ≤ base + p + i
          · rw [memcpy_inside _ _ _ _ _ _ (by omega)]; congr 1; omega
          · rw [memcpy_outside _ _ _ _ _ _ (by omega),
              memcpy_inside _ _ _ _ _ _ (by omega)]
            congr 1; omega
      · rw [if_neg h3]
        have hk1 : k = 1 := by clear g9c x4a; omega
        have hK1 := g9c hk1
        clear x4a x5a h3 g9c
        by_cases c2 : base + B ≤ base + p + i
        · rw [memcpy_inside _ _ _ _ _ _ (by omega)]; congr 1; omega
        · rw [memcpy_outside _ _ _ _ _ _ (by omega),
            memcpy_inside _ _ _ _ _ _ (by omega)]
          congr 1; omega
    · rw [if_neg h2]
      clear x4 x5 g9c
      by_cases h3 : 0 < k
      · rw [if_pos h3]
        have hlo0 : lo = 0 := by clear g7 g8 g9a g9b x3; omega
        have f8 := g8 hlo0
        have hKP : P ≤ K := g9b h3
        clear g7 g8 g9a g9b hsrc
        have hA : (base + (A + P) % 2 ^ 64) % 2 ^ 64 = base + A + P := by clear x3; omega
        have hbo : (if n < P - fo then n else P - fo) = P - fo := by
          rw [if_neg (by clear x3; omega)]
        rw [hA, hbo, x3 (by omega)]
        clear x3 hA hbo
        by_cases c3 : base + A + P ≤ base + p + i
        · rw [memcpy_inside _ _ _ _ _ _ (by omega)]; congr 1; omega
        · rw [memcpy_outside _ _ _ _ _ _ (by omega),
            memcpy_inside _ _ _ _ _ _ (by omega)]
          congr 1; omega
      · rw [if_neg h3]
        have hK0 := g9a (by omega)
        clear g7 g8 g9a g9b x3 hsrc
        have hbo : (if n < P - fo then n else P - fo) = n := by
          by_cases c : n < P - fo
          · rw [if_pos c]
          · rw [if_neg c]; omega
        rw [hbo, memcpy_inside _ _ _ _ _ _ (by omega)]
        congr 1; omega
  · rw [if_neg h1]
    clear x4 x5 g9c
    have hfo : fo = 0 := by omega
    by_cases h2 : 0 < k + 1 ∧ 0 < lo
    · rw [if_pos h2]
      have f7 := g7 h2.2
      clear g7 g8 x2
      by_cases h3 : 0 < k
      · have hKP := g9b h3
        rw [if_pos h3, hsrc lo (by clear x3 g9a g9b; omega), x3 (by clear g9a g9b; omega)]
        clear x3 g9a g9b hsrc
        by_cases c2 : base + B ≤ base + p + i
        · rw [memcpy_outside _ _ _ _ _ _ (by omega),
            memcpy_inside _ _ _ _ _ _ (by omega)]
          congr 1; omega
        · rw [memcpy_inside _ _ _ _ _ _ (by omega)]; congr 1; omega
      · have hK0 := g9a (by omega)
        rw [if_neg h3, hsrc lo (by clear x3 g9a g9b; omega)]
        clear x3 g9a g9b hsrc
        rw [memcpy_inside _ _ _ _ _ _ (by omega)]
        congr 1; omega
    · rw [if_neg h2, if_pos (Nat.succ_pos k)]
      have hlo0 : lo = 0 := by clear g7 g8 g9a g9b x2 x3 hsrc; omega
      have f8 := g8 hlo0
      clear g7 g8 g9a g9b x3 hsrc
      rw [x2 (by omega)]
      clear x2
      rw [memcpy_inside _ _ _ _ _ _ (by omega)]
      congr 1; omega

/-- With every program call succeeding, the middle block ends in the tail. -/
theorem middle_is_tail (P : Nat) (fp : memmap_file_state_t) (buffer : Mem)
    (n fpg bo pc calls : Nat) (dev pb : Mem) (tr : List FlashEv) :
    ∃ dev2 pb2 tr2,
      memmap_block_write_middle P all_ok fp buffer n fpg bo pc calls dev pb tr
        = memmap_block_write_tail fp dev2 pb2 n tr2 := by
  simp only [memmap_block_write_middle]
  have h2 : all_ok calls = true := rfl
  by_cases h1 : 0 < pc
  · rw [if_pos h1, if_pos h2]; exact ⟨_, _, _, rfl⟩
  · rw [if_neg h1]; exact ⟨_, _, _, rfl⟩

/-- With every program call succeeding, the last-page block ends in the tail. -/
theorem last_is_tail (P : Nat) (fp : memmap_file_state_t) (buffer : Mem)
    (n fpg lpg lo bo pc calls : Nat) (dev pb : Mem) (tr : List FlashEv) :
    ∃ dev2 pb2 tr2,
      memmap_block_write_last P all_ok fp buffer n fpg lpg lo bo pc calls dev pb tr
        = memmap_block_write_tail fp dev2 pb2 n tr2 := by
  simp only [memmap_block_write_last]
  have h2 : all_ok calls = true := rfl
  by_cases h1 : 0 < pc ∧ 0 < lo
  · rw [if_pos h1, if_pos h2]; exact middle_is_tail _ _ _ _ _ _ _ _ _ _ _
  · rw [if_neg h1]; exact middle_is_tail _ _ _ _ _ _ _ _ _ _ _

/-- With every program call succeeding, the write ends in the tail. -/
theorem write_is_tail (P : Nat) (fp : memmap_file_state_t) (dev pb buffer : Mem)
    (n : Nat) :
    ∃ dev2 pb2 tr2,
      memmap_block_write P all_ok fp dev pb buffer n
        = memmap_block_write_tail fp dev2 pb2 n tr2 := by
  simp only [memmap_block_write]
  have h2 : all_ok 0 = true := rfl
  by_cases h0 : 0 < n
  · rw [if_pos h0]
    by_cases h1 : 0 < fp.file_pos % P
    · rw [if_pos h1, if_pos h2]; exact last_is_tail _ _ _ _ _ _ _ _ _ _ _ _ _
    · rw [if_neg h1]; exact last_is_tail _ _ _ _ _ _ _ _ _ _ _ _ _
  · rw [if_neg h0]; exact ⟨_, _, _, rfl⟩

/-- Return value, assertion, cursor and reported length of a write whose program calls
all succeed and whose range lies in the open region. -/
theorem write_meta (P : Nat) (fp : memmap_file_state_t) (dev pb buffer : Mem) (n : Nat)
    (hsz : fp.size < 2 ^ 64) (hr : fp.file_pos + n ≤ fp.size) :
    (memmap_block_write P all_ok fp dev pb buffer n).ret = 0 ∧
    (memmap_block_write P all_ok fp dev pb buffer n).asserts_ok = true ∧
    (memmap_block_write P all_ok fp dev pb buffer n).fp
      = { fp with file_pos := fp.file_pos + n } ∧
    (memmap_block_write P all_ok fp dev pb buffer n).length_written = some n := by
  obtain ⟨dev2, pb2, tr2, h⟩ := write_is_tail P fp dev pb buffer n
  have e : (fp.file_pos + n) % W64 = fp.file_pos + n :=
    Nat.mod_eq_of_lt (by simp only [W64]; omega)
  rw [h]
  simp only [memmap_block_write_tail, e]
  rw [if_pos ⟨Nat.le_add_right _ _, hr⟩]
  exact ⟨rfl, rfl, rfl, rfl⟩

/-- C1 (as amended): on a device on which every page-program call succeeds and stores
its bytes, for every open session with cursor `p` and every buffer of length `n` with
`1 ≤ n < 2 ^ 32` and `p + n ≤ size` (the region lying in the 64-bit address space and
`p` being a valid seek offset), the write succeeds and reports `n` bytes, and a seek
back to `p` followed by a read of `n` bytes returns exactly the written buffer. -/
theorem flash_write_read_roundtrip (P : Nat) (fp : memmap_file_state_t)
    (dev pb buffer out : Mem) (n : Nat)
    (hP : 0 < P) (hn : 1 ≤ n) (hn32 : n < 2 ^ 32)
    (hr : fp.file_pos + n ≤ fp.size) (hsz : fp.size < 2 ^ 64)
    (hdev : fp.base + fp.size ≤ 2 ^ 64) (hseek : fp.file_pos < 2 ^ 63) :
    (memmap_block_write P all_ok fp dev pb buffer n).ret = 0 ∧
    (memmap_block_write P all_ok fp dev pb buffer n).asserts_ok = true ∧
    (memmap_block_write P all_ok fp dev pb buffer n).length_written = some n ∧
    (memmap_block_seek (memmap_block_write P all_ok fp dev pb buffer n).fp IO_SEEK_SET
      (fp.file_pos : Int)).ret = 0 ∧
    (memmap_block_seek (memmap_block_write P all_ok fp dev pb buffer n).fp IO_SEEK_SET
      (fp.file_pos : Int)).asserts_ok = true ∧
    (memmap_block_read
      (memmap_block_seek (memmap_block_write P all_ok fp dev pb buffer n).fp IO_SEEK_SET
        (fp.file_pos : Int)).fp
      (memmap_block_write P all_ok fp dev pb buffer n).dev out n).ret = 0 ∧
    (memmap_block_read
      (memmap_block_seek (memmap_block_write P all_ok fp dev pb buffer n).fp IO_SEEK_SET
        (fp.file_pos : Int)).fp
      (memmap_block_write P all_ok fp dev pb buffer n).dev out n).asserts_ok = true ∧
    (memmap_block_read
      (memmap_block_seek (memmap_block_write P all_ok fp dev pb buffer n).fp IO_SEEK_SET
        (fp.file_pos : Int)).fp
      (memmap_block_write P all_ok fp dev pb buffer n).dev out n).length_read = some n ∧
    ∀ i, i < n →
      (memmap_block_read
        (memmap_block_seek (memmap_block_write P all_ok fp dev pb buffer n).fp IO_SEEK_SET
          (fp.file_pos : Int)).fp
        (memmap_block_write P all_ok fp dev pb buffer n).dev out n).buffer i = buffer i := by
  obtain ⟨w1, w2, w3, w4⟩ := write_meta P fp dev pb buffer n hsz hr
  have hrange := write_range P fp dev pb buffer n hP hn hn32 (by omega) (by omega)
  generalize memmap_block_write P all_ok fp dev pb buffer n = w at *
  have hs : memmap_block_seek w.fp IO_SEEK_SET (fp.file_pos : Int)
      = ⟨0, true, { fp with file_pos := fp.file_pos }⟩ := by
    simp only [memmap_block_seek, w3, Int.toNat_ofNat, if_true]
    rw [if_pos ⟨Int.ofNat_nonneg _, by omega⟩]
  have e1 : (fp.file_pos + n) % W64 = fp.file_pos + n :=
    Nat.mod_eq_of_lt (by simp only [W64]; omega)
  have e2 : (fp.base + fp.file_pos) % W64 = fp.base + fp.file_pos :=
    Nat.mod_eq_of_lt (by simp only [W64]; omega)
  have hrd : memmap_block_read { fp with file_pos := fp.file_pos } w.dev out n
      = ⟨0, true, { fp with file_pos := fp.file_pos + n },
          memcpy out 0 w.dev (fp.base + fp.file_pos) n, some n⟩ := by
    simp only [memmap_block_read, e1, e2]
    rw [if_pos ⟨Nat.le_add_right _ _, hr⟩]
  rw [hs, hrd]
  refine ⟨w1, w2, w4, rfl, rfl, rfl, rfl, rfl, ?_⟩
  intro i hi
  show memcpy out 0 w.dev (fp.base + fp.file_pos) n i = buffer i
  rw [memcpy_inside _ _ _ _ _ _ (by omega), Nat.sub_zero]
  exact hrange i hi

/-- Witness of `flash_write_read_roundtrip`: 700 bytes written at cursor 100 of a region
at device offset 4096, page size 256 (the write starts and ends mid-page and touches
four pages). -/
theorem flash_write_read_roundtrip_witness :
    (memmap_block_write 256 all_ok small_fp (fill 255) (fill 0) ramp 700).ret = 0 ∧
    ∀ i, i < 700 →
      (memmap_block_read
        (memmap_block_seek (memmap_block_write 256 all_ok small_fp (fill 255) (fill 0)
          ramp 700).fp IO_SEEK_SET ((100 : Nat) : Int)).fp
        (memmap_block_write 256 all_ok small_fp (fill 255) (fill 0) ramp 700).dev
        (fill 0) 700).buffer i = ramp i :=
  have h := flash_write_read_roundtrip 256 small_fp (fill 255) (fill 0) ramp (fill 0) 700
    (by decide) (by decide) (by decide) (by decide) (by decide) (by decide) (by decide)
  ⟨h.1, h.2.2.2.2.2.2.2.2⟩

/-- C1 (as stated) fails: with page size 256, a session on the region `[0, 2 ^ 41)` with
the cursor at 0 and a buffer of `2 ^ 40` bytes equal to 1, written to a device filled
with 0, the 32-bit page counter wraps to 0, no program call is made, the write reports
success, and the read-back of the range returns 0 where the buffer holds 1. -/
theorem flash_roundtrip_fails_at_2_pow_40 :
    (1 ≤ 2 ^ 40 ∧ huge_fp.file_pos + 2 ^ 40 ≤ huge_fp.size) ∧
    (memmap_block_write 256 all_ok huge_fp (fill 0) (fill 0) (fill 1) (2 ^ 40)).ret = 0 ∧
    (memmap_block_write 256 all_ok huge_fp (fill 0) (fill 0) (fill 1) (2 ^ 40)).trace = [] ∧
    (memmap_block_write 256 all_ok huge_fp (fill 0) (fill 0) (fill 1) (2 ^ 40)).length_written
      = some (2 ^ 40) ∧
    (memmap_block_seek
      (memmap_block_write 256 all_ok huge_fp (fill 0) (fill 0) (fill 1) (2 ^ 40)).fp
      IO_SEEK_SET 0).ret = 0 ∧
    (memmap_block_read
      (memmap_block_seek
        (memmap_block_write 256 all_ok huge_fp (fill 0) (fill 0) (fill 1) (2 ^ 40)).fp
        IO_SEEK_SET 0).fp
      (memmap_block_write 256 all_ok huge_fp (fill 0) (fill 0) (fill 1) (2 ^ 40)).dev
      (fill 7) (2 ^ 40)).buffer 0 = 0 ∧
    (fill 1) 0 = 1 := by
  refine ⟨by decide, ?_, ?_, ?_, ?_, ?_, rfl⟩ <;> decide

/-- Witness of `flash_write_frame`: the byte just before a 700-byte write at cursor 100
(device address 4195, in the first touched page) keeps its value. -/
theorem flash_write_frame_witness :
    (memmap_block_write 256 all_ok small_fp (fill 255) (fill 0) ramp 700).dev 4195
      = (fill 255) 4195 :=
  flash_write_frame 256 small_fp (fill 255) (fill 0) ramp 700 (by decide) (by decide)
    (by decide) (by decide) 4195 (by decide)

/-! ### The session slot: open, close, seek -/

/-- C14: flash singleton exclusivity. While the slot is in use (`in_use` is not 0),
`memmap_block_open` of a second region returns the error `-ENOMEM`, which is not
success, and leaves the slot (in-use flag, base, cursor and size) as it was. -/
theorem flash_open_busy (cur : memmap_file_state_t) (block_spec : io_block_spec_t)
    (h : cur.in_use ≠ 0) :
    (memmap_block_open cur block_spec).ret = - ENOMEM ∧
    (memmap_block_open cur block_spec).ret ≠ 0 ∧
    (memmap_block_open cur block_spec).fp = cur := by
  simp only [memmap_block_open]
  rw [if_neg h]
  exact ⟨rfl, (by decide : (- ENOMEM : Int) ≠ 0), rfl⟩

/-- Witness of `flash_open_busy`: a second open while the session `small_fp` is open. -/
theorem flash_open_busy_witness :
    (memmap_block_open small_fp ⟨0, 64⟩).ret = - ENOMEM ∧
    (memmap_block_open small_fp ⟨0, 64⟩).ret ≠ 0 ∧
    (memmap_block_open small_fp ⟨0, 64⟩).fp = small_fp :=
  flash_open_busy small_fp ⟨0, 64⟩ (by decide)

/-- C15: flash reopen after close. `memmap_block_close` returns 0 and zeroes the whole
slot whatever it held, and a following `memmap_block_open` with any region returns 0
with the slot in use, `base` the region offset, `size` the region length and the cursor
at 0. -/
theorem flash_reopen_after_close (cur : memmap_file_state_t)
    (block_spec : io_block_spec_t) :
    (memmap_block_close cur).1 = 0 ∧
    (memmap_block_close cur).2 = ⟨0, 0, 0, 0⟩ ∧
    (memmap_block_open (memmap_block_close cur).2 block_spec).ret = 0 ∧
    (memmap_block_open (memmap_block_close cur).2 block_spec).fp
      = ⟨1, block_spec.offset, 0, block_spec.length⟩ :=
  ⟨rfl, rfl, rfl, rfl⟩

/-- C16: seek bounds. `memmap_block_seek` succeeds (returns 0 with its assertion holding)
exactly when the mode is `IO_SEEK_SET` and `0 ≤ offset < size`; then the cursor is
`offset` and in-use flag, base and size are unchanged. Any other mode returns the error
`-ENOENT` with the session unchanged. With `IO_SEEK_SET`, a negative offset or an
offset `≥ size` violates the assertion. In particular a seek to `size - 1` succeeds on
a non-empty region, a seek to `size` fails, and on a region of length 0 no seek
succeeds. -/
theorem flash_seek_bounds (fp : memmap_file_state_t) (mode offset : Int) :
    (((memmap_block_seek fp mode offset).ret = 0 ∧
        (memmap_block_seek fp mode offset).asserts_ok = true)
      ↔ (mode = IO_SEEK_SET ∧ 0 ≤ offset ∧ offset < (fp.size : Int))) ∧
    (mode = IO_SEEK_SET → 0 ≤ offset → offset < (fp.size : Int) →
      ((memmap_block_seek fp mode offset).fp.file_pos : Int) = offset ∧
      (memmap_block_seek fp mode offset).fp.base = fp.base ∧
      (memmap_block_seek fp mode offset).fp.size = fp.size ∧
      (memmap_block_seek fp mode offset).fp.in_use = fp.in_use) ∧
    (mode ≠ IO_SEEK_SET →
      (memmap_block_seek fp mode offset).ret = - ENOENT ∧
      (memmap_block_seek fp mode offset).ret ≠ 0 ∧
      (memmap_block_seek fp mode offset).asserts_ok = true ∧
      (memmap_block_seek fp mode offset).fp = fp) ∧
    (mode = IO_SEEK_SET → (offset < 0 ∨ (fp.size : Int) ≤ offset) →
      (memmap_block_seek fp mode offset).asserts_ok = false ∧
      (memmap_block_seek fp mode offset).fp = fp) ∧
    (0 < fp.size →
      (memmap_block_seek fp IO_SEEK_SET ((fp.size : Int) - 1)).ret = 0 ∧
      (memmap_block_seek fp IO_SEEK_SET ((fp.size : Int) - 1)).asserts_ok = true ∧
      (memmap_block_seek fp IO_SEEK_SET ((fp.size : Int) - 1)).fp.file_pos
        = fp.size - 1) ∧
    (memmap_block_seek fp IO_SEEK_SET (fp.size : Int)).asserts_ok = false ∧
    (fp.size = 0 → ¬ ((memmap_block_seek fp mode offset).ret = 0 ∧
      (memmap_block_seek fp mode offset).asserts_ok = true)) := by
  have hne : (- ENOENT : Int) ≠ 0 := by decide
  have key : ∀ (m o : Int),
      (((memmap_block_seek fp m o).ret = 0 ∧ (memmap_block_seek fp m o).asserts_ok = true)
        ↔ (m = IO_SEEK_SET ∧ 0 ≤ o ∧ o < (fp.size : Int))) := by
    intro m o
    simp only [memmap_block_seek]
    by_cases hm : m = IO_SEEK_SET
    · rw [if_pos hm]
      by_cases hr : 0 ≤ o ∧ o.toNat < fp.size
      · rw [if_pos hr]
        exact ⟨fun _ => ⟨hm, hr.1, by omega⟩, fun _ => ⟨rfl, rfl⟩⟩
      · rw [if_neg hr]
        constructor
        · intro h; exact absurd h.1 hne
        · intro h; exact absurd ⟨h.2.1, by omega⟩ hr
    · rw [if_neg hm]
      constructor
      · intro h; exact absurd h.1 hne
      · intro h; exact absurd h.1 hm
  refine ⟨key mode offset, ?_, ?_, ?_, ?_, ?_, ?_⟩
  · intro hm h0 h1
    have hr : 0 ≤ offset ∧ offset.toNat < fp.size := ⟨h0, by omega⟩
    simp only [memmap_block_seek]
    rw [if_pos hm, if_pos hr]
    exact ⟨Int.toNat_of_nonneg h0, rfl, rfl, rfl⟩
  · intro hm
    simp only [memmap_block_seek]
    rw [if_neg hm]
    exact ⟨rfl, hne, rfl, rfl⟩
  · intro hm hbad
    have hr : ¬ (0 ≤ offset ∧ offset.toNat < fp.size) := by
      intro c
      rcases hbad with h | h
      · omega
      · omega
    simp only [memmap_block_seek]
    rw [if_pos hm, if_neg hr]
    exact ⟨rfl, rfl⟩
  · intro hs
    have hr : 0 ≤ ((fp.size : Int) - 1) ∧ ((fp.size : Int) - 1).toNat < fp.size :=
      ⟨by omega, by omega⟩
    simp only [memmap_block_seek]
    rw [if_pos trivial, if_pos hr]
    exact ⟨rfl, rfl, by show ((fp.size : Int) - 1).toNat = fp.size - 1; omega⟩
  · have hr : ¬ (0 ≤ (fp.size : Int) ∧ (fp.size : Int).toNat < fp.size) := by
      intro c; omega
    simp only [memmap_block_seek]
    rw [if_pos trivial, if_neg hr]
  · intro hz c
    have := (key mode offset).1 c
    omega

/-- Witness of `flash_seek_bounds` on a region of 2048 bytes: the seek to 2047 succeeds
and sets the cursor, a relative mode is refused, and the seeks to -1 and to 2048 violate
the assertion. -/
theorem flash_seek_bounds_witness :
    (((memmap_block_seek small_fp IO_SEEK_SET 2047).fp.file_pos : Int) = 2047 ∧
      (memmap_block_seek small_fp IO_SEEK_SET 2047).fp.base = small_fp.base ∧
      (memmap_block_seek small_fp IO_SEEK_SET 2047).fp.size = small_fp.size ∧
      (memmap_block_seek small_fp IO_SEEK_SET 2047).fp.in_use = small_fp.in_use) ∧
    ((memmap_block_seek small_fp 0 5).ret = - ENOENT ∧
      (memmap_block_seek small_fp 0 5).ret ≠ 0 ∧
      (memmap_block_seek small_fp 0 5).asserts_ok = true ∧
      (memmap_block_seek small_fp 0 5).fp = small_fp) ∧
    ((memmap_block_seek small_fp IO_SEEK_SET (-1)).asserts_ok = false ∧
      (memmap_block_seek small_fp IO_SEEK_SET (-1)).fp = small_fp) ∧
    ((memmap_block_seek small_fp IO_SEEK_SET 2048).asserts_ok = false ∧
      (memmap_block_seek small_fp IO_SEEK_SET 2048).fp = small_fp) :=
  ⟨(flash_seek_bounds small_fp IO_SEEK_SET 2047).2.1 rfl (by decide) (by decide),
   (flash_seek_bounds small_fp 0 5).2.2.1 (by decide),
   (flash_seek_bounds small_fp IO_SEEK_SET (-1)).2.2.2.1 rfl (Or.inl (by decide)),
   (flash_seek_bounds small_fp IO_SEEK_SET 2048).2.2.2.1 rfl (Or.inr (by decide))⟩

/-! ### How a write ends -/

theorem tail_trace (fp : memmap_file_state_t) (dev pb : Mem) (n : Nat)
    (tr : List FlashEv) : (memmap_block_write_tail fp dev pb n tr).trace = tr := by
  simp only [memmap_block_write_tail]
  split_ifs <;> rfl

theorem tail_outcome (prog_ok : Nat → Bool) (fp : memmap_file_state_t) (dev pb : Mem)
    (n : Nat) (tr : List FlashEv) (h : ∀ k, k < programs tr → prog_ok k = true) :
    WriteOutcome prog_ok fp n (memmap_block_write_tail fp dev pb n tr) := by
  refine Or.inr ⟨?_, dev, pb, ?_⟩
  · rw [tail_trace]; exact h
  · rw [tail_trace]

theorem middle_outcome (P : Nat) (prog_ok : Nat → Bool) (fp : memmap_file_state_t)
    (buffer : Mem) (n first_page buffer_offset page_count calls : Nat) (dev pb : Mem)
    (tr : List FlashEv) (hc : calls = programs tr)
    (h : ∀ k, k < programs tr → prog_ok k = true) :
    WriteOutcome prog_ok fp n
      (memmap_block_write_middle P prog_ok fp buffer n first_page buffer_offset page_count
        calls dev pb tr) := by
  simp only [memmap_block_write_middle]
  by_cases h1 : 0 < page_count
  · rw [if_pos h1]
    by_cases h2 : prog_ok calls = true
    · rw [if_pos h2]
      refine tail_outcome prog_ok fp _ _ n _ ?_
      intro k hk
      have hk2 : k < programs tr + 1 := hk
      by_cases e : k = programs tr
      · rw [e, ← hc]; exact h2
      · exact h k (by omega)
    · rw [if_neg h2]
      have h3 : prog_ok (programs tr) = false := by
        rw [← hc]; simpa using h2
      exact Or.inl ⟨rfl, rfl, rfl, rfl, _, _, _, tr, rfl, h3, h⟩
  · rw [if_neg h1]
    exact tail_outcome prog_ok fp dev pb n tr h

theorem last_outcome (P : Nat) (prog_ok : Nat → Bool) (fp : memmap_file_state_t)
    (buffer : Mem) (n first_page last_page last_offset buffer_offset page_count
      calls : Nat) (dev pb : Mem)
    (tr : List FlashEv) (hc : calls = programs tr)
    (h : ∀ k, k < programs tr → prog_ok k = true) :
    WriteOutcome prog_ok fp n
      (memmap_block_write_last P prog_ok fp buffer n first_page last_page last_offset
        buffer_offset page_count calls dev pb tr) := by
  simp only [memmap_block_write_last]
  by_cases h1 : 0 < page_count ∧ 0 < last_offset
  · rw [if_pos h1]
    by_cases h2 : prog_ok calls = true
    · rw [if_pos h2]
      refine middle_outcome P prog_ok fp buffer n _ _ _ _ _ _ _ ?_ ?_
      · show calls + 1 = programs tr + 1
        rw [hc]
      · intro k hk
        have hk2 : k < programs tr + 1 := hk
        by_cases e : k = programs tr
        · rw [e, ← hc]; exact h2
        · exact h k (by omega)
    · rw [if_neg h2]
      have h3 : prog_ok (programs tr) = false := by
        rw [← hc]; simpa using h2
      refine Or.inl ⟨rfl, rfl, rfl, rfl, _, _, _, FlashEv.page_read _ :: tr, rfl, ?_, ?_⟩
      · exact h3
      · exact h
  · rw [if_neg h1]
    exact middle_outcome P prog_ok fp buffer n _ _ _ _ dev pb tr hc h

/-- Every write ends in one of the two ways of `WriteOutcome`. -/
theorem write_outcome (P : Nat) (prog_ok : Nat → Bool) (fp : memmap_file_state_t)
    (dev pb buffer : Mem) (n : Nat) :
    WriteOutcome prog_ok fp n (memmap_block_write P prog_ok fp dev pb buffer n) := by
  have hnil : ∀ k, k < programs ([] : List FlashEv) → prog_ok k = true :=
    fun k hk => absurd hk (Nat.not_lt_zero k)
  simp only [memmap_block_write]
  by_cases h0 : 0 < n
  · rw [if_pos h0]
    by_cases h1 : 0 < fp.file_pos % P
    · rw [if_pos h1]
      by_cases h2 : prog_ok 0 = true
      · rw [if_pos h2]
        refine last_outcome P prog_ok fp buffer n _ _ _ _ _ _ _ _ _ rfl ?_
        intro k hk
        have hk2 : k < 1 := hk
        have e : k = 0 := by omega
        rw [e]; exact h2
      · rw [if_neg h2]
        have h3 : prog_ok 0 = false := by simpa using h2
        exact Or.inl ⟨rfl, rfl, rfl, rfl, _, _, _, [FlashEv.page_read _], rfl, h3,
          fun k hk => absurd hk (Nat.not_lt_zero k)⟩
    · rw [if_neg h1]
      exact last_outcome P prog_ok fp buffer n _ _ _ _ _ _ dev pb [] rfl hnil
  · rw [if_neg h0]
    exact tail_outcome prog_ok fp dev pb n [] hnil

/-- C18: flash program failure. Number the page-program calls of a write from 0 in
program order, call `k` succeeding when `prog_ok k`. A page-program call made by
`memmap_block_write` reports failure exactly when the write returns `-EIO`; and then
the failed call is the last device access of the write (no program call and no cache
flush follows it), every earlier program call succeeded, the session (cursor included)
is unchanged and no length is reported through `length_written`. -/
theorem flash_program_failure (P : Nat) (prog_ok : Nat → Bool)
    (fp : memmap_file_state_t) (dev pb buffer : Mem) (n : Nat) :
    ((∃ k, k < programs (memmap_block_write P prog_ok fp dev pb buffer n).trace ∧
        prog_ok k = false)
      ↔ (memmap_block_write P prog_ok fp dev pb buffer n).ret = - EIO) ∧
    ((∃ k, k < programs (memmap_block_write P prog_ok fp dev pb buffer n).trace ∧
        prog_ok k = false) →
      (memmap_block_write P prog_ok fp dev pb buffer n).ret = - EIO ∧
      (memmap_block_write P prog_ok fp dev pb buffer n).fp = fp ∧
      (memmap_block_write P prog_ok fp dev pb buffer n).length_written = none ∧
      ∃ addr len src tr,
        (memmap_block_write P prog_ok fp dev pb buffer n).trace
          = FlashEv.program addr len src :: tr ∧
        prog_ok (programs tr) = false ∧ ∀ k, k < programs tr → prog_ok k = true) := by
  have hne : (0 : Int) ≠ - EIO := by decide
  have tail_ret : ∀ d2 p2 t2, (memmap_block_write_tail fp d2 p2 n t2).ret = 0 := by
    intro d2 p2 t2
    simp only [memmap_block_write_tail]
    split_ifs <;> rfl
  rcases write_outcome P prog_ok fp dev pb buffer n with
    ⟨h1, -, h3, h4, addr, len, src, tr, h5, h6, h7⟩ | ⟨h1, d2, p2, h2⟩
  · have hex : ∃ k,
        k < programs (memmap_block_write P prog_ok fp dev pb buffer n).trace ∧
        prog_ok k = false := by
      refine ⟨programs tr, ?_, h6⟩
      rw [h5]
      exact Nat.lt_succ_self _
    exact ⟨⟨fun _ => h1, fun _ => hex⟩,
      fun _ => ⟨h1, h3, h4, addr, len, src, tr, h5, h6, h7⟩⟩
  · have hno : ¬ ∃ k,
        k < programs (memmap_block_write P prog_ok fp dev pb buffer n).trace ∧
        prog_ok k = false := by
      rintro ⟨k, hk, hf⟩
      rw [h1 k hk] at hf
      exact absurd hf (by decide)
    have hr : (memmap_block_write P prog_ok fp dev pb buffer n).ret = 0 := by
      rw [h2]; exact tail_ret _ _ _
    refine ⟨⟨fun c => absurd c hno, fun c => ?_⟩, fun c => absurd c hno⟩
    rw [hr] at c
    exact absurd c hne

/-- Witness of `flash_program_failure`: 700 bytes written at cursor 100 on a device whose
second page-program call fails. -/
theorem flash_program_failure_witness :
    (memmap_block_write 256 second_fails small_fp (fill 0) (fill 0) ramp 700).ret
      = - EIO ∧
    (memmap_block_write 256 second_fails small_fp (fill 0) (fill 0) ramp 700).fp
      = small_fp ∧
    (memmap_block_write 256 second_fails small_fp (fill 0) (fill 0) ramp 700).length_written
      = none ∧
    ∃ addr len src tr,
      (memmap_block_write 256 second_fails small_fp (fill 0) (fill 0) ramp 700).trace
        = FlashEv.program addr len src :: tr ∧
      second_fails (programs tr) = false ∧
      ∀ k, k < programs tr → second_fails k = true :=
  (flash_program_failure 256 second_fails small_fp (fill 0) (fill 0) ramp 700).2
    ⟨1, by decide, by decide⟩

/-! ### The cursor -/

/-- A read whose assertion holds: the cursor does not exceed the size afterwards. -/
theorem read_cursor (fp : memmap_file_state_t) (dev buffer : Mem) (n : Nat)
    (h : fp.file_pos ≤ fp.size) :
    (memmap_block_read fp dev buffer n).fp.file_pos
        ≤ (memmap_block_read fp dev buffer n).fp.size ∧
    (memmap_block_read fp dev buffer n).fp.size = fp.size ∧
    (memmap_block_read fp dev buffer n).fp.base = fp.base := by
  simp only [memmap_block_read]
  split_ifs with h1
  · exact ⟨h1.2, rfl, rfl⟩
  · exact ⟨h, rfl, rfl⟩

theorem seek_cursor (fp : memmap_file_state_t) (mode offset : Int)
    (h : fp.file_pos ≤ fp.size) :
    (memmap_block_seek fp mode offset).fp.file_pos
        ≤ (memmap_block_seek fp mode offset).fp.size ∧
    (memmap_block_seek fp mode offset).fp.size = fp.size ∧
    (memmap_block_seek fp mode offset).fp.base = fp.base := by
  simp only [memmap_block_seek]
  split_ifs with h1 h2
  · exact ⟨Nat.le_of_lt h2.2, rfl, rfl⟩
  · exact ⟨h, rfl, rfl⟩
  · exact ⟨h, rfl, rfl⟩

theorem tail_cursor (fp : memmap_file_state_t) (dev pb : Mem) (n : Nat)
    (tr : List FlashEv) (h : fp.file_pos ≤ fp.size) :
    (memmap_block_write_tail fp dev pb n tr).fp.file_pos
        ≤ (memmap_block_write_tail fp dev pb n tr).fp.size ∧
    (memmap_block_write_tail fp dev pb n tr).fp.size = fp.size ∧
    (memmap_block_write_tail fp dev pb n tr).fp.base = fp.base := by
  simp only [memmap_block_write_tail]
  split_ifs with h1
  · exact ⟨h1.2, rfl, rfl⟩
  · exact ⟨h, rfl, rfl⟩

theorem write_cursor (P : Nat) (prog_ok : Nat → Bool) (fp : memmap_file_state_t)
    (dev pb buffer : Mem) (n : Nat) (h : fp.file_pos ≤ fp.size) :
    (memmap_block_write P prog_ok fp dev pb buffer n).fp.file_pos
        ≤ (memmap_block_write P prog_ok fp dev pb buffer n).fp.size ∧
    (memmap_block_write P prog_ok fp dev pb buffer n).fp.size = fp.size ∧
    (memmap_block_write P prog_ok fp dev pb buffer n).fp.base = fp.base := by
  rcases write_outcome P prog_ok fp dev pb buffer n with
    ⟨-, -, h3, -⟩ | ⟨-, d2, p2, h2⟩
  · rw [h3]; exact ⟨h, rfl, rfl⟩
  · rw [h2]; exact tail_cursor fp d2 p2 n _ h

/-- One call keeps the cursor within the region and leaves base and size alone. -/
theorem step_cursor (P : Nat) (st st2 : FlashState) (op : FlashOp)
    (h : st.fp.file_pos ≤ st.fp.size) (hs : flash_step P st op = some st2) :
    st2.fp.file_pos ≤ st2.fp.size ∧ st2.fp.size = st.fp.size ∧
    st2.fp.base = st.fp.base := by
  cases op with
  | seek mode offset =>
    simp only [flash_step] at hs
    split_ifs at hs
    cases hs
    exact seek_cursor st.fp mode offset h
  | size =>
    simp only [flash_step] at hs
    cases hs
    exact ⟨h, rfl, rfl⟩
  | read buffer length =>
    simp only [flash_step] at hs
    split_ifs at hs
    cases hs
    exact read_cursor st.fp st.dev buffer length h
  | write buffer length prog_ok =>
    simp only [flash_step] at hs
    split_ifs at hs
    cases hs
    exact write_cursor P prog_ok st.fp st.dev st.page_buf buffer length h

theorem run_cursor (P : Nat) (ops : List FlashOp) :
    ∀ st st2 : FlashState, st.fp.file_pos ≤ st.fp.size →
      flash_run P st ops = some st2 →
      st2.fp.file_pos ≤ st2.fp.size ∧ st2.fp.size = st.fp.size ∧
      st2.fp.base = st.fp.base := by
  induction ops with
  | nil =>
    intro st st2 h hr
    simp only [flash_run] at hr
    cases hr
    exact ⟨h, rfl, rfl⟩
  | cons op ops ih =>
    intro st st2 h hr
    simp only [flash_run] at hr
    cases hs : flash_step P st op with
    | none => rw [hs] at hr; cases hr
    | some st1 =>
      rw [hs] at hr
      obtain ⟨a1, a2, a3⟩ := step_cursor P st st1 op h hs
      obtain ⟨b1, b2, b3⟩ := ih st1 st2 a1 hr
      exact ⟨b1, b2.trans a2, b3.trans a3⟩

/-- The position assertion of read and write, for a 64-bit cursor and length: it holds
exactly when the range ends within the region, and then the sum does not wrap. -/
theorem pos_after_ok (p n size : Nat) (hp : p < W64) (hn : n < W64) (hsz : size < W64) :
    (p ≤ (p + n) % W64 ∧ (p + n) % W64 ≤ size) ↔ p + n ≤ size := by
  simp only [W64] at *
  constructor
  · intro h
    by_cases hw : p + n < 2 ^ 64
    · rw [Nat.mod_eq_of_lt hw] at h; exact h.2
    · have e : (p + n) % 2 ^ 64 = p + n - 2 ^ 64 := by omega
      rw [e] at h
      omega
  · intro h
    have hw : p + n < 2 ^ 64 := by omega
    rw [Nat.mod_eq_of_lt hw]
    exact ⟨by omega, h⟩

/-- C17: flash cursor invariant. In every state reached from a successful open by a
sequence of seek, read, write and size calls whose assertions hold, the cursor is at
most the size, and base and size are those of the opened region. In such a state, for
a region length and a request length that fit in 64 bits: the assertion of a read holds
exactly when `file_pos + length ≤ size` (so an addition that would wrap around 64 bits
is rejected), and then the read returns 0, advances the cursor by exactly `length` and
reports `length`; a write that returns 0 with its assertion holding advances the cursor
by exactly `length` and reports `length`, and no write whose addition would wrap does
so. -/
theorem flash_cursor_invariant (P : Nat) (cur : memmap_file_state_t)
    (block_spec : io_block_spec_t) (dev pb : Mem) (ops : List FlashOp) (st : FlashState)
    (hopen : (memmap_block_open cur block_spec).ret = 0)
    (hrun : flash_run P ⟨(memmap_block_open cur block_spec).fp, dev, pb⟩ ops = some st) :
    st.fp.file_pos ≤ st.fp.size ∧
    st.fp.size = block_spec.length ∧ st.fp.base = block_spec.offset ∧
    (∀ (buffer : Mem) (length : Nat), block_spec.length < W64 → length < W64 →
      (((memmap_block_read st.fp st.dev buffer length).asserts_ok = true
          ↔ st.fp.file_pos + length ≤ st.fp.size) ∧
        ((memmap_block_read st.fp st.dev buffer length).asserts_ok = true →
          (memmap_block_read st.fp st.dev buffer length).ret = 0 ∧
          (memmap_block_read st.fp st.dev buffer length).fp.file_pos
            = st.fp.file_pos + length ∧
          (memmap_block_read st.fp st.dev buffer length).length_read = some length))) ∧
    (∀ (buffer : Mem) (length : Nat) (prog_ok : Nat → Bool),
      block_spec.length < W64 → length < W64 →
      (memmap_block_write P prog_ok st.fp st.dev st.page_buf buffer length).ret = 0 →
      (((memmap_block_write P prog_ok st.fp st.dev st.page_buf buffer length).asserts_ok
            = true
          ↔ st.fp.file_pos + length ≤ st.fp.size) ∧
        ((memmap_block_write P prog_ok st.fp st.dev st.page_buf buffer length).asserts_ok
            = true →
          (memmap_block_write P prog_ok st.fp st.dev st.page_buf buffer length).fp.file_pos
            = st.fp.file_pos + length ∧
          (memmap_block_write P prog_ok st.fp st.dev st.page_buf buffer
            length).length_written = some length))) := by
  have hfree : cur.in_use = 0 := by
    by_contra c
    simp only [memmap_block_open] at hopen
    rw [if_neg c] at hopen
    exact absurd hopen (by decide : ¬ ((- ENOMEM : Int) = 0))
  have hfp : (memmap_block_open cur block_spec).fp
      = ⟨1, block_spec.offset, 0, block_spec.length⟩ := by
    simp only [memmap_block_open]
    rw [if_pos hfree]
  rw [hfp] at hrun
  obtain ⟨i1, i2, i3⟩ := run_cursor P ops _ st (Nat.zero_le _) hrun
  have i2b : st.fp.size = block_spec.length := i2
  have i3b : st.fp.base = block_spec.offset := i3
  refine ⟨i1, i2b, i3b, ?_, ?_⟩
  · intro buffer length hL hn
    have hsz : st.fp.size < W64 := by rw [i2b]; exact hL
    have hp : st.fp.file_pos < W64 := lt_of_le_of_lt i1 hsz
    have key := pos_after_ok st.fp.file_pos length st.fp.size hp hn hsz
    simp only [memmap_block_read]
    by_cases hc : st.fp.file_pos ≤ (st.fp.file_pos + length) % W64 ∧
        (st.fp.file_pos + length) % W64 ≤ st.fp.size
    · rw [if_pos hc]
      have hle := key.1 hc
      have e : (st.fp.file_pos + length) % W64 = st.fp.file_pos + length :=
        Nat.mod_eq_of_lt (lt_of_le_of_lt hle hsz)
      exact ⟨⟨fun _ => hle, fun _ => rfl⟩, fun _ => ⟨rfl, e, rfl⟩⟩
    · rw [if_neg hc]
      refine ⟨⟨fun c => ?_, fun c => absurd (key.2 c) hc⟩, fun c => ?_⟩
      · exact absurd c (by decide : ¬ (false = true))
      · exact absurd c (by decide : ¬ (false = true))
  · intro buffer length prog_ok hL hn hret
    have hsz : st.fp.size < W64 := by rw [i2b]; exact hL
    have hp : st.fp.file_pos < W64 := lt_of_le_of_lt i1 hsz
    have key := pos_after_ok st.fp.file_pos length st.fp.size hp hn hsz
    rcases write_outcome P prog_ok st.fp st.dev st.page_buf buffer length with
      ⟨h1, -⟩ | ⟨-, d2, p2, h2⟩
    · rw [h1] at hret
      exact absurd hret (by decide)
    · rw [h2]
      simp only [memmap_block_write_tail]
      by_cases hc : st.fp.file_pos ≤ (st.fp.file_pos + length) % W64 ∧
          (st.fp.file_pos + length) % W64 ≤ st.fp.size
      · rw [if_pos hc]
        have hle := key.1 hc
        have e : (st.fp.file_pos + length) % W64 = st.fp.file_pos + length :=
          Nat.mod_eq_of_lt (lt_of_le_of_lt hle hsz)
        exact ⟨⟨fun _ => hle, fun _ => rfl⟩, fun _ => ⟨e, rfl⟩⟩
      · rw [if_neg hc]
        refine ⟨⟨fun c => ?_, fun c => absurd (key.2 c) hc⟩, fun c => ?_⟩
        · exact absurd c (by decide : ¬ (false = true))
        · exact absurd c (by decide : ¬ (false = true))

/-- Witness of `flash_cursor_invariant`: after opening the region `[4096, 4096 + 2048)`,
the calls of `demo_ops` (page size 256) reach a state, and in it the cursor is within
the region. -/
theorem flash_cursor_invariant_witness :
    ∃ st, flash_run 256
        ⟨(memmap_block_open current_memmap_file_init ⟨4096, 2048⟩).fp, fill 0, fill 0⟩
        demo_ops = some st ∧
      st.fp.file_pos ≤ st.fp.size ∧ st.fp.size = 2048 ∧ st.fp.base = 4096 := by
  cases h : flash_run 256
      ⟨(memmap_block_open current_memmap_file_init ⟨4096, 2048⟩).fp, fill 0, fill 0⟩
      demo_ops with
  | none =>
    have hs : (flash_run 256
        ⟨(memmap_block_open current_memmap_file_init ⟨4096, 2048⟩).fp, fill 0, fill 0⟩
        demo_ops).isSome = true := by decide
    rw [h] at hs
    cases hs
  | some st =>
    have k := flash_cursor_invariant 256 current_memmap_file_init ⟨4096, 2048⟩ (fill 0)
      (fill 0) demo_ops st rfl h
    exact ⟨st, rfl, k.1, k.2.1, k.2.2.1⟩

/-- C19 (code defect): `memmap_block_read` checks the range before it copies, but
`memmap_block_write` checks it only after the pages have been programmed. With page
size 256, a write of 32 bytes at cursor 0 of a session on the region `[0, 16)` reads,
programs and flushes page 0, storing the caller bytes at the device bytes 16 to 31
beyond the region (byte 20 changes from 0 to 21), and only then fails its assertion;
the read of 32 bytes from the same session fails its assertion with the caller buffer
untouched. -/
theorem flash_write_programs_before_range_check :
    (memmap_block_write 256 all_ok tiny_fp (fill 0) (fill 0) ramp 32).asserts_ok = false ∧
    (memmap_block_write 256 all_ok tiny_fp (fill 0) (fill 0) ramp 32).trace
      = [FlashEv.flush 0 256, FlashEv.program 0 256 ProgSrc.scratch,
         FlashEv.page_read 0] ∧
    fill 0 20 = 0 ∧
    (memmap_block_write 256 all_ok tiny_fp (fill 0) (fill 0) ramp 32).dev 20 = 21 ∧
    (memmap_block_read tiny_fp (fill 7) (fill 0) 32).asserts_ok = false ∧
    (memmap_block_read tiny_fp (fill 7) (fill 0) 32).length_read = none ∧
    (memmap_block_read tiny_fp (fill 7) (fill 0) 32).buffer 20 = 0 := by
  refine ⟨?_, ?_, ?_, ?_, ?_, ?_, ?_⟩ <;> decide


/-! ### The page-program calls of a write -/

/-- The write in terms of its local variables after the first-page block. -/
theorem write_eq (P : Nat) (prog_ok : Nat → Bool) (fp : memmap_file_state_t)
    (dev pb buffer : Mem) (n : Nat) (hn : 0 < n) :
    memmap_block_write P prog_ok fp dev pb buffer n
      = if 0 < write_first_offset P fp then
          if prog_ok 0 = true then
            memmap_block_write_last P prog_ok fp buffer n (write_first_page1 P fp)
              (write_last_page P fp n) (write_last_offset P fp n)
              (write_buffer_offset P fp n) (write_page_count1 P fp n) 1
              (xspi_write dev ((fp.base + write_first_page P fp) % W64)
                (first_overlay P fp dev pb buffer n) 0 P)
              (first_overlay P fp dev pb buffer n)
              [FlashEv.flush ((fp.base + write_first_page P fp) % W64) P,
               FlashEv.program ((fp.base + write_first_page P fp) % W64) P ProgSrc.scratch,
               FlashEv.page_read ((fp.base + write_first_page P fp) % W64)]
          else
            ⟨- EIO, true, fp, dev, first_overlay P fp dev pb buffer n, none,
              [FlashEv.program ((fp.base + write_first_page P fp) % W64) P ProgSrc.scratch,
               FlashEv.page_read ((fp.base + write_first_page P fp) % W64)]⟩
        else
          memmap_block_write_last P prog_ok fp buffer n (write_first_page1 P fp)
            (write_last_page P fp n) (write_last_offset P fp n)
            (write_buffer_offset P fp n) (write_page_count1 P fp n) 0 dev pb [] := by
  simp only [memmap_block_write, write_first_offset, write_first_page1,
    write_buffer_offset, write_page_count1, write_page_count, write_first_page,
    write_last_page, write_last_offset, first_overlay]
  rw [if_pos hn]
  by_cases h : 0 < fp.file_pos % P
  · simp only [if_pos h]
  · simp only [if_neg h]

/-- The device accesses of the middle block. -/
theorem middle_trace (P : Nat) (prog_ok : Nat → Bool) (fp : memmap_file_state_t)
    (buffer : Mem) (n fpg bo pc calls : Nat) (dev pb : Mem) (tr : List FlashEv) :
    (memmap_block_write_middle P prog_ok fp buffer n fpg bo pc calls dev pb tr).trace
      = if 0 < pc then
          if prog_ok calls = true then
            FlashEv.flush ((fp.base + fpg) % W64) ((pc * P) % W32)
              :: FlashEv.program ((fp.base + fpg) % W64) ((pc * P) % W32)
                  (ProgSrc.caller bo) :: tr
          else
            FlashEv.program ((fp.base + fpg) % W64) ((pc * P) % W32)
              (ProgSrc.caller bo) :: tr
        else tr := by
  simp only [memmap_block_write_middle]
  split_ifs
  · rw [tail_trace]
  · rfl
  · rw [tail_trace]

/-- The device accesses of the last-page block and what follows. -/
theorem last_trace (P : Nat) (prog_ok : Nat → Bool) (fp : memmap_file_state_t)
    (buffer : Mem) (n fpg lpg lo bo pc calls : Nat) (dev pb : Mem) (tr : List FlashEv) :
    (memmap_block_write_last P prog_ok fp buffer n fpg lpg lo bo pc calls dev pb tr).trace
      = if 0 < pc ∧ 0 < lo then
          if prog_ok calls = true then
            (memmap_block_write_middle P prog_ok fp buffer n fpg bo
              ((pc + W32 - 1) % W32) (calls + 1) dev pb
              (FlashEv.flush ((fp.base + lpg) % W64) P
                :: FlashEv.program ((fp.base + lpg) % W64) P ProgSrc.scratch
                :: FlashEv.page_read ((fp.base + lpg) % W64) :: tr)).trace
          else
            FlashEv.program ((fp.base + lpg) % W64) P ProgSrc.scratch
              :: FlashEv.page_read ((fp.base + lpg) % W64) :: tr
        else
          (memmap_block_write_middle P prog_ok fp buffer n fpg bo pc calls dev pb
            tr).trace := by
  simp only [memmap_block_write_last]
  split_ifs
  · simp only [middle_trace]
  · rfl
  · rfl

theorem programs_flush (a l : Nat) (tr : List FlashEv) :
    programs (FlashEv.flush a l :: tr) = programs tr := rfl

theorem programs_program (a l : Nat) (s : ProgSrc) (tr : List FlashEv) :
    programs (FlashEv.program a l s :: tr) = programs tr + 1 := rfl

theorem programs_page_read (a : Nat) (tr : List FlashEv) :
    programs (FlashEv.page_read a :: tr) = programs tr := rfl

theorem direct_flush (a l : Nat) (tr : List FlashEv) :
    direct_programs (FlashEv.flush a l :: tr) = direct_programs tr := rfl

theorem direct_scratch (a l : Nat) (tr : List FlashEv) :
    direct_programs (FlashEv.program a l ProgSrc.scratch :: tr) = direct_programs tr := rfl

theorem direct_caller (a l b : Nat) (tr : List FlashEv) :
    direct_programs (FlashEv.program a l (ProgSrc.caller b) :: tr)
      = direct_programs tr + 1 := rfl

theorem direct_page_read (a : Nat) (tr : List FlashEv) :
    direct_programs (FlashEv.page_read a :: tr) = direct_programs tr := rfl

/-- The middle block makes at most one page-program call. -/
theorem middle_programs (P : Nat) (prog_ok : Nat → Bool) (fp : memmap_file_state_t)
    (buffer : Mem) (n fpg bo pc calls : Nat) (dev pb : Mem) (tr : List FlashEv) :
    programs
      (memmap_block_write_middle P prog_ok fp buffer n fpg bo pc calls dev pb tr).trace
      ≤ programs tr + 1 ∧
    direct_programs
      (memmap_block_write_middle P prog_ok fp buffer n fpg bo pc calls dev pb tr).trace
      ≤ direct_programs tr + 1 := by
  rw [middle_trace]
  split_ifs
  · rw [programs_flush, programs_program, direct_flush, direct_caller]
    exact ⟨by omega, by omega⟩
  · rw [programs_program, direct_caller]
    exact ⟨by omega, by omega⟩
  · exact ⟨by omega, by omega⟩

/-- The last-page block and what follows make at most two page-program calls, at most
one of them taken directly from the caller's buffer. -/
theorem last_programs (P : Nat) (prog_ok : Nat → Bool) (fp : memmap_file_state_t)
    (buffer : Mem) (n fpg lpg lo bo pc calls : Nat) (dev pb : Mem) (tr : List FlashEv) :
    programs
      (memmap_block_write_last P prog_ok fp buffer n fpg lpg lo bo pc calls dev pb
        tr).trace ≤ programs tr + 2 ∧
    direct_programs
      (memmap_block_write_last P prog_ok fp buffer n fpg lpg lo bo pc calls dev pb
        tr).trace ≤ direct_programs tr + 1 := by
  rw [last_trace]
  split_ifs
  · have h := middle_programs P prog_ok fp buffer n fpg bo ((pc + W32 - 1) % W32)
      (calls + 1) dev pb
      (FlashEv.flush ((fp.base + lpg) % W64) P
        :: FlashEv.program ((fp.base + lpg) % W64) P ProgSrc.scratch
        :: FlashEv.page_read ((fp.base + lpg) % W64) :: tr)
    rw [programs_flush, programs_program, programs_page_read, direct_flush,
      direct_scratch, direct_page_read] at h
    exact ⟨by omega, by omega⟩
  · rw [programs_program, programs_page_read, direct_scratch, direct_page_read]
    exact ⟨by omega, by omega⟩
  · have h := middle_programs P prog_ok fp buffer n fpg bo pc calls dev pb tr
    exact ⟨by omega, by omega⟩

/-- A write makes at most three page-program calls, at most one of them taken directly
from the caller's buffer. -/
theorem write_programs (P : Nat) (prog_ok : Nat → Bool) (fp : memmap_file_state_t)
    (dev pb buffer : Mem) (n : Nat) :
    programs (memmap_block_write P prog_ok fp dev pb buffer n).trace ≤ 3 ∧
    direct_programs (memmap_block_write P prog_ok fp dev pb buffer n).trace ≤ 1 := by
  by_cases hn : 0 < n
  · rw [write_eq P prog_ok fp dev pb buffer n hn]
    split_ifs
    · have h := last_programs P prog_ok fp buffer n (write_first_page1 P fp)
        (write_last_page P fp n) (write_last_offset P fp n)
        (write_buffer_offset P fp n) (write_page_count1 P fp n) 1
        (xspi_write dev ((fp.base + write_first_page P fp) % W64)
          (first_overlay P fp dev pb buffer n) 0 P)
        (first_overlay P fp dev pb buffer n)
        [FlashEv.flush ((fp.base + write_first_page P fp) % W64) P,
         FlashEv.program ((fp.base + write_first_page P fp) % W64) P ProgSrc.scratch,
         FlashEv.page_read ((fp.base + write_first_page P fp) % W64)]
      rw [programs_flush, programs_program, programs_page_read, direct_flush,
        direct_scratch, direct_page_read] at h
      have h0 : programs ([] : List FlashEv) = 0 := rfl
      have d0 : direct_programs ([] : List FlashEv) = 0 := rfl
      exact ⟨by omega, by omega⟩
    · rw [programs_program, programs_page_read, direct_scratch, direct_page_read]
      have h0 : programs ([] : List FlashEv) = 0 := rfl
      have d0 : direct_programs ([] : List FlashEv) = 0 := rfl
      exact ⟨by omega, by omega⟩
    · have h := last_programs P prog_ok fp buffer n (write_first_page1 P fp)
        (write_last_page P fp n) (write_last_offset P fp n)
        (write_buffer_offset P fp n) (write_page_count1 P fp n) 0 dev pb []
      have h0 : programs ([] : List FlashEv) = 0 := rfl
      have d0 : direct_programs ([] : List FlashEv) = 0 := rfl
      exact ⟨by omega, by omega⟩
  · simp only [memmap_block_write]
    rw [if_neg hn, tail_trace]
    have h0 : programs ([] : List FlashEv) = 0 := rfl
    have d0 : direct_programs ([] : List FlashEv) = 0 := rfl
    exact ⟨by omega, by omega⟩

/-- The start of a page is a whole number of pages. -/
theorem round_down_mod (v P : Nat) : round_down v P % P = 0 := by
  unfold round_down
  have h := Nat.div_add_mod v P
  have e : v - v % P = P * (v / P) := by omega
  rw [e]
  exact Nat.mul_mod_right _ _

/-- Two page starts that differ are at least a page apart. -/
theorem aligned_gap (P a b : Nat) (ha : a % P = 0) (hb : b % P = 0) (h : a < b) :
    a + P ≤ b := by
  obtain ⟨x, rfl⟩ := Nat.dvd_of_mod_eq_zero ha
  obtain ⟨y, rfl⟩ := Nat.dvd_of_mod_eq_zero hb
  have hxy : x < y := Nat.lt_of_mul_lt_mul_left h
  have h2 : P * (x + 1) ≤ P * y := Nat.mul_le_mul_left P hxy
  rw [Nat.mul_add, Nat.mul_one] at h2
  exact h2

/-- The local variables of a write of `1 ≤ n < 2 ^ 32` bytes whose range lies in the
64-bit address space, in terms of the first page `A`, the last page `B = A + K`, the
in-page offsets `fo` and `lo`, and the page number `k = K / P`: no counter wraps, and
the byte length `L` of the middle run is exact. -/
theorem write_layout (P : Nat) (fp : memmap_file_state_t) (n : Nat)
    (hP : 0 < P) (hn : 1 ≤ n) (hn32 : n < 2 ^ 32)
    (hnw : fp.file_pos + n < 2 ^ 64) :
    ∃ A fo B lo k K L : Nat,
      write_first_page P fp = A ∧ write_first_offset P fp = fo ∧
      write_last_page P fp n = B ∧ write_last_offset P fp n = lo ∧
      write_page_count P fp n = k + 1 ∧
      write_page_count1 P fp n = (if 0 < fo then k else k + 1) ∧
      write_page_count2 P fp n
        = (if 0 < fo then (if 0 < k ∧ 0 < lo then k - 1 else k)
           else (if 0 < lo then k else k + 1)) ∧
      (write_page_count2 P fp n * P) % W32 = L ∧
      write_page_count2 P fp n * P = L ∧
      L = (if 0 < fo then (if 0 < k ∧ 0 < lo then K - P else K)
           else (if 0 < lo then K else K + P)) ∧
      A + fo = fp.file_pos ∧ fo < P ∧ lo < P ∧ A % P = 0 ∧ B % P = 0 ∧ L % P = 0 ∧
      B = A + K ∧ (0 < lo → B + lo = fp.file_pos + n) ∧
      (lo = 0 → B + P = fp.file_pos + n) ∧
      (k = 0 → K = 0) ∧ (1 ≤ k → P ≤ K) ∧ k ≤ K := by
  obtain ⟨k, g1, g2, g3, g4, g5, g6, g7, g8, g9a, g9b, g9c, g10, g11⟩ :=
    write_geometry P fp.file_pos n hP hn
  have hlt : (fp.file_pos + n) % P < P := Nat.mod_lt _ hP
  have e1 : (fp.file_pos + n - 1) % W64 = fp.file_pos + n - 1 :=
    Nat.mod_eq_of_lt (by simp only [W64]; omega)
  have e2 : (fp.file_pos + n) % W64 = fp.file_pos + n :=
    Nat.mod_eq_of_lt (by simp only [W64]; omega)
  have e3 : (round_down (fp.file_pos + n - 1) P + W64 - round_down fp.file_pos P) % W64
      = round_down (fp.file_pos + n - 1) P - round_down fp.file_pos P := by
    simp only [W64]; omega
  have hk : k + 1 < W32 := by
    simp only [W32]; clear g7 g8 g9a g9b g9c g6; omega
  obtain ⟨x0, x1, x2, x3, x4, x5⟩ := pc_exact k P hk
  have hB : write_last_page P fp n = round_down (fp.file_pos + n - 1) P := by
    unfold write_last_page; rw [e1]
  have hlo : write_last_offset P fp n = (fp.file_pos + n) % P := by
    unfold write_last_offset; rw [e2]
  have hpc : write_page_count P fp n = k + 1 := by
    unfold write_page_count
    rw [hB]
    unfold write_first_page
    rw [e3, g2]
    exact x0
  have hpc1 : write_page_count1 P fp n = (if 0 < fp.file_pos % P then k else k + 1) := by
    unfold write_page_count1 write_first_offset
    rw [hpc]
    split_ifs
    · exact x1
    · rfl
  have hpc2 : write_page_count2 P fp n
      = (if 0 < fp.file_pos % P then
          (if 0 < k ∧ 0 < (fp.file_pos + n) % P then k - 1 else k)
         else (if 0 < (fp.file_pos + n) % P then k else k + 1)) := by
    unfold write_page_count2 write_last_taken
    rw [hpc1, hlo]
    by_cases h1 : 0 < fp.file_pos % P
    · rw [if_pos h1, if_pos h1]
      by_cases h2 : 0 < k ∧ 0 < (fp.file_pos + n) % P
      · rw [if_pos h2, if_pos h2]
        have := x5 h2.1
        omega
      · rw [if_neg h2, if_neg h2]
    · rw [if_neg h1, if_neg h1]
      by_cases h2 : 0 < (fp.file_pos + n) % P
      · rw [if_pos ⟨Nat.succ_pos k, h2⟩, if_pos h2]
        exact x1
      · rw [if_neg (fun c => h2 c.2), if_neg h2]
  have hKm : (k * P) % P = 0 := Nat.mul_mod_left k P
  have hAm := round_down_mod fp.file_pos P
  have hBm := round_down_mod (fp.file_pos + n - 1) P
  have hL : write_page_count2 P fp n * P
      = (if 0 < fp.file_pos % P then
          (if 0 < k ∧ 0 < (fp.file_pos + n) % P then k * P - P else k * P)
         else (if 0 < (fp.file_pos + n) % P then k * P else k * P + P)) := by
    rw [hpc2]
    by_cases h1 : 0 < fp.file_pos % P
    · rw [if_pos h1, if_pos h1]
      by_cases h2 : 0 < k ∧ 0 < (fp.file_pos + n) % P
      · rw [if_pos h2, if_pos h2, Nat.sub_mul, Nat.one_mul]
      · rw [if_neg h2, if_neg h2]
    · rw [if_neg h1, if_neg h1]
      by_cases h2 : 0 < (fp.file_pos + n) % P
      · rw [if_pos h2, if_pos h2]
      · rw [if_neg h2, if_neg h2, Nat.add_mul, Nat.one_mul]
  have hLm : (write_page_count2 P fp n * P) % P = 0 := Nat.mul_mod_left _ P
  have hfo : write_first_offset P fp = fp.file_pos % P := rfl
  have hA : write_first_page P fp = round_down fp.file_pos P := rfl
  have hLlt : write_page_count2 P fp n * P < W32 := by
    rw [hL]
    simp only [W32]
    generalize k * P = K at *
    generalize round_down fp.file_pos P = A at *
    generalize round_down (fp.file_pos + n - 1) P = B at *
    generalize fp.file_pos % P = fo at *
    generalize (fp.file_pos + n) % P = lo at *
    clear hpc hpc1 hpc2 x0 x1 x2 x3 x4 x5 e1 e2 e3 hB hlo hKm hAm hBm hLm hA hfo
    split_ifs <;> omega
  refine ⟨round_down fp.file_pos P, fp.file_pos % P, round_down (fp.file_pos + n - 1) P,
    (fp.file_pos + n) % P, k, k * P, write_page_count2 P fp n * P,
    hA, hfo, hB, hlo, hpc, hpc1, hpc2, Nat.mod_eq_of_lt hLlt, rfl, hL, g3, g4, hlt, hAm,
    hBm, hLm, g1, g7, g8, g9a, g9b, g10⟩

/-- Every device access of the middle block is one of those of a successful run. -/
theorem middle_trace_sub (P : Nat) (prog_ok : Nat → Bool) (fp : memmap_file_state_t)
    (buffer : Mem) (n fpg bo pc calls : Nat) (dev pb : Mem) (tr : List FlashEv) :
    ∀ e ∈ (memmap_block_write_middle P prog_ok fp buffer n fpg bo pc calls dev pb
        tr).trace, e ∈ middle_accesses P fp fpg bo pc ++ tr := by
  intro e he
  rw [middle_trace] at he
  unfold middle_accesses
  split_ifs at he ⊢
  · exact he
  · simp only [List.mem_cons, List.cons_append, List.nil_append] at he ⊢
    tauto
  · simpa using he

/-- The device accesses of the middle block when its page-program call succeeds. -/
theorem middle_trace_ok (P : Nat) (fp : memmap_file_state_t)
    (buffer : Mem) (n fpg bo pc calls : Nat) (dev pb : Mem) (tr : List FlashEv) :
    (memmap_block_write_middle P all_ok fp buffer n fpg bo pc calls dev pb tr).trace
      = middle_accesses P fp fpg bo pc ++ tr := by
  rw [middle_trace]
  unfold middle_accesses
  split_ifs with h1 h2
  · rfl
  · exact absurd rfl h2
  · rfl

/-- Every device access of the last-page block and what follows is one of those of a
successful run. -/
theorem last_trace_sub (P : Nat) (prog_ok : Nat → Bool) (fp : memmap_file_state_t)
    (buffer : Mem) (n fpg lpg lo bo pc calls : Nat) (dev pb : Mem) (tr : List FlashEv) :
    ∀ e ∈ (memmap_block_write_last P prog_ok fp buffer n fpg lpg lo bo pc calls dev pb
        tr).trace,
      e ∈ middle_accesses P fp fpg bo
            (if 0 < pc ∧ 0 < lo then (pc + W32 - 1) % W32 else pc)
          ++ ((if 0 < pc ∧ 0 < lo then page_accesses P fp lpg else []) ++ tr) := by
  intro e he
  rw [last_trace] at he
  by_cases h1 : 0 < pc ∧ 0 < lo
  · rw [if_pos h1] at he
    rw [if_pos h1, if_pos h1]
    by_cases h2 : prog_ok calls = true
    · rw [if_pos h2] at he
      exact middle_trace_sub P prog_ok fp buffer n fpg bo _ _ dev pb _ e he
    · rw [if_neg h2] at he
      refine List.mem_append_right _ ?_
      unfold page_accesses
      simp only [List.mem_cons, List.cons_append, List.nil_append] at he ⊢
      tauto
  · rw [if_neg h1] at he
    rw [if_neg h1, if_neg h1]
    exact middle_trace_sub P prog_ok fp buffer n fpg bo _ _ dev pb _ e he

/-- The device accesses of the last-page block and what follows when the page-program
calls succeed. -/
theorem last_trace_ok (P : Nat) (fp : memmap_file_state_t)
    (buffer : Mem) (n fpg lpg lo bo pc calls : Nat) (dev pb : Mem) (tr : List FlashEv) :
    (memmap_block_write_last P all_ok fp buffer n fpg lpg lo bo pc calls dev pb tr).trace
      = middle_accesses P fp fpg bo
            (if 0 < pc ∧ 0 < lo then (pc + W32 - 1) % W32 else pc)
          ++ ((if 0 < pc ∧ 0 < lo then page_accesses P fp lpg else []) ++ tr) := by
  rw [last_trace]
  by_cases h1 : 0 < pc ∧ 0 < lo
  · have h2 : all_ok calls = true := rfl
    rw [if_pos h1, if_pos h1, if_pos h1, if_pos h2, middle_trace_ok]
    rfl
  · rw [if_neg h1, if_neg h1, if_neg h1, middle_trace_ok]
    rfl

/-- Every device access of a write is one of those of a successful write. -/
theorem write_trace_sub (P : Nat) (prog_ok : Nat → Bool) (fp : memmap_file_state_t)
    (dev pb buffer : Mem) (n : Nat) (hn : 0 < n) :
    ∀ e ∈ (memmap_block_write P prog_ok fp dev pb buffer n).trace,
      e ∈ write_accesses P fp n := by
  intro e he
  rw [write_eq P prog_ok fp dev pb buffer n hn] at he
  unfold write_accesses write_page_count2 write_last_taken
  by_cases h1 : 0 < write_first_offset P fp
  · rw [if_pos h1] at he
    rw [if_pos h1]
    by_cases h2 : prog_ok 0 = true
    · rw [if_pos h2] at he
      exact last_trace_sub P prog_ok fp buffer n _ _ _ _ _ _ _ _ _ e he
    · rw [if_neg h2] at he
      refine List.mem_append_right _ (List.mem_append_right _ ?_)
      unfold page_accesses
      simp only [List.mem_cons] at he ⊢
      tauto
  · rw [if_neg h1] at he
    rw [if_neg h1]
    exact last_trace_sub P prog_ok fp buffer n _ _ _ _ _ _ dev pb [] e he

/-- The device accesses of a write whose page-program calls all succeed. -/
theorem write_trace_ok (P : Nat) (fp : memmap_file_state_t)
    (dev pb buffer : Mem) (n : Nat) (hn : 0 < n) :
    (memmap_block_write P all_ok fp dev pb buffer n).trace = write_accesses P fp n := by
  rw [write_eq P all_ok fp dev pb buffer n hn]
  unfold write_accesses write_page_count2 write_last_taken
  by_cases h1 : 0 < write_first_offset P fp
  · have h2 : all_ok 0 = true := rfl
    rw [if_pos h1, if_pos h2, if_pos h1, last_trace_ok]
    rfl
  · rw [if_neg h1, if_neg h1, last_trace_ok]


/-- Membership in three optional parts. -/
theorem mem_three_parts (c1 c2 c3 : Prop) [Decidable c1] [Decidable c2] [Decidable c3]
    (l1 l2 l3 : List FlashEv) (e : FlashEv) :
    e ∈ (if c1 then l1 else []) ++ ((if c2 then l2 else []) ++ (if c3 then l3 else []))
      ↔ (c1 ∧ e ∈ l1) ∨ (c2 ∧ e ∈ l2) ∨ (c3 ∧ e ∈ l3) := by
  by_cases h1 : c1 <;> by_cases h2 : c2 <;> by_cases h3 : c3 <;>
    simp only [h1, h2, h3, if_true, if_false, List.mem_append, List.not_mem_nil,
      true_and, false_and, or_false, false_or]

/-- The device accesses of a successful write, one by one. -/
theorem write_accesses_mem (P : Nat) (fp : memmap_file_state_t) (n : Nat) (e : FlashEv) :
    e ∈ write_accesses P fp n ↔
      (0 < write_page_count2 P fp n ∧
        (e = FlashEv.flush ((fp.base + write_first_page1 P fp) % W64)
              ((write_page_count2 P fp n * P) % W32) ∨
         e = FlashEv.program ((fp.base + write_first_page1 P fp) % W64)
              ((write_page_count2 P fp n * P) % W32)
              (ProgSrc.caller (write_buffer_offset P fp n)))) ∨
      (write_last_taken P fp n ∧
        (e = FlashEv.flush ((fp.base + write_last_page P fp n) % W64) P ∨
         e = FlashEv.program ((fp.base + write_last_page P fp n) % W64) P
              ProgSrc.scratch ∨
         e = FlashEv.page_read ((fp.base + write_last_page P fp n) % W64))) ∨
      (0 < write_first_offset P fp ∧
        (e = FlashEv.flush ((fp.base + write_first_page P fp) % W64) P ∨
         e = FlashEv.program ((fp.base + write_first_page P fp) % W64) P
              ProgSrc.scratch ∨
         e = FlashEv.page_read ((fp.base + write_first_page P fp) % W64))) := by
  unfold write_accesses middle_accesses page_accesses
  generalize (fp.base + write_first_page1 P fp) % W64 = M
  generalize (write_page_count2 P fp n * P) % W32 = L
  generalize (fp.base + write_last_page P fp n) % W64 = Bd
  generalize (fp.base + write_first_page P fp) % W64 = Ad
  rw [mem_three_parts]
  simp only [List.mem_cons, List.mem_nil_iff, or_false]

/-- Under the bounds of `write_layout`, with the written range inside the 64-bit address
space of the device: the addresses of the page-program calls do not wrap. -/
theorem write_addrs (P : Nat) (fp : memmap_file_state_t) (n : Nat)
    (hP : 0 < P) (hn : 1 ≤ n) (hn32 : n < 2 ^ 32)
    (hnw : fp.file_pos + n < 2 ^ 64) (haddr : fp.base + fp.file_pos + n ≤ 2 ^ 64) :
    (fp.base + write_first_page P fp) % W64 = fp.base + write_first_page P fp ∧
    (fp.base + write_last_page P fp n) % W64 = fp.base + write_last_page P fp n ∧
    (0 < write_page_count2 P fp n →
      (fp.base + write_first_page1 P fp) % W64
        = fp.base + write_first_page P fp
            + (if 0 < write_first_offset P fp then P else 0)) := by
  obtain ⟨A, fo, B, lo, k, K, L, hA, hfo, hB, hlo, hpc, hpc1, hpc2, hL1, hL2, hL,
    a1, a2, a3, a4, a5, a6, a7, a8, a9, a10, a11, a12⟩ :=
    write_layout P fp n hP hn hn32 hnw
  have hpos : 0 < write_page_count2 P fp n → 0 < L := by
    intro h
    rw [← hL2]
    exact Nat.mul_pos h hP
  unfold write_first_page1
  rw [hA, hB, hfo]
  generalize write_page_count2 P fp n = pc2 at *
  generalize fp.file_pos = p at *
  generalize fp.base = base at *
  clear hA hfo hB hlo hpc hpc1 hpc2 hL1 hL2 a4 a5 a6
  simp only [W64]
  refine ⟨Nat.mod_eq_of_lt (by omega), Nat.mod_eq_of_lt (by omega), ?_⟩
  intro h
  have hLp := hpos h
  by_cases h1 : 0 < fo
  · rw [if_pos h1, if_pos h1] at *
    have hk : 1 ≤ k := by
      by_contra c
      have := a10 (by omega)
      split_ifs at hL <;> omega
    have := a11 hk
    have e : (A + P) % 2 ^ 64 = A + P := Nat.mod_eq_of_lt (by omega)
    have e2 : (base + (A + P)) % 2 ^ 64 = base + (A + P) := Nat.mod_eq_of_lt (by omega)
    rw [e, e2]
    omega
  · rw [if_neg h1, if_neg h1] at *
    exact Nat.mod_eq_of_lt (by omega)

/-- Under the same bounds every page-program call of a successful write is aligned. -/
theorem write_accesses_aligned (P : Nat) (fp : memmap_file_state_t) (n : Nat)
    (hP : 0 < P) (hn : 1 ≤ n) (hn32 : n < 2 ^ 32)
    (hnw : fp.file_pos + n < 2 ^ 64) (haddr : fp.base + fp.file_pos + n ≤ 2 ^ 64) :
    ∀ e ∈ write_accesses P fp n, aligned_program P fp.base e := by
  obtain ⟨A, fo, B, lo, k, K, L, hA, hfo, hB, hlo, hpc, hpc1, hpc2, hL1, hL2, hL,
    a1, a2, a3, a4, a5, a6, a7, a8, a9, a10, a11, a12⟩ :=
    write_layout P fp n hP hn hn32 hnw
  obtain ⟨w1, w2, w3⟩ := write_addrs P fp n hP hn hn32 hnw haddr
  intro e he
  rw [write_accesses_mem] at he
  rcases he with ⟨h, he | he⟩ | ⟨-, he | he | he⟩ | ⟨-, he | he | he⟩
  · rw [he]; exact trivial
  · rw [he, w3 h, hL1]
    have hLp : 0 < L := by
      rw [← hL2]
      exact Nat.mul_pos h hP
    refine ⟨by omega, ?_, hLp, a6⟩
    rw [hA, hfo]
    have e2 : fp.base + A + (if 0 < fo then P else 0) - fp.base
        = A + (if 0 < fo then P else 0) := by omega
    rw [e2]
    split_ifs
    · rw [Nat.add_mod_right]; exact a4
    · exact a4
  · rw [he]; exact trivial
  · rw [he, w2, hB]
    refine ⟨by omega, ?_, hP, Nat.mod_self P⟩
    rw [Nat.add_sub_cancel_left]
    exact a5
  · rw [he]; exact trivial
  · rw [he]; exact trivial
  · rw [he, w1, hA]
    refine ⟨by omega, ?_, hP, Nat.mod_self P⟩
    rw [Nat.add_sub_cancel_left]
    exact a4
  · rw [he]; exact trivial

/-- Under the same bounds, a page that the write covers completely lies in the run
programmed by the middle block from the caller's buffer at the matching offset, and is
not one of the pages read into the scratch page. -/
theorem write_covers (P : Nat) (fp : memmap_file_state_t) (n : Nat)
    (hP : 0 < P) (hn : 1 ≤ n) (hn32 : n < 2 ^ 32)
    (hnw : fp.file_pos + n < 2 ^ 64) (haddr : fp.base + fp.file_pos + n ≤ 2 ^ 64)
    (q : Nat) (hq : q % P = 0) (hq1 : fp.file_pos ≤ q) (hq2 : q + P ≤ fp.file_pos + n) :
    0 < write_page_count2 P fp n ∧
    write_buffer_offset P fp n
      = (fp.base + write_first_page1 P fp) % W64 - (fp.base + fp.file_pos) ∧
    fp.base + fp.file_pos ≤ (fp.base + write_first_page1 P fp) % W64 ∧
    (fp.base + write_first_page1 P fp) % W64 ≤ fp.base + q ∧
    fp.base + q + P
      ≤ (fp.base + write_first_page1 P fp) % W64 + (write_page_count2 P fp n * P) % W32 ∧
    (write_last_taken P fp n → fp.base + q ≠ (fp.base + write_last_page P fp n) % W64) ∧
    (0 < write_first_offset P fp →
      fp.base + q ≠ (fp.base + write_first_page P fp) % W64) := by
  obtain ⟨A, fo, B, lo, k, K, L, hA, hfo, hB, hlo, hpc, hpc1, hpc2, hL1, hL2, hL,
    a1, a2, a3, a4, a5, a6, a7, a8, a9, a10, a11, a12⟩ :=
    write_layout P fp n hP hn hn32 hnw
  obtain ⟨w1, w2, w3⟩ := write_addrs P fp n hP hn hn32 hnw haddr
  have htk : write_last_taken P fp n ↔ (0 < (if 0 < fo then k else k + 1) ∧ 0 < lo) := by
    show (0 < write_page_count1 P fp n ∧ 0 < write_last_offset P fp n) ↔ _
    rw [hpc1, hlo]
  have hbo : write_buffer_offset P fp n
      = (if 0 < fo then (if n < P - fo then n else P - fo) else 0) := by
    unfold write_buffer_offset
    rw [hfo, hA]
    have e : fp.file_pos - A = fo := by omega
    rw [e]
  -- the page starts A, B and q are whole numbers of pages
  have gA : A < q → A + P ≤ q := aligned_gap P A q a4 hq
  have gB : q < B → q + P ≤ B := aligned_gap P q B hq a5
  have hLP : P ≤ L := by
    rw [hL]
    generalize fp.file_pos = p at *
    clear hA hfo hB hlo hpc hpc1 hpc2 hL1 hL2 hL w1 w2 w3 htk hbo a4 a5 a6
    by_cases h1 : 0 < fo
    · rw [if_pos h1]
      by_cases h2 : 0 < k ∧ 0 < lo
      · rw [if_pos h2]
        have := a8 h2.2
        have := a11 h2.1
        omega
      · rw [if_neg h2]
        by_cases h3 : 0 < k
        · exact a11 h3
        · have := a10 (by omega)
          omega
    · rw [if_neg h1]
      by_cases h2 : 0 < lo
      · rw [if_pos h2]
        have := a8 h2
        omega
      · rw [if_neg h2]
        omega
  have hpc2pos : 0 < write_page_count2 P fp n := by
    by_contra c
    have z : write_page_count2 P fp n = 0 := by omega
    rw [z, Nat.zero_mul] at hL2
    omega
  rw [w3 hpc2pos, hL1, w1, w2, hbo, htk, hA, hB, hfo]
  refine ⟨hpc2pos, ?_, ?_, ?_, ?_, ?_, ?_⟩
  all_goals
    generalize fp.file_pos = p at *
    generalize fp.base = base at *
    clear hA hfo hB hlo hpc hpc1 hpc2 hL1 hL2 w1 w2 w3 htk hbo a4 a5 a6 hpc2pos
  · by_cases h1 : 0 < fo
    · rw [if_pos h1, if_pos h1]
      have := gA (by omega)
      rw [if_neg (by omega)]
      omega
    · rw [if_neg h1, if_neg h1]
      omega
  · split_ifs <;> omega
  · by_cases h1 : 0 < fo
    · rw [if_pos h1]
      have := gA (by omega)
      omega
    · rw [if_neg h1]
      omega
  · rw [hL]
    by_cases h1 : 0 < fo
    · rw [if_pos h1, if_pos h1]
      by_cases h2 : 0 < k ∧ 0 < lo
      · rw [if_pos h2]
        have := a8 h2.2
        have := a11 h2.1
        have := gB (by omega)
        omega
      · rw [if_neg h2]
        by_cases h3 : 0 < k
        · have := a11 h3
          have : lo = 0 := by omega
          have := a9 this
          omega
        · have := a10 (by omega)
          have := gA (by omega)
          by_cases h4 : 0 < lo
          · have := a8 h4
            omega
          · have := a9 (by omega)
            omega
    · rw [if_neg h1, if_neg h1]
      by_cases h2 : 0 < lo
      · rw [if_pos h2]
        have := a8 h2
        have := gB (by omega)
        omega
      · rw [if_neg h2]
        have := a9 (by omega)
        omega
  · rintro ⟨-, h2⟩
    have := a8 h2
    omega
  · intro h1
    omega

/-- C29 (as amended): page-aligned programming. For a write of `n` bytes at cursor `p`
with `1 ≤ n < 2 ^ 32` whose range lies in the 64-bit address space: whatever the
outcome of the page-program calls, every page-program call issued by
`memmap_block_write` targets an address at a whole number of pages from the session base
and has a length that is a positive whole number of pages; at most three program calls
are issued, at most one of them taken directly from the caller's buffer; and when the
program calls succeed, every page that the write covers completely (a first page that
starts page-aligned and a last page that ends page-aligned included) lies in the run of
the single call taken directly from the caller's buffer, at the matching buffer offset,
and the device page is not read before. -/
theorem flash_write_page_aligned (P : Nat) (prog_ok : Nat → Bool)
    (fp : memmap_file_state_t) (dev pb buffer : Mem) (n : Nat)
    (hP : 0 < P) (hn : 1 ≤ n) (hn32 : n < 2 ^ 32)
    (hnw : fp.file_pos + n < 2 ^ 64) (haddr : fp.base + fp.file_pos + n ≤ 2 ^ 64) :
    (∀ e ∈ (memmap_block_write P prog_ok fp dev pb buffer n).trace,
      aligned_program P fp.base e) ∧
    programs (memmap_block_write P prog_ok fp dev pb buffer n).trace ≤ 3 ∧
    direct_programs (memmap_block_write P prog_ok fp dev pb buffer n).trace ≤ 1 ∧
    (∀ q, q % P = 0 → fp.file_pos ≤ q → q + P ≤ fp.file_pos + n →
      ∃ addr len,
        FlashEv.program addr len (ProgSrc.caller (addr - (fp.base + fp.file_pos)))
          ∈ (memmap_block_write P all_ok fp dev pb buffer n).trace ∧
        fp.base + fp.file_pos ≤ addr ∧ addr ≤ fp.base + q ∧
        fp.base + q + P ≤ addr + len ∧
        FlashEv.page_read (fp.base + q)
          ∉ (memmap_block_write P all_ok fp dev pb buffer n).trace) := by
  refine ⟨?_, (write_programs P prog_ok fp dev pb buffer n).1,
    (write_programs P prog_ok fp dev pb buffer n).2, ?_⟩
  · intro e he
    exact write_accesses_aligned P fp n hP hn hn32 hnw haddr e
      (write_trace_sub P prog_ok fp dev pb buffer n hn e he)
  · intro q hq hq1 hq2
    obtain ⟨c1, c2, c3, c4, c5, c6, c7⟩ :=
      write_covers P fp n hP hn hn32 hnw haddr q hq hq1 hq2
    rw [write_trace_ok P fp dev pb buffer n hn]
    refine ⟨(fp.base + write_first_page1 P fp) % W64,
      (write_page_count2 P fp n * P) % W32, ?_, c3, c4, c5, ?_⟩
    · rw [write_accesses_mem, ← c2]
      exact Or.inl ⟨c1, Or.inr rfl⟩
    · rw [write_accesses_mem]
      rintro (⟨-, h | h⟩ | ⟨ht, h | h | h⟩ | ⟨hf, h | h | h⟩)
      · exact FlashEv.noConfusion h
      · exact FlashEv.noConfusion h
      · exact FlashEv.noConfusion h
      · exact FlashEv.noConfusion h
      · exact c6 ht (FlashEv.page_read.inj h)
      · exact FlashEv.noConfusion h
      · exact FlashEv.noConfusion h
      · exact c7 hf (FlashEv.page_read.inj h)

/-- Witness of `flash_write_page_aligned`: 700 bytes written at cursor 100 of a region
at device offset 4096, page size 256: the pages at 256 and 512 are covered completely
and programmed by one call from the caller's buffer at offset 156. -/
theorem flash_write_page_aligned_witness :
    programs (memmap_block_write 256 all_ok small_fp (fill 255) (fill 0) ramp 700).trace
      ≤ 3 ∧
    (∀ e ∈ (memmap_block_write 256 all_ok small_fp (fill 255) (fill 0) ramp 700).trace,
      aligned_program 256 small_fp.base e) ∧
    ∃ addr len,
      FlashEv.program addr len (ProgSrc.caller (addr - (small_fp.base + small_fp.file_pos)))
        ∈ (memmap_block_write 256 all_ok small_fp (fill 255) (fill 0) ramp 700).trace ∧
      small_fp.base + small_fp.file_pos ≤ addr ∧ addr ≤ small_fp.base + 512 ∧
      small_fp.base + 512 + 256 ≤ addr + len ∧
      FlashEv.page_read (small_fp.base + 512)
        ∉ (memmap_block_write 256 all_ok small_fp (fill 255) (fill 0) ramp 700).trace :=
  have h := flash_write_page_aligned 256 all_ok small_fp (fill 255) (fill 0) ramp 700
    (by decide) (by decide) (by decide) (by decide) (by decide)
  ⟨h.2.1, h.1, h.2.2.2 512 (by decide) (by decide) (by decide)⟩

/-- C29 (as stated) fails: with page size 256, a write of `2 ^ 40 + 256` bytes at
cursor 0 covers `2 ^ 32 + 1` pages completely, but the 32-bit page counter wraps to 1:
the only page-program call issued programs the single page at 0, and the covered page at
256 lies in no page-program call. -/
theorem flash_write_misses_covered_pages :
    (256 % 256 = 0 ∧ huge_fp.file_pos ≤ 256 ∧
      256 + 256 ≤ huge_fp.file_pos + (2 ^ 40 + 256)) ∧
    (memmap_block_write 256 all_ok huge_fp (fill 0) (fill 0) (fill 1)
        (2 ^ 40 + 256)).trace
      = [FlashEv.flush 0 256, FlashEv.program 0 256 (ProgSrc.caller 0)] ∧
    ∀ addr len src,
      FlashEv.program addr len src
        ∈ (memmap_block_write 256 all_ok huge_fp (fill 0) (fill 0) (fill 1)
            (2 ^ 40 + 256)).trace →
      ¬ (addr ≤ huge_fp.base + 256 ∧ huge_fp.base + 256 + 256 ≤ addr + len) := by
  have ht : (memmap_block_write 256 all_ok huge_fp (fill 0) (fill 0) (fill 1)
      (2 ^ 40 + 256)).trace
        = [FlashEv.flush 0 256, FlashEv.program 0 256 (ProgSrc.caller 0)] := by decide
  refine ⟨by decide, ht, ?_⟩
  intro addr len src hm
  rw [ht] at hm
  simp only [List.mem_cons, List.mem_nil_iff, or_false] at hm
  rcases hm with h | h
  · exact FlashEv.noConfusion h
  · obtain ⟨h1, h2, -⟩ := FlashEv.program.inj h
    rw [h1, h2]
    decide

/-! ### The scratch page and the caller's buffer -/

theorem tail_page_buf (fp : memmap_file_state_t) (dev pb : Mem) (n : Nat)
    (tr : List FlashEv) : (memmap_block_write_tail fp dev pb n tr).page_buf = pb := by
  simp only [memmap_block_write_tail]
  split_ifs <;> rfl

/-- The middle block does not touch the scratch page. -/
theorem middle_page_buf (P : Nat) (prog_ok : Nat → Bool) (fp : memmap_file_state_t)
    (buffer : Mem) (n fpg bo pc calls : Nat) (dev pb : Mem) (tr : List FlashEv) :
    (memmap_block_write_middle P prog_ok fp buffer n fpg bo pc calls dev pb tr).page_buf
      = pb := by
  simp only [memmap_block_write_middle]
  split_ifs
  · rw [tail_page_buf]
  · rfl
  · rw [tail_page_buf]

/-- The scratch page after the last-page block and what follows. -/
theorem last_page_buf (P : Nat) (prog_ok : Nat → Bool) (fp : memmap_file_state_t)
    (buffer : Mem) (n fpg lpg lo bo pc calls : Nat) (dev pb : Mem) (tr : List FlashEv) :
    (memmap_block_write_last P prog_ok fp buffer n fpg lpg lo bo pc calls dev pb
        tr).page_buf
      = if 0 < pc ∧ 0 < lo then
          memcpy (memcpy pb 0 dev ((fp.base + lpg) % W64) P) 0 buffer
            ((n + W64 - lo) % W64) lo
        else pb := by
  simp only [memmap_block_write_last]
  split_ifs
  · rw [middle_page_buf]
  · rfl
  · rw [middle_page_buf]

/-- The scratch page after a write: the result of the last overlay made. -/
theorem write_page_buf (P : Nat) (prog_ok : Nat → Bool) (fp : memmap_file_state_t)
    (dev pb buffer : Mem) (n : Nat) (hn : 0 < n) :
    (memmap_block_write P prog_ok fp dev pb buffer n).page_buf
      = if 0 < write_first_offset P fp then
          if prog_ok 0 = true ∧ write_last_taken P fp n then
            last_overlay P fp
              (xspi_write dev ((fp.base + write_first_page P fp) % W64)
                (first_overlay P fp dev pb buffer n) 0 P)
              (first_overlay P fp dev pb buffer n) buffer n
          else first_overlay P fp dev pb buffer n
        else
          if write_last_taken P fp n then last_overlay P fp dev pb buffer n else pb := by
  rw [write_eq P prog_ok fp dev pb buffer n hn]
  by_cases h1 : 0 < write_first_offset P fp
  · rw [if_pos h1, if_pos h1]
    by_cases h2 : prog_ok 0 = true
    · rw [if_pos h2, last_page_buf]
      by_cases h3 : write_last_taken P fp n
      · rw [if_pos h3, if_pos ⟨h2, h3⟩]
        rfl
      · rw [if_neg h3, if_neg (fun c => h3 c.2)]
    · rw [if_neg h2, if_neg (fun c => h2 c.1)]
  · rw [if_neg h1, if_neg h1, last_page_buf]
    by_cases h3 : write_last_taken P fp n
    · rw [if_pos h3, if_pos h3]
      rfl
    · rw [if_neg h3, if_neg h3]

/-- C30 (as amended): bounds of the scratch page and of the caller's buffer in
`memmap_block_write`, for a write of `n` bytes at cursor `p` with `1 ≤ n < 2 ^ 32` and
`p + n < 2 ^ 64` (page size `P`). The first-page overlay copies `min n (P - p % P)`
bytes of the buffer from offset 0 into the scratch page from index `p % P` on, and
stays inside the page and the buffer. The last-page overlay is taken exactly when the
write ends mid-page in a page not already handled; it copies `(p + n) % P` bytes from
the buffer offset `n - (p + n) % P`, which does not underflow, into the scratch page
from index 0 on, inside the page and the buffer. The page counter is at least 1 when it
is set and at least 1 at each decrement. The run programmed directly from the buffer
lies inside the buffer and its byte length does not wrap. The scratch page after the
write is the result of these overlays. -/
theorem flash_write_buffer_bounds (P : Nat) (prog_ok : Nat → Bool)
    (fp : memmap_file_state_t) (dev pb buffer : Mem) (n : Nat)
    (hP : 0 < P) (hn : 1 ≤ n) (hn32 : n < 2 ^ 32) (hnw : fp.file_pos + n < 2 ^ 64) :
    (0 < write_first_offset P fp →
      write_first_offset P fp = fp.file_pos % P ∧
      write_buffer_offset P fp n = min n (P - fp.file_pos % P) ∧
      write_first_offset P fp + write_buffer_offset P fp n ≤ P ∧
      write_buffer_offset P fp n ≤ n ∧
      write_page_count1 P fp n + 1 = write_page_count P fp n) ∧
    (write_last_taken P fp n ↔
      (0 < (fp.file_pos + n) % P ∧
        (fp.file_pos % P = 0 ∨ write_first_page P fp ≠ write_last_page P fp n))) ∧
    (write_last_taken P fp n →
      write_last_offset P fp n = (fp.file_pos + n) % P ∧
      write_last_offset P fp n ≤ n ∧
      write_last_offset P fp n < P ∧
      write_last_src P fp n = n - write_last_offset P fp n ∧
      write_last_src P fp n + write_last_offset P fp n ≤ n ∧
      write_page_count2 P fp n + 1 = write_page_count1 P fp n) ∧
    1 ≤ write_page_count P fp n ∧
    (0 < write_page_count2 P fp n →
      write_buffer_offset P fp n + write_page_count2 P fp n * P ≤ n ∧
      (write_page_count2 P fp n * P) % W32 = write_page_count2 P fp n * P) ∧
    (memmap_block_write P prog_ok fp dev pb buffer n).page_buf
      = (if 0 < write_first_offset P fp then
          if prog_ok 0 = true ∧ write_last_taken P fp n then
            last_overlay P fp
              (xspi_write dev ((fp.base + write_first_page P fp) % W64)
                (first_overlay P fp dev pb buffer n) 0 P)
              (first_overlay P fp dev pb buffer n) buffer n
          else first_overlay P fp dev pb buffer n
        else
          if write_last_taken P fp n then last_overlay P fp dev pb buffer n else pb) := by
  obtain ⟨A, fo, B, lo, k, K, L, hA, hfo, hB, hlo, hpc, hpc1, hpc2, hL1, hL2, hL,
    a1, a2, a3, a4, a5, a6, a7, a8, a9, a10, a11, a12⟩ :=
    write_layout P fp n hP hn hn32 hnw
  have e2 : (fp.file_pos + n) % W64 = fp.file_pos + n :=
    Nat.mod_eq_of_lt (by simp only [W64]; omega)
  have hfo2 : fp.file_pos % P = fo := hfo
  have hlo2 : (fp.file_pos + n) % P = lo := by
    rw [← hlo]
    unfold write_last_offset
    rw [e2]
  have htk : write_last_taken P fp n ↔ (0 < (if 0 < fo then k else k + 1) ∧ 0 < lo) := by
    show (0 < write_page_count1 P fp n ∧ 0 < write_last_offset P fp n) ↔ _
    rw [hpc1, hlo]
  have hbo : write_buffer_offset P fp n
      = (if 0 < fo then (if n < P - fo then n else P - fo) else 0) := by
    unfold write_buffer_offset
    rw [hfo, hA]
    have e : fp.file_pos - A = fo := by omega
    rw [e]
  have hsrc : write_last_src P fp n = (n + 2 ^ 64 - lo) % 2 ^ 64 := by
    unfold write_last_src
    rw [hlo]
    rfl
  refine ⟨?_, ?_, ?_, ?_, ?_, write_page_buf P prog_ok fp dev pb buffer n hn⟩
  · intro h
    rw [hbo, hpc1, hpc, hfo, hfo2]
    rw [hfo] at h
    rw [if_pos h, if_pos h]
    refine ⟨rfl, ?_, ?_, ?_, rfl⟩
    · split_ifs <;> omega
    · split_ifs <;> omega
    · split_ifs <;> omega
  · rw [htk, hfo2, hlo2, hA, hB]
    generalize fp.file_pos = p at *
    clear hA hfo hB hlo hpc hpc1 hpc2 hL1 hL2 hL htk hbo hsrc a4 a5 a6 e2 hfo2 hlo2
    constructor
    · rintro ⟨h1, h2⟩
      refine ⟨h2, ?_⟩
      by_cases hf : 0 < fo
      · rw [if_pos hf] at h1
        have := a11 h1
        right
        omega
      · left
        omega
    · rintro ⟨h2, h3⟩
      refine ⟨?_, h2⟩
      by_cases hf : 0 < fo
      · rw [if_pos hf]
        rcases h3 with h3 | h3
        · omega
        · by_contra c
          have := a10 (by omega)
          omega
      · rw [if_neg hf]
        omega
  · rw [htk, hsrc, hlo, hpc2, hpc1]
    generalize fp.file_pos = p at *
    clear hA hfo hB hlo hpc hpc1 hpc2 hL1 hL2 hL htk hbo hsrc a4 a5 a6 e2 hfo2
    rintro ⟨h1, h2⟩
    have := a8 h2
    have hlen : lo ≤ n := by
      by_cases hf : 0 < fo
      · rw [if_pos hf] at h1
        have := a11 h1
        omega
      · omega
    have hs : (n + 2 ^ 64 - lo) % 2 ^ 64 = n - lo := by omega
    rw [hs]
    refine ⟨hlo2.symm, hlen, a3, rfl, by omega, ?_⟩
    by_cases hf : 0 < fo
    · rw [if_pos hf] at h1
      rw [if_pos hf, if_pos hf, if_pos ⟨h1, h2⟩]
      omega
    · rw [if_neg hf, if_neg hf, if_pos h2]
  · rw [hpc]
    omega
  · intro h
    rw [hL1, hbo, hL2]
    refine ⟨?_, rfl⟩
    have hLp : 0 < L := by
      rw [← hL2]
      exact Nat.mul_pos h hP
    rw [hL] at hLp ⊢
    generalize fp.file_pos = p at *
    clear hA hfo hB hlo hpc hpc1 hpc2 hL1 hL2 hL htk hbo hsrc a4 a5 a6 e2 hfo2 hlo2 h
    by_cases hf : 0 < fo
    · rw [if_pos hf] at hLp ⊢
      rw [if_pos hf]
      by_cases h2 : 0 < k ∧ 0 < lo
      · rw [if_pos h2] at hLp ⊢
        have := a8 h2.2
        have := a11 h2.1
        rw [if_neg (by omega)]
        omega
      · rw [if_neg h2] at hLp ⊢
        have hk : 0 < k := by
          by_contra c
          have := a10 (by omega)
          omega
        have := a11 hk
        have hl0 : lo = 0 := by omega
        have := a9 hl0
        rw [if_neg (by omega)]
        omega
    · rw [if_neg hf] at hLp ⊢
      rw [if_neg hf]
      by_cases h2 : 0 < lo
      · rw [if_pos h2] at hLp ⊢
        have := a8 h2
        omega
      · rw [if_neg h2] at hLp ⊢
        have := a9 (by omega)
        omega

/-- Witness of `flash_write_buffer_bounds`: 700 bytes written at cursor 100, page size
256: the first overlay copies 156 bytes to index 100, the last overlay 32 bytes from
the buffer offset 668. -/
theorem flash_write_buffer_bounds_witness :
    (write_first_offset 256 small_fp = 100 ∧ write_buffer_offset 256 small_fp 700 = 156) ∧
    (write_last_offset 256 small_fp 700 = 32 ∧ write_last_src 256 small_fp 700 = 668) ∧
    write_buffer_offset 256 small_fp 700 + write_page_count2 256 small_fp 700 * 256
      ≤ 700 := by
  have h := flash_write_buffer_bounds 256 all_ok small_fp (fill 255) (fill 0) ramp 700
    (by decide) (by decide) (by decide) (by decide)
  have h1 := h.1 (by decide)
  have h2 := h.2.2.1 ((h.2.1).2 ⟨by decide, Or.inr (by decide)⟩)
  have h3 := h.2.2.2.2.1 (by decide)
  exact ⟨⟨by rw [h1.1]; decide, by rw [h1.2.1]; decide⟩,
    ⟨by rw [h2.1]; decide, by rw [h2.2.2.2.1, h2.1]; decide⟩, h3.1⟩

/-- C30 (as stated) fails: with page size 256, a write of `2 ^ 40 - 1` bytes at cursor 1
touches `2 ^ 32` pages; the 32-bit page counter is set to 0, and since the write starts
mid-page the decrement of the first-page block takes it below 0 (it wraps to
`2 ^ 32 - 1`). -/
theorem flash_write_page_count_underflows :
    1 ≤ 2 ^ 40 - 1 ∧
    write_page_count 256 huge_fp1 (2 ^ 40 - 1) = 0 ∧
    0 < write_first_offset 256 huge_fp1 ∧
    write_page_count1 256 huge_fp1 (2 ^ 40 - 1) = 2 ^ 32 - 1 ∧
    (memmap_block_write 256 all_ok huge_fp1 (fill 0) (fill 0) (fill 1)
        (2 ^ 40 - 1)).trace
      = [FlashEv.flush 256 (2 ^ 32 - 256),
         FlashEv.program 256 (2 ^ 32 - 256) (ProgSrc.caller 255),
         FlashEv.flush 0 256, FlashEv.program 0 256 ProgSrc.scratch,
         FlashEv.page_read 0] := by
  refine ⟨by decide, ?_, ?_, ?_, ?_⟩ <;> decide

end Xspi

namespace Sdhi

/-! ## Theorems about the SDHI mount -/

/-! ### Effect of the calls on the trace and on the handle -/

@[simp] theorem hcall_fst (env : Env) (s : Sd) (c : Call) :
    (hcall env s c).1 = (env s.trace.length c).ret := rfl

@[simp] theorem hcall_trace (env : Env) (s : Sd) (c : Call) :
    (hcall env s c).2.trace = c :: s.trace := rfl

@[simp] theorem hcall_hndl (env : Env) (s : Sd) (c : Call) :
    (hcall env s c).2.hndl = (env s.trace.length c).apply s.hndl := rfl

@[simp] theorem vcall_fst (env : Env) (s : Sd) (c : Call) :
    (vcall env s c).1 = (env s.trace.length c).ret := rfl

@[simp] theorem vcall_trace (env : Env) (s : Sd) (c : Call) :
    (vcall env s c).2.trace = c :: s.trace := rfl

@[simp] theorem vcall_hndl (env : Env) (s : Sd) (c : Call) :
    (vcall env s c).2.hndl
      = { s.hndl with int_info2 := (env s.trace.length c).int_info2 } := rfl

@[simp] theorem dcall_fst (env : Env) (s : Sd) (c : Call) :
    (dcall env s c).1 = (env s.trace.length c).ret := rfl

@[simp] theorem dcall_trace (env : Env) (s : Sd) (c : Call) :
    (dcall env s c).2.trace = c :: s.trace := rfl

@[simp] theorem dcall_hndl (env : Env) (s : Sd) (c : Call) :
    (dcall env s c).2.hndl = s.hndl := rfl

@[simp] theorem apply_mount (r : Reply) (h : st_sdhndl_t) :
    (r.apply h).mount = h.mount := rfl

@[simp] theorem apply_error (r : Reply) (h : st_sdhndl_t) :
    (r.apply h).error = r.error := rfl

@[simp] theorem apply_media_type (r : Reply) (h : st_sdhndl_t) :
    (r.apply h).media_type = h.media_type := rfl

@[simp] theorem set_err_mount (h : st_sdhndl_t) (e : Int) :
    (_sd_set_err h e).mount = h.mount := by
  unfold _sd_set_err; split <;> rfl

@[simp] theorem set_err_media_type (h : st_sdhndl_t) (e : Int) :
    (_sd_set_err h e).media_type = h.media_type := by
  unfold _sd_set_err; split <;> rfl

/-- A recorded error is never `SD_OK` after `_sd_set_err` with a code other than
`SD_OK`. -/
theorem set_err_of_ok (h : st_sdhndl_t) (e : Int) (he : h.error = SD_OK) :
    (_sd_set_err h e).error = e := by
  unfold _sd_set_err; rw [if_pos he]

@[simp] theorem apply_sd_spec (r : Reply) (h : st_sdhndl_t) :
    (r.apply h).sd_spec = h.sd_spec := rfl

@[simp] theorem apply_sup_ver (r : Reply) (h : st_sdhndl_t) :
    (r.apply h).sup_ver = h.sup_ver := rfl

@[simp] theorem set_err_sd_spec (h : st_sdhndl_t) (e : Int) :
    (_sd_set_err h e).sd_spec = h.sd_spec := by
  unfold _sd_set_err; split <;> rfl

@[simp] theorem set_err_sup_ver (h : st_sdhndl_t) (e : Int) :
    (_sd_set_err h e).sup_ver = h.sup_ver := by
  unfold _sd_set_err; split <;> rfl

/-! ### Handle fields that the embedded functions leave alone -/

@[simp] theorem init_hndl_mount (env : Env) (s : Sd) (mode voltage : Nat) :
    (_sd_init_hndl env s mode voltage).hndl.mount = s.hndl.mount := rfl

theorem read_data_card (env : Env) (s : Sd) (buf : BufId) (num : Nat) :
    (sddev_read_data env s buf num).2.hndl.card = s.hndl.card := by cases buf <;> rfl

@[simp] theorem read_data_mount (env : Env) (s : Sd) (buf : BufId) (num : Nat) :
    (sddev_read_data env s buf num).2.hndl.mount = s.hndl.mount :=
  congrArg (fun p => p.1) (read_data_card env s buf num)

@[simp] theorem read_data_media_type (env : Env) (s : Sd) (buf : BufId) (num : Nat) :
    (sddev_read_data env s buf num).2.hndl.media_type = s.hndl.media_type :=
  congrArg (fun p => p.2.1) (read_data_card env s buf num)

@[simp] theorem read_data_sd_spec (env : Env) (s : Sd) (buf : BufId) (num : Nat) :
    (sddev_read_data env s buf num).2.hndl.sd_spec = s.hndl.sd_spec :=
  congrArg (fun p => p.2.2.1) (read_data_card env s buf num)

@[simp] theorem read_data_sup_ver (env : Env) (s : Sd) (buf : BufId) (num : Nat) :
    (sddev_read_data env s buf num).2.hndl.sup_ver = s.hndl.sup_ver :=
  congrArg (fun p => p.2.2.2) (read_data_card env s buf num)

theorem read_byte_error_card (env : Env) (s : Sd) :
    (_sd_read_byte_error env s).2.hndl.card = s.hndl.card := rfl

@[simp] theorem read_byte_error_mount (env : Env) (s : Sd) :
    (_sd_read_byte_error env s).2.hndl.mount = s.hndl.mount :=
  congrArg (fun p => p.1) (read_byte_error_card env s)

@[simp] theorem read_byte_error_media_type (env : Env) (s : Sd) :
    (_sd_read_byte_error env s).2.hndl.media_type = s.hndl.media_type :=
  congrArg (fun p => p.2.1) (read_byte_error_card env s)

@[simp] theorem read_byte_error_sd_spec (env : Env) (s : Sd) :
    (_sd_read_byte_error env s).2.hndl.sd_spec = s.hndl.sd_spec :=
  congrArg (fun p => p.2.2.1) (read_byte_error_card env s)

@[simp] theorem read_byte_error_sup_ver (env : Env) (s : Sd) :
    (_sd_read_byte_error env s).2.hndl.sup_ver = s.hndl.sup_ver :=
  congrArg (fun p => p.2.2.2) (read_byte_error_card env s)

theorem read_byte_data_card (env : Env) (s : Sd) (buf : BufId) (byte : Nat) :
    (_sd_read_byte_data env s buf byte).2.hndl.card = s.hndl.card := by
  simp only [_sd_read_byte_data]
  split_ifs <;> simp [st_sdhndl_t.card, st_sdhndl_t.host]

@[simp] theorem read_byte_data_mount (env : Env) (s : Sd) (buf : BufId) (byte : Nat) :
    (_sd_read_byte_data env s buf byte).2.hndl.mount = s.hndl.mount :=
  congrArg (fun p => p.1) (read_byte_data_card env s buf byte)

@[simp] theorem read_byte_data_media_type (env : Env) (s : Sd) (buf : BufId) (byte : Nat) :
    (_sd_read_byte_data env s buf byte).2.hndl.media_type = s.hndl.media_type :=
  congrArg (fun p => p.2.1) (read_byte_data_card env s buf byte)

@[simp] theorem read_byte_data_sd_spec (env : Env) (s : Sd) (buf : BufId) (byte : Nat) :
    (_sd_read_byte_data env s buf byte).2.hndl.sd_spec = s.hndl.sd_spec :=
  congrArg (fun p => p.2.2.1) (read_byte_data_card env s buf byte)

@[simp] theorem read_byte_data_sup_ver (env : Env) (s : Sd) (buf : BufId) (byte : Nat) :
    (_sd_read_byte_data env s buf byte).2.hndl.sup_ver = s.hndl.sup_ver :=
  congrArg (fun p => p.2.2.2) (read_byte_data_card env s buf byte)

theorem read_byte_card (env : Env) (s : Sd) (cmd h_arg l_arg : Nat) (buf : BufId) (byte : Nat) :
    (_sd_read_byte env s cmd h_arg l_arg buf byte).2.hndl.card = s.hndl.card := by
  simp only [_sd_read_byte]
  split_ifs <;> simp [st_sdhndl_t.card, st_sdhndl_t.host]

@[simp] theorem read_byte_mount (env : Env) (s : Sd) (cmd h_arg l_arg : Nat) (buf : BufId) (byte : Nat) :
    (_sd_read_byte env s cmd h_arg l_arg buf byte).2.hndl.mount = s.hndl.mount :=
  congrArg (fun p => p.1) (read_byte_card env s cmd h_arg l_arg buf byte)

@[simp] theorem read_byte_media_type (env : Env) (s : Sd) (cmd h_arg l_arg : Nat) (buf : BufId) (byte : Nat) :
    (_sd_read_byte env s cmd h_arg l_arg buf byte).2.hndl.media_type = s.hndl.media_type :=
  congrArg (fun p => p.2.1) (read_byte_card env s cmd h_arg l_arg buf byte)

@[simp] theorem read_byte_sd_spec (env : Env) (s : Sd) (cmd h_arg l_arg : Nat) (buf : BufId) (byte : Nat) :
    (_sd_read_byte env s cmd h_arg l_arg buf byte).2.hndl.sd_spec = s.hndl.sd_spec :=
  congrArg (fun p => p.2.2.1) (read_byte_card env s cmd h_arg l_arg buf byte)

@[simp] theorem read_byte_sup_ver (env : Env) (s : Sd) (cmd h_arg l_arg : Nat) (buf : BufId) (byte : Nat) :
    (_sd_read_byte env s cmd h_arg l_arg buf byte).2.hndl.sup_ver = s.hndl.sup_ver :=
  congrArg (fun p => p.2.2.2) (read_byte_card env s cmd h_arg l_arg buf byte)

theorem get_status_card (env : Env) (s : Sd) :
    (_sd_card_get_status env s).2.hndl.card = s.hndl.card := by
  simp only [_sd_card_get_status]
  split_ifs <;> simp [st_sdhndl_t.card, st_sdhndl_t.host]

@[simp] theorem get_status_mount (env : Env) (s : Sd) :
    (_sd_card_get_status env s).2.hndl.mount = s.hndl.mount :=
  congrArg (fun p => p.1) (get_status_card env s)

@[simp] theorem get_status_media_type (env : Env) (s : Sd) :
    (_sd_card_get_status env s).2.hndl.media_type = s.hndl.media_type :=
  congrArg (fun p => p.2.1) (get_status_card env s)

@[simp] theorem get_status_sd_spec (env : Env) (s : Sd) :
    (_sd_card_get_status env s).2.hndl.sd_spec = s.hndl.sd_spec :=
  congrArg (fun p => p.2.2.1) (get_status_card env s)

@[simp] theorem get_status_sup_ver (env : Env) (s : Sd) :
    (_sd_card_get_status env s).2.hndl.sup_ver = s.hndl.sup_ver :=
  congrArg (fun p => p.2.2.2) (get_status_card env s)

theorem get_scr_card (env : Env) (s : Sd) :
    (_sd_card_get_scr env s).2.hndl.card = s.hndl.card := by
  simp only [_sd_card_get_scr]
  split_ifs <;> simp [st_sdhndl_t.card, st_sdhndl_t.host]

@[simp] theorem get_scr_mount (env : Env) (s : Sd) :
    (_sd_card_get_scr env s).2.hndl.mount = s.hndl.mount :=
  congrArg (fun p => p.1) (get_scr_card env s)

@[simp] theorem get_scr_media_type (env : Env) (s : Sd) :
    (_sd_card_get_scr env s).2.hndl.media_type = s.hndl.media_type :=
  congrArg (fun p => p.2.1) (get_scr_card env s)

@[simp] theorem get_scr_sd_spec (env : Env) (s : Sd) :
    (_sd_card_get_scr env s).2.hndl.sd_spec = s.hndl.sd_spec :=
  congrArg (fun p => p.2.2.1) (get_scr_card env s)

@[simp] theorem get_scr_sup_ver (env : Env) (s : Sd) :
    (_sd_card_get_scr env s).2.hndl.sup_ver = s.hndl.sup_ver :=
  congrArg (fun p => p.2.2.2) (get_scr_card env s)

theorem query_partitions_card (env : Env) (s : Sd) (opcode : Nat) (buf : BufId) :
    (_esd_card_query_partitions env s opcode buf).2.hndl.card = s.hndl.card := by
  simp only [_esd_card_query_partitions]
  split_ifs <;> simp [st_sdhndl_t.card, st_sdhndl_t.host]

@[simp] theorem query_partitions_mount (env : Env) (s : Sd) (opcode : Nat) (buf : BufId) :
    (_esd_card_query_partitions env s opcode buf).2.hndl.mount = s.hndl.mount :=
  congrArg (fun p => p.1) (query_partitions_card env s opcode buf)

@[simp] theorem query_partitions_media_type (env : Env) (s : Sd) (opcode : Nat) (buf : BufId) :
    (_esd_card_query_partitions env s opcode buf).2.hndl.media_type = s.hndl.media_type :=
  congrArg (fun p => p.2.1) (query_partitions_card env s opcode buf)

@[simp] theorem query_partitions_sd_spec (env : Env) (s : Sd) (opcode : Nat) (buf : BufId) :
    (_esd_card_query_partitions env s opcode buf).2.hndl.sd_spec = s.hndl.sd_spec :=
  congrArg (fun p => p.2.2.1) (query_partitions_card env s opcode buf)

@[simp] theorem query_partitions_sup_ver (env : Env) (s : Sd) (opcode : Nat) (buf : BufId) :
    (_esd_card_query_partitions env s opcode buf).2.hndl.sup_ver = s.hndl.sup_ver :=
  congrArg (fun p => p.2.2.2) (query_partitions_card env s opcode buf)

theorem select_partition_card (env : Env) (s : Sd) (id : Nat) :
    (_esd_card_select_partition env s id).2.hndl.card = s.hndl.card := by
  simp only [_esd_card_select_partition]
  split_ifs <;> simp [st_sdhndl_t.card, st_sdhndl_t.host]

@[simp] theorem select_partition_mount (env : Env) (s : Sd) (id : Nat) :
    (_esd_card_select_partition env s id).2.hndl.mount = s.hndl.mount :=
  congrArg (fun p => p.1) (select_partition_card env s id)

@[simp] theorem select_partition_media_type (env : Env) (s : Sd) (id : Nat) :
    (_esd_card_select_partition env s id).2.hndl.media_type = s.hndl.media_type :=
  congrArg (fun p => p.2.1) (select_partition_card env s id)

@[simp] theorem select_partition_sd_spec (env : Env) (s : Sd) (id : Nat) :
    (_esd_card_select_partition env s id).2.hndl.sd_spec = s.hndl.sd_spec :=
  congrArg (fun p => p.2.2.1) (select_partition_card env s id)

@[simp] theorem select_partition_sup_ver (env : Env) (s : Sd) (id : Nat) :
    (_esd_card_select_partition env s id).2.hndl.sup_ver = s.hndl.sup_ver :=
  congrArg (fun p => p.2.2.2) (select_partition_card env s id)

theorem get_partition_id_card (env : Env) (s : Sd) :
    (_esd_get_partition_id env s).2.hndl.card = s.hndl.card := by
  simp only [_esd_get_partition_id]
  split_ifs <;> simp [st_sdhndl_t.card, st_sdhndl_t.host]

@[simp] theorem get_partition_id_mount (env : Env) (s : Sd) :
    (_esd_get_partition_id env s).2.hndl.mount = s.hndl.mount :=
  congrArg (fun p => p.1) (get_partition_id_card env s)

@[simp] theorem get_partition_id_media_type (env : Env) (s : Sd) :
    (_esd_get_partition_id env s).2.hndl.media_type = s.hndl.media_type :=
  congrArg (fun p => p.2.1) (get_partition_id_card env s)

@[simp] theorem get_partition_id_sd_spec (env : Env) (s : Sd) :
    (_esd_get_partition_id env s).2.hndl.sd_spec = s.hndl.sd_spec :=
  congrArg (fun p => p.2.2.1) (get_partition_id_card env s)

@[simp] theorem get_partition_id_sup_ver (env : Env) (s : Sd) :
    (_esd_get_partition_id env s).2.hndl.sup_ver = s.hndl.sup_ver :=
  congrArg (fun p => p.2.2.2) (get_partition_id_card env s)

theorem partition_card (env : Env) (s : Sd) :
    (_sd_mem_mount_partition env s).hndl.card = s.hndl.card := by
  simp only [_sd_mem_mount_partition]
  split_ifs <;> simp [st_sdhndl_t.card, st_sdhndl_t.host]

@[simp] theorem partition_mount (env : Env) (s : Sd) :
    (_sd_mem_mount_partition env s).hndl.mount = s.hndl.mount :=
  congrArg (fun p => p.1) (partition_card env s)

@[simp] theorem partition_media_type (env : Env) (s : Sd) :
    (_sd_mem_mount_partition env s).hndl.media_type = s.hndl.media_type :=
  congrArg (fun p => p.2.1) (partition_card env s)

@[simp] theorem partition_sd_spec (env : Env) (s : Sd) :
    (_sd_mem_mount_partition env s).hndl.sd_spec = s.hndl.sd_spec :=
  congrArg (fun p => p.2.2.1) (partition_card env s)

@[simp] theorem partition_sup_ver (env : Env) (s : Sd) :
    (_sd_mem_mount_partition env s).hndl.sup_ver = s.hndl.sup_ver :=
  congrArg (fun p => p.2.2.2) (partition_card env s)

theorem mem_mount_error_card (env : Env) (s : Sd) :
    (_sd_mem_mount_error env s).2.hndl.card = s.hndl.card := rfl

@[simp] theorem mem_mount_error_mount (env : Env) (s : Sd) :
    (_sd_mem_mount_error env s).2.hndl.mount = s.hndl.mount :=
  congrArg (fun p => p.1) (mem_mount_error_card env s)

@[simp] theorem mem_mount_error_media_type (env : Env) (s : Sd) :
    (_sd_mem_mount_error env s).2.hndl.media_type = s.hndl.media_type :=
  congrArg (fun p => p.2.1) (mem_mount_error_card env s)

@[simp] theorem mem_mount_error_sd_spec (env : Env) (s : Sd) :
    (_sd_mem_mount_error env s).2.hndl.sd_spec = s.hndl.sd_spec :=
  congrArg (fun p => p.2.2.1) (mem_mount_error_card env s)

@[simp] theorem mem_mount_error_sup_ver (env : Env) (s : Sd) :
    (_sd_mem_mount_error env s).2.hndl.sup_ver = s.hndl.sup_ver :=
  congrArg (fun p => p.2.2.2) (mem_mount_error_card env s)

theorem blocklen_card (env : Env) (s : Sd) :
    (_sd_mem_mount_blocklen env s).2.hndl.card = s.hndl.card := by
  simp only [_sd_mem_mount_blocklen]
  split_ifs <;> simp [st_sdhndl_t.card, st_sdhndl_t.host]

@[simp] theorem blocklen_mount (env : Env) (s : Sd) :
    (_sd_mem_mount_blocklen env s).2.hndl.mount = s.hndl.mount :=
  congrArg (fun p => p.1) (blocklen_card env s)

@[simp] theorem blocklen_media_type (env : Env) (s : Sd) :
    (_sd_mem_mount_blocklen env s).2.hndl.media_type = s.hndl.media_type :=
  congrArg (fun p => p.2.1) (blocklen_card env s)

@[simp] theorem blocklen_sd_spec (env : Env) (s : Sd) :
    (_sd_mem_mount_blocklen env s).2.hndl.sd_spec = s.hndl.sd_spec :=
  congrArg (fun p => p.2.2.1) (blocklen_card env s)

@[simp] theorem blocklen_sup_ver (env : Env) (s : Sd) :
    (_sd_mem_mount_blocklen env s).2.hndl.sup_ver = s.hndl.sup_ver :=
  congrArg (fun p => p.2.2.2) (blocklen_card env s)

theorem mem_select_card (env : Env) (s : Sd) :
    (_sd_mem_mount_select env s).2.hndl.card = s.hndl.card := by
  simp only [_sd_mem_mount_select]
  split_ifs <;> simp [st_sdhndl_t.card, st_sdhndl_t.host]

@[simp] theorem mem_select_mount (env : Env) (s : Sd) :
    (_sd_mem_mount_select env s).2.hndl.mount = s.hndl.mount :=
  congrArg (fun p => p.1) (mem_select_card env s)

@[simp] theorem mem_select_media_type (env : Env) (s : Sd) :
    (_sd_mem_mount_select env s).2.hndl.media_type = s.hndl.media_type :=
  congrArg (fun p => p.2.1) (mem_select_card env s)

@[simp] theorem mem_select_sd_spec (env : Env) (s : Sd) :
    (_sd_mem_mount_select env s).2.hndl.sd_spec = s.hndl.sd_spec :=
  congrArg (fun p => p.2.2.1) (mem_select_card env s)

@[simp] theorem mem_select_sup_ver (env : Env) (s : Sd) :
    (_sd_mem_mount_select env s).2.hndl.sup_ver = s.hndl.sup_ver :=
  congrArg (fun p => p.2.2.2) (mem_select_card env s)

theorem mem_mount_card (env : Env) (s : Sd) :
    (_sd_mem_mount env s).2.hndl.card = s.hndl.card := by
  simp only [_sd_mem_mount]
  split_ifs <;> simp [st_sdhndl_t.card, st_sdhndl_t.host]

@[simp] theorem mem_mount_mount (env : Env) (s : Sd) :
    (_sd_mem_mount env s).2.hndl.mount = s.hndl.mount :=
  congrArg (fun p => p.1) (mem_mount_card env s)

@[simp] theorem mem_mount_media_type (env : Env) (s : Sd) :
    (_sd_mem_mount env s).2.hndl.media_type = s.hndl.media_type :=
  congrArg (fun p => p.2.1) (mem_mount_card env s)

@[simp] theorem mem_mount_sd_spec (env : Env) (s : Sd) :
    (_sd_mem_mount env s).2.hndl.sd_spec = s.hndl.sd_spec :=
  congrArg (fun p => p.2.2.1) (mem_mount_card env s)

@[simp] theorem mem_mount_sup_ver (env : Env) (s : Sd) :
    (_sd_mem_mount env s).2.hndl.sup_ver = s.hndl.sup_ver :=
  congrArg (fun p => p.2.2.2) (mem_mount_card env s)

theorem mount_error_card (env : Env) (s : Sd) :
    (_sd_mount_error env s).2.hndl.card = s.hndl.card := rfl

@[simp] theorem mount_error_mount (env : Env) (s : Sd) :
    (_sd_mount_error env s).2.hndl.mount = s.hndl.mount :=
  congrArg (fun p => p.1) (mount_error_card env s)

@[simp] theorem mount_error_media_type (env : Env) (s : Sd) :
    (_sd_mount_error env s).2.hndl.media_type = s.hndl.media_type :=
  congrArg (fun p => p.2.1) (mount_error_card env s)

@[simp] theorem mount_error_sd_spec (env : Env) (s : Sd) :
    (_sd_mount_error env s).2.hndl.sd_spec = s.hndl.sd_spec :=
  congrArg (fun p => p.2.2.1) (mount_error_card env s)

@[simp] theorem mount_error_sup_ver (env : Env) (s : Sd) :
    (_sd_mount_error env s).2.hndl.sup_ver = s.hndl.sup_ver :=
  congrArg (fun p => p.2.2.2) (mount_error_card env s)

theorem check_media_card (env : Env) (s : Sd) :
    (_sd_check_media env s).2.hndl.card = s.hndl.card := by
  simp only [_sd_check_media]
  split_ifs <;> simp [st_sdhndl_t.card, st_sdhndl_t.host]

@[simp] theorem check_media_mount (env : Env) (s : Sd) :
    (_sd_check_media env s).2.hndl.mount = s.hndl.mount :=
  congrArg (fun p => p.1) (check_media_card env s)

@[simp] theorem check_media_media_type (env : Env) (s : Sd) :
    (_sd_check_media env s).2.hndl.media_type = s.hndl.media_type :=
  congrArg (fun p => p.2.1) (check_media_card env s)

@[simp] theorem check_media_sd_spec (env : Env) (s : Sd) :
    (_sd_check_media env s).2.hndl.sd_spec = s.hndl.sd_spec :=
  congrArg (fun p => p.2.2.1) (check_media_card env s)

@[simp] theorem check_media_sup_ver (env : Env) (s : Sd) :
    (_sd_check_media env s).2.hndl.sup_ver = s.hndl.sup_ver :=
  congrArg (fun p => p.2.2.2) (check_media_card env s)

theorem cmd0_loop_card (env : Env) (n : Nat) : ∀ (ret : Int) (s : Sd),
    (cmd0_loop env n ret s).2.hndl.card = s.hndl.card := by
  induction n with
  | zero => intro ret s; rfl
  | succ n ih =>
    intro ret s
    simp only [cmd0_loop]
    split_ifs
    · rfl
    · rw [ih]; rfl

@[simp] theorem cmd0_loop_mount (env : Env) (s : Sd) (n : Nat) (ret : Int) :
    (cmd0_loop env n ret s).2.hndl.mount = s.hndl.mount :=
  congrArg (fun p => p.1) (cmd0_loop_card env n ret s)

@[simp] theorem cmd0_loop_media_type (env : Env) (s : Sd) (n : Nat) (ret : Int) :
    (cmd0_loop env n ret s).2.hndl.media_type = s.hndl.media_type :=
  congrArg (fun p => p.2.1) (cmd0_loop_card env n ret s)

@[simp] theorem cmd0_loop_sd_spec (env : Env) (s : Sd) (n : Nat) (ret : Int) :
    (cmd0_loop env n ret s).2.hndl.sd_spec = s.hndl.sd_spec :=
  congrArg (fun p => p.2.2.1) (cmd0_loop_card env n ret s)

@[simp] theorem cmd0_loop_sup_ver (env : Env) (s : Sd) (n : Nat) (ret : Int) :
    (cmd0_loop env n ret s).2.hndl.sup_ver = s.hndl.sup_ver :=
  congrArg (fun p => p.2.2.2) (cmd0_loop_card env n ret s)

theorem rca_loop_card (env : Env) (n : Nat) : ∀ (i : Nat) (s : Sd),
    (rca_loop env n i s).2.2.hndl.card = s.hndl.card := by
  induction n with
  | zero => intro i s; rfl
  | succ n ih =>
    intro i s
    simp only [rca_loop]
    split_ifs
    · rfl
    · rfl
    · rw [ih]; rfl

@[simp] theorem rca_loop_mount (env : Env) (s : Sd) (n i : Nat) :
    (rca_loop env n i s).2.2.hndl.mount = s.hndl.mount :=
  congrArg (fun p => p.1) (rca_loop_card env n i s)

@[simp] theorem rca_loop_media_type (env : Env) (s : Sd) (n i : Nat) :
    (rca_loop env n i s).2.2.hndl.media_type = s.hndl.media_type :=
  congrArg (fun p => p.2.1) (rca_loop_card env n i s)

@[simp] theorem rca_loop_sd_spec (env : Env) (s : Sd) (n i : Nat) :
    (rca_loop env n i s).2.2.hndl.sd_spec = s.hndl.sd_spec :=
  congrArg (fun p => p.2.2.1) (rca_loop_card env n i s)

@[simp] theorem rca_loop_sup_ver (env : Env) (s : Sd) (n i : Nat) :
    (rca_loop env n i s).2.2.hndl.sup_ver = s.hndl.sup_ver :=
  congrArg (fun p => p.2.2.2) (rca_loop_card env n i s)

theorem get_csd_card (env : Env) (s : Sd) :
    (_sd_card_init_get_csd env s).2.hndl.card = s.hndl.card := by
  simp only [_sd_card_init_get_csd]
  split_ifs <;> simp [st_sdhndl_t.card, st_sdhndl_t.host]

@[simp] theorem get_csd_mount (env : Env) (s : Sd) :
    (_sd_card_init_get_csd env s).2.hndl.mount = s.hndl.mount :=
  congrArg (fun p => p.1) (get_csd_card env s)

@[simp] theorem get_csd_media_type (env : Env) (s : Sd) :
    (_sd_card_init_get_csd env s).2.hndl.media_type = s.hndl.media_type :=
  congrArg (fun p => p.2.1) (get_csd_card env s)

@[simp] theorem get_csd_sd_spec (env : Env) (s : Sd) :
    (_sd_card_init_get_csd env s).2.hndl.sd_spec = s.hndl.sd_spec :=
  congrArg (fun p => p.2.2.1) (get_csd_card env s)

@[simp] theorem get_csd_sup_ver (env : Env) (s : Sd) :
    (_sd_card_init_get_csd env s).2.hndl.sup_ver = s.hndl.sup_ver :=
  congrArg (fun p => p.2.2.2) (get_csd_card env s)

theorem get_rca_card (env : Env) (s : Sd) :
    (_sd_card_init_get_rca env s).2.hndl.card = s.hndl.card := by
  simp only [_sd_card_init_get_rca]
  split_ifs <;> simp [st_sdhndl_t.card, st_sdhndl_t.host]

@[simp] theorem get_rca_mount (env : Env) (s : Sd) :
    (_sd_card_init_get_rca env s).2.hndl.mount = s.hndl.mount :=
  congrArg (fun p => p.1) (get_rca_card env s)

@[simp] theorem get_rca_media_type (env : Env) (s : Sd) :
    (_sd_card_init_get_rca env s).2.hndl.media_type = s.hndl.media_type :=
  congrArg (fun p => p.2.1) (get_rca_card env s)

@[simp] theorem get_rca_sd_spec (env : Env) (s : Sd) :
    (_sd_card_init_get_rca env s).2.hndl.sd_spec = s.hndl.sd_spec :=
  congrArg (fun p => p.2.2.1) (get_rca_card env s)

@[simp] theorem get_rca_sup_ver (env : Env) (s : Sd) :
    (_sd_card_init_get_rca env s).2.hndl.sup_ver = s.hndl.sup_ver :=
  congrArg (fun p => p.2.2.2) (get_rca_card env s)

theorem ocr_host (env : Env) (s : Sd) :
    (_sd_card_init_ocr env s).2.hndl.host = s.hndl.host := by
  simp only [_sd_card_init_ocr]
  split_ifs <;> simp [st_sdhndl_t.card, st_sdhndl_t.host]

@[simp] theorem ocr_mount (env : Env) (s : Sd) :
    (_sd_card_init_ocr env s).2.hndl.mount = s.hndl.mount :=
  congrArg (fun p => p.1) (ocr_host env s)

@[simp] theorem ocr_sup_ver (env : Env) (s : Sd) :
    (_sd_card_init_ocr env s).2.hndl.sup_ver = s.hndl.sup_ver :=
  congrArg (fun p => p.2) (ocr_host env s)

theorem if_cond_host (env : Env) (s : Sd) (a b : Nat) :
    (_sd_card_init_if_cond env s a b).2.hndl.host = s.hndl.host := by
  simp only [_sd_card_init_if_cond]
  split_ifs <;> simp [st_sdhndl_t.card, st_sdhndl_t.host]

@[simp] theorem if_cond_mount (env : Env) (s : Sd) (a b : Nat) :
    (_sd_card_init_if_cond env s a b).2.hndl.mount = s.hndl.mount :=
  congrArg (fun p => p.1) (if_cond_host env s a b)

@[simp] theorem if_cond_sup_ver (env : Env) (s : Sd) (a b : Nat) :
    (_sd_card_init_if_cond env s a b).2.hndl.sup_ver = s.hndl.sup_ver :=
  congrArg (fun p => p.2) (if_cond_host env s a b)

theorem card_init_host (env : Env) (s : Sd) :
    (_sd_card_init env s).2.hndl.host = s.hndl.host := by
  simp only [_sd_card_init]
  split_ifs <;> simp [st_sdhndl_t.card, st_sdhndl_t.host]

@[simp] theorem card_init_mount (env : Env) (s : Sd) :
    (_sd_card_init env s).2.hndl.mount = s.hndl.mount :=
  congrArg (fun p => p.1) (card_init_host env s)

@[simp] theorem card_init_sup_ver (env : Env) (s : Sd) :
    (_sd_card_init env s).2.hndl.sup_ver = s.hndl.sup_ver :=
  congrArg (fun p => p.2) (card_init_host env s)

/-! ### The return statements of `sd_mount` -/

/-- The invariant of the exits only depends on the mount flag of the start state. -/
theorem ExitInv.of_mount {s s1 : Sd} {r : Int × MountExit × Sd} (h : ExitInv s1 r)
    (hm : s1.hndl.mount = s.hndl.mount) : ExitInv s r := by
  unfold ExitInv at *
  rw [← hm]; exact h

/-- A return through `_sd_mount_error` satisfies the invariant of the exits. -/
theorem exitInv_mount_error (env : Env) (s s1 : Sd) (e : MountExit)
    (hm : s1.hndl.mount = s.hndl.mount) (h1 : e ≠ MountExit.locked)
    (h2 : e ≠ MountExit.done) :
    ExitInv s ((_sd_mount_error env s1).1, e, (_sd_mount_error env s1).2) := by
  refine ⟨fun _ => rfl, fun _ _ => ?_, fun _ _ => rfl, fun h => absurd h h1,
    fun h => absurd h h2⟩
  simp [hm]

theorem calc_erase_sector_card (h : st_sdhndl_t) :
    (_sd_calc_erase_sector h).2.card = h.card := by
  simp only [_sd_calc_erase_sector]
  split_ifs <;> rfl

@[simp] theorem calc_erase_sector_mount (h : st_sdhndl_t) :
    (_sd_calc_erase_sector h).2.mount = h.mount :=
  congrArg (fun p => p.1) (calc_erase_sector_card h)

@[simp] theorem calc_erase_sector_media_type (h : st_sdhndl_t) :
    (_sd_calc_erase_sector h).2.media_type = h.media_type :=
  congrArg (fun p => p.2.1) (calc_erase_sector_card h)

@[simp] theorem calc_erase_sector_sd_spec (h : st_sdhndl_t) :
    (_sd_calc_erase_sector h).2.sd_spec = h.sd_spec :=
  congrArg (fun p => p.2.2.1) (calc_erase_sector_card h)

theorem sd_mount_done_inv (env : Env) (s : Sd) : ExitInv s (sd_mount_done env s) := by
  simp [ExitInv, sd_mount_done, clock_halt]

theorem sd_mount_scr_inv (env : Env) (s : Sd) : ExitInv s (sd_mount_scr env s) := by
  simp only [sd_mount_scr]
  by_cases h1 : s.hndl.media_type &&& SD_MEDIA_SD ≠ 0
  · rw [if_pos h1]
    by_cases h2 : (_sd_card_get_scr env s).1 ≠ SD_OK
    · rw [if_pos h2]
      exact exitInv_mount_error env s _ _ (by simp) (by decide) (by decide)
    · rw [if_neg h2]
      refine (sd_mount_done_inv env _).of_mount ?_
      simp only [calc_erase_sector_mount]
      split_ifs <;> simp
  · rw [if_neg h1]; exact sd_mount_done_inv env s

theorem sd_mount_mem_inv (env : Env) (s : Sd) : ExitInv s (sd_mount_mem env s) := by
  simp only [sd_mount_mem]
  split_ifs
  · exact exitInv_mount_error env s _ _ (by simp) (by decide) (by decide)
  · simp [ExitInv, clock_halt]
  · exact (sd_mount_scr_inv env _).of_mount (by simp)
  · exact sd_mount_scr_inv env s

theorem sd_mount_init_inv (env : Env) (s : Sd) : ExitInv s (sd_mount_init env s) := by
  simp only [sd_mount_init]
  split_ifs
  · exact exitInv_mount_error env s _ _ (by simp) (by decide) (by decide)
  · exact exitInv_mount_error env s _ _ (by simp) (by decide) (by decide)
  · exact exitInv_mount_error env s _ _ (by simp) (by decide) (by decide)
  · exact (sd_mount_mem_inv env _).of_mount (by simp)
  · exact (sd_mount_mem_inv env _).of_mount (by simp)

theorem sd_mount_hndl_inv (env : Env) (s : Sd) (sd_port : Int) (mode voltage : Nat) :
    ExitInv s (sd_mount_hndl env s sd_port mode voltage) := by
  simp only [sd_mount_hndl]
  split_ifs
  · simp [ExitInv]
  · exact exitInv_mount_error env s _ _ (by simp) (by decide) (by decide)
  · simp [ExitInv]
  · exact (sd_mount_init_inv env _).of_mount (by simp)

/-- The run of `sd_mount` once the port is valid, the handle resolved and the work
buffer allocated. -/
theorem sd_mount_resolved (env : Env) (SD_GET_HNDLS : Int → Option st_sdhndl_t) (hw : Hw)
    (sd_port : Int) (mode voltage : Nat) (h : st_sdhndl_t)
    (hport : sd_port = 0 ∨ sd_port = 1) (hh : SD_GET_HNDLS sd_port = some h)
    (hbuf : h.p_rw_buff ≠ 0) :
    sd_mount env SD_GET_HNDLS hw sd_port mode voltage
      = ⟨(sd_mount_hndl env { toHw := hw, hndl := h } sd_port mode voltage).1,
         (sd_mount_hndl env { toHw := hw, hndl := h } sd_port mode voltage).2.1,
         some (sd_mount_hndl env { toHw := hw, hndl := h } sd_port mode voltage).2.2.hndl,
         (sd_mount_hndl env { toHw := hw, hndl := h } sd_port mode voltage).2.2.toHw⟩ := by
  have hp : ¬ (sd_port ≠ 0 ∧ sd_port ≠ 1) := by
    rcases hport with h0 | h1
    · exact fun c => c.1 h0
    · exact fun c => c.2 h1
  simp only [sd_mount]
  rw [if_neg hp, hh]
  simp only [if_neg hbuf]

/-- The failure returns of `sd_mount`: at every one other than the return after a
failed identification clock enable (power-on, card initialisation, CSD check, size
computation, memory mount, SCR read), the last call made is the clock halt, and no
failure return (the clock one included) writes the mount flag. -/
theorem sd_mount_failure_halts (env : Env) (SD_GET_HNDLS : Int → Option st_sdhndl_t)
    (hw : Hw) (sd_port : Int) (mode voltage : Nat) (h : st_sdhndl_t)
    (hport : sd_port = 0 ∨ sd_port = 1) (hh : SD_GET_HNDLS sd_port = some h)
    (hbuf : h.p_rw_buff ≠ 0)
    (hfail : (sd_mount env SD_GET_HNDLS hw sd_port mode voltage).exit ≠ MountExit.locked ∧
      (sd_mount env SD_GET_HNDLS hw sd_port mode voltage).exit ≠ MountExit.done) :
    (∃ h2, (sd_mount env SD_GET_HNDLS hw sd_port mode voltage).hndl = some h2 ∧
      h2.mount = h.mount) ∧
    ((sd_mount env SD_GET_HNDLS hw sd_port mode voltage).exit ≠ MountExit.no_card →
     (sd_mount env SD_GET_HNDLS hw sd_port mode voltage).exit ≠ MountExit.clock →
     (sd_mount env SD_GET_HNDLS hw sd_port mode voltage).hw.trace.head?
       = some clock_halt) := by
  rw [sd_mount_resolved env SD_GET_HNDLS hw sd_port mode voltage h hport hh hbuf] at hfail ⊢
  obtain ⟨-, i2, i3, -, -⟩ :=
    sd_mount_hndl_inv env { toHw := hw, hndl := h } sd_port mode voltage
  exact ⟨⟨_, rfl, i2 hfail.1 hfail.2⟩, fun a b => i3 a b⟩

/-- C3 (code defect): a run of `sd_mount` on port 0 in which the card is present, the
power-on succeeds and the identification clock enable fails returns (at line 121) the
recorded error `SD_ERR_CPU_IF` without any clock halt: the calls of the run are, the most
recent first, the failed clock enable, `_sd_set_port`, `sddev_power_on`,
`sddev_cd_layout` and `_sd_init_hndl`. The mount flag stays unmounted. -/
theorem sd_mount_clock_failure_skips_halt :
    (sd_mount env_clock_fail hndls0 hw0 0 0 0).exit = MountExit.clock ∧
    (sd_mount env_clock_fail hndls0 hw0 0 0 0).ret = SD_ERR_CPU_IF ∧
    (sd_mount env_clock_fail hndls0 hw0 0 0 0).hw.trace
      = [Call.sd_set_clock SD_CLK_400KHZ SD_CLOCK_ENABLE, Call.sd_set_port SD_PORT_SERIAL,
         Call.sddev_power_on 0, Call.sddev_cd_layout 0, Call.sd_init_hndl 0 0] ∧
    clock_halt ∉ (sd_mount env_clock_fail hndls0 hw0 0 0 0).hw.trace ∧
    ((sd_mount env_clock_fail hndls0 hw0 0 0 0).hndl.map fun h => h.mount)
      = some SD_UNMOUNT_CARD := by
  refine ⟨?_, ?_, ?_, ?_, ?_⟩ <;> decide

/-- C5 (as amended): on successful completion of `sd_mount` (the return at line 218) the
mount flag is `SD_MOUNT_UNLOCKED_CARD`, the value returned is the recorded error, and
the clock is halted: the last call of the run is the clock halt, just as in the
locked-card case. -/
theorem sd_mount_success_halts_clock (env : Env)
    (SD_GET_HNDLS : Int → Option st_sdhndl_t) (hw : Hw) (sd_port : Int)
    (mode voltage : Nat)
    (hdone : (sd_mount env SD_GET_HNDLS hw sd_port mode voltage).exit = MountExit.done) :
    (sd_mount env SD_GET_HNDLS hw sd_port mode voltage).hw.trace.head? = some clock_halt ∧
    ∃ h2, (sd_mount env SD_GET_HNDLS hw sd_port mode voltage).hndl = some h2 ∧
      h2.mount = SD_MOUNT_UNLOCKED_CARD ∧
      (sd_mount env SD_GET_HNDLS hw sd_port mode voltage).ret = h2.error := by
  by_cases hp : sd_port ≠ 0 ∧ sd_port ≠ 1
  · simp [sd_mount, hp] at hdone
  · cases hg : SD_GET_HNDLS sd_port with
    | none => simp [sd_mount, hp, hg] at hdone
    | some h =>
      by_cases hb : h.p_rw_buff = 0
      · simp [sd_mount, hp, hg, hb] at hdone
      · have hport : sd_port = 0 ∨ sd_port = 1 := by
          by_cases h0 : sd_port = 0
          · exact Or.inl h0
          · by_cases h1 : sd_port = 1
            · exact Or.inr h1
            · exact absurd ⟨h0, h1⟩ hp
        rw [sd_mount_resolved env SD_GET_HNDLS hw sd_port mode voltage h hport hg hb]
          at hdone ⊢
        obtain ⟨i1, -, i3, -, i5⟩ :=
          sd_mount_hndl_inv env { toHw := hw, hndl := h } sd_port mode voltage
        have hd : (sd_mount_hndl env { toHw := hw, hndl := h } sd_port mode voltage).2.1
            = MountExit.done := hdone
        exact ⟨i3 (by rw [hd]; decide) (by rw [hd]; decide), _, rfl, i5 hd,
          i1 (by rw [hd]; decide)⟩

/-- Witness of `sd_mount_success_halts_clock`: the mount of a fresh SD card on port 0. -/
theorem sd_mount_success_halts_clock_witness :
    (sd_mount env_ok hndls0 hw0 0 0 0).hw.trace.head? = some clock_halt ∧
    ∃ h2, (sd_mount env_ok hndls0 hw0 0 0 0).hndl = some h2 ∧
      h2.mount = SD_MOUNT_UNLOCKED_CARD ∧
      (sd_mount env_ok hndls0 hw0 0 0 0).ret = h2.error :=
  sd_mount_success_halts_clock env_ok hndls0 hw0 0 0 0 (by decide)

/-- C5 (as stated) fails: the mount of a fresh, unlocked SD card on port 0, in which
every command and transfer succeeds, returns `SD_OK` with the mount flag
`SD_MOUNT_UNLOCKED_CARD`, and its last call is a clock halt, issued after the
data-transfer clock was enabled (`_sd_set_clock(SD_CLK_25MHZ, SD_CLOCK_ENABLE)`). -/
theorem sd_mount_success_issues_halt :
    (sd_mount env_ok hndls0 hw0 0 0 0).exit = MountExit.done ∧
    (sd_mount env_ok hndls0 hw0 0 0 0).ret = SD_OK ∧
    ((sd_mount env_ok hndls0 hw0 0 0 0).hndl.map fun h => h.mount)
      = some SD_MOUNT_UNLOCKED_CARD ∧
    (sd_mount env_ok hndls0 hw0 0 0 0).hw.trace.head?
      = some (Call.sd_set_clock 0 SD_CLOCK_DISABLE) ∧
    Call.sd_set_clock SD_CLK_25MHZ SD_CLOCK_ENABLE
      ∈ (sd_mount env_ok hndls0 hw0 0 0 0).hw.trace.tail := by
  refine ⟨?_, ?_, ?_, ?_, ?_⟩ <;> decide

/-- C7 (as amended): at every return point of `sd_mount` reached after the work buffer
check, except the locked-card return, the value returned equals the recorded error
field of the handle. -/
theorem sd_mount_returns_recorded_error (env : Env)
    (SD_GET_HNDLS : Int → Option st_sdhndl_t) (hw : Hw) (sd_port : Int)
    (mode voltage : Nat) (h : st_sdhndl_t)
    (hport : sd_port = 0 ∨ sd_port = 1) (hh : SD_GET_HNDLS sd_port = some h)
    (hbuf : h.p_rw_buff ≠ 0)
    (hexit : (sd_mount env SD_GET_HNDLS hw sd_port mode voltage).exit
      ≠ MountExit.locked) :
    ∃ h2, (sd_mount env SD_GET_HNDLS hw sd_port mode voltage).hndl = some h2 ∧
      (sd_mount env SD_GET_HNDLS hw sd_port mode voltage).ret = h2.error := by
  rw [sd_mount_resolved env SD_GET_HNDLS hw sd_port mode voltage h hport hh hbuf] at hexit ⊢
  obtain ⟨i1, -, -, -, -⟩ :=
    sd_mount_hndl_inv env { toHw := hw, hndl := h } sd_port mode voltage
  exact ⟨_, rfl, i1 hexit⟩

/-- Witness of `sd_mount_returns_recorded_error`: a run that fails at the
identification clock enable. -/
theorem sd_mount_returns_recorded_error_witness :
    ∃ h2, (sd_mount env_clock_fail hndls0 hw0 0 0 0).hndl = some h2 ∧
      (sd_mount env_clock_fail hndls0 hw0 0 0 0).ret = h2.error :=
  sd_mount_returns_recorded_error env_clock_fail hndls0 hw0 0 0 0 hndl0 (by decide) rfl
    (by decide) (by decide)

/-- C7 (as stated) fails at the locked-card return: when the card answers CMD7 with the
lock bit, `sd_mount` returns `SD_OK_LOCKED_CARD` while the recorded error of the handle
is `SD_ERR_CARD_LOCK`. -/
theorem sd_mount_locked_return_differs :
    (sd_mount env_locked hndls0 hw0 0 0 0).exit = MountExit.locked ∧
    (sd_mount env_locked hndls0 hw0 0 0 0).ret = SD_OK_LOCKED_CARD ∧
    ((sd_mount env_locked hndls0 hw0 0 0 0).hndl.map fun h => h.error)
      = some SD_ERR_CARD_LOCK ∧
    SD_OK_LOCKED_CARD ≠ SD_ERR_CARD_LOCK := by
  refine ⟨?_, ?_, ?_, ?_⟩ <;> decide

/-! ### The calls of the card initialisation only extend the trace -/

theorem suffix_hcall (env : Env) (s : Sd) (c : Call) (t : List Call)
    (h : t <:+ s.trace) : t <:+ (hcall env s c).2.trace :=
  h.trans (List.suffix_cons _ _)

theorem cmd0_loop_suffix (env : Env) (n : Nat) : ∀ (ret : Int) (s : Sd) (t : List Call),
    t <:+ s.trace → t <:+ (cmd0_loop env n ret s).2.trace := by
  induction n with
  | zero => intro ret s t h; exact h
  | succ n ih =>
    intro ret s t h
    simp only [cmd0_loop]
    split_ifs
    · exact suffix_hcall env s _ t h
    · exact ih _ _ t (suffix_hcall env s _ t h)

theorem rca_loop_suffix (env : Env) (n : Nat) : ∀ (i : Nat) (s : Sd) (t : List Call),
    t <:+ s.trace → t <:+ (rca_loop env n i s).2.2.trace := by
  induction n with
  | zero => intro i s t h; exact h
  | succ n ih =>
    intro i s t h
    simp only [rca_loop]
    split_ifs
    · exact suffix_hcall env s _ t h
    · exact suffix_hcall env s _ t h
    · exact ih _ _ t (suffix_hcall env s _ t h)

theorem get_csd_suffix (env : Env) (s : Sd) (t : List Call) (h : t <:+ s.trace) :
    t <:+ (_sd_card_init_get_csd env s).2.trace := by
  simp only [_sd_card_init_get_csd]
  split_ifs <;>
    first
    | exact suffix_hcall env _ _ t h
    | exact suffix_hcall env _ _ t (suffix_hcall env _ _ t h)

theorem get_rca_suffix (env : Env) (s : Sd) (t : List Call) (h : t <:+ s.trace) :
    t <:+ (_sd_card_init_get_rca env s).2.trace := by
  simp only [_sd_card_init_get_rca]
  split_ifs
  · exact rca_loop_suffix env 3 0 s t h
  · exact rca_loop_suffix env 3 0 s t h
  · exact get_csd_suffix env _ t (rca_loop_suffix env 3 0 s t h)
  · exact suffix_hcall env _ _ t h
  · exact get_csd_suffix env _ t (suffix_hcall env _ _ t h)

theorem ocr_suffix (env : Env) (s : Sd) (t : List Call)
    (h : t <:+ Call.sd_card_send_ocr s.hndl.media_type :: s.trace) :
    t <:+ (_sd_card_init_ocr env s).2.trace := by
  have h0 : t <:+ (hcall env s (Call.sd_card_send_ocr s.hndl.media_type)).2.trace := h
  simp only [_sd_card_init_ocr]
  split_ifs
  · exact cmd0_loop_suffix env 3 _ _ t h0
  · exact suffix_hcall env _ _ t
      (suffix_hcall env _ _ t (cmd0_loop_suffix env 3 _ _ t h0))
  · exact get_rca_suffix env _ t (suffix_hcall env _ _ t
      (suffix_hcall env _ _ t (cmd0_loop_suffix env 3 _ _ t h0)))
  · exact suffix_hcall env _ _ t (cmd0_loop_suffix env 3 _ _ t h0)
  · exact suffix_hcall env _ _ t h0
  · exact get_rca_suffix env _ t (suffix_hcall env _ _ t h0)

theorem if_cond_suffix (env : Env) (s : Sd) (a b : Nat) (t : List Call)
    (h : t <:+ (if s.hndl.sup_ver = SD_MODE_VER2X then
                  Call.sd_card_send_cmd_arg CMD8 SD_RSP_R7 a b
                else Call.sd_card_send_ocr (s.hndl.media_type ||| SD_MEDIA_SD))
              :: s.trace) :
    t <:+ (_sd_card_init_if_cond env s a b).2.trace := by
  simp only [_sd_card_init_if_cond]
  by_cases hv : s.hndl.sup_ver = SD_MODE_VER2X
  · rw [if_pos hv] at h
    rw [if_pos hv]
    have h0 : t <:+ (hcall env { s with hndl := { s.hndl with
        error := SD_OK, media_type := (s.hndl.media_type ||| SD_MEDIA_SD),
        partition_id := 0 } } (Call.sd_card_send_cmd_arg CMD8 SD_RSP_R7 a b)).2.trace := h
    split_ifs
    · exact h0
    · exact h0
    · exact ocr_suffix env _ t (h0.trans (List.suffix_cons _ _))
    · exact ocr_suffix env _ t
        ((cmd0_loop_suffix env 3 _ _ t h0).trans (List.suffix_cons _ _))
  · rw [if_neg hv] at h
    rw [if_neg hv]
    exact ocr_suffix env _ t h

/-- The shape of `_sd_card_init`: the CMD0 loop, then the rest. -/
theorem card_init_eq (env : Env) (s : Sd) :
    _sd_card_init env s
      = if (cmd0_loop env 3 0 (card_init_entry s)).1 ≠ SD_OK then
          (SD_ERR, (cmd0_loop env 3 0 (card_init_entry s)).2)
        else
          _sd_card_init_if_cond env (cmd0_loop env 3 0 (card_init_entry s)).2
            (s.hndl.if_cond 0) (s.hndl.if_cond 1) := by
  simp only [_sd_card_init, card_init_entry, if_true]

/-- The CMD0 loop when attempt `k` is the first that succeeds. -/
theorem cmd0_loop_first_ok (env : Env) (s : Sd) (ret : Int) (k : Nat) (hk1 : 1 ≤ k)
    (hk3 : k ≤ 3)
    (hfail : ∀ j, j + 1 < k →
      (env (s.trace.length + j) (Call.sd_send_cmd CMD0)).ret ≠ SD_OK)
    (hok : (env (s.trace.length + (k - 1)) (Call.sd_send_cmd CMD0)).ret = SD_OK) :
    (cmd0_loop env 3 ret s).1 = SD_OK ∧
    (cmd0_loop env 3 ret s).2.trace = List.replicate k (Call.sd_send_cmd CMD0) ++ s.trace := by
  have e0 : s.trace.length + 0 = s.trace.length := rfl
  interval_cases k
  · have h1 := hok
    simp only [Nat.sub_self, e0] at h1
    simp [cmd0_loop, h1, List.replicate]
  · have h1 := hfail 0 (by omega)
    have h2 := hok
    simp only [e0] at h1
    simp [cmd0_loop, h1, h2, List.replicate]
  · have h1 := hfail 0 (by omega)
    have h2 := hfail 1 (by omega)
    have h3 := hok
    simp only [e0] at h1
    simp [cmd0_loop, h1, h2, h3, List.replicate]

/-- The CMD0 loop when all three attempts fail. -/
theorem cmd0_loop_all_fail (env : Env) (s : Sd) (ret : Int)
    (hall : ∀ j, j < 3 → (env (s.trace.length + j) (Call.sd_send_cmd CMD0)).ret ≠ SD_OK) :
    (cmd0_loop env 3 ret s).1 ≠ SD_OK ∧
    (cmd0_loop env 3 ret s).2.trace = List.replicate 3 (Call.sd_send_cmd CMD0) ++ s.trace := by
  have h1 := hall 0 (by omega)
  have h2 := hall 1 (by omega)
  have h3 := hall 2 (by omega)
  have e0 : s.trace.length + 0 = s.trace.length := rfl
  simp only [e0] at h1
  simp [cmd0_loop, h1, h2, h3, List.replicate]

/-- C10: CMD0 bounded retry at the start of `_sd_card_init`. If the first successful
CMD0 attempt is attempt `k` (`1 ≤ k ≤ 3`), exactly `k` CMD0 are issued and the
initialisation continues with the next command (CMD8 for a version 2 host, else the
operating-condition negotiation); if all three attempts fail, exactly three CMD0 are
issued and `_sd_card_init` returns `SD_ERR` without any further call. The trace lists
the most recent call first. -/
theorem card_init_cmd0_retry (env : Env) (s : Sd) :
    (∀ k, 1 ≤ k → k ≤ 3 →
      (∀ j, j + 1 < k →
        (env (s.trace.length + j) (Call.sd_send_cmd CMD0)).ret ≠ SD_OK) →
      (env (s.trace.length + (k - 1)) (Call.sd_send_cmd CMD0)).ret = SD_OK →
      ∃ rest, (_sd_card_init env s).2.trace
        = rest ++ ((if s.hndl.sup_ver = SD_MODE_VER2X then
                      Call.sd_card_send_cmd_arg CMD8 SD_RSP_R7 (s.hndl.if_cond 0)
                        (s.hndl.if_cond 1)
                    else Call.sd_card_send_ocr SD_MEDIA_SD)
                  :: (List.replicate k (Call.sd_send_cmd CMD0) ++ s.trace))) ∧
    ((∀ j, j < 3 → (env (s.trace.length + j) (Call.sd_send_cmd CMD0)).ret ≠ SD_OK) →
      (_sd_card_init env s).1 = SD_ERR ∧
      (_sd_card_init env s).2.trace
        = List.replicate 3 (Call.sd_send_cmd CMD0) ++ s.trace) := by
  constructor
  · intro k hk1 hk3 hfail hok
    obtain ⟨c1, c2⟩ := cmd0_loop_first_ok env (card_init_entry s) 0 k hk1 hk3 hfail hok
    have hs := if_cond_suffix env (cmd0_loop env 3 0 (card_init_entry s)).2
      (s.hndl.if_cond 0) (s.hndl.if_cond 1) _ (List.suffix_refl _)
    rw [c2] at hs
    simp only [cmd0_loop_sup_ver, cmd0_loop_media_type] at hs
    obtain ⟨rest, hr⟩ := hs
    refine ⟨rest, ?_⟩
    have hm : SD_MEDIA_UNKNOWN ||| SD_MEDIA_SD = SD_MEDIA_SD := by decide
    rw [card_init_eq, if_neg (by rw [c1]; exact fun c => c rfl), ← hr]
    simp only [card_init_entry, hm]
  · intro hall
    obtain ⟨c1, c2⟩ := cmd0_loop_all_fail env (card_init_entry s) 0 hall
    rw [card_init_eq, if_pos c1]
    exact ⟨rfl, c2⟩

/-- Witness of `card_init_cmd0_retry`: a card that answers the second CMD0, and a card
that answers none of the three. -/
theorem card_init_cmd0_retry_witness :
    (∃ rest, (_sd_card_init (env_fail_first 1) sd0).2.trace
      = rest ++ ((if sd0.hndl.sup_ver = SD_MODE_VER2X then
                    Call.sd_card_send_cmd_arg CMD8 SD_RSP_R7 (sd0.hndl.if_cond 0)
                      (sd0.hndl.if_cond 1)
                  else Call.sd_card_send_ocr SD_MEDIA_SD)
                :: (List.replicate 2 (Call.sd_send_cmd CMD0) ++ sd0.trace))) ∧
    ((_sd_card_init (env_fail_first 3) sd0).1 = SD_ERR ∧
      (_sd_card_init (env_fail_first 3) sd0).2.trace
        = List.replicate 3 (Call.sd_send_cmd CMD0) ++ sd0.trace) :=
  ⟨(card_init_cmd0_retry (env_fail_first 1) sd0).1 2 (by decide) (by decide)
      (fun j hj => by
        have h0 : j = 0 := by omega
        subst h0
        decide)
      (by decide),
    (card_init_cmd0_retry (env_fail_first 3) sd0).2
      (fun j hj => by interval_cases j <;> decide)⟩

/-! ### Which return statements the later parts of `sd_mount` can reach -/

theorem check_media_hndl (env : Env) (s : Sd) :
    (_sd_check_media env s).2.hndl = s.hndl := by
  simp only [_sd_check_media]
  split_ifs <;> rfl

theorem check_media_trace (env : Env) (s : Sd) :
    (_sd_check_media env s).2.trace = Call.sddev_cd_layout s.hndl.sd_port :: s.trace := by
  simp only [_sd_check_media]
  split_ifs <;> rfl

/-- C8 (as amended): the session error when CMD16 is issued, that is after the
enhanced-partition step of `_sd_mem_mount`. If the select step (CMD43 and the
status-clearing CMD13) ends with a recorded error, the error is reset to `SD_OK`; if it
ends without error, the CMD45 re-query runs and an error left by its transfer is not
reset: it is the session error when CMD16 is issued. -/
theorem mem_mount_partition_error (env : Env) (s : Sd) :
    ((_esd_card_select_partition env s 1).1 ≠ SD_OK →
      (_sd_mem_mount_partition env s).hndl.error = SD_OK) ∧
    ((_esd_card_select_partition env s 1).1 = SD_OK →
      (_sd_read_byte env (_esd_card_select_partition env s 1).2 CMD45 0xA100 0 BufId.rw
        SD_QUERY_PARTITION_SIZE).2.hndl.error ≠ SD_OK →
      (_sd_mem_mount_partition env s).hndl.error
        = (_sd_read_byte env (_esd_card_select_partition env s 1).2 CMD45 0xA100 0
            BufId.rw SD_QUERY_PARTITION_SIZE).2.hndl.error) := by
  have hop : (0xA1 <<< 8) % 65536 = 0xA100 := by decide
  constructor
  · intro h
    simp only [_sd_mem_mount_partition]
    rw [if_neg h]
  · intro h1 h2
    simp only [_sd_mem_mount_partition]
    rw [if_pos h1]
    simp only [_esd_get_partition_id, _esd_card_query_partitions, hop]
    rw [if_pos h2]
    simp only [if_pos h2]

/-- Witness of `mem_mount_partition_error`: a card that does not answer CMD43, and a
card that accepts CMD43 but does not answer CMD45. -/
theorem mem_mount_partition_error_witness :
    (_sd_mem_mount_partition env_cmd43_fail sd0).hndl.error = SD_OK ∧
    (_sd_mem_mount_partition env_cmd45_fail sd0).hndl.error
      = (_sd_read_byte env_cmd45_fail (_esd_card_select_partition env_cmd45_fail sd0 1).2
          CMD45 0xA100 0 BufId.rw SD_QUERY_PARTITION_SIZE).2.hndl.error :=
  ⟨(mem_mount_partition_error env_cmd43_fail sd0).1 (by decide),
    (mem_mount_partition_error env_cmd45_fail sd0).2 (by decide) (by decide)⟩

/-- C8 (as stated) fails: for a card that accepts CMD43 (and the CMD13 after it) but
does not answer the CMD45 re-query, the session error after the enhanced-partition step
is `SD_ERR_RES_TOE`, not `SD_OK`, and CMD16 is issued in that state: the calls of the
step are CMD43, CMD13, `_sd_set_arg`, CMD45 and CMD13, and the mount goes on to
CMD16. -/
theorem mem_mount_partition_keeps_cmd45_error :
    (_sd_mem_mount_partition env_cmd45_fail sd0).hndl.error = SD_ERR_RES_TOE ∧
    SD_ERR_RES_TOE ≠ SD_OK ∧
    (_sd_mem_mount_partition env_cmd45_fail sd0).trace
      = [Call.sd_card_send_cmd_arg CMD13 SD_RSP_R1 0x1234 0, Call.sd_send_cmd CMD45,
         Call.sd_set_arg 0xA100 0, Call.sd_card_send_cmd_arg CMD13 SD_RSP_R1 0x1234 0,
         Call.sd_card_send_cmd_arg CMD43 SD_RSP_R1B 0x0100 0] ∧
    Call.sd_card_send_cmd_arg CMD16 SD_RSP_R1 0 0x0200
      ∈ (sd_mount env_cmd45_fail hndls0 hw0 0 0 0).hw.trace := by
  refine ⟨?_, ?_, ?_, ?_⟩ <;> decide

/-! ### The media type after a successful card initialisation -/

theorem ocr_media (env : Env) (s : Sd) (h : (_sd_card_init_ocr env s).1 = SD_OK) :
    (_sd_card_init_ocr env s).2.hndl.media_type = s.hndl.media_type ∨
    (_sd_card_init_ocr env s).2.hndl.media_type = SD_MEDIA_MMC := by
  have hne : SD_ERR ≠ SD_OK := by decide
  simp only [_sd_card_init_ocr] at h ⊢
  split_ifs at h ⊢
  · exact absurd h hne
  · exact absurd h hne
  · right; simp
  · exact absurd h hne
  · exact absurd h hne
  · left; simp

theorem if_cond_media (env : Env) (s : Sd) (a b : Nat)
    (h : (_sd_card_init_if_cond env s a b).1 = SD_OK) :
    (_sd_card_init_if_cond env s a b).2.hndl.media_type
      = (s.hndl.media_type ||| SD_MEDIA_SD) ∨
    (_sd_card_init_if_cond env s a b).2.hndl.media_type = SD_MEDIA_MMC := by
  have hne : SD_ERR ≠ SD_OK := by decide
  simp only [_sd_card_init_if_cond] at h ⊢
  split_ifs at h ⊢
  · exact absurd h hne
  · exact absurd h hne
  · rcases ocr_media env _ h with h1 | h1
    · left; rw [h1]; simp
    · right; exact h1
  · rcases ocr_media env _ h with h1 | h1
    · left; rw [h1]; simp
    · right; exact h1
  · rcases ocr_media env _ h with h1 | h1
    · left; rw [h1]
    · right; exact h1

/-- After a successful `_sd_card_init` the media type is SD or MMC: a memory card. -/
theorem card_init_media (env : Env) (s : Sd) (h : (_sd_card_init env s).1 = SD_OK) :
    (_sd_card_init env s).2.hndl.media_type = SD_MEDIA_SD ∨
    (_sd_card_init env s).2.hndl.media_type = SD_MEDIA_MMC := by
  have hne : SD_ERR ≠ SD_OK := by decide
  have hm : SD_MEDIA_UNKNOWN ||| SD_MEDIA_SD = SD_MEDIA_SD := by decide
  rw [card_init_eq] at h ⊢
  split_ifs at h ⊢
  · exact absurd h hne
  · rcases if_cond_media env _ _ _ h with h1 | h1
    · left; rw [h1]; simp only [cmd0_loop_media_type, card_init_entry, hm]
    · right; exact h1

/-! ### The locked card -/

/-- The memory mount of a card that answers CMD7 with the lock bit, when the
data-transfer clock can be enabled. -/
theorem mem_mount_locked (env : Env) (s : Sd)
    (hcmd7 : ∀ n a b,
      (env n (Call.sd_card_send_cmd_arg CMD7 SD_RSP_R1B a b)).ret = SD_OK ∧
      (env n (Call.sd_card_send_cmd_arg CMD7 SD_RSP_R1B a b)).error = SD_OK ∧
      (env n (Call.sd_card_send_cmd_arg CMD7 SD_RSP_R1B a b)).resp_status
        &&& 0x02000000 ≠ 0)
    (hclk : ∀ n c, (env n (Call.sd_set_clock c SD_CLOCK_ENABLE)).ret = SD_OK) :
    (_sd_mem_mount env s).1 = SD_OK ∧
    (_sd_mem_mount env s).2.hndl.error = SD_ERR_CARD_LOCK ∧
    ∃ a, (_sd_mem_mount env s).2.trace
      = Call.sd_card_send_cmd_arg CMD7 SD_RSP_R1B a 0 ::
          ((if s.hndl.media_type &&& SD_MEDIA_IO = 0 then
              [Call.sd_set_clock (if s.hndl.csd_tran_speed > SD_CLK_25MHZ then SD_CLK_25MHZ
                 else s.hndl.csd_tran_speed) SD_CLOCK_ENABLE]
            else []) ++ s.trace) := by
  have hsel : ∀ s2 : Sd, (_sd_mem_mount_select env s2).1 = SD_OK ∧
      (_sd_mem_mount_select env s2).2.hndl.error = SD_ERR_CARD_LOCK ∧
      (_sd_mem_mount_select env s2).2.trace
        = Call.sd_card_send_cmd_arg CMD7 SD_RSP_R1B (s2.hndl.rca 0) 0 :: s2.trace := by
    intro s2
    obtain ⟨h1, h2, h3⟩ := hcmd7 s2.trace.length (s2.hndl.rca 0) 0
    simp only [_sd_mem_mount_select, hcall_fst, hcall_hndl, apply_error]
    rw [if_neg (by rw [h1]; exact fun c => c rfl)]
    have h3b : ((env s2.trace.length
        (Call.sd_card_send_cmd_arg CMD7 SD_RSP_R1B (s2.hndl.rca 0) 0)).apply
          s2.hndl).resp_status &&& 0x02000000 ≠ 0 := h3
    rw [if_pos h3b]
    exact ⟨rfl, set_err_of_ok _ _ h2, rfl⟩
  simp only [_sd_mem_mount]
  by_cases hio : s.hndl.media_type &&& SD_MEDIA_IO = 0
  · rw [if_pos hio, if_pos hio]
    simp only [hcall_fst, hclk]
    rw [if_neg (fun c => c rfl)]
    by_cases hsp : s.hndl.csd_tran_speed > SD_CLK_25MHZ
    · simp only [if_pos hsp]
      obtain ⟨h1, h2, h3⟩ := hsel (hcall env
        ({ s with hndl := { s.hndl with csd_tran_speed := SD_CLK_25MHZ } } : Sd)
        (Call.sd_set_clock SD_CLK_25MHZ SD_CLOCK_ENABLE)).2
      exact ⟨h1, h2, _, h3⟩
    · simp only [if_neg hsp]
      obtain ⟨h1, h2, h3⟩ := hsel (hcall env s
        (Call.sd_set_clock s.hndl.csd_tran_speed SD_CLOCK_ENABLE)).2
      exact ⟨h1, h2, _, h3⟩
  · rw [if_neg hio, if_neg hio]
    obtain ⟨h1, h2, h3⟩ := hsel s
    exact ⟨h1, h2, _, h3⟩

theorem sd_mount_mem_locked (env : Env) (s : Sd)
    (hcmd7 : ∀ n a b,
      (env n (Call.sd_card_send_cmd_arg CMD7 SD_RSP_R1B a b)).ret = SD_OK ∧
      (env n (Call.sd_card_send_cmd_arg CMD7 SD_RSP_R1B a b)).error = SD_OK ∧
      (env n (Call.sd_card_send_cmd_arg CMD7 SD_RSP_R1B a b)).resp_status
        &&& 0x02000000 ≠ 0)
    (hclk : ∀ n c, (env n (Call.sd_set_clock c SD_CLOCK_ENABLE)).ret = SD_OK)
    (hmem : s.hndl.media_type &&& SD_MEDIA_MEM ≠ 0) :
    (sd_mount_mem env s).1 = SD_OK_LOCKED_CARD ∧
    (sd_mount_mem env s).2.1 = MountExit.locked ∧
    (sd_mount_mem env s).2.2.hndl.mount = SD_CARD_LOCKED ||| SD_MOUNT_LOCKED_CARD ∧
    ∃ a tr, (sd_mount_mem env s).2.2.trace
      = clock_halt :: Call.sd_card_send_cmd_arg CMD7 SD_RSP_R1B a 0 :: tr := by
  obtain ⟨h1, h2, a, h3⟩ := mem_mount_locked env s hcmd7 hclk
  simp only [sd_mount_mem]
  rw [if_pos hmem, if_neg (fun c => c h1), if_pos h2.symm]
  refine ⟨rfl, rfl, ?_, a,
    (if s.hndl.media_type &&& SD_MEDIA_IO = 0 then
        [Call.sd_set_clock (if s.hndl.csd_tran_speed > SD_CLK_25MHZ then SD_CLK_25MHZ
           else s.hndl.csd_tran_speed) SD_CLOCK_ENABLE]
      else []) ++ s.trace, ?_⟩
  · simp
  · show clock_halt :: (_sd_mem_mount env s).2.trace = _
    rw [h3]

theorem sd_mount_init_locked (env : Env) (s : Sd)
    (hcmd7 : ∀ n a b,
      (env n (Call.sd_card_send_cmd_arg CMD7 SD_RSP_R1B a b)).ret = SD_OK ∧
      (env n (Call.sd_card_send_cmd_arg CMD7 SD_RSP_R1B a b)).error = SD_OK ∧
      (env n (Call.sd_card_send_cmd_arg CMD7 SD_RSP_R1B a b)).resp_status
        &&& 0x02000000 ≠ 0)
    (hclk : ∀ n c, (env n (Call.sd_set_clock c SD_CLOCK_ENABLE)).ret = SD_OK)
    (hreach : (sd_mount_init env s).2.1 = MountExit.mem_mount ∨
      (sd_mount_init env s).2.1 = MountExit.locked ∨
      (sd_mount_init env s).2.1 = MountExit.get_scr ∨
      (sd_mount_init env s).2.1 = MountExit.done) :
    (sd_mount_init env s).1 = SD_OK_LOCKED_CARD ∧
    (sd_mount_init env s).2.1 = MountExit.locked ∧
    (sd_mount_init env s).2.2.hndl.mount = SD_CARD_LOCKED ||| SD_MOUNT_LOCKED_CARD ∧
    ∃ a tr, (sd_mount_init env s).2.2.trace
      = clock_halt :: Call.sd_card_send_cmd_arg CMD7 SD_RSP_R1B a 0 :: tr := by
  simp only [sd_mount_init] at hreach ⊢
  by_cases h1 : (_sd_card_init env s).1 ≠ SD_OK
  · rw [if_pos h1] at hreach
    simp at hreach
  · rw [if_neg h1] at hreach ⊢
    have hm : (_sd_card_init env s).2.hndl.media_type &&& SD_MEDIA_MEM ≠ 0 := by
      rcases card_init_media env s (not_not.1 h1) with h | h <;> rw [h] <;> decide
    rw [if_pos hm] at hreach ⊢
    by_cases h2 : (hcall env (_sd_card_init env s).2 Call.sd_check_csd).1 ≠ SD_OK
    · rw [if_pos h2] at hreach
      simp at hreach
    · rw [if_neg h2] at hreach ⊢
      by_cases h3 : (hcall env (hcall env (_sd_card_init env s).2 Call.sd_check_csd).2
          (Call.sd_get_size SD_USER_AREA)).1 ≠ SD_OK
      · rw [if_pos h3] at hreach
        simp at hreach
      · rw [if_neg h3]
        exact sd_mount_mem_locked env _ hcmd7 hclk (by simpa using hm)

/-- C6: the locked card. Let CMD7 succeed with the card-locked bit (0x02000000) set in
the response status and no error recorded, and let the data-transfer clock enable
succeed. Then `_sd_mem_mount` returns `SD_OK` with the error `SD_ERR_CARD_LOCK`
recorded, and CMD7 is its last call (neither partition selection nor CMD16, ACMD42 or
ACMD13 follows). Every run of `sd_mount` that gets as far as the memory mount returns at
the locked-card return (line 177), with the success-class value `SD_OK_LOCKED_CARD`, the
mount flag `SD_CARD_LOCKED | SD_MOUNT_LOCKED_CARD`, and the clock halt as the only call
after CMD7: the SCR is not read. -/
theorem sd_mount_locked_card (env : Env)
    (SD_GET_HNDLS : Int → Option st_sdhndl_t) (hw : Hw) (sd_port : Int)
    (mode voltage : Nat)
    (hcmd7 : ∀ n a b,
      (env n (Call.sd_card_send_cmd_arg CMD7 SD_RSP_R1B a b)).ret = SD_OK ∧
      (env n (Call.sd_card_send_cmd_arg CMD7 SD_RSP_R1B a b)).error = SD_OK ∧
      (env n (Call.sd_card_send_cmd_arg CMD7 SD_RSP_R1B a b)).resp_status
        &&& 0x02000000 ≠ 0)
    (hclk : ∀ n c, (env n (Call.sd_set_clock c SD_CLOCK_ENABLE)).ret = SD_OK)
    (hreach : (sd_mount env SD_GET_HNDLS hw sd_port mode voltage).exit
        = MountExit.mem_mount ∨
      (sd_mount env SD_GET_HNDLS hw sd_port mode voltage).exit = MountExit.locked ∨
      (sd_mount env SD_GET_HNDLS hw sd_port mode voltage).exit = MountExit.get_scr ∨
      (sd_mount env SD_GET_HNDLS hw sd_port mode voltage).exit = MountExit.done) :
    (∀ s : Sd, (_sd_mem_mount env s).1 = SD_OK ∧
      (_sd_mem_mount env s).2.hndl.error = SD_ERR_CARD_LOCK ∧
      ∃ a, (_sd_mem_mount env s).2.trace
        = Call.sd_card_send_cmd_arg CMD7 SD_RSP_R1B a 0 ::
            ((if s.hndl.media_type &&& SD_MEDIA_IO = 0 then
                [Call.sd_set_clock
                  (if s.hndl.csd_tran_speed > SD_CLK_25MHZ then SD_CLK_25MHZ
                   else s.hndl.csd_tran_speed) SD_CLOCK_ENABLE]
              else []) ++ s.trace)) ∧
    (sd_mount env SD_GET_HNDLS hw sd_port mode voltage).exit = MountExit.locked ∧
    (sd_mount env SD_GET_HNDLS hw sd_port mode voltage).ret = SD_OK_LOCKED_CARD ∧
    (∃ h2, (sd_mount env SD_GET_HNDLS hw sd_port mode voltage).hndl = some h2 ∧
      h2.mount = SD_CARD_LOCKED ||| SD_MOUNT_LOCKED_CARD) ∧
    ∃ a tr, (sd_mount env SD_GET_HNDLS hw sd_port mode voltage).hw.trace
      = clock_halt :: Call.sd_card_send_cmd_arg CMD7 SD_RSP_R1B a 0 :: tr := by
  refine ⟨fun s => mem_mount_locked env s hcmd7 hclk, ?_⟩
  by_cases hp : sd_port ≠ 0 ∧ sd_port ≠ 1
  · simp [sd_mount, hp] at hreach
  · cases hg : SD_GET_HNDLS sd_port with
    | none => simp [sd_mount, hp, hg] at hreach
    | some h =>
      by_cases hb : h.p_rw_buff = 0
      · simp [sd_mount, hp, hg, hb] at hreach
      · have hport : sd_port = 0 ∨ sd_port = 1 := by
          by_cases h0 : sd_port = 0
          · exact Or.inl h0
          · by_cases h1 : sd_port = 1
            · exact Or.inr h1
            · exact absurd ⟨h0, h1⟩ hp
        rw [sd_mount_resolved env SD_GET_HNDLS hw sd_port mode voltage h hport hg hb]
          at hreach ⊢
        have hr : (sd_mount_hndl env { toHw := hw, hndl := h } sd_port mode voltage).2.1
              = MountExit.mem_mount ∨
            (sd_mount_hndl env { toHw := hw, hndl := h } sd_port mode voltage).2.1
              = MountExit.locked ∨
            (sd_mount_hndl env { toHw := hw, hndl := h } sd_port mode voltage).2.1
              = MountExit.get_scr ∨
            (sd_mount_hndl env { toHw := hw, hndl := h } sd_port mode voltage).2.1
              = MountExit.done := hreach
        have key : (sd_mount_hndl env { toHw := hw, hndl := h } sd_port mode voltage).1
              = SD_OK_LOCKED_CARD ∧
            (sd_mount_hndl env { toHw := hw, hndl := h } sd_port mode voltage).2.1
              = MountExit.locked ∧
            (sd_mount_hndl env { toHw := hw, hndl := h } sd_port mode voltage).2.2.hndl.mount
              = SD_CARD_LOCKED ||| SD_MOUNT_LOCKED_CARD ∧
            ∃ a tr,
              (sd_mount_hndl env { toHw := hw, hndl := h } sd_port mode voltage).2.2.trace
                = clock_halt :: Call.sd_card_send_cmd_arg CMD7 SD_RSP_R1B a 0 :: tr := by
          simp only [sd_mount_hndl] at hr ⊢
          split_ifs at hr ⊢
          · simp at hr
          · simp at hr
          · simp at hr
          · exact sd_mount_init_locked env _ hcmd7 hclk hr
        obtain ⟨k1, k2, k3, a, tr, k4⟩ := key
        exact ⟨k2, k1, ⟨_, rfl, k3⟩, a, tr, k4⟩

/-- Witness of `sd_mount_locked_card`: the mount of a locked SD card on port 0. -/
theorem sd_mount_locked_card_witness :
    (sd_mount env_locked hndls0 hw0 0 0 0).exit = MountExit.locked ∧
    (sd_mount env_locked hndls0 hw0 0 0 0).ret = SD_OK_LOCKED_CARD ∧
    (∃ h2, (sd_mount env_locked hndls0 hw0 0 0 0).hndl = some h2 ∧
      h2.mount = SD_CARD_LOCKED ||| SD_MOUNT_LOCKED_CARD) ∧
    ∃ a tr, (sd_mount env_locked hndls0 hw0 0 0 0).hw.trace
      = clock_halt :: Call.sd_card_send_cmd_arg CMD7 SD_RSP_R1B a 0 :: tr :=
  (sd_mount_locked_card env_locked hndls0 hw0 0 0 0
    (fun _ _ _ => ⟨rfl, rfl, show (0x02000000 : Nat) &&& 0x02000000 ≠ 0 by decide⟩)
    (fun _ _ => rfl)
    (Or.inr (Or.inl (by decide)))).2

/-! ### The successful mount -/

theorem read_data_fst (env : Env) (s : Sd) (buf : BufId) (num : Nat) :
    (sddev_read_data env s buf num).1
      = (env s.trace.length (Call.sddev_read_data s.hndl.sd_port num)).ret := by
  cases buf <;> rfl

theorem read_data_stat (env : Env) (s : Sd) (num : Nat) :
    (sddev_read_data env s BufId.stat num).2.s_stat_buff
      = fun i => if i < num then
          (env s.trace.length (Call.sddev_read_data s.hndl.sd_port num)).data i % 256
        else s.s_stat_buff i := rfl

theorem read_byte_data_ok (env : Env) (s : Sd) (buf : BufId) (byte : Nat)
    (hret : ∀ n c, c ≠ Call.sd_iswp → (∀ p, c ≠ Call.sddev_cd_layout p) →
      (env n c).ret = SD_OK)
    (hint : ∀ n c, (env n c).int_info2 &&& SD_INFO2_MASK_ERR = 0) :
    (_sd_read_byte_data env s buf byte).1 = SD_OK := by
  simp [_sd_read_byte_data, read_data_fst, hret, hint]

theorem read_byte_data_stat (env : Env) (s : Sd) (byte : Nat)
    (hret : ∀ n c, c ≠ Call.sd_iswp → (∀ p, c ≠ Call.sddev_cd_layout p) →
      (env n c).ret = SD_OK)
    (hint : ∀ n c, (env n c).int_info2 &&& SD_INFO2_MASK_ERR = 0) :
    ∃ n, (_sd_read_byte_data env s BufId.stat byte).2.s_stat_buff
      = fun i => if i < byte then
          (env n (Call.sddev_read_data s.hndl.sd_port byte)).data i % 256
        else s.s_stat_buff i := by
  simp [_sd_read_byte_data, read_data_fst, hret, hint]
  exact ⟨_, rfl⟩

theorem read_byte_acmd_ok (env : Env) (s : Sd) (cmd a b : Nat) (buf : BufId) (byte : Nat)
    (hc : cmd &&& 0x0040 ≠ 0)
    (hret : ∀ n c, c ≠ Call.sd_iswp → (∀ p, c ≠ Call.sddev_cd_layout p) →
      (env n c).ret = SD_OK)
    (hint : ∀ n c, (env n c).int_info2 &&& SD_INFO2_MASK_ERR = 0) :
    (_sd_read_byte env s cmd a b buf byte).1 = SD_OK := by
  simp only [_sd_read_byte]
  rw [if_pos hc, if_neg (fun c => c (hret _ _ (by simp) (by simp)))]
  exact read_byte_data_ok env _ buf byte hret hint

theorem read_byte_acmd_stat (env : Env) (s : Sd) (cmd a b : Nat) (byte : Nat)
    (hc : cmd &&& 0x0040 ≠ 0)
    (hret : ∀ n c, c ≠ Call.sd_iswp → (∀ p, c ≠ Call.sddev_cd_layout p) →
      (env n c).ret = SD_OK)
    (hint : ∀ n c, (env n c).int_info2 &&& SD_INFO2_MASK_ERR = 0) :
    ∃ n, (_sd_read_byte env s cmd a b BufId.stat byte).2.s_stat_buff
      = fun i => if i < byte then
          (env n (Call.sddev_read_data s.hndl.sd_port byte)).data i % 256
        else s.s_stat_buff i := by
  simp only [_sd_read_byte]
  rw [if_pos hc, if_neg (fun c => c (hret _ _ (by simp) (by simp)))]
  exact read_byte_data_stat env _ byte hret hint

theorem get_status_ok (env : Env) (s : Sd)
    (hret : ∀ n c, c ≠ Call.sd_iswp → (∀ p, c ≠ Call.sddev_cd_layout p) →
      (env n c).ret = SD_OK)
    (hint : ∀ n c, (env n c).int_info2 &&& SD_INFO2_MASK_ERR = 0)
    (hstat : ∀ n p,
      ((env n (Call.sddev_read_data p SD_STATUS_BYTE)).data 2 % 256) &&& 0xff = 0) :
    (_sd_card_get_status env s).1 = SD_OK := by
  have h1 := read_byte_acmd_ok env s ACMD13 0 0 BufId.stat SD_STATUS_BYTE (by decide)
    hret hint
  obtain ⟨n, h2⟩ := read_byte_acmd_stat env s ACMD13 0 0 SD_STATUS_BYTE (by decide)
    hret hint
  have h3 : (_sd_read_byte env s ACMD13 0 0 BufId.stat SD_STATUS_BYTE).2.s_stat_buff 2
      &&& 0xff = 0 := by
    rw [h2]
    have : (2 : Nat) < SD_STATUS_BYTE := by decide
    simp only [this, if_true]
    exact hstat n _
  simp only [_sd_card_get_status]
  rw [if_neg (fun c => c h1)]
  simp only [h3, if_true]

theorem get_scr_ok (env : Env) (s : Sd)
    (hret : ∀ n c, c ≠ Call.sd_iswp → (∀ p, c ≠ Call.sddev_cd_layout p) →
      (env n c).ret = SD_OK)
    (hint : ∀ n c, (env n c).int_info2 &&& SD_INFO2_MASK_ERR = 0) :
    (_sd_card_get_scr env s).1 = SD_OK := by
  have h1 := read_byte_acmd_ok env s ACMD51 0 0 BufId.stat SD_SCR_REGISTER_BYTE
    (by decide) hret hint
  simp only [_sd_card_get_scr]
  rw [if_neg (fun c => c h1)]

theorem blocklen_ok (env : Env) (s : Sd)
    (hret : ∀ n c, c ≠ Call.sd_iswp → (∀ p, c ≠ Call.sddev_cd_layout p) →
      (env n c).ret = SD_OK)
    (hint : ∀ n c, (env n c).int_info2 &&& SD_INFO2_MASK_ERR = 0)
    (herr : ∀ n c, (env n c).error = SD_OK)
    (hstat : ∀ n p,
      ((env n (Call.sddev_read_data p SD_STATUS_BYTE)).data 2 % 256) &&& 0xff = 0)
    (hm : s.hndl.media_type = SD_MEDIA_SD) :
    (_sd_mem_mount_blocklen env s).1 = SD_OK ∧
    (_sd_mem_mount_blocklen env s).2.hndl.error = SD_OK := by
  have hsd : ¬ SD_MEDIA_SD = 0 := by decide
  have hg : ∀ s2 : Sd, (_sd_card_get_status env s2).1 = SD_OK :=
    fun s2 => get_status_ok env s2 hret hint hstat
  simp only [_sd_mem_mount_blocklen]
  simp [hm, hsd, hret, hg, herr]

theorem mem_select_ok (env : Env) (s : Sd)
    (hret : ∀ n c, c ≠ Call.sd_iswp → (∀ p, c ≠ Call.sddev_cd_layout p) →
      (env n c).ret = SD_OK)
    (hint : ∀ n c, (env n c).int_info2 &&& SD_INFO2_MASK_ERR = 0)
    (herr : ∀ n c, (env n c).error = SD_OK)
    (hstat : ∀ n p,
      ((env n (Call.sddev_read_data p SD_STATUS_BYTE)).data 2 % 256) &&& 0xff = 0)
    (hlock : ∀ n a b,
      (env n (Call.sd_card_send_cmd_arg CMD7 SD_RSP_R1B a b)).resp_status
        &&& 0x02000000 = 0)
    (hm : s.hndl.media_type = SD_MEDIA_SD) :
    (_sd_mem_mount_select env s).1 = SD_OK ∧
    (_sd_mem_mount_select env s).2.hndl.error = SD_OK := by
  simp only [_sd_mem_mount_select]
  rw [if_neg (fun c => c (hret _ _ (by simp) (by simp)))]
  have hl : ¬ ((hcall env s
      (Call.sd_card_send_cmd_arg CMD7 SD_RSP_R1B (s.hndl.rca 0) 0x0000)).2.hndl.resp_status
        &&& 0x02000000 ≠ 0) := fun c => c (hlock _ _ _)
  rw [if_neg hl]
  exact blocklen_ok env _ hret hint herr hstat (by simp [hm])

theorem mem_mount_ok (env : Env) (s : Sd)
    (hret : ∀ n c, c ≠ Call.sd_iswp → (∀ p, c ≠ Call.sddev_cd_layout p) →
      (env n c).ret = SD_OK)
    (hint : ∀ n c, (env n c).int_info2 &&& SD_INFO2_MASK_ERR = 0)
    (herr : ∀ n c, (env n c).error = SD_OK)
    (hstat : ∀ n p,
      ((env n (Call.sddev_read_data p SD_STATUS_BYTE)).data 2 % 256) &&& 0xff = 0)
    (hlock : ∀ n a b,
      (env n (Call.sd_card_send_cmd_arg CMD7 SD_RSP_R1B a b)).resp_status
        &&& 0x02000000 = 0)
    (hm : s.hndl.media_type = SD_MEDIA_SD) :
    (_sd_mem_mount env s).1 = SD_OK ∧
    (_sd_mem_mount env s).2.hndl.error = SD_OK := by
  have hio : s.hndl.media_type &&& SD_MEDIA_IO = 0 := by rw [hm]; decide
  simp only [_sd_mem_mount]
  rw [if_pos hio, if_neg (fun c => c (hret _ _ (by simp) (by simp)))]
  refine mem_select_ok env _ hret hint herr hstat hlock ?_
  by_cases hsp : s.hndl.csd_tran_speed > SD_CLK_25MHZ
  · simp [hsp, hm]
  · simp [hsp, hm]

theorem get_csd_ok (env : Env) (s : Sd)
    (hret : ∀ n c, c ≠ Call.sd_iswp → (∀ p, c ≠ Call.sddev_cd_layout p) →
      (env n c).ret = SD_OK) :
    (_sd_card_init_get_csd env s).1 = SD_OK := by
  simp only [_sd_card_init_get_csd]
  rw [if_neg (fun c => c (hret _ _ (by simp) (by simp)))]
  split_ifs with h1 h2 h3
  · exact absurd (hret _ _ (by simp) (by simp)) h3
  · rfl
  · rfl
  · rfl

theorem rca_loop_ok (env : Env) (s : Sd) (n : Nat)
    (hret : ∀ n c, c ≠ Call.sd_iswp → (∀ p, c ≠ Call.sddev_cd_layout p) →
      (env n c).ret = SD_OK)
    (hrca : ∀ n, (env n (Call.sd_card_send_cmd_arg CMD3 SD_RSP_R6 0 0)).rca 0 ≠ 0) :
    (rca_loop env (n + 1) 0 s).1 = false ∧ (rca_loop env (n + 1) 0 s).2.1 = 0 ∧
    (rca_loop env (n + 1) 0 s).2.2
      = (hcall env s (Call.sd_card_send_cmd_arg CMD3 SD_RSP_R6 0 0)).2 := by
  have h2 : (hcall env s (Call.sd_card_send_cmd_arg CMD3 SD_RSP_R6 0 0)).2.hndl.rca 0 ≠ 0 :=
    hrca _
  simp only [rca_loop]
  rw [if_neg (fun c => c (hret _ _ (by simp) (by simp))), if_pos h2]
  exact ⟨rfl, rfl, rfl⟩

theorem get_rca_ok (env : Env) (s : Sd)
    (hret : ∀ n c, c ≠ Call.sd_iswp → (∀ p, c ≠ Call.sddev_cd_layout p) →
      (env n c).ret = SD_OK)
    (hrca : ∀ n, (env n (Call.sd_card_send_cmd_arg CMD3 SD_RSP_R6 0 0)).rca 0 ≠ 0)
    (hm : s.hndl.media_type = SD_MEDIA_SD) :
    (_sd_card_init_get_rca env s).1 = SD_OK := by
  have hc : s.hndl.media_type &&& SD_MEDIA_COMBO ≠ 0 := by rw [hm]; decide
  obtain ⟨h1, h2, -⟩ := rca_loop_ok env s 2 hret hrca
  simp only [_sd_card_init_get_rca]
  rw [if_pos hc, if_neg (by rw [h1]; decide), if_neg (by rw [h2]; decide)]
  exact get_csd_ok env _ hret

theorem ocr_ok (env : Env) (s : Sd)
    (hret : ∀ n c, c ≠ Call.sd_iswp → (∀ p, c ≠ Call.sddev_cd_layout p) →
      (env n c).ret = SD_OK)
    (hrca : ∀ n, (env n (Call.sd_card_send_cmd_arg CMD3 SD_RSP_R6 0 0)).rca 0 ≠ 0)
    (hm : s.hndl.media_type = SD_MEDIA_SD) :
    (_sd_card_init_ocr env s).1 = SD_OK ∧
    (_sd_card_init_ocr env s).2.hndl.media_type = SD_MEDIA_SD ∧
    (_sd_card_init_ocr env s).2.hndl.sd_spec = s.hndl.sd_spec := by
  simp only [_sd_card_init_ocr]
  rw [if_neg (fun c => c (hret _ _ (by simp) (by simp))),
    if_neg (fun c => c (hret _ _ (by simp) (by simp)))]
  refine ⟨get_rca_ok env _ hret hrca (by simp [hm]), ?_, ?_⟩
  · simp [hm]
  · simp

theorem if_cond_ok (env : Env) (s : Sd) (a b : Nat)
    (hret : ∀ n c, c ≠ Call.sd_iswp → (∀ p, c ≠ Call.sddev_cd_layout p) →
      (env n c).ret = SD_OK)
    (hrca : ∀ n, (env n (Call.sd_card_send_cmd_arg CMD3 SD_RSP_R6 0 0)).rca 0 ≠ 0)
    (hcmd8 : ∀ n a b,
      (env n (Call.sd_card_send_cmd_arg CMD8 SD_RSP_R7 a b)).if_cond 0 &&& 0xf000 = 0 ∧
      (env n (Call.sd_card_send_cmd_arg CMD8 SD_RSP_R7 a b)).if_cond 1 &&& 0x00ff
        = 0x00aa)
    (hm : s.hndl.media_type = SD_MEDIA_UNKNOWN)
    (hv : s.hndl.sup_ver = SD_MODE_VER2X) :
    (_sd_card_init_if_cond env s a b).1 = SD_OK ∧
    (_sd_card_init_if_cond env s a b).2.hndl.media_type = SD_MEDIA_SD ∧
    (_sd_card_init_if_cond env s a b).2.hndl.sd_spec = SD_SPEC_20 := by
  have hu : SD_MEDIA_UNKNOWN ||| SD_MEDIA_SD = SD_MEDIA_SD := by decide
  simp only [_sd_card_init_if_cond]
  rw [if_pos hv, if_pos (by exact hret _ _ (by simp) (by simp))]
  rw [if_neg (by exact fun c => c (hcmd8 _ _ _).1),
    if_neg (by exact fun c => c (hcmd8 _ _ _).2)]
  exact ocr_ok env _ hret hrca (by simp [hm, hu])

theorem card_init_ok (env : Env) (s : Sd)
    (hret : ∀ n c, c ≠ Call.sd_iswp → (∀ p, c ≠ Call.sddev_cd_layout p) →
      (env n c).ret = SD_OK)
    (hrca : ∀ n, (env n (Call.sd_card_send_cmd_arg CMD3 SD_RSP_R6 0 0)).rca 0 ≠ 0)
    (hcmd8 : ∀ n a b,
      (env n (Call.sd_card_send_cmd_arg CMD8 SD_RSP_R7 a b)).if_cond 0 &&& 0xf000 = 0 ∧
      (env n (Call.sd_card_send_cmd_arg CMD8 SD_RSP_R7 a b)).if_cond 1 &&& 0x00ff
        = 0x00aa)
    (hv : s.hndl.sup_ver = SD_MODE_VER2X) :
    (_sd_card_init env s).1 = SD_OK ∧
    (_sd_card_init env s).2.hndl.media_type = SD_MEDIA_SD ∧
    (_sd_card_init env s).2.hndl.sd_spec = SD_SPEC_20 := by
  rw [card_init_eq]
  have hl : (cmd0_loop env 3 0 (card_init_entry s)).1 = SD_OK := by
    simp [cmd0_loop, hret]
  rw [if_neg (fun c => c hl)]
  exact if_cond_ok env _ _ _ hret hrca hcmd8
    (by simp only [cmd0_loop_media_type, card_init_entry])
    (by simp only [cmd0_loop_sup_ver, card_init_entry, hv])

theorem calc_erase_sector_scr (h : st_sdhndl_t) :
    (_sd_calc_erase_sector h).2.scr = h.scr := by
  simp only [_sd_calc_erase_sector]
  split_ifs <;> rfl

theorem sd_mount_done_ok (env : Env) (s : Sd)
    (herr : ∀ n c, (env n c).error = SD_OK) :
    (sd_mount_done env s).1 = SD_OK ∧
    (sd_mount_done env s).2.1 = MountExit.done ∧
    (sd_mount_done env s).2.2.hndl.error = SD_OK ∧
    (sd_mount_done env s).2.2.hndl.mount = SD_MOUNT_UNLOCKED_CARD ∧
    (sd_mount_done env s).2.2.hndl.media_type = s.hndl.media_type ∧
    (sd_mount_done env s).2.2.hndl.sd_spec = s.hndl.sd_spec ∧
    (sd_mount_done env s).2.2.hndl.scr = s.hndl.scr := by
  simp [sd_mount_done, herr, Reply.apply]

theorem sd_mount_scr_ok (env : Env) (s : Sd)
    (hret : ∀ n c, c ≠ Call.sd_iswp → (∀ p, c ≠ Call.sddev_cd_layout p) →
      (env n c).ret = SD_OK)
    (hint : ∀ n c, (env n c).int_info2 &&& SD_INFO2_MASK_ERR = 0)
    (herr : ∀ n c, (env n c).error = SD_OK)
    (hm : s.hndl.media_type = SD_MEDIA_SD) (hs : s.hndl.sd_spec = SD_SPEC_20) :
    MountedSd (sd_mount_scr env s) := by
  have hsd : s.hndl.media_type &&& SD_MEDIA_SD ≠ 0 := by rw [hm]; decide
  have h0 : ∀ a : Nat, (a &&& SD_SPEC_REGISTER_MASK) % 65536 = a &&& SD_SPEC_REGISTER_MASK :=
    fun a => Nat.mod_eq_of_lt (lt_of_le_of_lt Nat.and_le_right (by decide))
  have h1 : ∀ a : Nat, (a &&& SD_SPEC_30_REGISTER) % 65536 = a &&& SD_SPEC_30_REGISTER :=
    fun a => Nat.mod_eq_of_lt (lt_of_le_of_lt Nat.and_le_right (by decide))
  have hs2 : SD_SPEC_20 = (_sd_card_get_scr env s).2.hndl.sd_spec := by
    rw [get_scr_sd_spec, hs]
  have hm2 : (_sd_card_get_scr env s).2.hndl.media_type = SD_MEDIA_SD := by
    rw [get_scr_media_type, hm]
  simp only [sd_mount_scr, MountedSd]
  rw [if_pos hsd, if_neg (fun c => c (get_scr_ok env s hret hint)), if_pos hs2]
  obtain ⟨d1, d2, d3, d4, d5, d6, d7⟩ := sd_mount_done_ok env
    ({ (_sd_card_get_scr env s).2 with hndl := (_sd_calc_erase_sector
      (if SD_SPEC_20_REGISTER
            = ((_sd_card_get_scr env s).2.hndl.scr 0 &&& SD_SPEC_REGISTER_MASK) % 65536 ∧
          SD_SPEC_30_REGISTER
            = ((_sd_card_get_scr env s).2.hndl.scr 1 &&& SD_SPEC_30_REGISTER) % 65536
       then { (_sd_card_get_scr env s).2.hndl with sd_spec := SD_SPEC_30 }
       else { (_sd_card_get_scr env s).2.hndl with sd_spec := SD_SPEC_20 })).2 } : Sd) herr
  refine ⟨d1, d2, d3, d4, ?_, ?_⟩
  · rw [d5]
    simp only [calc_erase_sector_media_type]
    split_ifs <;> exact hm2
  · rw [d6, d7]
    simp only [calc_erase_sector_sd_spec, calc_erase_sector_scr, h0, h1]
    by_cases hc : SD_SPEC_20_REGISTER
          = (_sd_card_get_scr env s).2.hndl.scr 0 &&& SD_SPEC_REGISTER_MASK ∧
        SD_SPEC_30_REGISTER
          = (_sd_card_get_scr env s).2.hndl.scr 1 &&& SD_SPEC_30_REGISTER
    · have hc2 : (_sd_card_get_scr env s).2.hndl.scr 0 &&& SD_SPEC_REGISTER_MASK
            = SD_SPEC_20_REGISTER ∧
          (_sd_card_get_scr env s).2.hndl.scr 1 &&& SD_SPEC_30_REGISTER
            = SD_SPEC_30_REGISTER := ⟨hc.1.symm, hc.2.symm⟩
      simp only [if_pos hc, if_pos hc2]
    · have hc2 : ¬ ((_sd_card_get_scr env s).2.hndl.scr 0 &&& SD_SPEC_REGISTER_MASK
            = SD_SPEC_20_REGISTER ∧
          (_sd_card_get_scr env s).2.hndl.scr 1 &&& SD_SPEC_30_REGISTER
            = SD_SPEC_30_REGISTER) := fun c => hc ⟨c.1.symm, c.2.symm⟩
      simp only [if_neg hc, if_neg hc2]

theorem sd_mount_mem_ok (env : Env) (s : Sd)
    (hret : ∀ n c, c ≠ Call.sd_iswp → (∀ p, c ≠ Call.sddev_cd_layout p) →
      (env n c).ret = SD_OK)
    (hint : ∀ n c, (env n c).int_info2 &&& SD_INFO2_MASK_ERR = 0)
    (herr : ∀ n c, (env n c).error = SD_OK)
    (hstat : ∀ n p,
      ((env n (Call.sddev_read_data p SD_STATUS_BYTE)).data 2 % 256) &&& 0xff = 0)
    (hlock : ∀ n a b,
      (env n (Call.sd_card_send_cmd_arg CMD7 SD_RSP_R1B a b)).resp_status
        &&& 0x02000000 = 0)
    (hm : s.hndl.media_type = SD_MEDIA_SD) (hs : s.hndl.sd_spec = SD_SPEC_20) :
    MountedSd (sd_mount_mem env s) := by
  have hmem : s.hndl.media_type &&& SD_MEDIA_MEM ≠ 0 := by rw [hm]; decide
  obtain ⟨h1, h2⟩ := mem_mount_ok env s hret hint herr hstat hlock hm
  simp only [sd_mount_mem]
  rw [if_pos hmem, if_neg (fun c => c h1), if_neg (by rw [h2]; decide)]
  exact sd_mount_scr_ok env _ hret hint herr (by simp [hm]) (by simp [hs])

theorem sd_mount_init_ok (env : Env) (s : Sd)
    (hret : ∀ n c, c ≠ Call.sd_iswp → (∀ p, c ≠ Call.sddev_cd_layout p) →
      (env n c).ret = SD_OK)
    (hint : ∀ n c, (env n c).int_info2 &&& SD_INFO2_MASK_ERR = 0)
    (herr : ∀ n c, (env n c).error = SD_OK)
    (hstat : ∀ n p,
      ((env n (Call.sddev_read_data p SD_STATUS_BYTE)).data 2 % 256) &&& 0xff = 0)
    (hlock : ∀ n a b,
      (env n (Call.sd_card_send_cmd_arg CMD7 SD_RSP_R1B a b)).resp_status
        &&& 0x02000000 = 0)
    (hrca : ∀ n, (env n (Call.sd_card_send_cmd_arg CMD3 SD_RSP_R6 0 0)).rca 0 ≠ 0)
    (hcmd8 : ∀ n a b,
      (env n (Call.sd_card_send_cmd_arg CMD8 SD_RSP_R7 a b)).if_cond 0 &&& 0xf000 = 0 ∧
      (env n (Call.sd_card_send_cmd_arg CMD8 SD_RSP_R7 a b)).if_cond 1 &&& 0x00ff
        = 0x00aa)
    (hv : s.hndl.sup_ver = SD_MODE_VER2X) :
    MountedSd (sd_mount_init env s) := by
  obtain ⟨c1, c2, c3⟩ := card_init_ok env s hret hrca hcmd8 hv
  have hmem : (_sd_card_init env s).2.hndl.media_type &&& SD_MEDIA_MEM ≠ 0 := by
    rw [c2]; decide
  simp only [sd_mount_init]
  rw [if_neg (fun c => c c1), if_pos hmem,
    if_neg (fun c => c (hret _ _ (by simp) (by simp))),
    if_neg (fun c => c (hret _ _ (by simp) (by simp)))]
  exact sd_mount_mem_ok env _ hret hint herr hstat hlock (by simp [c2]) (by simp [c3])

theorem sd_mount_hndl_ok (env : Env) (s : Sd) (sd_port : Int) (mode voltage : Nat)
    (hret : ∀ n c, c ≠ Call.sd_iswp → (∀ p, c ≠ Call.sddev_cd_layout p) →
      (env n c).ret = SD_OK)
    (hint : ∀ n c, (env n c).int_info2 &&& SD_INFO2_MASK_ERR = 0)
    (herr : ∀ n c, (env n c).error = SD_OK)
    (hstat : ∀ n p,
      ((env n (Call.sddev_read_data p SD_STATUS_BYTE)).data 2 % 256) &&& 0xff = 0)
    (hlock : ∀ n a b,
      (env n (Call.sd_card_send_cmd_arg CMD7 SD_RSP_R1B a b)).resp_status
        &&& 0x02000000 = 0)
    (hrca : ∀ n, (env n (Call.sd_card_send_cmd_arg CMD3 SD_RSP_R6 0 0)).rca 0 ≠ 0)
    (hcmd8 : ∀ n a b,
      (env n (Call.sd_card_send_cmd_arg CMD8 SD_RSP_R7 a b)).if_cond 0 &&& 0xf000 = 0 ∧
      (env n (Call.sd_card_send_cmd_arg CMD8 SD_RSP_R7 a b)).if_cond 1 &&& 0x00ff
        = 0x00aa)
    (hver : ∀ n, (env n (Call.sd_init_hndl mode voltage)).sup_ver = SD_MODE_VER2X)
    (hcard : (sd_mount_hndl env s sd_port mode voltage).2.1 ≠ MountExit.no_card) :
    MountedSd (sd_mount_hndl env s sd_port mode voltage) := by
  simp only [sd_mount_hndl] at hcard ⊢
  by_cases hm : (_sd_check_media env
      ({ _sd_init_hndl env s mode voltage with
         hndl := { (_sd_init_hndl env s mode voltage).hndl with error := SD_OK } } : Sd)).1
      ≠ SD_OK
  · rw [if_pos hm] at hcard
    exact absurd rfl hcard
  · rw [if_neg hm, if_neg (fun c => c (hret _ _ (by simp) (by simp))),
      if_neg (fun c => c (hret _ _ (by simp) (by simp)))]
    exact sd_mount_init_ok env _ hret hint herr hstat hlock hrca hcmd8
      (by simp [_sd_init_hndl, check_media_hndl, hver])

/-! ### The SCR of the mounted card -/

/-- A successful transfer of `_sd_read_byte` ends with the data read, the wait for the
end of the transfer and the clearing of flags and masks, and the status buffer holds
the bytes which the data read delivered. -/
theorem read_byte_data_scr (env : Env) (s : Sd) (byte : Nat)
    (hret : ∀ n c, c ≠ Call.sd_iswp → (∀ p, c ≠ Call.sddev_cd_layout p) →
      (env n c).ret = SD_OK)
    (hint : ∀ n c, (env n c).int_info2 &&& SD_INFO2_MASK_ERR = 0) :
    ∃ t, (_sd_read_byte_data env s BufId.stat byte).2.trace
        = Call.sd_clear_int_mask SD_INFO1_MASK_DATA_TRNS SD_INFO2_MASK_BRE
          :: Call.sd_clear_info SD_INFO1_MASK_DATA_TRNS SD_INFO2_MASK_ERR
          :: Call.sddev_int_wait s.hndl.sd_port SD_TIMEOUT_RESP
          :: Call.sddev_read_data s.hndl.sd_port byte :: t ∧
      (_sd_read_byte_data env s BufId.stat byte).2.s_stat_buff
        = fun i => if i < byte then
            (env t.length (Call.sddev_read_data s.hndl.sd_port byte)).data i % 256
          else s.s_stat_buff i := by
  simp only [_sd_read_byte_data]
  rw [if_neg (fun c => c (hret _ _ (by simp) (by simp))),
    if_neg (fun c => c (hret _ _ (by simp) (by simp))),
    if_neg (fun c => c (hint _ _)),
    if_neg (fun c => c ((read_data_fst env _ _ _).trans (hret _ _ (by simp) (by simp)))),
    if_neg (fun c => c (hret _ _ (by simp) (by simp))),
    if_neg (fun c => c (hint _ _))]
  exact ⟨_, rfl, rfl⟩

theorem read_byte_acmd_scr (env : Env) (s : Sd) (cmd a b : Nat) (byte : Nat)
    (hc : cmd &&& 0x0040 ≠ 0)
    (hret : ∀ n c, c ≠ Call.sd_iswp → (∀ p, c ≠ Call.sddev_cd_layout p) →
      (env n c).ret = SD_OK)
    (hint : ∀ n c, (env n c).int_info2 &&& SD_INFO2_MASK_ERR = 0) :
    ∃ t, (_sd_read_byte env s cmd a b BufId.stat byte).2.trace
        = Call.sd_clear_int_mask SD_INFO1_MASK_DATA_TRNS SD_INFO2_MASK_BRE
          :: Call.sd_clear_info SD_INFO1_MASK_DATA_TRNS SD_INFO2_MASK_ERR
          :: Call.sddev_int_wait s.hndl.sd_port SD_TIMEOUT_RESP
          :: Call.sddev_read_data s.hndl.sd_port byte :: t ∧
      (_sd_read_byte env s cmd a b BufId.stat byte).2.s_stat_buff
        = fun i => if i < byte then
            (env t.length (Call.sddev_read_data s.hndl.sd_port byte)).data i % 256
          else s.s_stat_buff i := by
  simp only [_sd_read_byte]
  rw [if_pos hc, if_neg (fun c => c (hret _ _ (by simp) (by simp)))]
  exact read_byte_data_scr env _ byte hret hint

/-- The SCR words which `_sd_card_get_scr` stores are those of the bytes delivered by
the data read of the ACMD51 transfer. -/
theorem get_scr_words (env : Env) (s : Sd)
    (hret : ∀ n c, c ≠ Call.sd_iswp → (∀ p, c ≠ Call.sddev_cd_layout p) →
      (env n c).ret = SD_OK)
    (hint : ∀ n c, (env n c).int_info2 &&& SD_INFO2_MASK_ERR = 0) :
    ∃ t, (_sd_card_get_scr env s).2.trace
        = Call.sd_clear_int_mask SD_INFO1_MASK_DATA_TRNS SD_INFO2_MASK_BRE
          :: Call.sd_clear_info SD_INFO1_MASK_DATA_TRNS SD_INFO2_MASK_ERR
          :: Call.sddev_int_wait s.hndl.sd_port SD_TIMEOUT_RESP
          :: Call.sddev_read_data s.hndl.sd_port SD_SCR_REGISTER_BYTE :: t ∧
      ∀ i, i < 4 →
        (_sd_card_get_scr env s).2.hndl.scr i
          = scr_word
              (env t.length (Call.sddev_read_data s.hndl.sd_port SD_SCR_REGISTER_BYTE)).data
              i := by
  have h1 := read_byte_acmd_ok env s ACMD51 0 0 BufId.stat SD_SCR_REGISTER_BYTE
    (by decide) hret hint
  obtain ⟨t, h2, h3⟩ := read_byte_acmd_scr env s ACMD51 0 0 SD_SCR_REGISTER_BYTE
    (by decide) hret hint
  simp only [_sd_card_get_scr]
  rw [if_neg (fun c => c h1)]
  refine ⟨t, h2, fun i hi => ?_⟩
  show (if i < 4 then
      swap16 (stat_word (_sd_read_byte env s ACMD51 0 0 BufId.stat SD_SCR_REGISTER_BYTE).2 i)
    else _) = _
  have e1 : 2 * i < SD_SCR_REGISTER_BYTE := by
    show 2 * i < 8
    omega
  have e2 : 2 * i + 1 < SD_SCR_REGISTER_BYTE := by
    show 2 * i + 1 < 8
    omega
  rw [if_pos hi]
  simp only [stat_word, h3, scr_word, if_pos e1, if_pos e2]

/-- From the SCR step on, a successful mount of an SD card ends as `MountedScr` says. -/
theorem sd_mount_scr_words (env : Env) (s : Sd)
    (hret : ∀ n c, c ≠ Call.sd_iswp → (∀ p, c ≠ Call.sddev_cd_layout p) →
      (env n c).ret = SD_OK)
    (hint : ∀ n c, (env n c).int_info2 &&& SD_INFO2_MASK_ERR = 0)
    (hm : s.hndl.media_type = SD_MEDIA_SD) :
    MountedScr env (sd_mount_scr env s) := by
  have hsd : s.hndl.media_type &&& SD_MEDIA_SD ≠ 0 := by rw [hm]; decide
  obtain ⟨t, h2, h3⟩ := get_scr_words env s hret hint
  simp only [sd_mount_scr, MountedScr]
  rw [if_pos hsd, if_neg (fun c => c (get_scr_ok env s hret hint))]
  refine ⟨s.hndl.sd_port, t, ?_, fun i hi => ?_⟩
  · show Call.sd_set_clock 0 SD_CLOCK_DISABLE :: (_sd_card_get_scr env s).2.trace = _
    rw [h2]
  · rw [← h3 i hi]
    show (_sd_calc_erase_sector _).2.scr i = _
    rw [calc_erase_sector_scr]
    split_ifs <;> rfl

theorem sd_mount_mem_words (env : Env) (s : Sd)
    (hret : ∀ n c, c ≠ Call.sd_iswp → (∀ p, c ≠ Call.sddev_cd_layout p) →
      (env n c).ret = SD_OK)
    (hint : ∀ n c, (env n c).int_info2 &&& SD_INFO2_MASK_ERR = 0)
    (herr : ∀ n c, (env n c).error = SD_OK)
    (hstat : ∀ n p,
      ((env n (Call.sddev_read_data p SD_STATUS_BYTE)).data 2 % 256) &&& 0xff = 0)
    (hlock : ∀ n a b,
      (env n (Call.sd_card_send_cmd_arg CMD7 SD_RSP_R1B a b)).resp_status
        &&& 0x02000000 = 0)
    (hm : s.hndl.media_type = SD_MEDIA_SD) :
    MountedScr env (sd_mount_mem env s) := by
  have hmem : s.hndl.media_type &&& SD_MEDIA_MEM ≠ 0 := by rw [hm]; decide
  obtain ⟨h1, h2⟩ := mem_mount_ok env s hret hint herr hstat hlock hm
  simp only [sd_mount_mem]
  rw [if_pos hmem, if_neg (fun c => c h1), if_neg (by rw [h2]; decide)]
  exact sd_mount_scr_words env _ hret hint (by simp [hm])

theorem sd_mount_init_words (env : Env) (s : Sd)
    (hret : ∀ n c, c ≠ Call.sd_iswp → (∀ p, c ≠ Call.sddev_cd_layout p) →
      (env n c).ret = SD_OK)
    (hint : ∀ n c, (env n c).int_info2 &&& SD_INFO2_MASK_ERR = 0)
    (herr : ∀ n c, (env n c).error = SD_OK)
    (hstat : ∀ n p,
      ((env n (Call.sddev_read_data p SD_STATUS_BYTE)).data 2 % 256) &&& 0xff = 0)
    (hlock : ∀ n a b,
      (env n (Call.sd_card_send_cmd_arg CMD7 SD_RSP_R1B a b)).resp_status
        &&& 0x02000000 = 0)
    (hrca : ∀ n, (env n (Call.sd_card_send_cmd_arg CMD3 SD_RSP_R6 0 0)).rca 0 ≠ 0)
    (hcmd8 : ∀ n a b,
      (env n (Call.sd_card_send_cmd_arg CMD8 SD_RSP_R7 a b)).if_cond 0 &&& 0xf000 = 0 ∧
      (env n (Call.sd_card_send_cmd_arg CMD8 SD_RSP_R7 a b)).if_cond 1 &&& 0x00ff
        = 0x00aa)
    (hv : s.hndl.sup_ver = SD_MODE_VER2X) :
    MountedScr env (sd_mount_init env s) := by
  obtain ⟨c1, c2, c3⟩ := card_init_ok env s hret hrca hcmd8 hv
  have hmem : (_sd_card_init env s).2.hndl.media_type &&& SD_MEDIA_MEM ≠ 0 := by
    rw [c2]; decide
  simp only [sd_mount_init]
  rw [if_neg (fun c => c c1), if_pos hmem,
    if_neg (fun c => c (hret _ _ (by simp) (by simp))),
    if_neg (fun c => c (hret _ _ (by simp) (by simp)))]
  exact sd_mount_mem_words env _ hret hint herr hstat hlock (by simp [c2])

theorem sd_mount_hndl_words (env : Env) (s : Sd) (sd_port : Int) (mode voltage : Nat)
    (hret : ∀ n c, c ≠ Call.sd_iswp → (∀ p, c ≠ Call.sddev_cd_layout p) →
      (env n c).ret = SD_OK)
    (hint : ∀ n c, (env n c).int_info2 &&& SD_INFO2_MASK_ERR = 0)
    (herr : ∀ n c, (env n c).error = SD_OK)
    (hstat : ∀ n p,
      ((env n (Call.sddev_read_data p SD_STATUS_BYTE)).data 2 % 256) &&& 0xff = 0)
    (hlock : ∀ n a b,
      (env n (Call.sd_card_send_cmd_arg CMD7 SD_RSP_R1B a b)).resp_status
        &&& 0x02000000 = 0)
    (hrca : ∀ n, (env n (Call.sd_card_send_cmd_arg CMD3 SD_RSP_R6 0 0)).rca 0 ≠ 0)
    (hcmd8 : ∀ n a b,
      (env n (Call.sd_card_send_cmd_arg CMD8 SD_RSP_R7 a b)).if_cond 0 &&& 0xf000 = 0 ∧
      (env n (Call.sd_card_send_cmd_arg CMD8 SD_RSP_R7 a b)).if_cond 1 &&& 0x00ff
        = 0x00aa)
    (hver : ∀ n, (env n (Call.sd_init_hndl mode voltage)).sup_ver = SD_MODE_VER2X)
    (hcard : (sd_mount_hndl env s sd_port mode voltage).2.1 ≠ MountExit.no_card) :
    MountedScr env (sd_mount_hndl env s sd_port mode voltage) := by
  simp only [sd_mount_hndl] at hcard ⊢
  by_cases hm : (_sd_check_media env
      ({ _sd_init_hndl env s mode voltage with
         hndl := { (_sd_init_hndl env s mode voltage).hndl with error := SD_OK } } : Sd)).1
      ≠ SD_OK
  · rw [if_pos hm] at hcard
    exact absurd rfl hcard
  · rw [if_neg hm, if_neg (fun c => c (hret _ _ (by simp) (by simp))),
      if_neg (fun c => c (hret _ _ (by simp) (by simp)))]
    exact sd_mount_init_words env _ hret hint herr hstat hlock hrca hcmd8
      (by simp [_sd_init_hndl, check_media_hndl, hver])

/-- The erase-size expression `(a << 8) | (b >> 8)` stored in a `uint16_t`, for a 16-bit
`b`: the low byte of `a` above the high byte of `b`. -/
theorem erase_size_eq (a b : Nat) (hb : b < 65536) :
    ((a <<< 8) ||| (b >>> 8)) % 65536 = (a % 256) * 256 + b / 256 := by
  rw [Nat.shiftLeft_eq, Nat.shiftRight_eq_div_pow]
  have hlt : b / 2 ^ 8 < 2 ^ 8 := by
    rw [Nat.div_lt_iff_lt_mul (by norm_num)]
    norm_num
    omega
  rw [Nat.mul_comm a (2 ^ 8), ← Nat.mul_add_lt_is_or hlt a]
  norm_num
  omega

/-- The byte swap of `_sd_card_get_scr` makes the first byte of a register word the high
byte of the stored word. -/
theorem scr_word_eq (data : Nat → Nat) (i : Nat) :
    scr_word data i = 256 * (data (2 * i) % 256) + data (2 * i + 1) % 256 := by
  have ha : data (2 * i) % 256 < 256 := Nat.mod_lt _ (by decide)
  have hb : data (2 * i + 1) % 256 < 256 := Nat.mod_lt _ (by decide)
  simp only [scr_word, swap16]
  rw [erase_size_eq _ _ (by omega)]
  omega

set_option maxRecDepth 100000 in
/-- The low byte of an SCR word has no bit of the two fields that `sd_mount` tests. -/
theorem low_byte_fields (b : Nat) (hb : b < 256) :
    b &&& SD_SPEC_REGISTER_MASK = 0 ∧ b &&& SD_SPEC_30_REGISTER = 0 := by
  revert b
  decide

set_option maxRecDepth 100000 in
/-- The two fields that `sd_mount` tests, in the high byte of an SCR word. -/
theorem high_byte_fields (a : Nat) (ha : a < 256) :
    ((2 ^ 8 * a) &&& SD_SPEC_REGISTER_MASK = SD_SPEC_20_REGISTER ↔ a % 16 = 2) ∧
    ((2 ^ 8 * a) &&& SD_SPEC_30_REGISTER = SD_SPEC_30_REGISTER ↔ 128 ≤ a) := by
  revert a
  decide

/-- The two SCR fields that `sd_mount` tests, in terms of the register bytes: the spec
field is the low nibble of byte 0, the SPEC3 bit is the top bit of byte 2. -/
theorem scr_word_fields (a b : Nat) (ha : a < 256) (hb : b < 256) :
    ((256 * a + b) &&& SD_SPEC_REGISTER_MASK = SD_SPEC_20_REGISTER ↔ a % 16 = 2) ∧
    ((256 * a + b) &&& SD_SPEC_30_REGISTER = SD_SPEC_30_REGISTER ↔ 128 ≤ a) := by
  have e : 256 * a + b = 2 ^ 8 * a ||| b :=
    Nat.mul_add_lt_is_or (show b < 2 ^ 8 from hb) a
  rw [e, Nat.and_comm _ SD_SPEC_REGISTER_MASK, Nat.and_comm _ SD_SPEC_30_REGISTER,
    Nat.and_or_distrib_left, Nat.and_or_distrib_left,
    Nat.and_comm SD_SPEC_REGISTER_MASK b, Nat.and_comm SD_SPEC_30_REGISTER b,
    (low_byte_fields b hb).1, (low_byte_fields b hb).2, Nat.or_zero, Nat.or_zero,
    Nat.and_comm SD_SPEC_REGISTER_MASK, Nat.and_comm SD_SPEC_30_REGISTER]
  exact high_byte_fields a ha

/-- The tests of lines 188-193 of `sd_mount` on the stored SCR words, in terms of the
register bytes. -/
theorem scr_fields (data : Nat → Nat) :
    (scr_word data 0 &&& SD_SPEC_REGISTER_MASK = SD_SPEC_20_REGISTER
      ↔ data 0 % 256 % 16 = 2) ∧
    (scr_word data 1 &&& SD_SPEC_30_REGISTER = SD_SPEC_30_REGISTER
      ↔ 128 ≤ data 2 % 256) := by
  rw [scr_word_eq, scr_word_eq]
  exact ⟨(scr_word_fields _ _ (Nat.mod_lt _ (by decide)) (Nat.mod_lt _ (by decide))).1,
    (scr_word_fields _ _ (Nat.mod_lt _ (by decide)) (Nat.mod_lt _ (by decide))).2⟩

/-- C4: the end-to-end successful mount. Let the session be valid (port 0 or 1, handle
initialised, work buffer allocated) and configured for version 2 cards, let the card be
present, and let the card be an SD card for which everything succeeds: every call of a
command, response, transfer or helper function returns `SD_OK` (the write-protect query
`_sd_iswp` may return anything), records no error and raises no error flag; CMD8 is
answered with a valid voltage and echo pattern; CMD3 publishes a non-zero RCA; CMD7
does not report the card-locked bit; and the SD status reports the card type `0x00`.
Then `sd_mount` returns `SD_OK` from its last `return`, and the handle has no error
recorded, the media type `SD_MEDIA_SD` and the mount flag `SD_MOUNT_UNLOCKED_CARD`.
The run ends with the data read of the SCR register (`sddev_read_data` of
`SD_SCR_REGISTER_BYTE` bytes, call number `t.length` of the run), the end of that
transfer and the clock halt; with `data` the bytes which that read delivered, the handle
holds the four SCR words of `data`, and the spec version is `SD_SPEC_30` if word 0 has
the spec field 2.0 and word 1 has the SPEC3 bit set, and `SD_SPEC_20` otherwise; in
terms of the bytes, it is `SD_SPEC_30` exactly when the low nibble of byte 0 is 2 and
the top bit of byte 2 is set. -/
theorem sd_mount_success (env : Env)
    (SD_GET_HNDLS : Int → Option st_sdhndl_t) (hw : Hw) (sd_port : Int)
    (mode voltage : Nat) (h : st_sdhndl_t)
    (hport : sd_port = 0 ∨ sd_port = 1) (hh : SD_GET_HNDLS sd_port = some h)
    (hbuf : h.p_rw_buff ≠ 0)
    (hret : ∀ n c, c ≠ Call.sd_iswp → (∀ p, c ≠ Call.sddev_cd_layout p) →
      (env n c).ret = SD_OK)
    (hint : ∀ n c, (env n c).int_info2 &&& SD_INFO2_MASK_ERR = 0)
    (herr : ∀ n c, (env n c).error = SD_OK)
    (hstat : ∀ n p,
      ((env n (Call.sddev_read_data p SD_STATUS_BYTE)).data 2 % 256) &&& 0xff = 0)
    (hlock : ∀ n a b,
      (env n (Call.sd_card_send_cmd_arg CMD7 SD_RSP_R1B a b)).resp_status
        &&& 0x02000000 = 0)
    (hrca : ∀ n, (env n (Call.sd_card_send_cmd_arg CMD3 SD_RSP_R6 0 0)).rca 0 ≠ 0)
    (hcmd8 : ∀ n a b,
      (env n (Call.sd_card_send_cmd_arg CMD8 SD_RSP_R7 a b)).if_cond 0 &&& 0xf000 = 0 ∧
      (env n (Call.sd_card_send_cmd_arg CMD8 SD_RSP_R7 a b)).if_cond 1 &&& 0x00ff
        = 0x00aa)
    (hver : ∀ n, (env n (Call.sd_init_hndl mode voltage)).sup_ver = SD_MODE_VER2X)
    (hcard : (sd_mount env SD_GET_HNDLS hw sd_port mode voltage).exit
      ≠ MountExit.no_card) :
    (sd_mount env SD_GET_HNDLS hw sd_port mode voltage).ret = SD_OK ∧
    (sd_mount env SD_GET_HNDLS hw sd_port mode voltage).exit = MountExit.done ∧
    ∃ h2 p t, (sd_mount env SD_GET_HNDLS hw sd_port mode voltage).hndl = some h2 ∧
      (sd_mount env SD_GET_HNDLS hw sd_port mode voltage).hw.trace
        = Call.sd_set_clock 0 SD_CLOCK_DISABLE
          :: Call.sd_clear_int_mask SD_INFO1_MASK_DATA_TRNS SD_INFO2_MASK_BRE
          :: Call.sd_clear_info SD_INFO1_MASK_DATA_TRNS SD_INFO2_MASK_ERR
          :: Call.sddev_int_wait p SD_TIMEOUT_RESP
          :: Call.sddev_read_data p SD_SCR_REGISTER_BYTE :: t ∧
      h2.error = SD_OK ∧
      h2.media_type = SD_MEDIA_SD ∧
      h2.mount = SD_MOUNT_UNLOCKED_CARD ∧
      (∀ i, i < 4 →
        h2.scr i
          = scr_word
              (env t.length (Call.sddev_read_data p SD_SCR_REGISTER_BYTE)).data i) ∧
      h2.sd_spec
        = (if scr_word (env t.length (Call.sddev_read_data p SD_SCR_REGISTER_BYTE)).data 0
                &&& SD_SPEC_REGISTER_MASK = SD_SPEC_20_REGISTER ∧
              scr_word (env t.length (Call.sddev_read_data p SD_SCR_REGISTER_BYTE)).data 1
                &&& SD_SPEC_30_REGISTER = SD_SPEC_30_REGISTER
           then SD_SPEC_30 else SD_SPEC_20) ∧
      (h2.sd_spec = SD_SPEC_30 ↔
        (env t.length (Call.sddev_read_data p SD_SCR_REGISTER_BYTE)).data 0 % 256 % 16 = 2 ∧
        128 ≤ (env t.length (Call.sddev_read_data p SD_SCR_REGISTER_BYTE)).data 2 % 256) ∧
      (h2.sd_spec = SD_SPEC_20 ↔
        ¬ ((env t.length (Call.sddev_read_data p SD_SCR_REGISTER_BYTE)).data 0 % 256 % 16
              = 2 ∧
          128 ≤ (env t.length (Call.sddev_read_data p SD_SCR_REGISTER_BYTE)).data 2
              % 256)) := by
  rw [sd_mount_resolved env SD_GET_HNDLS hw sd_port mode voltage h hport hh hbuf]
    at hcard ⊢
  obtain ⟨k1, k2, k3, k4, k5, k6⟩ :=
    sd_mount_hndl_ok env { toHw := hw, hndl := h } sd_port mode voltage hret hint herr
      hstat hlock hrca hcmd8 hver hcard
  obtain ⟨p, t, w1, w2⟩ :=
    sd_mount_hndl_words env { toHw := hw, hndl := h } sd_port mode voltage hret hint herr
      hstat hlock hrca hcmd8 hver hcard
  obtain ⟨f0, f1⟩ :=
    scr_fields (env t.length (Call.sddev_read_data p SD_SCR_REGISTER_BYTE)).data
  have hs : (sd_mount_hndl env { toHw := hw, hndl := h } sd_port mode voltage).2.2.hndl.sd_spec
      = (if scr_word (env t.length (Call.sddev_read_data p SD_SCR_REGISTER_BYTE)).data 0
                &&& SD_SPEC_REGISTER_MASK = SD_SPEC_20_REGISTER ∧
              scr_word (env t.length (Call.sddev_read_data p SD_SCR_REGISTER_BYTE)).data 1
                &&& SD_SPEC_30_REGISTER = SD_SPEC_30_REGISTER
           then SD_SPEC_30 else SD_SPEC_20) := by
    rw [k6, w2 0 (by decide), w2 1 (by decide)]
  refine ⟨k1, k2, _, p, t, rfl, w1, k3, k5, k4, w2, hs, ?_, ?_⟩
  · rw [hs, ← f0, ← f1]
    split_ifs with hc
    · exact ⟨fun _ => hc, fun _ => rfl⟩
    · exact ⟨fun c => absurd c (by decide), fun c => absurd c hc⟩
  · rw [hs, ← f0, ← f1]
    split_ifs with hc
    · exact ⟨fun c => absurd c (by decide), fun c => absurd hc c⟩
    · exact ⟨fun _ => hc, fun _ => rfl⟩

/-- Witness of `sd_mount_success`: the mount of a fresh SD card on port 0 whose SCR bytes
are `02 00 80 00 00 00 00 00` (spec field 2, SPEC3 bit set); the handle ends with the
SCR words `0x0200`, `0x8000` and the spec version `SD_SPEC_30`. -/
theorem sd_mount_success_witness :
    (sd_mount env_ok hndls0 hw0 0 0 0).ret = SD_OK ∧
    (sd_mount env_ok hndls0 hw0 0 0 0).exit = MountExit.done ∧
    ∃ h2, (sd_mount env_ok hndls0 hw0 0 0 0).hndl = some h2 ∧
      h2.error = SD_OK ∧
      h2.media_type = SD_MEDIA_SD ∧
      h2.mount = SD_MOUNT_UNLOCKED_CARD ∧
      h2.scr 0 = 0x0200 ∧ h2.scr 1 = 0x8000 ∧ h2.scr 2 = 0 ∧ h2.scr 3 = 0 ∧
      h2.sd_spec = SD_SPEC_30 := by
  obtain ⟨a, b, h2, p, t, c0, _, c2, c3, c4, c5, _, c7, _⟩ :=
    sd_mount_success env_ok hndls0 hw0 0 0 0 hndl0 (Or.inl rfl) rfl (by decide)
      (by
        intro n c h1 h2
        unfold env_ok
        split
        · exact absurd rfl (h2 _)
        · rfl
        · rfl)
      (by
        intro n c
        unfold env_ok
        split <;> rfl)
      (by
        intro n c
        unfold env_ok
        split <;> rfl)
      (fun _ _ => show ((0 : Nat) % 256) &&& 0xff = 0 by decide)
      (fun _ _ _ => show (0 : Nat) &&& 0x02000000 = 0 by decide)
      (fun _ => show (0x1234 : Nat) ≠ 0 by decide)
      (fun _ _ _ => ⟨show (0 : Nat) &&& 0xf000 = 0 by decide,
        show (0x01aa : Nat) &&& 0x00ff = 0x00aa by decide⟩)
      (fun _ => rfl)
      (by decide)
  have d : (env_ok t.length (Call.sddev_read_data p SD_SCR_REGISTER_BYTE)).data
      = fun i => if i = 0 then 0x02 else if i = 2 then 0x80 else 0 := rfl
  rw [d] at c5 c7
  exact ⟨a, b, h2, c0, c2, c3, c4, c5 0 (by decide), c5 1 (by decide), c5 2 (by decide),
    c5 3 (by decide), c7.2 ⟨by decide, by decide⟩⟩

/-! ### Card presence (`sd_check_media`) -/

/-- C20: card presence. `sd_check_media` returns `SD_ERR` with no call made and whatever
the hardware registers hold when the port is not 0 or 1 or the port has no handle.
Otherwise its only call is `sddev_cd_layout`; when that reports no detect layout the
result is `SD_OK` whatever the registers hold, and when it reports a layout the result
is `SD_OK` if the selected level bit of the low word of `SD_INFO1` is set (the CD state
for a handle with `SD_CD_SOCKET`, the DAT3 state otherwise) and `SD_ERR` if it is
clear. -/
theorem sd_check_media_presence (env : Env) (SD_GET_HNDLS : Int → Option st_sdhndl_t)
    (hw : Hw) (sd_port : Int) :
    (((sd_port ≠ 0 ∧ sd_port ≠ 1) ∨ SD_GET_HNDLS sd_port = none) →
      sd_check_media env SD_GET_HNDLS hw sd_port = (SD_ERR, hw) ∧
      ∀ hw2 : Hw, (sd_check_media env SD_GET_HNDLS hw2 sd_port).1 = SD_ERR) ∧
    (∀ h, (sd_port = 0 ∨ sd_port = 1) → SD_GET_HNDLS sd_port = some h →
      (sd_check_media env SD_GET_HNDLS hw sd_port).2.trace
        = Call.sddev_cd_layout h.sd_port :: hw.trace ∧
      ((env hw.trace.length (Call.sddev_cd_layout h.sd_port)).ret ≠ SD_OK →
        (sd_check_media env SD_GET_HNDLS hw sd_port).1 = SD_OK) ∧
      ((env hw.trace.length (Call.sddev_cd_layout h.sd_port)).ret = SD_OK →
        ((sd_check_media env SD_GET_HNDLS hw sd_port).1 = SD_OK ↔
          (hw.SD_INFO1 % 65536) &&&
            (if h.cd_port = SD_CD_SOCKET then SD_INFO1_MASK_STATE_CD
             else SD_INFO1_MASK_STATE_DAT3) ≠ 0) ∧
        ((sd_check_media env SD_GET_HNDLS hw sd_port).1 = SD_ERR ↔
          (hw.SD_INFO1 % 65536) &&&
            (if h.cd_port = SD_CD_SOCKET then SD_INFO1_MASK_STATE_CD
             else SD_INFO1_MASK_STATE_DAT3) = 0))) := by
  have hne : SD_OK ≠ SD_ERR := by decide
  constructor
  · intro hbad
    have key : ∀ hw2 : Hw, sd_check_media env SD_GET_HNDLS hw2 sd_port = (SD_ERR, hw2) := by
      intro hw2
      simp only [sd_check_media]
      rcases hbad with hp | hn
      · rw [if_pos hp]
      · by_cases hp : sd_port ≠ 0 ∧ sd_port ≠ 1
        · rw [if_pos hp]
        · rw [if_neg hp, hn]
    exact ⟨key hw, fun hw2 => by rw [key hw2]⟩
  · intro h hport hh
    have hp : ¬ (sd_port ≠ 0 ∧ sd_port ≠ 1) := by
      rcases hport with h0 | h1
      · exact fun c => c.1 h0
      · exact fun c => c.2 h1
    have e : sd_check_media env SD_GET_HNDLS hw sd_port
        = ((_sd_check_media env { toHw := hw, hndl := h }).1,
           (_sd_check_media env { toHw := hw, hndl := h }).2.toHw) := by
      simp only [sd_check_media]
      rw [if_neg hp, hh]
    rw [e]
    refine ⟨check_media_trace env { toHw := hw, hndl := h }, ?_, ?_⟩
    · intro hl
      have hl2 : ¬ ((dcall env ({ toHw := hw, hndl := h } : Sd)
          (Call.sddev_cd_layout h.sd_port)).1 = SD_OK) := hl
      have hd : SD_CD_DETECT ≠ 0 := by decide
      simp only [_sd_check_media]
      rw [if_neg hl2, if_pos hd]
    · intro hl
      have hl2 : (dcall env ({ toHw := hw, hndl := h } : Sd)
          (Call.sddev_cd_layout h.sd_port)).1 = SD_OK := hl
      simp only [_sd_check_media]
      rw [if_pos hl2]
      by_cases hc : h.cd_port = SD_CD_SOCKET
      · simp only [if_pos hc]
        by_cases hb : (hw.SD_INFO1 % 65536) &&& SD_INFO1_MASK_STATE_CD = 0
        · have hb2 : ¬ ((dcall env ({ toHw := hw, hndl := h } : Sd)
              (Call.sddev_cd_layout h.sd_port)).2.SD_INFO1 % 65536
                &&& SD_INFO1_MASK_STATE_CD ≠ 0) := fun c => c hb
          rw [if_neg hb2]
          exact ⟨⟨fun c => absurd c.symm hne, fun c => absurd hb c⟩,
            ⟨fun _ => hb, fun _ => rfl⟩⟩
        · have hb2 : (dcall env ({ toHw := hw, hndl := h } : Sd)
              (Call.sddev_cd_layout h.sd_port)).2.SD_INFO1 % 65536
                &&& SD_INFO1_MASK_STATE_CD ≠ 0 := hb
          rw [if_pos hb2]
          exact ⟨⟨fun _ => hb, fun _ => rfl⟩,
            ⟨fun c => absurd c hne, fun c => absurd c hb⟩⟩
      · simp only [if_neg hc]
        by_cases hb : (hw.SD_INFO1 % 65536) &&& SD_INFO1_MASK_STATE_DAT3 = 0
        · have hb2 : ¬ ((dcall env ({ toHw := hw, hndl := h } : Sd)
              (Call.sddev_cd_layout h.sd_port)).2.SD_INFO1 % 65536
                &&& SD_INFO1_MASK_STATE_DAT3 ≠ 0) := fun c => c hb
          rw [if_neg hb2]
          exact ⟨⟨fun c => absurd c.symm hne, fun c => absurd hb c⟩,
            ⟨fun _ => hb, fun _ => rfl⟩⟩
        · have hb2 : (dcall env ({ toHw := hw, hndl := h } : Sd)
              (Call.sddev_cd_layout h.sd_port)).2.SD_INFO1 % 65536
                &&& SD_INFO1_MASK_STATE_DAT3 ≠ 0 := hb
          rw [if_pos hb2]
          exact ⟨⟨fun _ => hb, fun _ => rfl⟩,
            ⟨fun c => absurd c hne, fun c => absurd c hb⟩⟩

/-- Witness of `sd_check_media_presence`: a port that does not exist; port 0 on a board
without detect layout; port 0 with a layout and the CD bit set, and with it clear. -/
theorem sd_check_media_presence_witness :
    sd_check_media env_ok hndls0 hw0 5 = (SD_ERR, hw0) ∧
    (sd_check_media env_ok hndls0 hw0 0).1 = SD_OK ∧
    (sd_check_media env_no_card hndls0 hw_cd 0).1 = SD_OK ∧
    (sd_check_media env_no_card hndls0 hw0 0).1 = SD_ERR :=
  ⟨((sd_check_media_presence env_ok hndls0 hw0 5).1 (Or.inl (by decide))).1,
   ((sd_check_media_presence env_ok hndls0 hw0 0).2 hndl0 (Or.inl rfl) rfl).2.1
     (by decide),
   (((sd_check_media_presence env_no_card hndls0 hw_cd 0).2 hndl0 (Or.inl rfl) rfl).2.2
     (by decide)).1.2 (by decide),
   (((sd_check_media_presence env_no_card hndls0 hw0 0).2 hndl0 (Or.inl rfl) rfl).2.2
     (by decide)).2.2 (by decide)⟩

/-! ### The retry loops of the card initialisation -/

@[simp] theorem apply_rca (r : Reply) (h : st_sdhndl_t) : (r.apply h).rca = r.rca := rfl

/-- The CMD0 loop in general: it makes `k` attempts, `1 ≤ k ≤ 3`, all but the last
failing, and either the last succeeds or all three were made and failed. -/
theorem cmd0_loop_shape (env : Env) (s : Sd) (ret : Int) :
    ∃ k, 1 ≤ k ∧ k ≤ 3 ∧
      (cmd0_loop env 3 ret s).2.trace
        = List.replicate k (Call.sd_send_cmd CMD0) ++ s.trace ∧
      (∀ j, j + 1 < k →
        (env (s.trace.length + j) (Call.sd_send_cmd CMD0)).ret ≠ SD_OK) ∧
      (((cmd0_loop env 3 ret s).1 = SD_OK ∧
          (env (s.trace.length + (k - 1)) (Call.sd_send_cmd CMD0)).ret = SD_OK) ∨
        ((cmd0_loop env 3 ret s).1 ≠ SD_OK ∧ k = 3 ∧
          (env (s.trace.length + (k - 1)) (Call.sd_send_cmd CMD0)).ret ≠ SD_OK)) := by
  by_cases h0 : (env (s.trace.length + 0) (Call.sd_send_cmd CMD0)).ret = SD_OK
  · obtain ⟨a, b⟩ := cmd0_loop_first_ok env s ret 1 (by omega) (by omega)
      (fun j hj => absurd hj (by omega)) h0
    exact ⟨1, by omega, by omega, b, fun j hj => absurd hj (by omega), Or.inl ⟨a, h0⟩⟩
  · by_cases h1 : (env (s.trace.length + 1) (Call.sd_send_cmd CMD0)).ret = SD_OK
    · have hf : ∀ j, j + 1 < 2 →
          (env (s.trace.length + j) (Call.sd_send_cmd CMD0)).ret ≠ SD_OK := by
        intro j hj
        have e : j = 0 := by omega
        rw [e]; exact h0
      obtain ⟨a, b⟩ := cmd0_loop_first_ok env s ret 2 (by omega) (by omega) hf h1
      exact ⟨2, by omega, by omega, b, hf, Or.inl ⟨a, h1⟩⟩
    · have hf : ∀ j, j + 1 < 3 →
          (env (s.trace.length + j) (Call.sd_send_cmd CMD0)).ret ≠ SD_OK := by
        intro j hj
        have e : j = 0 ∨ j = 1 := by omega
        rcases e with e | e
        · rw [e]; exact h0
        · rw [e]; exact h1
      by_cases h2 : (env (s.trace.length + 2) (Call.sd_send_cmd CMD0)).ret = SD_OK
      · obtain ⟨a, b⟩ := cmd0_loop_first_ok env s ret 3 (by omega) (by omega) hf h2
        exact ⟨3, by omega, by omega, b, hf, Or.inl ⟨a, h2⟩⟩
      · have hall : ∀ j, j < 3 →
            (env (s.trace.length + j) (Call.sd_send_cmd CMD0)).ret ≠ SD_OK := by
          intro j hj
          have e : j = 0 ∨ j = 1 ∨ j = 2 := by omega
          rcases e with e | e | e
          · rw [e]; exact h0
          · rw [e]; exact h1
          · rw [e]; exact h2
        obtain ⟨a, b⟩ := cmd0_loop_all_fail env s ret hall
        exact ⟨3, by omega, by omega, b, hf, Or.inr ⟨a, rfl, h2⟩⟩

/-- The negotiation starts with the call of `_sd_card_send_ocr`. -/
theorem ocr_first_call (env : Env) (s : Sd) :
    Call.sd_card_send_ocr s.hndl.media_type :: s.trace
      <:+ (_sd_card_init_ocr env s).2.trace :=
  ocr_suffix env s _ (List.suffix_refl _)

/-- The shape of lines 284-316 of `_sd_card_init` for a version 2 host when CMD8
returns an error. -/
theorem if_cond_cmd8_fail (env : Env) (s : Sd) (a b : Nat)
    (hv : s.hndl.sup_ver = SD_MODE_VER2X)
    (h8 : (env s.trace.length (Call.sd_card_send_cmd_arg CMD8 SD_RSP_R7 a b)).ret ≠ SD_OK) :
    _sd_card_init_if_cond env s a b
      = _sd_card_init_ocr env (cmd8_fallback
          (cmd0_loop env 3
            (hcall env (if_cond_entry s) (Call.sd_card_send_cmd_arg CMD8 SD_RSP_R7 a b)).1
            (hcall env (if_cond_entry s)
              (Call.sd_card_send_cmd_arg CMD8 SD_RSP_R7 a b)).2).2) := by
  simp only [_sd_card_init_if_cond]
  rw [if_pos hv, if_neg (by exact h8)]
  rfl

/-- C11 (as amended): a CMD8 failure is never fatal. For a version 2 host whose first
CMD0 loop succeeded, when CMD8 returns an error `_sd_card_init` re-issues CMD0 `k`
times, `1 ≤ k ≤ 3` (stopping at the first success; after three failures it goes on all
the same), then clears the recorded error, sets `sd_spec` to `SD_SPEC_10` and proceeds
to the operating-condition negotiation, whose first call (ACMD41 negotiation for the
media type SD) follows the last CMD0. -/
theorem card_init_cmd8_failure (env : Env) (s : Sd)
    (hv : s.hndl.sup_ver = SD_MODE_VER2X)
    (h0 : (cmd0_loop env 3 0 (card_init_entry s)).1 = SD_OK)
    (h8 : (env (cmd0_loop env 3 0 (card_init_entry s)).2.trace.length
      (Call.sd_card_send_cmd_arg CMD8 SD_RSP_R7 (s.hndl.if_cond 0)
        (s.hndl.if_cond 1))).ret ≠ SD_OK) :
    ∃ (s1 : Sd) (k : Nat), 1 ≤ k ∧ k ≤ 3 ∧
      _sd_card_init env s = _sd_card_init_ocr env s1 ∧
      s1.hndl.error = SD_OK ∧ s1.hndl.sd_spec = SD_SPEC_10 ∧
      s1.hndl.media_type = SD_MEDIA_SD ∧
      s1.trace = List.replicate k (Call.sd_send_cmd CMD0) ++
        (Call.sd_card_send_cmd_arg CMD8 SD_RSP_R7 (s.hndl.if_cond 0) (s.hndl.if_cond 1)
          :: (cmd0_loop env 3 0 (card_init_entry s)).2.trace) ∧
      (∀ j, j + 1 < k →
        (env ((cmd0_loop env 3 0 (card_init_entry s)).2.trace.length + 1 + j)
          (Call.sd_send_cmd CMD0)).ret ≠ SD_OK) ∧
      ((env ((cmd0_loop env 3 0 (card_init_entry s)).2.trace.length + 1 + (k - 1))
          (Call.sd_send_cmd CMD0)).ret = SD_OK ∨ k = 3) ∧
      Call.sd_card_send_ocr SD_MEDIA_SD :: s1.trace
        <:+ (_sd_card_init env s).2.trace := by
  have hu : SD_MEDIA_UNKNOWN ||| SD_MEDIA_SD = SD_MEDIA_SD := by decide
  have hv2 : (cmd0_loop env 3 0 (card_init_entry s)).2.hndl.sup_ver = SD_MODE_VER2X := by
    simp only [cmd0_loop_sup_ver, card_init_entry, hv]
  have hm2 : (cmd0_loop env 3 0 (card_init_entry s)).2.hndl.media_type
      = SD_MEDIA_UNKNOWN := by
    simp only [cmd0_loop_media_type, card_init_entry]
  have e := if_cond_cmd8_fail env (cmd0_loop env 3 0 (card_init_entry s)).2
    (s.hndl.if_cond 0) (s.hndl.if_cond 1) hv2 h8
  obtain ⟨k, k1, k3, kt, kf, kl⟩ := cmd0_loop_shape env
    (hcall env (if_cond_entry (cmd0_loop env 3 0 (card_init_entry s)).2)
      (Call.sd_card_send_cmd_arg CMD8 SD_RSP_R7 (s.hndl.if_cond 0)
        (s.hndl.if_cond 1))).2
    (hcall env (if_cond_entry (cmd0_loop env 3 0 (card_init_entry s)).2)
      (Call.sd_card_send_cmd_arg CMD8 SD_RSP_R7 (s.hndl.if_cond 0)
        (s.hndl.if_cond 1))).1
  have hmed : (cmd8_fallback
      (cmd0_loop env 3
        (hcall env (if_cond_entry (cmd0_loop env 3 0 (card_init_entry s)).2)
          (Call.sd_card_send_cmd_arg CMD8 SD_RSP_R7 (s.hndl.if_cond 0)
            (s.hndl.if_cond 1))).1
        (hcall env (if_cond_entry (cmd0_loop env 3 0 (card_init_entry s)).2)
          (Call.sd_card_send_cmd_arg CMD8 SD_RSP_R7 (s.hndl.if_cond 0)
            (s.hndl.if_cond 1))).2).2).hndl.media_type = SD_MEDIA_SD := by
    show (cmd0_loop env 3 _ _).2.hndl.media_type = SD_MEDIA_SD
    rw [cmd0_loop_media_type]
    show (cmd0_loop env 3 0 (card_init_entry s)).2.hndl.media_type ||| SD_MEDIA_SD
      = SD_MEDIA_SD
    rw [hm2, hu]
  have hfirst := ocr_first_call env (cmd8_fallback
      (cmd0_loop env 3
        (hcall env (if_cond_entry (cmd0_loop env 3 0 (card_init_entry s)).2)
          (Call.sd_card_send_cmd_arg CMD8 SD_RSP_R7 (s.hndl.if_cond 0)
            (s.hndl.if_cond 1))).1
        (hcall env (if_cond_entry (cmd0_loop env 3 0 (card_init_entry s)).2)
          (Call.sd_card_send_cmd_arg CMD8 SD_RSP_R7 (s.hndl.if_cond 0)
            (s.hndl.if_cond 1))).2).2)
  rw [hmed] at hfirst
  rw [card_init_eq, if_neg (fun c => c h0), e]
  refine ⟨_, k, k1, k3, rfl, rfl, rfl, hmed, kt, kf, ?_, hfirst⟩
  rcases kl with ⟨-, h⟩ | ⟨-, h, -⟩
  · exact Or.inl h
  · exact Or.inr h

/-- Witness of `card_init_cmd8_failure`: a version 2 host and a card that does not
answer CMD8 but answers the CMD0 that follows. -/
theorem card_init_cmd8_failure_witness :
    ∃ (s1 : Sd) (k : Nat), 1 ≤ k ∧ k ≤ 3 ∧
      _sd_card_init env_cmd8_fail sd_v2 = _sd_card_init_ocr env_cmd8_fail s1 ∧
      s1.hndl.error = SD_OK ∧ s1.hndl.sd_spec = SD_SPEC_10 ∧
      s1.hndl.media_type = SD_MEDIA_SD ∧
      s1.trace = List.replicate k (Call.sd_send_cmd CMD0) ++
        (Call.sd_card_send_cmd_arg CMD8 SD_RSP_R7 (sd_v2.hndl.if_cond 0)
            (sd_v2.hndl.if_cond 1)
          :: (cmd0_loop env_cmd8_fail 3 0 (card_init_entry sd_v2)).2.trace) ∧
      (∀ j, j + 1 < k →
        (env_cmd8_fail
          ((cmd0_loop env_cmd8_fail 3 0 (card_init_entry sd_v2)).2.trace.length + 1 + j)
          (Call.sd_send_cmd CMD0)).ret ≠ SD_OK) ∧
      ((env_cmd8_fail
          ((cmd0_loop env_cmd8_fail 3 0 (card_init_entry sd_v2)).2.trace.length + 1
            + (k - 1))
          (Call.sd_send_cmd CMD0)).ret = SD_OK ∨ k = 3) ∧
      Call.sd_card_send_ocr SD_MEDIA_SD :: s1.trace
        <:+ (_sd_card_init env_cmd8_fail sd_v2).2.trace :=
  card_init_cmd8_failure env_cmd8_fail sd_v2 rfl (by decide) (by decide)

/-- C11 (as stated) fails: on a version 2 host, a card that answers the first CMD0 but
neither CMD8 nor any of the three CMD0 that follow it is taken to the
operating-condition negotiation all the same (with `sd_spec = SD_SPEC_10`, and the
initialisation ends with `SD_OK`): the CMD8 step ends without a successful CMD0. The
trace lists the most recent call first; the calls are numbered from 0. -/
theorem card_init_cmd8_no_cmd0_success :
    sd_v2.hndl.sup_ver = SD_MODE_VER2X ∧
    (_sd_card_init env_cmd8_cmd0_fail sd_v2).2.trace
      = [Call.sd_card_send_cmd_arg CMD9 SD_RSP_R2_CSD 0x1234 0,
         Call.sd_card_send_cmd_arg CMD3 SD_RSP_R6 0 0,
         Call.sd_card_send_cmd_arg CMD2 SD_RSP_R2_CID 0 0,
         Call.sd_card_send_ocr SD_MEDIA_SD,
         Call.sd_send_cmd CMD0, Call.sd_send_cmd CMD0, Call.sd_send_cmd CMD0,
         Call.sd_card_send_cmd_arg CMD8 SD_RSP_R7 0 0,
         Call.sd_send_cmd CMD0] ∧
    (env_cmd8_cmd0_fail 1 (Call.sd_card_send_cmd_arg CMD8 SD_RSP_R7 0 0)).ret ≠ SD_OK ∧
    (env_cmd8_cmd0_fail 2 (Call.sd_send_cmd CMD0)).ret ≠ SD_OK ∧
    (env_cmd8_cmd0_fail 3 (Call.sd_send_cmd CMD0)).ret ≠ SD_OK ∧
    (env_cmd8_cmd0_fail 4 (Call.sd_send_cmd CMD0)).ret ≠ SD_OK ∧
    (_sd_card_init env_cmd8_cmd0_fail sd_v2).1 = SD_OK ∧
    (_sd_card_init env_cmd8_cmd0_fail sd_v2).2.hndl.sd_spec = SD_SPEC_10 := by
  refine ⟨?_, ?_, ?_, ?_, ?_, ?_, ?_, ?_⟩ <;> decide

/-- The RCA loop when attempt `k` is the first that publishes a non-zero RCA, every
attempt up to it being answered. -/
theorem rca_loop_first_nonzero (env : Env) (s : Sd) (k : Nat) (hk1 : 1 ≤ k) (hk3 : k ≤ 3)
    (hret : ∀ j, j < k →
      (env (s.trace.length + j) (Call.sd_card_send_cmd_arg CMD3 SD_RSP_R6 0 0)).ret
        = SD_OK)
    (hzero : ∀ j, j + 1 < k →
      (env (s.trace.length + j) (Call.sd_card_send_cmd_arg CMD3 SD_RSP_R6 0 0)).rca 0 = 0)
    (hnz : (env (s.trace.length + (k - 1))
      (Call.sd_card_send_cmd_arg CMD3 SD_RSP_R6 0 0)).rca 0 ≠ 0) :
    (rca_loop env 3 0 s).1 = false ∧ (rca_loop env 3 0 s).2.1 = k - 1 ∧
    (rca_loop env 3 0 s).2.2.trace
      = List.replicate k (Call.sd_card_send_cmd_arg CMD3 SD_RSP_R6 0 0) ++ s.trace ∧
    (rca_loop env 3 0 s).2.2.hndl.rca 0
      = (env (s.trace.length + (k - 1))
          (Call.sd_card_send_cmd_arg CMD3 SD_RSP_R6 0 0)).rca 0 := by
  have e0 : s.trace.length + 0 = s.trace.length := rfl
  interval_cases k
  · have r0 := hret 0 (by omega)
    have n0 := hnz
    simp only [Nat.sub_self, e0] at r0 n0
    simp [rca_loop, r0, n0, List.replicate]
  · have r0 := hret 0 (by omega)
    have r1 := hret 1 (by omega)
    have z0 := hzero 0 (by omega)
    have n1 := hnz
    simp only [e0] at r0 z0
    simp [rca_loop, r0, r1, z0, n1, List.replicate]
  · have r0 := hret 0 (by omega)
    have r1 := hret 1 (by omega)
    have r2 := hret 2 (by omega)
    have z0 := hzero 0 (by omega)
    have z1 := hzero 1 (by omega)
    have n2 := hnz
    simp only [e0] at r0 z0
    simp [rca_loop, r0, r1, r2, z0, z1, n2, List.replicate]

/-- The RCA loop when all three attempts are answered with the RCA 0. -/
theorem rca_loop_all_zero (env : Env) (s : Sd)
    (hall : ∀ j, j < 3 →
      (env (s.trace.length + j) (Call.sd_card_send_cmd_arg CMD3 SD_RSP_R6 0 0)).ret
        = SD_OK ∧
      (env (s.trace.length + j) (Call.sd_card_send_cmd_arg CMD3 SD_RSP_R6 0 0)).rca 0
        = 0) :
    (rca_loop env 3 0 s).1 = false ∧ (rca_loop env 3 0 s).2.1 = 3 ∧
    (rca_loop env 3 0 s).2.2.trace
      = List.replicate 3 (Call.sd_card_send_cmd_arg CMD3 SD_RSP_R6 0 0) ++ s.trace ∧
    (rca_loop env 3 0 s).2.2.hndl.error
      = (env (s.trace.length + 2) (Call.sd_card_send_cmd_arg CMD3 SD_RSP_R6 0 0)).error := by
  have e0 : s.trace.length + 0 = s.trace.length := rfl
  obtain ⟨r0, z0⟩ := hall 0 (by omega)
  obtain ⟨r1, z1⟩ := hall 1 (by omega)
  obtain ⟨r2, z2⟩ := hall 2 (by omega)
  simp only [e0] at r0 z0
  simp [rca_loop, r0, r1, r2, z0, z1, z2, List.replicate]

/-- The CSD step starts with CMD9 for the RCA held by the handle. -/
theorem get_csd_first_call (env : Env) (s : Sd) :
    Call.sd_card_send_cmd_arg CMD9 SD_RSP_R2_CSD (s.hndl.rca 0) 0 :: s.trace
      <:+ (_sd_card_init_get_csd env s).2.trace := by
  simp only [_sd_card_init_get_csd]
  split_ifs <;>
    first
    | exact List.suffix_refl _
    | exact List.suffix_cons _ _

/-- C12 (as amended): RCA negotiation in `_sd_card_init_get_rca` for a media type with
the SD or the IO bit (the combo mask). CMD3 with the R6 response is issued until the RCA
it publishes is not zero, at most 3 times: when attempt `k` (1, 2 or 3) is the first with
a non-zero RCA, exactly `k` CMD3 are issued and the function goes on to CMD9 for that
RCA; when three attempts in a row publish the RCA 0, exactly three CMD3 are issued, no
CMD9 is, the function returns `SD_ERR`, and `_sd_set_err` is called with the card
controller error `SD_ERR_CARD_CC` (line 387), not with the card-type error: the recorded
error is `SD_ERR_CARD_CC` when the third CMD3 left none, and the error the third CMD3
left otherwise. -/
theorem card_init_rca_negotiation (env : Env) (s : Sd)
    (hm : s.hndl.media_type &&& SD_MEDIA_COMBO ≠ 0) :
    (∀ k, 1 ≤ k → k ≤ 3 →
      (∀ j, j < k →
        (env (s.trace.length + j) (Call.sd_card_send_cmd_arg CMD3 SD_RSP_R6 0 0)).ret
          = SD_OK) →
      (∀ j, j + 1 < k →
        (env (s.trace.length + j) (Call.sd_card_send_cmd_arg CMD3 SD_RSP_R6 0 0)).rca 0
          = 0) →
      (env (s.trace.length + (k - 1))
        (Call.sd_card_send_cmd_arg CMD3 SD_RSP_R6 0 0)).rca 0 ≠ 0 →
      ∃ s1, _sd_card_init_get_rca env s = _sd_card_init_get_csd env s1 ∧
        s1.trace
          = List.replicate k (Call.sd_card_send_cmd_arg CMD3 SD_RSP_R6 0 0) ++ s.trace ∧
        s1.hndl.rca 0
          = (env (s.trace.length + (k - 1))
              (Call.sd_card_send_cmd_arg CMD3 SD_RSP_R6 0 0)).rca 0 ∧
        Call.sd_card_send_cmd_arg CMD9 SD_RSP_R2_CSD (s1.hndl.rca 0) 0 :: s1.trace
          <:+ (_sd_card_init_get_rca env s).2.trace) ∧
    ((∀ j, j < 3 →
        (env (s.trace.length + j) (Call.sd_card_send_cmd_arg CMD3 SD_RSP_R6 0 0)).ret
          = SD_OK ∧
        (env (s.trace.length + j) (Call.sd_card_send_cmd_arg CMD3 SD_RSP_R6 0 0)).rca 0
          = 0) →
      (_sd_card_init_get_rca env s).1 = SD_ERR ∧
      (_sd_card_init_get_rca env s).2.trace
        = List.replicate 3 (Call.sd_card_send_cmd_arg CMD3 SD_RSP_R6 0 0) ++ s.trace ∧
      (_sd_card_init_get_rca env s).2.hndl.error
        = (if (env (s.trace.length + 2)
                (Call.sd_card_send_cmd_arg CMD3 SD_RSP_R6 0 0)).error = SD_OK
           then SD_ERR_CARD_CC
           else (env (s.trace.length + 2)
                (Call.sd_card_send_cmd_arg CMD3 SD_RSP_R6 0 0)).error)) := by
  constructor
  · intro k hk1 hk3 hret hzero hnz
    obtain ⟨a1, a2, a3, a4⟩ := rca_loop_first_nonzero env s k hk1 hk3 hret hzero hnz
    have e : _sd_card_init_get_rca env s
        = _sd_card_init_get_csd env (rca_loop env 3 0 s).2.2 := by
      simp only [_sd_card_init_get_rca]
      rw [if_pos hm, if_neg (by rw [a1]; decide), if_neg (by rw [a2]; omega)]
    refine ⟨(rca_loop env 3 0 s).2.2, e, a3, a4, ?_⟩
    rw [e]
    exact get_csd_first_call env _
  · intro hall
    obtain ⟨a1, a2, a3, a4⟩ := rca_loop_all_zero env s hall
    simp only [_sd_card_init_get_rca]
    rw [if_pos hm, if_neg (by rw [a1]; decide), if_pos a2]
    refine ⟨rfl, a3, ?_⟩
    show (_sd_set_err (rca_loop env 3 0 s).2.2.hndl SD_ERR_CARD_CC).error = _
    simp only [_sd_set_err]
    rw [a4]
    split_ifs
    · rfl
    · exact a4

/-- Witness of `card_init_rca_negotiation` for a combo card: one whose third CMD3
publishes a non-zero RCA, and one that publishes the RCA 0 three times. -/
theorem card_init_rca_negotiation_witness :
    (∃ s1, _sd_card_init_get_rca (env_rca_zero 2) sd_combo
        = _sd_card_init_get_csd (env_rca_zero 2) s1 ∧
      s1.trace
        = List.replicate 3 (Call.sd_card_send_cmd_arg CMD3 SD_RSP_R6 0 0)
            ++ sd_combo.trace ∧
      s1.hndl.rca 0
        = ((env_rca_zero 2) (sd_combo.trace.length + (3 - 1))
            (Call.sd_card_send_cmd_arg CMD3 SD_RSP_R6 0 0)).rca 0 ∧
      Call.sd_card_send_cmd_arg CMD9 SD_RSP_R2_CSD (s1.hndl.rca 0) 0 :: s1.trace
        <:+ (_sd_card_init_get_rca (env_rca_zero 2) sd_combo).2.trace) ∧
    ((_sd_card_init_get_rca (env_rca_zero 3) sd_combo).1 = SD_ERR ∧
      (_sd_card_init_get_rca (env_rca_zero 3) sd_combo).2.trace
        = List.replicate 3 (Call.sd_card_send_cmd_arg CMD3 SD_RSP_R6 0 0)
            ++ sd_combo.trace ∧
      (_sd_card_init_get_rca (env_rca_zero 3) sd_combo).2.hndl.error
        = (if ((env_rca_zero 3) (sd_combo.trace.length + 2)
                (Call.sd_card_send_cmd_arg CMD3 SD_RSP_R6 0 0)).error = SD_OK
           then SD_ERR_CARD_CC
           else ((env_rca_zero 3) (sd_combo.trace.length + 2)
                (Call.sd_card_send_cmd_arg CMD3 SD_RSP_R6 0 0)).error)) :=
  ⟨(card_init_rca_negotiation (env_rca_zero 2) sd_combo (by decide)).1 3 (by decide)
      (by decide)
      (fun j hj => by interval_cases j <;> decide)
      (fun j hj => by
        have h : j = 0 ∨ j = 1 := by omega
        rcases h with h | h <;> subst h <;> decide)
      (by decide),
   (card_init_rca_negotiation (env_rca_zero 3) sd_combo (by decide)).2
      (fun j hj => by interval_cases j <;> decide)⟩

/-- C12 (as stated) fails: a combo card that publishes the RCA 0 on all three CMD3.
`_sd_card_init_get_rca` returns `SD_ERR` after exactly three CMD3 and no CMD9, as the
claim says, but the error recorded is the card controller error `SD_ERR_CARD_CC` (-15,
line 387), not the card-type error `SD_ERR_CARD_TYPE` (-17) that `_sd_card_init` records
for an unsupported card at line 348; and when the third CMD3 has left an error in the
handle, `_sd_set_err` keeps that error and records neither code. -/
theorem get_rca_zero_records_card_cc :
    sd_combo.hndl.media_type &&& SD_MEDIA_COMBO ≠ 0 ∧
    (_sd_card_init_get_rca (env_rca_zero 3) sd_combo).1 = SD_ERR ∧
    (_sd_card_init_get_rca (env_rca_zero 3) sd_combo).2.trace
      = [Call.sd_card_send_cmd_arg CMD3 SD_RSP_R6 0 0,
         Call.sd_card_send_cmd_arg CMD3 SD_RSP_R6 0 0,
         Call.sd_card_send_cmd_arg CMD3 SD_RSP_R6 0 0] ∧
    (_sd_card_init_get_rca (env_rca_zero 3) sd_combo).2.hndl.error = SD_ERR_CARD_CC ∧
    (_sd_card_init_get_rca (env_rca_zero 3) sd_combo).2.hndl.error ≠ SD_ERR_CARD_TYPE ∧
    (_sd_card_init_get_rca env_rca_zero_err sd_combo).1 = SD_ERR ∧
    (_sd_card_init_get_rca env_rca_zero_err sd_combo).2.trace
      = [Call.sd_card_send_cmd_arg CMD3 SD_RSP_R6 0 0,
         Call.sd_card_send_cmd_arg CMD3 SD_RSP_R6 0 0,
         Call.sd_card_send_cmd_arg CMD3 SD_RSP_R6 0 0] ∧
    (_sd_card_init_get_rca env_rca_zero_err sd_combo).2.hndl.error = SD_ERR_CARD_ERROR := by
  refine ⟨?_, ?_, ?_, ?_, ?_, ?_, ?_, ?_⟩ <;> decide

/-! ### Card type negotiation -/

/-- The shape of lines 318-357 of `_sd_card_init`. -/
theorem ocr_eq (env : Env) (s : Sd) :
    _sd_card_init_ocr env s
      = if (hcall env s (Call.sd_card_send_ocr s.hndl.media_type)).1 ≠ SD_OK then
          if (cmd0_loop env 3 (hcall env s (Call.sd_card_send_ocr s.hndl.media_type)).1
                (clear_error (hcall env s
                  (Call.sd_card_send_ocr s.hndl.media_type)).2)).1 ≠ SD_OK then
            (SD_ERR,
              (cmd0_loop env 3 (hcall env s (Call.sd_card_send_ocr s.hndl.media_type)).1
                (clear_error (hcall env s (Call.sd_card_send_ocr s.hndl.media_type)).2)).2)
          else if (hcall env (clear_error
              (cmd0_loop env 3 (hcall env s (Call.sd_card_send_ocr s.hndl.media_type)).1
                (clear_error (hcall env s
                  (Call.sd_card_send_ocr s.hndl.media_type)).2)).2)
              (Call.sd_card_send_ocr SD_MEDIA_MMC)).1 = SD_OK then
            _sd_card_init_cid env (mmc_found (hcall env (clear_error
              (cmd0_loop env 3 (hcall env s (Call.sd_card_send_ocr s.hndl.media_type)).1
                (clear_error (hcall env s
                  (Call.sd_card_send_ocr s.hndl.media_type)).2)).2)
              (Call.sd_card_send_ocr SD_MEDIA_MMC)).2)
          else
            (SD_ERR, unknown_card (hcall env (clear_error
              (cmd0_loop env 3 (hcall env s (Call.sd_card_send_ocr s.hndl.media_type)).1
                (clear_error (hcall env s
                  (Call.sd_card_send_ocr s.hndl.media_type)).2)).2)
              (Call.sd_card_send_ocr SD_MEDIA_MMC)).2)
        else
          _sd_card_init_cid env
            (clear_error (hcall env s (Call.sd_card_send_ocr s.hndl.media_type)).2) :=
  rfl

theorem cid_media_type (env : Env) (s : Sd) :
    (_sd_card_init_cid env s).2.hndl.media_type = s.hndl.media_type := by
  simp only [_sd_card_init_cid]
  split_ifs
  · rfl
  · rw [get_rca_media_type]; rfl

/-- The CID step starts with CMD2. -/
theorem cid_first_call (env : Env) (s : Sd) :
    Call.sd_card_send_cmd_arg CMD2 SD_RSP_R2_CID 0 0 :: s.trace
      <:+ (_sd_card_init_cid env s).2.trace := by
  simp only [_sd_card_init_cid]
  split_ifs
  · exact List.suffix_refl _
  · exact get_rca_suffix env _ _ (List.suffix_refl _)

/-- When `_sd_card_init` gets to the negotiation, the media type is SD; otherwise it
has returned `SD_ERR`. -/
theorem card_init_ocr_entry (env : Env) (s : Sd) :
    (_sd_card_init env s).1 = SD_ERR ∨
    ∃ s1, s1.hndl.media_type = SD_MEDIA_SD ∧
      _sd_card_init env s = _sd_card_init_ocr env s1 := by
  have hu : SD_MEDIA_UNKNOWN ||| SD_MEDIA_SD = SD_MEDIA_SD := by decide
  have hm2 : (cmd0_loop env 3 0 (card_init_entry s)).2.hndl.media_type
      = SD_MEDIA_UNKNOWN := by
    simp only [cmd0_loop_media_type, card_init_entry]
  rw [card_init_eq]
  by_cases h0 : (cmd0_loop env 3 0 (card_init_entry s)).1 ≠ SD_OK
  · rw [if_pos h0]; exact Or.inl rfl
  · rw [if_neg h0]
    simp only [_sd_card_init_if_cond]
    split_ifs
    · exact Or.inl rfl
    · exact Or.inl rfl
    · refine Or.inr ⟨_, ?_, rfl⟩
      show (cmd0_loop env 3 0 (card_init_entry s)).2.hndl.media_type ||| SD_MEDIA_SD
        = SD_MEDIA_SD
      rw [hm2, hu]
    · refine Or.inr ⟨_, ?_, rfl⟩
      show (cmd0_loop env 3 _ _).2.hndl.media_type = SD_MEDIA_SD
      rw [cmd0_loop_media_type]
      show (cmd0_loop env 3 0 (card_init_entry s)).2.hndl.media_type ||| SD_MEDIA_SD
        = SD_MEDIA_SD
      rw [hm2, hu]
    · refine Or.inr ⟨_, ?_, rfl⟩
      show (cmd0_loop env 3 0 (card_init_entry s)).2.hndl.media_type ||| SD_MEDIA_SD
        = SD_MEDIA_SD
      rw [hm2, hu]

/-- The shape of lines 318-357 of `_sd_card_init` in terms of its stages. -/
theorem ocr_stages (env : Env) (s : Sd) :
    _sd_card_init_ocr env s
      = if (hcall env s (Call.sd_card_send_ocr s.hndl.media_type)).1 ≠ SD_OK then
          if (ocr_reset env s).1 ≠ SD_OK then (SD_ERR, (ocr_reset env s).2)
          else if (ocr_cmd1 env s).1 = SD_OK then
            _sd_card_init_cid env (mmc_found (ocr_cmd1 env s).2)
          else (SD_ERR, unknown_card (ocr_cmd1 env s).2)
        else
          _sd_card_init_cid env
            (clear_error (hcall env s (Call.sd_card_send_ocr s.hndl.media_type)).2) :=
  rfl

/-- C13 (as amended): card type negotiation in `_sd_card_init`, whose negotiation is
always entered with the media type SD. If the ACMD41 negotiation succeeds, the error is
cleared, CMD2 follows and the media type stays SD. If it fails, CMD0 is re-issued up to
3 times; when all three fail the function returns `SD_ERR` with nothing further
issued. Otherwise the CMD1 negotiation is tried: its success sets the media type to
exactly `SD_MEDIA_MMC` with the error cleared before CMD2; its failure sets the media
type to `SD_MEDIA_UNKNOWN` and returns `SD_ERR` with CMD2 never issued, and the error
recorded is the one the failed CMD1 negotiation left, `SD_ERR_CARD_TYPE` being recorded
only when it left none. -/
theorem card_init_negotiation (env : Env) (s : Sd)
    (hm : s.hndl.media_type = SD_MEDIA_SD) :
    ((hcall env s (Call.sd_card_send_ocr SD_MEDIA_SD)).1 = SD_OK →
      _sd_card_init_ocr env s
        = _sd_card_init_cid env
            (clear_error (hcall env s (Call.sd_card_send_ocr SD_MEDIA_SD)).2) ∧
      (_sd_card_init_ocr env s).2.hndl.media_type = SD_MEDIA_SD ∧
      Call.sd_card_send_cmd_arg CMD2 SD_RSP_R2_CID 0 0
          :: Call.sd_card_send_ocr SD_MEDIA_SD :: s.trace
        <:+ (_sd_card_init_ocr env s).2.trace) ∧
    ((hcall env s (Call.sd_card_send_ocr SD_MEDIA_SD)).1 ≠ SD_OK →
      (∃ k, 1 ≤ k ∧ k ≤ 3 ∧
        (ocr_reset env s).2.trace
          = List.replicate k (Call.sd_send_cmd CMD0)
              ++ (Call.sd_card_send_ocr SD_MEDIA_SD :: s.trace)) ∧
      ((ocr_reset env s).1 ≠ SD_OK →
        (_sd_card_init_ocr env s).1 = SD_ERR ∧
        (_sd_card_init_ocr env s).2.trace
          = List.replicate 3 (Call.sd_send_cmd CMD0)
              ++ (Call.sd_card_send_ocr SD_MEDIA_SD :: s.trace)) ∧
      ((ocr_reset env s).1 = SD_OK →
        ((ocr_cmd1 env s).1 = SD_OK →
          _sd_card_init_ocr env s
            = _sd_card_init_cid env (mmc_found (ocr_cmd1 env s).2) ∧
          (mmc_found (ocr_cmd1 env s).2).hndl.media_type = SD_MEDIA_MMC ∧
          (mmc_found (ocr_cmd1 env s).2).hndl.error = SD_OK ∧
          (_sd_card_init_ocr env s).2.hndl.media_type = SD_MEDIA_MMC) ∧
        ((ocr_cmd1 env s).1 ≠ SD_OK →
          (_sd_card_init_ocr env s).1 = SD_ERR ∧
          (_sd_card_init_ocr env s).2.hndl.media_type = SD_MEDIA_UNKNOWN ∧
          (_sd_card_init_ocr env s).2.trace
            = Call.sd_card_send_ocr SD_MEDIA_MMC :: (ocr_reset env s).2.trace ∧
          (_sd_card_init_ocr env s).2.hndl.error
            = (if (ocr_cmd1 env s).2.hndl.error = SD_OK then SD_ERR_CARD_TYPE
               else (ocr_cmd1 env s).2.hndl.error)))) ∧
    (∀ s0 : Sd, (_sd_card_init env s0).1 = SD_ERR ∨
      ∃ s1, s1.hndl.media_type = SD_MEDIA_SD ∧
        _sd_card_init env s0 = _sd_card_init_ocr env s1) := by
  refine ⟨?_, ?_, fun s0 => card_init_ocr_entry env s0⟩
  · intro h
    rw [← hm] at h ⊢
    have e : _sd_card_init_ocr env s
        = _sd_card_init_cid env
            (clear_error (hcall env s (Call.sd_card_send_ocr s.hndl.media_type)).2) := by
      rw [ocr_stages, if_neg (fun c => c h)]
    refine ⟨e, ?_, ?_⟩
    · rw [e, cid_media_type]; rfl
    · rw [e]
      exact cid_first_call env
        (clear_error (hcall env s (Call.sd_card_send_ocr s.hndl.media_type)).2)
  · intro h
    rw [← hm] at h
    obtain ⟨k, k1, k3, kt, -, kl⟩ := cmd0_loop_shape env
      (clear_error (hcall env s (Call.sd_card_send_ocr s.hndl.media_type)).2)
      (hcall env s (Call.sd_card_send_ocr s.hndl.media_type)).1
    have kt2 : (ocr_reset env s).2.trace
        = List.replicate k (Call.sd_send_cmd CMD0)
            ++ (Call.sd_card_send_ocr SD_MEDIA_SD :: s.trace) := by
      rw [← hm]; exact kt
    refine ⟨⟨k, k1, k3, kt2⟩, ?_, ?_⟩
    · intro hx
      have hk : k = 3 := by
        rcases kl with ⟨a, -⟩ | ⟨-, b, -⟩
        · exact absurd a hx
        · exact b
      rw [ocr_stages, if_pos h, if_pos hx]
      refine ⟨rfl, ?_⟩
      show (ocr_reset env s).2.trace = _
      rw [kt2, hk]
    · intro hok
      constructor
      · intro h1
        have e : _sd_card_init_ocr env s
            = _sd_card_init_cid env (mmc_found (ocr_cmd1 env s).2) := by
          rw [ocr_stages, if_pos h, if_neg (fun c => c hok), if_pos h1]
        refine ⟨e, rfl, rfl, ?_⟩
        rw [e, cid_media_type]; rfl
      · intro h1
        rw [ocr_stages, if_pos h, if_neg (fun c => c hok), if_neg h1]
        refine ⟨rfl, ?_, rfl, ?_⟩
        · show (_sd_set_err _ SD_ERR_CARD_TYPE).media_type = SD_MEDIA_UNKNOWN
          rw [set_err_media_type]
        · show (_sd_set_err _ SD_ERR_CARD_TYPE).error = _
          simp only [_sd_set_err]
          split_ifs <;> rfl

/-- Witness of `card_init_negotiation`: a card that answers the CMD1 negotiation only
(it ends as an MMC card), and a card that answers neither negotiation. -/
theorem card_init_negotiation_witness :
    (_sd_card_init_ocr env_mmc sd_sd).2.hndl.media_type = SD_MEDIA_MMC ∧
    (mmc_found (ocr_cmd1 env_mmc sd_sd).2).hndl.error = SD_OK ∧
    (_sd_card_init_ocr env_ocr_fail sd_sd).1 = SD_ERR ∧
    (_sd_card_init_ocr env_ocr_fail sd_sd).2.hndl.media_type = SD_MEDIA_UNKNOWN ∧
    (_sd_card_init_ocr env_ocr_fail sd_sd).2.hndl.error
      = (if (ocr_cmd1 env_ocr_fail sd_sd).2.hndl.error = SD_OK then SD_ERR_CARD_TYPE
         else (ocr_cmd1 env_ocr_fail sd_sd).2.hndl.error) := by
  have h := ((card_init_negotiation env_mmc sd_sd rfl).2.1 (by decide)).2.2 (by decide)
  have h2 :=
    ((card_init_negotiation env_ocr_fail sd_sd rfl).2.1 (by decide)).2.2 (by decide)
  exact ⟨(h.1 (by decide)).2.2.2, (h.1 (by decide)).2.2.1, (h2.2 (by decide)).1,
    (h2.2 (by decide)).2.1, (h2.2 (by decide)).2.2.2⟩

/-- C13 (as stated) fails: when neither negotiation is answered (each leaving the
response time-out error), `_sd_card_init` returns `SD_ERR` with the media type unknown
and CMD2 never issued, but the recorded error is the time-out of the CMD1 negotiation,
not `SD_ERR_CARD_TYPE`: `_sd_set_err` keeps an error that is already recorded. -/
theorem card_init_unknown_card_keeps_error :
    (_sd_card_init env_ocr_fail sd0).1 = SD_ERR ∧
    (_sd_card_init env_ocr_fail sd0).2.hndl.media_type = SD_MEDIA_UNKNOWN ∧
    (_sd_card_init env_ocr_fail sd0).2.trace
      = [Call.sd_card_send_ocr SD_MEDIA_MMC, Call.sd_send_cmd CMD0,
         Call.sd_card_send_ocr SD_MEDIA_SD, Call.sd_send_cmd CMD0] ∧
    (_sd_card_init env_ocr_fail sd0).2.hndl.error = SD_ERR_RES_TOE ∧
    (_sd_card_init env_ocr_fail sd0).2.hndl.error ≠ SD_ERR_CARD_TYPE := by
  refine ⟨?_, ?_, ?_, ?_, ?_⟩ <;> decide

/-! ### Erase-sector geometry -/

/-- The allocation unit `16 << au` for an exponent up to 9 fits 32 bits. -/
theorem au_sectors_eq (au : Nat) (h : au ≤ 9) :
    (16 <<< au) % 2 ^ 32 = 16 * 2 ^ au ∧ 16 * 2 ^ au ≤ 8192 := by
  rw [Nat.shiftLeft_eq]
  have h2 : 2 ^ au ≤ 2 ^ 9 := Nat.pow_le_pow_right (by norm_num) h
  have h3 : 16 * 2 ^ au ≤ 8192 := by
    norm_num at h2
    omega
  exact ⟨Nat.mod_eq_of_lt (by norm_num; omega), h3⟩

/-- C25: erase-sector geometry. `_sd_calc_erase_sector` always returns `SD_OK` and
writes no field but `erase_sect`. With the 16-bit status words `sdstatus[5]` and
`sdstatus[6]`, the exponent `au = sdstatus[5] >> 12` and the multiplier `m` = low byte
of `sdstatus[5]` times 256 plus high byte of `sdstatus[6]`: when the SCR spec field is
`0x0200`, `erase_sect` is the exact integer `16 * 2 ^ au * m` (below `2 ^ 32`) for `au`
in 1..9 and `m` non-zero, `16 * 2 ^ au` for `au` in 1..9 and `m = 0`, and
`SD_ERASE_SECTOR` for `au = 0` or `au ≥ 10`; otherwise the handle is left as it is. -/
theorem calc_erase_sector_geometry (h : st_sdhndl_t)
    (h5 : h.sdstatus 5 < 65536) (h6 : h.sdstatus 6 < 65536) :
    (_sd_calc_erase_sector h).1 = SD_OK ∧
    (_sd_calc_erase_sector h).2
      = { h with erase_sect := (_sd_calc_erase_sector h).2.erase_sect } ∧
    (h.scr 0 &&& 0x0f00 = 0x0200 →
      (1 ≤ h.sdstatus 5 >>> 12 → h.sdstatus 5 >>> 12 ≤ 9 →
        (h.sdstatus 5 % 256 * 256 + h.sdstatus 6 / 256 ≠ 0 →
          (_sd_calc_erase_sector h).2.erase_sect
            = 16 * 2 ^ (h.sdstatus 5 >>> 12)
                * (h.sdstatus 5 % 256 * 256 + h.sdstatus 6 / 256) ∧
          16 * 2 ^ (h.sdstatus 5 >>> 12)
                * (h.sdstatus 5 % 256 * 256 + h.sdstatus 6 / 256) < 2 ^ 32) ∧
        (h.sdstatus 5 % 256 * 256 + h.sdstatus 6 / 256 = 0 →
          (_sd_calc_erase_sector h).2.erase_sect = 16 * 2 ^ (h.sdstatus 5 >>> 12))) ∧
      (h.sdstatus 5 >>> 12 = 0 ∨ 10 ≤ h.sdstatus 5 >>> 12 →
        (_sd_calc_erase_sector h).2.erase_sect = SD_ERASE_SECTOR)) ∧
    (h.scr 0 &&& 0x0f00 ≠ 0x0200 → (_sd_calc_erase_sector h).2 = h) := by
  have hau : (h.sdstatus 5 >>> 12) % 65536 = h.sdstatus 5 >>> 12 := by
    rw [Nat.shiftRight_eq_div_pow]
    norm_num
    omega
  have hes := erase_size_eq (h.sdstatus 5) (h.sdstatus 6) h6
  refine ⟨?_, ?_, ?_, ?_⟩
  · simp only [_sd_calc_erase_sector]
    split_ifs <;> rfl
  · simp only [_sd_calc_erase_sector]
    split_ifs <;> rfl
  · intro hs
    simp only [_sd_calc_erase_sector]
    rw [if_pos hs, hau, hes]
    refine ⟨?_, ?_⟩
    · intro a1 a9
      obtain ⟨e1, e2⟩ := au_sectors_eq _ a9
      have hm : h.sdstatus 5 % 256 * 256 + h.sdstatus 6 / 256 ≤ 65535 := by omega
      have hp : 16 * 2 ^ (h.sdstatus 5 >>> 12)
          * (h.sdstatus 5 % 256 * 256 + h.sdstatus 6 / 256) ≤ 8192 * 65535 :=
        Nat.mul_le_mul e2 hm
      rw [if_pos ⟨by omega, by omega⟩]
      refine ⟨?_, ?_⟩
      · intro hne
        rw [if_pos hne]
        refine ⟨?_, by norm_num; omega⟩
        show (16 <<< (h.sdstatus 5 >>> 12)) % 2 ^ 32
            * (h.sdstatus 5 % 256 * 256 + h.sdstatus 6 / 256) % 2 ^ 32 = _
        rw [e1]
        exact Nat.mod_eq_of_lt (by norm_num; omega)
      · intro he
        rw [if_neg (fun c => c he)]
        exact e1
    · intro a
      rw [if_neg (by omega)]
  · intro hs
    simp only [_sd_calc_erase_sector]
    rw [if_neg hs]

/-- Witness of `calc_erase_sector_geometry`: a spec 2.0 card reporting the exponent 9
and the multiplier `0xffff` gets `8192 * 65535` sectors. -/
theorem calc_erase_sector_geometry_witness :
    (_sd_calc_erase_sector hndl_au9).1 = SD_OK ∧
    (_sd_calc_erase_sector hndl_au9).2.erase_sect = 16 * 2 ^ 9 * 65535 := by
  have h := calc_erase_sector_geometry hndl_au9 (by decide) (by decide)
  have h2 := ((h.2.2.1 (by decide)).1 (by decide) (by decide)).1 (by decide)
  exact ⟨h.1, h2.1⟩

/-! ### Counting the commands of the card initialisation -/

theorem cmd_count_hcall (env : Env) (s : Sd) (c : Call) (n : Nat)
    (hc : c.is_cmd n = false) :
    cmd_count n (hcall env s c).2.trace = cmd_count n s.trace := by
  simp [cmd_count, hcall, List.countP_cons, hc]

theorem cmd0_loop_count (env : Env) (n : Nat) (h0 : n ≠ CMD0) (k : Nat) :
    ∀ (ret : Int) (s : Sd),
      cmd_count n (cmd0_loop env k ret s).2.trace = cmd_count n s.trace := by
  have hc : (Call.sd_send_cmd CMD0).is_cmd n = false := by
    simp [Call.is_cmd, Ne.symm h0]
  induction k with
  | zero => intro ret s; rfl
  | succ k ih =>
    intro ret s
    simp only [cmd0_loop]
    split_ifs
    · exact cmd_count_hcall env s _ n hc
    · rw [ih, cmd_count_hcall env s _ n hc]

theorem rca_loop_count (env : Env) (n : Nat) (h3 : n ≠ CMD3) (k : Nat) :
    ∀ (i : Nat) (s : Sd),
      cmd_count n (rca_loop env k i s).2.2.trace = cmd_count n s.trace := by
  have hc : (Call.sd_card_send_cmd_arg CMD3 SD_RSP_R6 0 0).is_cmd n = false := by
    simp [Call.is_cmd, Ne.symm h3]
  induction k with
  | zero => intro i s; rfl
  | succ k ih =>
    intro i s
    simp only [rca_loop]
    split_ifs
    · exact cmd_count_hcall env s _ n hc
    · exact cmd_count_hcall env s _ n hc
    · rw [ih, cmd_count_hcall env s _ n hc]

theorem get_csd_count (env : Env) (s : Sd) (n : Nat) (h9 : n ≠ CMD9) (h4 : n ≠ CMD4) :
    cmd_count n (_sd_card_init_get_csd env s).2.trace = cmd_count n s.trace := by
  have c9 : ∀ a b c, (Call.sd_card_send_cmd_arg CMD9 a b c).is_cmd n = false := by
    intro a b c; simp [Call.is_cmd, Ne.symm h9]
  have c4 : ∀ a b c, (Call.sd_card_send_cmd_arg CMD4 a b c).is_cmd n = false := by
    intro a b c; simp [Call.is_cmd, Ne.symm h4]
  simp only [_sd_card_init_get_csd]
  split_ifs <;>
    first
    | exact cmd_count_hcall env _ _ n (c9 _ _ _)
    | exact (cmd_count_hcall env _ _ n (c4 _ _ _)).trans
        (cmd_count_hcall env _ _ n (c9 _ _ _))

theorem get_rca_count (env : Env) (s : Sd) (n : Nat) (h3 : n ≠ CMD3) (h9 : n ≠ CMD9)
    (h4 : n ≠ CMD4) :
    cmd_count n (_sd_card_init_get_rca env s).2.trace = cmd_count n s.trace := by
  have c3 : ∀ a b c, (Call.sd_card_send_cmd_arg CMD3 a b c).is_cmd n = false := by
    intro a b c; simp [Call.is_cmd, Ne.symm h3]
  simp only [_sd_card_init_get_rca]
  split_ifs
  · exact rca_loop_count env n h3 3 0 s
  · exact rca_loop_count env n h3 3 0 s
  · rw [get_csd_count env _ n h9 h4]
    exact rca_loop_count env n h3 3 0 s
  · exact cmd_count_hcall env _ _ n (c3 _ _ _)
  · rw [get_csd_count env _ n h9 h4]
    exact cmd_count_hcall env _ _ n (c3 _ _ _)

/-! ### The fixed RCA -/

theorem ocr_sd_spec (env : Env) (s : Sd) :
    (_sd_card_init_ocr env s).2.hndl.sd_spec = s.hndl.sd_spec := by
  simp only [_sd_card_init_ocr]
  split_ifs <;> simp

theorem ocr_count (env : Env) (s : Sd) (n : Nat) (h0 : n ≠ CMD0) (h2 : n ≠ CMD2)
    (h3 : n ≠ CMD3) (h9 : n ≠ CMD9) (h4 : n ≠ CMD4) :
    cmd_count n (_sd_card_init_ocr env s).2.trace = cmd_count n s.trace := by
  have c2 : ∀ a b c, (Call.sd_card_send_cmd_arg CMD2 a b c).is_cmd n = false := by
    intro a b c; simp [Call.is_cmd, Ne.symm h2]
  have co : ∀ m, (Call.sd_card_send_ocr m).is_cmd n = false := fun _ => rfl
  have e0 : cmd_count n (hcall env s (Call.sd_card_send_ocr s.hndl.media_type)).2.trace
      = cmd_count n s.trace := cmd_count_hcall env s _ n (co _)
  simp only [_sd_card_init_ocr]
  split_ifs
  · exact (cmd0_loop_count env n h0 3 _ _).trans e0
  · exact (cmd_count_hcall env _ _ n (c2 _ _ _)).trans
      ((cmd_count_hcall env _ _ n (co _)).trans
        ((cmd0_loop_count env n h0 3 _ _).trans e0))
  · exact (get_rca_count env _ n h3 h9 h4).trans
      ((cmd_count_hcall env _ _ n (c2 _ _ _)).trans
        ((cmd_count_hcall env _ _ n (co _)).trans
          ((cmd0_loop_count env n h0 3 _ _).trans e0)))
  · exact (cmd_count_hcall env _ _ n (co _)).trans
      ((cmd0_loop_count env n h0 3 _ _).trans e0)
  · exact (cmd_count_hcall env _ _ n (c2 _ _ _)).trans e0
  · exact (get_rca_count env _ n h3 h9 h4).trans
      ((cmd_count_hcall env _ _ n (c2 _ _ _)).trans e0)

/-- The shape of lines 284-316 of `_sd_card_init` for a version 2 host when CMD8
succeeds. -/
theorem if_cond_cmd8_ok (env : Env) (s : Sd) (a b : Nat)
    (hv : s.hndl.sup_ver = SD_MODE_VER2X)
    (h8 : (hcall env (if_cond_entry s)
      (Call.sd_card_send_cmd_arg CMD8 SD_RSP_R7 a b)).1 = SD_OK) :
    _sd_card_init_if_cond env s a b
      = if (hcall env (if_cond_entry s)
              (Call.sd_card_send_cmd_arg CMD8 SD_RSP_R7 a b)).2.hndl.if_cond 0
              &&& 0xf000 ≠ 0 then
          (SD_ERR,
            { (hcall env (if_cond_entry s)
                (Call.sd_card_send_cmd_arg CMD8 SD_RSP_R7 a b)).2 with
              hndl := { (hcall env (if_cond_entry s)
                (Call.sd_card_send_cmd_arg CMD8 SD_RSP_R7 a b)).2.hndl with
                  error := SD_ERR_IFCOND_VER } })
        else if (hcall env (if_cond_entry s)
              (Call.sd_card_send_cmd_arg CMD8 SD_RSP_R7 a b)).2.hndl.if_cond 1
              &&& 0x00ff ≠ 0x00aa then
          (SD_ERR,
            { (hcall env (if_cond_entry s)
                (Call.sd_card_send_cmd_arg CMD8 SD_RSP_R7 a b)).2 with
              hndl := { (hcall env (if_cond_entry s)
                (Call.sd_card_send_cmd_arg CMD8 SD_RSP_R7 a b)).2.hndl with
                  error := SD_ERR_IFCOND_ECHO } })
        else
          _sd_card_init_ocr env
            (set_sd_spec (hcall env (if_cond_entry s)
              (Call.sd_card_send_cmd_arg CMD8 SD_RSP_R7 a b)).2 SD_SPEC_20) := by
  simp only [_sd_card_init_if_cond]
  rw [if_pos hv, if_pos (by exact h8)]
  rfl

/-- The shape of lines 284-316 of `_sd_card_init` for a host that is not version 2. -/
theorem if_cond_not_v2 (env : Env) (s : Sd) (a b : Nat)
    (hv : s.hndl.sup_ver ≠ SD_MODE_VER2X) :
    _sd_card_init_if_cond env s a b
      = _sd_card_init_ocr env (set_sd_spec (if_cond_entry s) SD_SPEC_10) := by
  simp only [_sd_card_init_if_cond]
  rw [if_neg hv]
  rfl

/-- C23: CMD8 response validation in `_sd_card_init`, once the first CMD0 loop has
succeeded. For a version 2 host, when CMD8 itself succeeds: if one of the top four bits
of `if_cond[0]` is set the function returns `SD_ERR` with `SD_ERR_IFCOND_VER` recorded
and nothing issued after CMD8; else if the low byte of `if_cond[1]` is not `0xaa` it
returns `SD_ERR` with `SD_ERR_IFCOND_ECHO` recorded and nothing issued after CMD8;
otherwise it sets `sd_spec` to `SD_SPEC_20` and continues with the operating-condition
negotiation (the next call is the ACMD41 negotiation), and `sd_spec` is `SD_SPEC_20` on
return. For a host that is not version 2 no CMD8 is issued by `_sd_card_init` at all,
`sd_spec` is set to `SD_SPEC_10` before the negotiation and is `SD_SPEC_10` on
return. -/
theorem card_init_cmd8_response (env : Env) (s : Sd) :
    (s.hndl.sup_ver = SD_MODE_VER2X →
      (cmd0_loop env 3 0 (card_init_entry s)).1 = SD_OK →
      (card_init_cmd8 env s).1 = SD_OK →
      ((card_init_cmd8 env s).2.hndl.if_cond 0 &&& 0xf000 ≠ 0 →
        (_sd_card_init env s).1 = SD_ERR ∧
        (_sd_card_init env s).2.hndl.error = SD_ERR_IFCOND_VER ∧
        (_sd_card_init env s).2.trace = (card_init_cmd8 env s).2.trace) ∧
      ((card_init_cmd8 env s).2.hndl.if_cond 0 &&& 0xf000 = 0 →
        (card_init_cmd8 env s).2.hndl.if_cond 1 &&& 0x00ff ≠ 0x00aa →
        (_sd_card_init env s).1 = SD_ERR ∧
        (_sd_card_init env s).2.hndl.error = SD_ERR_IFCOND_ECHO ∧
        (_sd_card_init env s).2.trace = (card_init_cmd8 env s).2.trace) ∧
      ((card_init_cmd8 env s).2.hndl.if_cond 0 &&& 0xf000 = 0 →
        (card_init_cmd8 env s).2.hndl.if_cond 1 &&& 0x00ff = 0x00aa →
        _sd_card_init env s
          = _sd_card_init_ocr env (set_sd_spec (card_init_cmd8 env s).2 SD_SPEC_20) ∧
        Call.sd_card_send_ocr SD_MEDIA_SD :: (card_init_cmd8 env s).2.trace
          <:+ (_sd_card_init env s).2.trace ∧
        (_sd_card_init env s).2.hndl.sd_spec = SD_SPEC_20)) ∧
    (s.hndl.sup_ver ≠ SD_MODE_VER2X →
      cmd_count CMD8 (_sd_card_init env s).2.trace = cmd_count CMD8 s.trace ∧
      ((cmd0_loop env 3 0 (card_init_entry s)).1 = SD_OK →
        _sd_card_init env s
          = _sd_card_init_ocr env
              (set_sd_spec (if_cond_entry (cmd0_loop env 3 0 (card_init_entry s)).2)
                SD_SPEC_10) ∧
        (_sd_card_init env s).2.hndl.sd_spec = SD_SPEC_10)) := by
  have hu : SD_MEDIA_UNKNOWN ||| SD_MEDIA_SD = SD_MEDIA_SD := by decide
  have hm2 : (cmd0_loop env 3 0 (card_init_entry s)).2.hndl.media_type
      = SD_MEDIA_UNKNOWN := by
    simp only [cmd0_loop_media_type, card_init_entry]
  constructor
  · intro hv h0 h8
    have hv2 : (cmd0_loop env 3 0 (card_init_entry s)).2.hndl.sup_ver
        = SD_MODE_VER2X := by
      simp only [cmd0_loop_sup_ver, card_init_entry, hv]
    have e := if_cond_cmd8_ok env (cmd0_loop env 3 0 (card_init_entry s)).2
      (s.hndl.if_cond 0) (s.hndl.if_cond 1) hv2 h8
    have e2 : _sd_card_init env s
        = _sd_card_init_if_cond env (cmd0_loop env 3 0 (card_init_entry s)).2
            (s.hndl.if_cond 0) (s.hndl.if_cond 1) := by
      rw [card_init_eq, if_neg (fun c => c h0)]
    refine ⟨?_, ?_, ?_⟩
    · intro hver
      rw [e2, e, if_pos (by exact hver)]
      exact ⟨rfl, rfl, rfl⟩
    · intro hver hecho
      rw [e2, e, if_neg (by exact fun c => c hver), if_pos (by exact hecho)]
      exact ⟨rfl, rfl, rfl⟩
    · intro hver hecho
      have e3 : _sd_card_init env s
          = _sd_card_init_ocr env
              (set_sd_spec (card_init_cmd8 env s).2 SD_SPEC_20) := by
        rw [e2, e, if_neg (by exact fun c => c hver),
          if_neg (by exact fun c => c hecho)]
        rfl
      have hmed : (set_sd_spec (card_init_cmd8 env s).2 SD_SPEC_20).hndl.media_type
          = SD_MEDIA_SD := by
        show (cmd0_loop env 3 0 (card_init_entry s)).2.hndl.media_type ||| SD_MEDIA_SD
          = SD_MEDIA_SD
        rw [hm2, hu]
      have hfirst := ocr_first_call env (set_sd_spec (card_init_cmd8 env s).2 SD_SPEC_20)
      rw [hmed] at hfirst
      refine ⟨e3, ?_, ?_⟩
      · rw [e3]
        exact hfirst
      · rw [e3, ocr_sd_spec]
        rfl
  · intro hv
    have hv2 : (cmd0_loop env 3 0 (card_init_entry s)).2.hndl.sup_ver
        ≠ SD_MODE_VER2X := by
      simp only [cmd0_loop_sup_ver, card_init_entry]
      exact hv
    have e := if_cond_not_v2 env (cmd0_loop env 3 0 (card_init_entry s)).2
      (s.hndl.if_cond 0) (s.hndl.if_cond 1) hv2
    have hl : cmd_count CMD8 (cmd0_loop env 3 0 (card_init_entry s)).2.trace
        = cmd_count CMD8 s.trace :=
      cmd0_loop_count env CMD8 (by decide) 3 0 (card_init_entry s)
    constructor
    · rw [card_init_eq]
      split_ifs
      · exact hl
      · rw [e]
        exact (ocr_count env _ CMD8 (by decide) (by decide) (by decide) (by decide)
          (by decide)).trans hl
    · intro h0
      have e3 : _sd_card_init env s
          = _sd_card_init_ocr env
              (set_sd_spec (if_cond_entry (cmd0_loop env 3 0 (card_init_entry s)).2)
                SD_SPEC_10) := by
        rw [card_init_eq, if_neg (fun c => c h0), e]
      refine ⟨e3, ?_⟩
      rw [e3, ocr_sd_spec]
      rfl

/-- Witness of `card_init_cmd8_response`: a version 2 host with a card whose CMD8
response has a version bit set, one whose response echoes `0x55`, and one that echoes
`0xaa`; and a host that is not version 2. -/
theorem card_init_cmd8_response_witness :
    ((_sd_card_init (env_if_cond 0x1000 0x01aa) sd_v2).1 = SD_ERR ∧
      (_sd_card_init (env_if_cond 0x1000 0x01aa) sd_v2).2.hndl.error
        = SD_ERR_IFCOND_VER) ∧
    ((_sd_card_init (env_if_cond 0 0x0155) sd_v2).1 = SD_ERR ∧
      (_sd_card_init (env_if_cond 0 0x0155) sd_v2).2.hndl.error
        = SD_ERR_IFCOND_ECHO) ∧
    (_sd_card_init env_ok sd_v2).2.hndl.sd_spec = SD_SPEC_20 ∧
    (cmd_count CMD8 (_sd_card_init env_ok sd0).2.trace = cmd_count CMD8 sd0.trace ∧
      (_sd_card_init env_ok sd0).2.hndl.sd_spec = SD_SPEC_10) := by
  have a := ((card_init_cmd8_response (env_if_cond 0x1000 0x01aa) sd_v2).1
    (by decide) (by decide) (by decide)).1 (by decide)
  have b := ((card_init_cmd8_response (env_if_cond 0 0x0155) sd_v2).1
    (by decide) (by decide) (by decide)).2.1 (by decide) (by decide)
  have c := ((card_init_cmd8_response env_ok sd_v2).1
    (by decide) (by decide) (by decide)).2.2 (by decide) (by decide)
  have d := (card_init_cmd8_response env_ok sd0).2 (by decide)
  exact ⟨⟨a.1, a.2.1⟩, ⟨b.1, b.2.1⟩, c.2.2, d.1, (d.2 (by decide)).2⟩

/-! ### Byte transfers: the error teardown -/

/-- The shape of lines 698-747 of `_sd_read_byte`. -/
theorem read_byte_data_eq (env : Env) (s : Sd) (buf : BufId) (byte : Nat) :
    _sd_read_byte_data env s buf byte
      = if (hcall env s (Call.sd_get_resp SD_RSP_R1)).1 ≠ SD_OK then
          _sd_read_byte_error env (hcall env s (Call.sd_get_resp SD_RSP_R1)).2
        else if (read_byte_wait1 env s).1 ≠ SD_OK then
          _sd_read_byte_error env
            { (read_byte_wait1 env s).2 with
              hndl := _sd_set_err (read_byte_wait1 env s).2.hndl SD_ERR_HOST_TOE }
        else if (read_byte_wait1 env s).2.hndl.int_info2 &&& SD_INFO2_MASK_ERR ≠ 0 then
          _sd_read_byte_error env
            (hcall env (read_byte_wait1 env s).2 Call.sd_check_info2_err).2
        else if (read_byte_copy env s buf byte).1 ≠ SD_OK then
          _sd_read_byte_error env
            { (read_byte_copy env s buf byte).2 with
              hndl := _sd_set_err (read_byte_copy env s buf byte).2.hndl SD_ERR_CPU_IF }
        else if (read_byte_wait2 env s buf byte).1 ≠ SD_OK then
          _sd_read_byte_error env
            { (read_byte_wait2 env s buf byte).2 with
              hndl := _sd_set_err (read_byte_wait2 env s buf byte).2.hndl
                SD_ERR_HOST_TOE }
        else if (read_byte_wait2 env s buf byte).2.hndl.int_info2
            &&& SD_INFO2_MASK_ERR ≠ 0 then
          _sd_read_byte_error env
            (hcall env (read_byte_wait2 env s buf byte).2 Call.sd_check_info2_err).2
        else
          (SD_OK,
            (vcall env
              (vcall env (read_byte_wait2 env s buf byte).2
                (Call.sd_clear_info SD_INFO1_MASK_DATA_TRNS SD_INFO2_MASK_ERR)).2
              (Call.sd_clear_int_mask SD_INFO1_MASK_DATA_TRNS SD_INFO2_MASK_BRE)).2) := by
  cases buf <;> rfl

/-- The error teardown of `_sd_read_byte`: the transfer is stopped, the flags and the
interrupt masks are cleared, and `SD_ERR` is returned; the handle keeps its error. -/
theorem read_byte_error_eq (env : Env) (s : Sd) :
    (_sd_read_byte_error env s).1 = SD_ERR ∧
    (_sd_read_byte_error env s).2.SD_STOP = 1 ∧
    (_sd_read_byte_error env s).2.trace
      = Call.sd_clear_int_mask SD_INFO1_MASK_DATA_TRNS SD_INFO2_MASK_BRE
          :: Call.sd_clear_info SD_INFO1_MASK_DATA_TRNS SD_INFO2_MASK_ERR :: s.trace ∧
    (_sd_read_byte_error env s).2.hndl.error = s.hndl.error :=
  ⟨rfl, rfl, rfl, rfl⟩

/-- The command stage of `_sd_read_byte`: the function returns there, or goes on to the
R1 response check from the state the command left. -/
theorem read_byte_reaches_data (env : Env) (s : Sd) (cmd h_arg l_arg : Nat) (buf : BufId)
    (byte : Nat) :
    ((_sd_read_byte env s cmd h_arg l_arg buf byte).1 = SD_ERR ∧
      ∀ p t, Call.sddev_int_wait p t ∉ (_sd_read_byte env s cmd h_arg l_arg buf byte).2.trace
        ∨ Call.sddev_int_wait p t ∈ s.trace) ∨
    ∃ s1, s1.SD_STOP = 0 ∧
      _sd_read_byte env s cmd h_arg l_arg buf byte = _sd_read_byte_data env s1 buf byte := by
  simp only [_sd_read_byte]
  split_ifs
  · exact Or.inr ⟨_, rfl, rfl⟩
  · refine Or.inl ⟨rfl, fun p t => ?_⟩
    by_cases hm : Call.sddev_int_wait p t ∈ s.trace
    · exact Or.inr hm
    · refine Or.inl ?_
      simp [_sd_read_byte_error, vcall, hcall, hm]
  · exact Or.inr ⟨_, rfl, rfl⟩
  · refine Or.inl ⟨rfl, fun p t => ?_⟩
    by_cases hm : Call.sddev_int_wait p t ∈ s.trace
    · exact Or.inr hm
    · refine Or.inl ?_
      simp [vcall, hcall, hm]
  · exact Or.inr ⟨_, rfl, rfl⟩

/-- C21 (as amended): teardown of `_sd_read_byte` on a time-out, from the state `s` at
the R1 response check when that check succeeds. When the wait for the buffer, or (after
a successful copy) the wait for the end of the transfer, times out, the function calls
`_sd_set_err` with `SD_ERR_HOST_TOE`, which records the host time-out only when no error
is recorded yet and keeps a recorded error otherwise; then it writes `SD_STOP = 1`,
clears the flags and the interrupt masks once, and returns `SD_ERR`, nothing else being
issued after the wait. Every run of `_sd_read_byte` that issues an interrupt wait is
such a run of the steps from the R1 response check on. -/
theorem read_byte_timeout_teardown (env : Env) (s : Sd) (buf : BufId) (byte : Nat)
    (hresp : (hcall env s (Call.sd_get_resp SD_RSP_R1)).1 = SD_OK) :
    ((read_byte_wait1 env s).1 ≠ SD_OK →
      (_sd_read_byte_data env s buf byte).1 = SD_ERR ∧
      (_sd_read_byte_data env s buf byte).2.SD_STOP = 1 ∧
      (_sd_read_byte_data env s buf byte).2.trace
        = [Call.sd_clear_int_mask SD_INFO1_MASK_DATA_TRNS SD_INFO2_MASK_BRE,
           Call.sd_clear_info SD_INFO1_MASK_DATA_TRNS SD_INFO2_MASK_ERR,
           Call.sddev_int_wait s.hndl.sd_port SD_TIMEOUT_MULTIPLE,
           Call.sd_set_int_mask SD_INFO1_MASK_DATA_TRNS SD_INFO2_MASK_BRE,
           Call.sd_get_resp SD_RSP_R1] ++ s.trace ∧
      (_sd_read_byte_data env s buf byte).2.hndl.error
        = (if (read_byte_wait1 env s).2.hndl.error = SD_OK then SD_ERR_HOST_TOE
           else (read_byte_wait1 env s).2.hndl.error)) ∧
    ((read_byte_wait1 env s).1 = SD_OK →
      (read_byte_wait1 env s).2.hndl.int_info2 &&& SD_INFO2_MASK_ERR = 0 →
      (read_byte_copy env s buf byte).1 = SD_OK →
      (read_byte_wait2 env s buf byte).1 ≠ SD_OK →
      (_sd_read_byte_data env s buf byte).1 = SD_ERR ∧
      (_sd_read_byte_data env s buf byte).2.SD_STOP = 1 ∧
      (_sd_read_byte_data env s buf byte).2.trace
        = [Call.sd_clear_int_mask SD_INFO1_MASK_DATA_TRNS SD_INFO2_MASK_BRE,
           Call.sd_clear_info SD_INFO1_MASK_DATA_TRNS SD_INFO2_MASK_ERR,
           Call.sddev_int_wait s.hndl.sd_port SD_TIMEOUT_RESP,
           Call.sddev_read_data s.hndl.sd_port byte,
           Call.sd_clear_info 0 SD_INFO2_MASK_RE,
           Call.sddev_int_wait s.hndl.sd_port SD_TIMEOUT_MULTIPLE,
           Call.sd_set_int_mask SD_INFO1_MASK_DATA_TRNS SD_INFO2_MASK_BRE,
           Call.sd_get_resp SD_RSP_R1] ++ s.trace ∧
      (_sd_read_byte_data env s buf byte).2.hndl.error
        = (if (read_byte_wait2 env s buf byte).2.hndl.error = SD_OK then SD_ERR_HOST_TOE
           else (read_byte_wait2 env s buf byte).2.hndl.error)) ∧
    (∀ (s0 : Sd) (cmd h_arg l_arg : Nat),
      ((_sd_read_byte env s0 cmd h_arg l_arg buf byte).1 = SD_ERR ∧
        ∀ p t,
          Call.sddev_int_wait p t ∉ (_sd_read_byte env s0 cmd h_arg l_arg buf byte).2.trace
            ∨ Call.sddev_int_wait p t ∈ s0.trace) ∨
      ∃ s1, s1.SD_STOP = 0 ∧
        _sd_read_byte env s0 cmd h_arg l_arg buf byte
          = _sd_read_byte_data env s1 buf byte) := by
  refine ⟨?_, ?_, fun s0 cmd h_arg l_arg => read_byte_reaches_data env s0 _ _ _ buf byte⟩
  · intro h1
    rw [read_byte_data_eq, if_neg (fun c => c hresp), if_pos h1]
    refine ⟨rfl, rfl, rfl, ?_⟩
    show (_sd_set_err (read_byte_wait1 env s).2.hndl SD_ERR_HOST_TOE).error = _
    simp only [_sd_set_err]
    split_ifs <;> rfl
  · intro h1 hf hc h2
    rw [read_byte_data_eq, if_neg (fun c => c hresp), if_neg (fun c => c h1),
      if_neg (fun c => c hf), if_neg (fun c => c hc), if_pos h2]
    refine ⟨rfl, rfl, ?_, ?_⟩
    · cases buf <;> rfl
    · show (_sd_set_err (read_byte_wait2 env s buf byte).2.hndl SD_ERR_HOST_TOE).error = _
      simp only [_sd_set_err]
      split_ifs <;> rfl

/-- Witness of `read_byte_timeout_teardown`: the wait for the buffer times out, and the
wait for the end of the transfer times out, with no error recorded before. -/
theorem read_byte_timeout_teardown_witness :
    ((_sd_read_byte_data (env_wait_timeout SD_TIMEOUT_MULTIPLE) sd_clean BufId.stat 64).1
        = SD_ERR ∧
      (_sd_read_byte_data (env_wait_timeout SD_TIMEOUT_MULTIPLE) sd_clean
        BufId.stat 64).2.SD_STOP = 1 ∧
      (_sd_read_byte_data (env_wait_timeout SD_TIMEOUT_MULTIPLE) sd_clean
        BufId.stat 64).2.hndl.error = SD_ERR_HOST_TOE) ∧
    ((_sd_read_byte_data (env_wait_timeout SD_TIMEOUT_RESP) sd_clean BufId.stat 64).1
        = SD_ERR ∧
      (_sd_read_byte_data (env_wait_timeout SD_TIMEOUT_RESP) sd_clean
        BufId.stat 64).2.SD_STOP = 1 ∧
      (_sd_read_byte_data (env_wait_timeout SD_TIMEOUT_RESP) sd_clean
        BufId.stat 64).2.hndl.error = SD_ERR_HOST_TOE) := by
  have a := (read_byte_timeout_teardown (env_wait_timeout SD_TIMEOUT_MULTIPLE) sd_clean
    BufId.stat 64 (by decide)).1 (by decide)
  have b := (read_byte_timeout_teardown (env_wait_timeout SD_TIMEOUT_RESP) sd_clean
    BufId.stat 64 (by decide)).2.1 (by decide) (by decide) (by decide) (by decide)
  exact ⟨⟨a.1, a.2.1, a.2.2.2⟩, ⟨b.1, b.2.1, b.2.2.2⟩⟩

/-- C21 (as stated) fails: ACMD13 fails with a CRC error, which `_sd_read_byte`
tolerates and the response check leaves recorded; the wait for the buffer then times
out. The teardown runs (`SD_STOP = 1`, one clearing of the masks, `SD_ERR`), but the
recorded error is the CRC error, not the host time-out: `_sd_set_err` keeps an error
that is already recorded. -/
theorem read_byte_timeout_keeps_error :
    (_sd_read_byte env_crc_timeout sd_clean ACMD13 0 0 BufId.stat 64).1 = SD_ERR ∧
    (_sd_read_byte env_crc_timeout sd_clean ACMD13 0 0 BufId.stat 64).2.SD_STOP = 1 ∧
    (_sd_read_byte env_crc_timeout sd_clean ACMD13 0 0 BufId.stat 64).2.trace
      = [Call.sd_clear_int_mask SD_INFO1_MASK_DATA_TRNS SD_INFO2_MASK_BRE,
         Call.sd_clear_info SD_INFO1_MASK_DATA_TRNS SD_INFO2_MASK_ERR,
         Call.sddev_int_wait 0 SD_TIMEOUT_MULTIPLE,
         Call.sd_set_int_mask SD_INFO1_MASK_DATA_TRNS SD_INFO2_MASK_BRE,
         Call.sd_get_resp SD_RSP_R1,
         Call.sd_send_acmd ACMD13 0 0] ∧
    (_sd_read_byte env_crc_timeout sd_clean ACMD13 0 0 BufId.stat 64).2.hndl.error
      = SD_ERR_CRC ∧
    (_sd_read_byte env_crc_timeout sd_clean ACMD13 0 0 BufId.stat 64).2.hndl.error
      ≠ SD_ERR_HOST_TOE := by
  refine ⟨?_, ?_, ?_, ?_, ?_⟩ <;> decide

/-- The error teardown of `_sd_write_byte`. -/
theorem write_byte_error_eq (env : Env) (s : Sd) :
    (_sd_write_byte_error env s).1 = SD_ERR ∧
    (_sd_write_byte_error env s).2.SD_STOP = 1 ∧
    (_sd_write_byte_error env s).2.trace
      = Call.sd_clear_int_mask SD_INFO1_MASK_DATA_TRNS SD_INFO2_MASK_BWE
          :: Call.sd_clear_info SD_INFO1_MASK_DATA_TRNS 0 :: s.trace ∧
    (_sd_write_byte_error env s).2.hndl.error = s.hndl.error :=
  ⟨rfl, rfl, rfl, rfl⟩

/-- The shape of lines 842-880 of `_sd_write_byte`. -/
theorem write_byte_wait_eq (env : Env) (s : Sd) (cmd byte : Nat) :
    _sd_write_byte_wait env s cmd byte
      = if (write_byte_wait2 env s cmd byte).1 ≠ SD_OK then
          _sd_write_byte_error env
            { (write_byte_wait2 env s cmd byte).2 with
              hndl := _sd_set_err (write_byte_wait2 env s cmd byte).2.hndl
                SD_ERR_HOST_TOE }
        else if (write_byte_wait2 env s cmd byte).2.hndl.int_info2
            &&& SD_INFO2_MASK_ERR ≠ 0 then
          if SD_TIMEOUT_ERASE_CMD = write_byte_time_out cmd byte then
            if SD_ERR_CARD_TOE = (write_byte_check env s cmd byte).2.hndl.error then
              if (write_byte_rbusy env s cmd byte).1 ≠ SD_OK then
                _sd_write_byte_error env (write_byte_rbusy env s cmd byte).2
              else _sd_write_byte_end env (write_byte_rbusy env s cmd byte).2
            else _sd_write_byte_error env (write_byte_check env s cmd byte).2
          else _sd_write_byte_error env (write_byte_check env s cmd byte).2
        else _sd_write_byte_end env (write_byte_wait2 env s cmd byte).2 :=
  rfl

/-- Every error return of lines 698-747 of `_sd_read_byte` goes through the teardown:
the transfer is stopped and the last two calls clear the flags and the masks. -/
theorem read_byte_data_failure (env : Env) (s : Sd) (buf : BufId) (byte : Nat)
    (h : (_sd_read_byte_data env s buf byte).1 ≠ SD_OK) :
    (_sd_read_byte_data env s buf byte).1 = SD_ERR ∧
    (_sd_read_byte_data env s buf byte).2.SD_STOP = 1 ∧
    ∃ t, (_sd_read_byte_data env s buf byte).2.trace
      = Call.sd_clear_int_mask SD_INFO1_MASK_DATA_TRNS SD_INFO2_MASK_BRE
          :: Call.sd_clear_info SD_INFO1_MASK_DATA_TRNS SD_INFO2_MASK_ERR :: t := by
  rw [read_byte_data_eq] at h ⊢
  split_ifs at h ⊢
  all_goals first
    | exact ⟨rfl, rfl, _, rfl⟩
    | exact absurd rfl h

/-- Every error return of lines 842-880 of `_sd_write_byte` goes through the
teardown. -/
theorem write_byte_wait_failure (env : Env) (s : Sd) (cmd byte : Nat)
    (h : (_sd_write_byte_wait env s cmd byte).1 ≠ SD_OK) :
    (_sd_write_byte_wait env s cmd byte).1 = SD_ERR ∧
    (_sd_write_byte_wait env s cmd byte).2.SD_STOP = 1 ∧
    ∃ t, (_sd_write_byte_wait env s cmd byte).2.trace
      = Call.sd_clear_int_mask SD_INFO1_MASK_DATA_TRNS SD_INFO2_MASK_BWE
          :: Call.sd_clear_info SD_INFO1_MASK_DATA_TRNS 0 :: t := by
  rw [write_byte_wait_eq] at h ⊢
  split_ifs at h ⊢
  all_goals first
    | exact ⟨rfl, rfl, _, rfl⟩
    | exact absurd rfl h

/-- Every error return of lines 817-880 of `_sd_write_byte` goes through the
teardown. -/
theorem write_byte_data_failure (env : Env) (s : Sd) (cmd byte : Nat)
    (h : (_sd_write_byte_data env s cmd byte).1 ≠ SD_OK) :
    (_sd_write_byte_data env s cmd byte).1 = SD_ERR ∧
    (_sd_write_byte_data env s cmd byte).2.SD_STOP = 1 ∧
    ∃ t, (_sd_write_byte_data env s cmd byte).2.trace
      = Call.sd_clear_int_mask SD_INFO1_MASK_DATA_TRNS SD_INFO2_MASK_BWE
          :: Call.sd_clear_info SD_INFO1_MASK_DATA_TRNS 0 :: t := by
  simp only [_sd_write_byte_data] at h ⊢
  split_ifs at h ⊢
  all_goals first
    | exact ⟨rfl, rfl, _, rfl⟩
    | exact write_byte_wait_failure env _ cmd byte h

/-- The error returns of `_sd_read_byte`: every one goes through the teardown of
`_sd_read_byte_error`, except the return that follows a failed `_sd_send_cmd` of a
command without the application bit, which leaves `SD_STOP` at 0 and issues nothing
after the command. -/
theorem read_byte_failure_paths (env : Env) (s : Sd) (cmd h_arg l_arg : Nat)
    (buf : BufId) (byte : Nat)
    (h : (_sd_read_byte env s cmd h_arg l_arg buf byte).1 ≠ SD_OK) :
    (_sd_read_byte env s cmd h_arg l_arg buf byte).1 = SD_ERR ∧
    (((_sd_read_byte env s cmd h_arg l_arg buf byte).2.SD_STOP = 1 ∧
        ∃ t, (_sd_read_byte env s cmd h_arg l_arg buf byte).2.trace
          = Call.sd_clear_int_mask SD_INFO1_MASK_DATA_TRNS SD_INFO2_MASK_BRE
              :: Call.sd_clear_info SD_INFO1_MASK_DATA_TRNS SD_INFO2_MASK_ERR :: t) ∨
      (cmd &&& 0x0040 = 0 ∧
        (_sd_read_byte env s cmd h_arg l_arg buf byte).2.SD_STOP = 0 ∧
        (_sd_read_byte env s cmd h_arg l_arg buf byte).2.trace
          = Call.sd_send_cmd cmd :: Call.sd_set_arg h_arg l_arg :: s.trace)) := by
  simp only [_sd_read_byte] at h ⊢
  split_ifs at h ⊢ with h1 h2 h3 h4
  · exact ⟨(read_byte_data_failure env _ buf byte h).1,
      Or.inl (read_byte_data_failure env _ buf byte h).2⟩
  · exact ⟨rfl, Or.inl ⟨rfl, _, rfl⟩⟩
  · exact ⟨(read_byte_data_failure env _ buf byte h).1,
      Or.inl (read_byte_data_failure env _ buf byte h).2⟩
  · exact ⟨rfl, Or.inr ⟨by simpa using h1, rfl, rfl⟩⟩
  · exact ⟨(read_byte_data_failure env _ buf byte h).1,
      Or.inl (read_byte_data_failure env _ buf byte h).2⟩

/-- The error returns of `_sd_write_byte`: every one goes through the teardown of
`_sd_write_byte_error`, except the return that follows a failed `_sd_send_cmd`, which
leaves `SD_STOP` at 0 and issues nothing after the command. -/
theorem write_byte_failure_paths (env : Env) (s : Sd) (cmd h_arg l_arg byte : Nat)
    (h : (_sd_write_byte env s cmd h_arg l_arg byte).1 ≠ SD_OK) :
    (_sd_write_byte env s cmd h_arg l_arg byte).1 = SD_ERR ∧
    (((_sd_write_byte env s cmd h_arg l_arg byte).2.SD_STOP = 1 ∧
        ∃ t, (_sd_write_byte env s cmd h_arg l_arg byte).2.trace
          = Call.sd_clear_int_mask SD_INFO1_MASK_DATA_TRNS SD_INFO2_MASK_BWE
              :: Call.sd_clear_info SD_INFO1_MASK_DATA_TRNS 0 :: t) ∨
      ((_sd_write_byte env s cmd h_arg l_arg byte).2.SD_STOP = 0 ∧
        (_sd_write_byte env s cmd h_arg l_arg byte).2.trace
          = Call.sd_send_cmd cmd :: Call.sd_set_arg h_arg l_arg :: s.trace)) := by
  simp only [_sd_write_byte] at h ⊢
  split_ifs at h ⊢
  · exact ⟨rfl, Or.inr ⟨rfl, rfl⟩⟩
  · exact ⟨(write_byte_data_failure env _ cmd byte h).1,
      Or.inl (write_byte_data_failure env _ cmd byte h).2⟩
  · exact ⟨rfl, Or.inl ⟨rfl, _, rfl⟩⟩
  · exact ⟨(write_byte_data_failure env _ cmd byte h).1,
      Or.inl (write_byte_data_failure env _ cmd byte h).2⟩

/-- C22: the teardown is missing on one failure path of each byte transfer. When
`_sd_send_cmd` fails for a command without the application bit, `_sd_read_byte` (here
CMD45, the partition query) and `_sd_write_byte` (here CMD42) return `SD_ERR` at once:
`SD_STOP` stays 0 and neither the flags nor the interrupt masks are cleared, the
command being the last call. The sibling path of an application command that fails
(here ACMD13) does run the teardown. -/
theorem byte_transfer_send_failure_skips_teardown :
    ((_sd_read_byte env_send_fail sd_clean CMD45 0 0 BufId.rw 512).1 = SD_ERR ∧
      (_sd_read_byte env_send_fail sd_clean CMD45 0 0 BufId.rw 512).2.SD_STOP = 0 ∧
      (_sd_read_byte env_send_fail sd_clean CMD45 0 0 BufId.rw 512).2.trace
        = [Call.sd_send_cmd CMD45, Call.sd_set_arg 0 0]) ∧
    ((_sd_write_byte env_send_fail sd_clean CMD42 0 0 1).1 = SD_ERR ∧
      (_sd_write_byte env_send_fail sd_clean CMD42 0 0 1).2.SD_STOP = 0 ∧
      (_sd_write_byte env_send_fail sd_clean CMD42 0 0 1).2.trace
        = [Call.sd_send_cmd CMD42, Call.sd_set_arg 0 0]) ∧
    ((_sd_read_byte env_send_fail sd_clean ACMD13 0 0 BufId.stat 64).1 = SD_ERR ∧
      (_sd_read_byte env_send_fail sd_clean ACMD13 0 0 BufId.stat 64).2.SD_STOP = 1 ∧
      (_sd_read_byte env_send_fail sd_clean ACMD13 0 0 BufId.stat 64).2.trace
        = [Call.sd_clear_int_mask SD_INFO1_MASK_DATA_TRNS SD_INFO2_MASK_BRE,
           Call.sd_clear_info SD_INFO1_MASK_DATA_TRNS SD_INFO2_MASK_ERR,
           Call.sd_send_acmd ACMD13 0 0]) := by
  refine ⟨⟨?_, ?_, ?_⟩, ⟨?_, ?_, ?_⟩, ⟨?_, ?_, ?_⟩⟩ <;> decide

/-! ### Byte write: the forced erase -/

/-- The time-out of the final wait of `_sd_write_byte`. -/
theorem write_byte_time_out_eq (cmd byte : Nat) :
    (write_byte_time_out cmd byte = SD_TIMEOUT_ERASE_CMD ↔ cmd = CMD42 ∧ byte = 1) ∧
    (¬ (cmd = CMD42 ∧ byte = 1) → write_byte_time_out cmd byte = SD_TIMEOUT_RESP) := by
  by_cases h : CMD42 = cmd ∧ 1 = byte
  · have h2 : cmd = CMD42 ∧ byte = 1 := ⟨h.1.symm, h.2.symm⟩
    have e : write_byte_time_out cmd byte = SD_TIMEOUT_ERASE_CMD := if_pos h
    rw [e]
    exact ⟨⟨fun _ => h2, fun _ => rfl⟩, fun c => absurd h2 c⟩
  · have h2 : ¬ (cmd = CMD42 ∧ byte = 1) := fun c => h ⟨c.1.symm, c.2.symm⟩
    have e : write_byte_time_out cmd byte = SD_TIMEOUT_RESP := if_neg h
    rw [e]
    exact ⟨⟨fun c => absurd c (by decide), fun c => absurd c h2⟩, fun _ => rfl⟩

/-- The steps of `_sd_write_byte` up to the data copy: the function returns an error
there, or goes on to the final wait. -/
theorem write_byte_reaches_wait (env : Env) (s : Sd) (cmd h_arg l_arg byte : Nat) :
    (_sd_write_byte env s cmd h_arg l_arg byte).1 = SD_ERR ∨
    ∃ s1, _sd_write_byte env s cmd h_arg l_arg byte = _sd_write_byte_wait env s1 cmd byte := by
  have hd : ∀ s1 : Sd, (_sd_write_byte_data env s1 cmd byte).1 = SD_ERR ∨
      ∃ s2, _sd_write_byte_data env s1 cmd byte = _sd_write_byte_wait env s2 cmd byte := by
    intro s1
    simp only [_sd_write_byte_data]
    split_ifs
    · exact Or.inl rfl
    · exact Or.inl rfl
    · exact Or.inl rfl
    · exact Or.inr ⟨_, rfl⟩
  simp only [_sd_write_byte]
  split_ifs
  · exact Or.inl rfl
  · exact hd _
  · exact Or.inl rfl
  · exact hd _

/-- C28: the forced erase in `_sd_write_byte`, from the state `s` after the data copy.
The final wait uses `SD_TIMEOUT_ERASE_CMD` exactly when the command is CMD42 and the
byte count is 1, and `SD_TIMEOUT_RESP` otherwise (the two differ). When the wait returns
with error flags raised, the flags are decoded; only for CMD42 with one byte and the
decoded error `SD_ERR_CARD_TOE` the function clears the flags and polls the busy state
with the bound 10000000: a successful poll leads to the normal end and `SD_OK`, a failed
poll to the error teardown and `SD_ERR`. For every other flagged error the error
teardown follows the decoding at once (no poll) and `SD_ERR` is returned. Every run of
`_sd_write_byte` that gets past the data copy is such a run. -/
theorem write_byte_force_erase (env : Env) (s : Sd) (cmd byte : Nat) :
    ((write_byte_time_out cmd byte = SD_TIMEOUT_ERASE_CMD ↔ cmd = CMD42 ∧ byte = 1) ∧
      (¬ (cmd = CMD42 ∧ byte = 1) → write_byte_time_out cmd byte = SD_TIMEOUT_RESP) ∧
      SD_TIMEOUT_ERASE_CMD ≠ SD_TIMEOUT_RESP) ∧
    Call.sddev_int_wait s.hndl.sd_port (write_byte_time_out cmd byte) :: s.trace
      <:+ (_sd_write_byte_wait env s cmd byte).2.trace ∧
    ((write_byte_wait2 env s cmd byte).1 = SD_OK →
      (write_byte_wait2 env s cmd byte).2.hndl.int_info2 &&& SD_INFO2_MASK_ERR ≠ 0 →
      (cmd = CMD42 ∧ byte = 1 ∧
          (write_byte_check env s cmd byte).2.hndl.error = SD_ERR_CARD_TOE →
        (write_byte_rbusy env s cmd byte).2.trace
          = [Call.sd_wait_rbusy 10000000,
             Call.sd_clear_info SD_INFO1_MASK_TRNS_RESP SD_INFO2_MASK_ERR,
             Call.sd_check_info2_err,
             Call.sddev_int_wait s.hndl.sd_port SD_TIMEOUT_ERASE_CMD] ++ s.trace ∧
        ((write_byte_rbusy env s cmd byte).1 = SD_OK →
          _sd_write_byte_wait env s cmd byte
            = _sd_write_byte_end env (write_byte_rbusy env s cmd byte).2 ∧
          (_sd_write_byte_wait env s cmd byte).1 = SD_OK) ∧
        ((write_byte_rbusy env s cmd byte).1 ≠ SD_OK →
          _sd_write_byte_wait env s cmd byte
            = _sd_write_byte_error env (write_byte_rbusy env s cmd byte).2 ∧
          (_sd_write_byte_wait env s cmd byte).1 = SD_ERR ∧
          (_sd_write_byte_wait env s cmd byte).2.SD_STOP = 1)) ∧
      (¬ (cmd = CMD42 ∧ byte = 1 ∧
          (write_byte_check env s cmd byte).2.hndl.error = SD_ERR_CARD_TOE) →
        (_sd_write_byte_wait env s cmd byte).1 = SD_ERR ∧
        (_sd_write_byte_wait env s cmd byte).2.SD_STOP = 1 ∧
        (_sd_write_byte_wait env s cmd byte).2.trace
          = [Call.sd_clear_int_mask SD_INFO1_MASK_DATA_TRNS SD_INFO2_MASK_BWE,
             Call.sd_clear_info SD_INFO1_MASK_DATA_TRNS 0,
             Call.sd_check_info2_err,
             Call.sddev_int_wait s.hndl.sd_port (write_byte_time_out cmd byte)]
            ++ s.trace)) ∧
    (∀ (s0 : Sd) (h_arg l_arg : Nat),
      (_sd_write_byte env s0 cmd h_arg l_arg byte).1 = SD_ERR ∨
      ∃ s1, _sd_write_byte env s0 cmd h_arg l_arg byte
        = _sd_write_byte_wait env s1 cmd byte) := by
  obtain ⟨t1, t2⟩ := write_byte_time_out_eq cmd byte
  refine ⟨⟨t1, t2, by decide⟩, ?_, ?_,
    fun s0 h_arg l_arg => write_byte_reaches_wait env s0 cmd h_arg l_arg byte⟩
  · have h0 : Call.sddev_int_wait s.hndl.sd_port (write_byte_time_out cmd byte) :: s.trace
        = (write_byte_wait2 env s cmd byte).2.trace := rfl
    rw [write_byte_wait_eq, h0]
    have a1 : ∀ x : Sd, (write_byte_wait2 env s cmd byte).2.trace <:+ x.trace →
        (write_byte_wait2 env s cmd byte).2.trace <:+ (_sd_write_byte_error env x).2.trace :=
      fun x hx => hx.trans ((List.suffix_cons _ _).trans (List.suffix_cons _ _))
    have a2 : ∀ x : Sd, (write_byte_wait2 env s cmd byte).2.trace <:+ x.trace →
        (write_byte_wait2 env s cmd byte).2.trace <:+ (_sd_write_byte_end env x).2.trace :=
      fun x hx => hx.trans ((List.suffix_cons _ _).trans (List.suffix_cons _ _))
    have hc : (write_byte_wait2 env s cmd byte).2.trace
        <:+ (write_byte_check env s cmd byte).2.trace := List.suffix_cons _ _
    have hb : (write_byte_wait2 env s cmd byte).2.trace
        <:+ (write_byte_rbusy env s cmd byte).2.trace :=
      hc.trans ((List.suffix_cons _ _).trans (List.suffix_cons _ _))
    split_ifs
    · exact a1 _ (List.suffix_refl _)
    · exact a1 _ hb
    · exact a2 _ hb
    · exact a1 _ hc
    · exact a1 _ hc
    · exact a2 _ (List.suffix_refl _)
  · intro hw hf
    constructor
    · rintro ⟨hc, hb, he⟩
      have ht : write_byte_time_out cmd byte = SD_TIMEOUT_ERASE_CMD := t1.2 ⟨hc, hb⟩
      refine ⟨?_, ?_, ?_⟩
      · show Call.sd_wait_rbusy 10000000
            :: Call.sd_clear_info SD_INFO1_MASK_TRNS_RESP SD_INFO2_MASK_ERR
            :: Call.sd_check_info2_err
            :: Call.sddev_int_wait s.hndl.sd_port (write_byte_time_out cmd byte)
            :: s.trace = _
        rw [ht]
        rfl
      · intro hp
        have e : _sd_write_byte_wait env s cmd byte
            = _sd_write_byte_end env (write_byte_rbusy env s cmd byte).2 := by
          rw [write_byte_wait_eq, if_neg (fun c => c hw), if_pos hf, if_pos ht.symm,
            if_pos he.symm, if_neg (fun c => c hp)]
        exact ⟨e, by rw [e]; rfl⟩
      · intro hp
        have e : _sd_write_byte_wait env s cmd byte
            = _sd_write_byte_error env (write_byte_rbusy env s cmd byte).2 := by
          rw [write_byte_wait_eq, if_neg (fun c => c hw), if_pos hf, if_pos ht.symm,
            if_pos he.symm, if_pos hp]
        exact ⟨e, by rw [e]; rfl, by rw [e]; rfl⟩
    · intro hn
      have e : _sd_write_byte_wait env s cmd byte
          = _sd_write_byte_error env (write_byte_check env s cmd byte).2 := by
        rw [write_byte_wait_eq, if_neg (fun c => c hw), if_pos hf]
        by_cases ht : SD_TIMEOUT_ERASE_CMD = write_byte_time_out cmd byte
        · rw [if_pos ht]
          have hcb := t1.1 ht.symm
          rw [if_neg (fun c => hn ⟨hcb.1, hcb.2, c.symm⟩)]
        · rw [if_neg ht]
      rw [e]
      exact ⟨rfl, rfl, rfl⟩

/-- Witness of `write_byte_force_erase`: a forced erase (CMD42, one byte) whose final
wait ends with the card time-out flagged and whose busy-wait poll succeeds, one whose
poll fails, one with another flagged error (CRC), and a CMD42 of two bytes with the card
time-out flagged. -/
theorem write_byte_force_erase_witness :
    (_sd_write_byte_wait (env_wait_flag SD_TIMEOUT_ERASE_CMD SD_ERR_CARD_TOE SD_OK)
      sd_clean CMD42 1).1 = SD_OK ∧
    (_sd_write_byte_wait (env_wait_flag SD_TIMEOUT_ERASE_CMD SD_ERR_CARD_TOE SD_ERR)
      sd_clean CMD42 1).1 = SD_ERR ∧
    (_sd_write_byte_wait (env_wait_flag SD_TIMEOUT_ERASE_CMD SD_ERR_CRC SD_OK)
      sd_clean CMD42 1).1 = SD_ERR ∧
    (_sd_write_byte_wait (env_wait_flag SD_TIMEOUT_RESP SD_ERR_CARD_TOE SD_OK)
      sd_clean CMD42 2).1 = SD_ERR := by
  have a := ((write_byte_force_erase
    (env_wait_flag SD_TIMEOUT_ERASE_CMD SD_ERR_CARD_TOE SD_OK) sd_clean CMD42 1).2.2.1
    (by decide) (by decide)).1 ⟨rfl, rfl, by decide⟩
  have b := ((write_byte_force_erase
    (env_wait_flag SD_TIMEOUT_ERASE_CMD SD_ERR_CARD_TOE SD_ERR) sd_clean CMD42 1).2.2.1
    (by decide) (by decide)).1 ⟨rfl, rfl, by decide⟩
  have c := ((write_byte_force_erase
    (env_wait_flag SD_TIMEOUT_ERASE_CMD SD_ERR_CRC SD_OK) sd_clean CMD42 1).2.2.1
    (by decide) (by decide)).2 (by decide)
  have d := ((write_byte_force_erase
    (env_wait_flag SD_TIMEOUT_RESP SD_ERR_CARD_TOE SD_OK) sd_clean CMD42 2).2.2.1
    (by decide) (by decide)).2 (by decide)
  exact ⟨(a.2.1 (by decide)).2, (b.2.2 (by decide)).2.1, c.1, d.1⟩

/-! ### `sd_trns.c`: the DMA transfer -/

/-- An `int32_t` product that is in range is exact. -/
theorem int32_of_range (x : Int) (h1 : -2 ^ 31 ≤ x) (h2 : x < 2 ^ 31) : int32 x = x := by
  unfold int32
  have e : (x + 2 ^ 31) % 2 ^ 32 = x + 2 ^ 31 :=
    Int.emod_eq_of_lt (by omega) (by omega)
  rw [e]
  omega

/-- The shape of `_sd_dma_trans`. -/
theorem dma_trans_eq (env : Env) (s : Sd) (cnt : Int) :
    _sd_dma_trans env s cnt
      = if (dma_wait env s cnt).1 ≠ SD_OK ∨ (dma_disable env s cnt).1 ≠ SD_OK then
          ((_sd_set_err s.hndl SD_ERR_CPU_IF).error,
            { (dma_disable env s cnt).2 with
              hndl := _sd_set_err s.hndl SD_ERR_CPU_IF })
        else (s.hndl.error, (dma_disable env s cnt).2) := by
  simp only [_sd_dma_trans]
  by_cases h1 : (dma_wait env s cnt).1 ≠ SD_OK
  · rw [if_pos (by exact h1), if_pos (Or.inl h1)]
    rfl
  · rw [if_neg (by exact h1)]
    by_cases h2 : (dma_disable env s cnt).1 ≠ SD_OK
    · rw [if_pos (by exact h2), if_pos (Or.inr h2)]
      rfl
    · rw [if_neg (by exact h2), if_neg (fun c => c.elim h1 h2)]
      rfl

/-- C27 (as amended): cleanup of `_sd_dma_trans`. On every path the function makes
exactly two calls: the completion wait, given the size `cnt * 512` (as an `int32_t`
product, exact when in range), and then the disabling of the DMA engine, once. The
value returned is the error recorded in the handle on return. When the wait or the
disabling fails, `_sd_set_err` is called with `SD_ERR_CPU_IF`: the CPU-interface error
is recorded (and returned) when no error is recorded at entry, and an error recorded at
entry is kept (and returned) otherwise. With no failure the recorded error is returned
and the handle is unchanged. -/
theorem dma_trans_cleanup (env : Env) (s : Sd) (cnt : Int) :
    (_sd_dma_trans env s cnt).2.trace
      = [Call.sddev_disable_dma s.hndl.sd_port,
         Call.sddev_wait_dma_end s.hndl.sd_port (int32 (cnt * 512))] ++ s.trace ∧
    (-2 ^ 31 ≤ cnt * 512 → cnt * 512 < 2 ^ 31 → int32 (cnt * 512) = cnt * 512) ∧
    (_sd_dma_trans env s cnt).1 = (_sd_dma_trans env s cnt).2.hndl.error ∧
    ((dma_wait env s cnt).1 ≠ SD_OK ∨ (dma_disable env s cnt).1 ≠ SD_OK →
      (_sd_dma_trans env s cnt).1
        = (if s.hndl.error = SD_OK then SD_ERR_CPU_IF else s.hndl.error)) ∧
    ((dma_wait env s cnt).1 = SD_OK → (dma_disable env s cnt).1 = SD_OK →
      (_sd_dma_trans env s cnt).1 = s.hndl.error ∧
      (_sd_dma_trans env s cnt).2.hndl = s.hndl) := by
  refine ⟨?_, int32_of_range _, ?_, ?_, ?_⟩
  · rw [dma_trans_eq]
    split_ifs <;> rfl
  · rw [dma_trans_eq]
    split_ifs <;> rfl
  · intro h
    rw [dma_trans_eq, if_pos h]
    show (_sd_set_err s.hndl SD_ERR_CPU_IF).error = _
    simp only [_sd_set_err]
    split_ifs <;> rfl
  · intro h1 h2
    rw [dma_trans_eq, if_neg (fun c => c.elim (fun a => a h1) (fun a => a h2))]
    exact ⟨rfl, rfl⟩

/-- Witness of `dma_trans_cleanup`: a transfer of 8 sectors whose completion wait times
out, one whose DMA engine cannot be disabled, and one without failure, each entered with
no error recorded. -/
theorem dma_trans_cleanup_witness :
    int32 (8 * 512) = 8 * 512 ∧
    (_sd_dma_trans env_dma_timeout sd_clean 8).1 = SD_ERR_CPU_IF ∧
    (_sd_dma_trans env_dma_disable_fail sd_clean 8).1 = SD_ERR_CPU_IF ∧
    (_sd_dma_trans env_ok sd_clean 8).1 = SD_OK := by
  have a := dma_trans_cleanup env_dma_timeout sd_clean 8
  have b := dma_trans_cleanup env_dma_disable_fail sd_clean 8
  have c := dma_trans_cleanup env_ok sd_clean 8
  exact ⟨a.2.1 (by decide) (by decide), a.2.2.2.1 (Or.inl (by decide)),
    b.2.2.2.1 (Or.inr (by decide)), (c.2.2.2.2 (by decide) (by decide)).1⟩

/-- C27 (as stated) fails: `_sd_dma_trans` entered with a response time-out recorded,
the completion wait timing out. The DMA engine is disabled once after the wait, but the
error recorded and returned is the response time-out, not `SD_ERR_CPU_IF`:
`_sd_set_err` keeps an error that is already recorded. -/
theorem dma_trans_timeout_keeps_error :
    (_sd_dma_trans env_dma_timeout sd_res_toe 8).2.trace
      = [Call.sddev_disable_dma 0, Call.sddev_wait_dma_end 0 4096] ∧
    (_sd_dma_trans env_dma_timeout sd_res_toe 8).1 = SD_ERR_RES_TOE ∧
    (_sd_dma_trans env_dma_timeout sd_res_toe 8).2.hndl.error = SD_ERR_RES_TOE ∧
    (_sd_dma_trans env_dma_timeout sd_res_toe 8).1 ≠ SD_ERR_CPU_IF := by
  refine ⟨?_, ?_, ?_, ?_⟩ <;> decide

/-! ### `sd_trns.c`: the software transfer loop -/

theorem sectors_length (dir : Int) (sd_port : Int) (k : Nat) :
    (sectors dir sd_port k).length = 3 * k := by
  induction k with
  | zero => rfl
  | succ k ih =>
    simp only [sectors, sector_cycle, List.length_append, List.length_cons,
      List.length_nil, ih]
    omega

/-- What `_sd_set_err` leaves recorded. -/
theorem set_err_error (h : st_sdhndl_t) (e : Int) :
    (_sd_set_err h e).error = (if h.error = SD_OK then e else h.error) := by
  simp only [_sd_set_err]
  split_ifs <;> rfl

/-- A complete cycle: the loop goes on with the next sector. -/
theorem loop_cycle_ok (env : Env) (dir : Int) (j buff : Nat) (s : Sd)
    (hw : (env s.trace.length
      (Call.sddev_int_wait s.hndl.sd_port SD_TIMEOUT_MULTIPLE)).ret = SD_OK)
    (hf : (env s.trace.length
      (Call.sddev_int_wait s.hndl.sd_port SD_TIMEOUT_MULTIPLE)).int_info2
        &&& SD_INFO2_MASK_ERR = 0)
    (hx : (env (s.trace.length + 2) (sector_call dir s.hndl.sd_port buff)).ret = SD_OK) :
    software_trans_loop env dir (j + 1) buff s
      = software_trans_loop env dir j (buff + 512) (cycle_done env dir buff s) := by
  simp only [software_trans_loop]
  rw [if_neg (by exact fun c => c hw), if_neg (by exact fun c => c hf),
    if_neg (by exact fun c => c hx)]
  rfl

/-- A cycle whose wait times out ends the loop. -/
theorem loop_cycle_timeout (env : Env) (dir : Int) (j buff : Nat) (s : Sd)
    (hw : (env s.trace.length
      (Call.sddev_int_wait s.hndl.sd_port SD_TIMEOUT_MULTIPLE)).ret ≠ SD_OK) :
    (software_trans_loop env dir (j + 1) buff s).trace
      = Call.sddev_int_wait s.hndl.sd_port SD_TIMEOUT_MULTIPLE :: s.trace ∧
    (software_trans_loop env dir (j + 1) buff s).hndl.error
      = (if s.hndl.error = SD_OK then SD_ERR_HOST_TOE else s.hndl.error) := by
  simp only [software_trans_loop]
  rw [if_pos (by exact hw)]
  exact ⟨rfl, set_err_error _ SD_ERR_HOST_TOE⟩

/-- A cycle whose wait ends with an error flag raised ends the loop. -/
theorem loop_cycle_flag (env : Env) (dir : Int) (j buff : Nat) (s : Sd)
    (hw : (env s.trace.length
      (Call.sddev_int_wait s.hndl.sd_port SD_TIMEOUT_MULTIPLE)).ret = SD_OK)
    (hf : (env s.trace.length
      (Call.sddev_int_wait s.hndl.sd_port SD_TIMEOUT_MULTIPLE)).int_info2
        &&& SD_INFO2_MASK_ERR ≠ 0) :
    (software_trans_loop env dir (j + 1) buff s).trace
      = Call.sd_check_info2_err
          :: Call.sddev_int_wait s.hndl.sd_port SD_TIMEOUT_MULTIPLE :: s.trace ∧
    (software_trans_loop env dir (j + 1) buff s).hndl.error
      = (env (s.trace.length + 1) Call.sd_check_info2_err).error := by
  simp only [software_trans_loop]
  rw [if_neg (by exact fun c => c hw), if_pos (by exact hf)]
  exact ⟨rfl, rfl⟩

/-- A cycle whose transfer fails ends the loop. -/
theorem loop_cycle_transfer (env : Env) (dir : Int) (j buff : Nat) (s : Sd)
    (hw : (env s.trace.length
      (Call.sddev_int_wait s.hndl.sd_port SD_TIMEOUT_MULTIPLE)).ret = SD_OK)
    (hf : (env s.trace.length
      (Call.sddev_int_wait s.hndl.sd_port SD_TIMEOUT_MULTIPLE)).int_info2
        &&& SD_INFO2_MASK_ERR = 0)
    (hx : (env (s.trace.length + 2) (sector_call dir s.hndl.sd_port buff)).ret ≠ SD_OK) :
    (software_trans_loop env dir (j + 1) buff s).trace
      = sector_call dir s.hndl.sd_port buff :: sector_clear dir
          :: Call.sddev_int_wait s.hndl.sd_port SD_TIMEOUT_MULTIPLE :: s.trace ∧
    (software_trans_loop env dir (j + 1) buff s).hndl.error
      = (if s.hndl.error = SD_OK then SD_ERR_CPU_IF else s.hndl.error) := by
  simp only [software_trans_loop]
  rw [if_neg (by exact fun c => c hw), if_neg (by exact fun c => c hf),
    if_pos (by exact hx)]
  exact ⟨rfl, set_err_error _ SD_ERR_CPU_IF⟩

/-- The loop from cycle `i0` on, when the `j` cycles left are all complete. -/
theorem loop_run (env : Env) (dir : Int) (sd_port : Int) (t0 : List Call) (j : Nat) :
    ∀ (i0 : Nat) (s : Sd), s.trace = sectors dir sd_port i0 ++ t0 →
      s.hndl.sd_port = sd_port →
      (∀ i, i0 ≤ i → i < i0 + j → cycle_ok env dir sd_port t0.length i) →
      (software_trans_loop env dir j (512 * i0) s).trace
        = sectors dir sd_port (i0 + j) ++ t0 ∧
      (software_trans_loop env dir j (512 * i0) s).hndl.error = s.hndl.error := by
  induction j with
  | zero => intro i0 s ht _ _; exact ⟨ht, rfl⟩
  | succ j ih =>
    intro i0 s ht hp hall
    have hl : s.trace.length = t0.length + 3 * i0 := by
      rw [ht, List.length_append, sectors_length]
      omega
    obtain ⟨hw, hf, hx⟩ := hall i0 (le_refl _) (by omega)
    simp only [cycle_wait, cycle_transfer] at hw hf hx
    rw [← hl, ← hp] at hw hf
    have hx2 : (env (s.trace.length + 2)
        (sector_call dir s.hndl.sd_port (512 * i0))).ret = SD_OK := by
      rw [hl, hp]
      exact hx
    rw [loop_cycle_ok env dir j (512 * i0) s hw hf hx2]
    have hb : 512 * i0 + 512 = 512 * (i0 + 1) := by omega
    have ht2 : (cycle_done env dir (512 * i0) s).trace
        = sectors dir sd_port (i0 + 1) ++ t0 := by
      show sector_call dir s.hndl.sd_port (512 * i0) :: sector_clear dir
        :: Call.sddev_int_wait s.hndl.sd_port SD_TIMEOUT_MULTIPLE :: s.trace = _
      rw [ht, hp]
      rfl
    have h := ih (i0 + 1) (cycle_done env dir (512 * i0) s) ht2 hp
      (fun i a b => hall i (by omega) (by omega))
    rw [hb]
    have hi : i0 + 1 + j = i0 + (j + 1) := by omega
    rw [hi] at h
    exact ⟨h.1, h.2⟩

/-- The loop from cycle `i0` on, when cycle `k` is the first that is not complete. -/
theorem loop_stop (env : Env) (dir : Int) (sd_port : Int) (t0 : List Call) (k : Nat)
    (j : Nat) :
    ∀ (i0 : Nat) (s : Sd), s.trace = sectors dir sd_port i0 ++ t0 →
      s.hndl.sd_port = sd_port → i0 ≤ k → k < i0 + j →
      (∀ i, i0 ≤ i → i < k → cycle_ok env dir sd_port t0.length i) →
      ((cycle_wait env sd_port t0.length k).ret ≠ SD_OK →
        (software_trans_loop env dir j (512 * i0) s).trace
          = Call.sddev_int_wait sd_port SD_TIMEOUT_MULTIPLE
              :: (sectors dir sd_port k ++ t0) ∧
        (software_trans_loop env dir j (512 * i0) s).hndl.error
          = (if s.hndl.error = SD_OK then SD_ERR_HOST_TOE else s.hndl.error)) ∧
      ((cycle_wait env sd_port t0.length k).ret = SD_OK →
        (cycle_wait env sd_port t0.length k).int_info2 &&& SD_INFO2_MASK_ERR ≠ 0 →
        (software_trans_loop env dir j (512 * i0) s).trace
          = Call.sd_check_info2_err :: Call.sddev_int_wait sd_port SD_TIMEOUT_MULTIPLE
              :: (sectors dir sd_port k ++ t0) ∧
        (software_trans_loop env dir j (512 * i0) s).hndl.error
          = (cycle_check env t0.length k).error) ∧
      ((cycle_wait env sd_port t0.length k).ret = SD_OK →
        (cycle_wait env sd_port t0.length k).int_info2 &&& SD_INFO2_MASK_ERR = 0 →
        (cycle_transfer env dir sd_port t0.length k).ret ≠ SD_OK →
        (software_trans_loop env dir j (512 * i0) s).trace
          = sector_cycle dir sd_port k ++ (sectors dir sd_port k ++ t0) ∧
        (software_trans_loop env dir j (512 * i0) s).hndl.error
          = (if s.hndl.error = SD_OK then SD_ERR_CPU_IF else s.hndl.error)) := by
  induction j with
  | zero => intro i0 s _ _ h1 h2; omega
  | succ j ih =>
    intro i0 s ht hp hk1 hk2 hall
    have hl : s.trace.length = t0.length + 3 * i0 := by
      rw [ht, List.length_append, sectors_length]
      omega
    by_cases hk : k = i0
    · subst hk
      subst hp
      simp only [cycle_wait, cycle_transfer, cycle_check]
      rw [← hl, ← ht]
      refine ⟨?_, ?_, ?_⟩
      · intro hw
        exact loop_cycle_timeout env dir j _ s hw
      · intro hw hf
        exact loop_cycle_flag env dir j _ s hw hf
      · intro hw hf hx
        exact loop_cycle_transfer env dir j _ s hw hf hx
    · obtain ⟨hw, hf, hx⟩ := hall i0 (le_refl _) (by omega)
      simp only [cycle_wait, cycle_transfer] at hw hf hx
      rw [← hl, ← hp] at hw hf
      have hx2 : (env (s.trace.length + 2)
          (sector_call dir s.hndl.sd_port (512 * i0))).ret = SD_OK := by
        rw [hl, hp]
        exact hx
      rw [loop_cycle_ok env dir j (512 * i0) s hw hf hx2]
      have hb : 512 * i0 + 512 = 512 * (i0 + 1) := by omega
      have ht2 : (cycle_done env dir (512 * i0) s).trace
          = sectors dir sd_port (i0 + 1) ++ t0 := by
        show sector_call dir s.hndl.sd_port (512 * i0) :: sector_clear dir
          :: Call.sddev_int_wait s.hndl.sd_port SD_TIMEOUT_MULTIPLE :: s.trace = _
        rw [ht, hp]
        rfl
      rw [hb]
      exact ih (i0 + 1) (cycle_done env dir (512 * i0) s) ht2 hp (by omega) (by omega)
        (fun i a b => hall i (by omega) b)

theorem sectors_transfers (dir : Int) (sd_port : Int) (k : Nat) :
    (sectors dir sd_port k).countP Call.is_transfer = k := by
  induction k with
  | zero => rfl
  | succ k ih =>
    have h1 : (sector_call dir sd_port (512 * k)).is_transfer = true := by
      unfold sector_call
      split_ifs <;> rfl
    have h2 : (sector_clear dir).is_transfer = false := rfl
    simp only [sectors, sector_cycle, List.cons_append, List.nil_append,
      List.countP_cons, h1, h2, ih]
    simp [Call.is_transfer]

/-- C26: the loop of `_sd_software_trans`, entered with `n0` calls made so far. Cycle
`i` (counted from 0) consists of the wait, the clearing of the buffer flag and the
transfer of 512 bytes at the buffer offset `512 * i`; it is complete when the wait
returns `SD_OK` with no error flag and the transfer returns `SD_OK`. The value returned
is the error recorded in the handle on return. For `cnt ≥ 1`: when all `cnt` cycles are
complete, exactly the cycles `0 .. cnt - 1` are performed, in order, and the recorded
error is unchanged; when cycle `k` is the first that is not complete, the cycles before
it are followed by the wait alone (time-out), by the wait and the decoding of the flags
(error flag), or by the wait, the clearing and the failed transfer (transfer failure),
and nothing else is issued, so that exactly `k` sectors were transferred. For
`cnt ≤ 0` no call is made and the state is unchanged. -/
theorem software_trans_cycles (env : Env) (s : Sd) (cnt : Int) (dir : Int) :
    (_sd_software_trans env s cnt dir).1
      = (_sd_software_trans env s cnt dir).2.hndl.error ∧
    (1 ≤ cnt →
      (∀ i : Nat, (i : Int) < cnt → cycle_ok env dir s.hndl.sd_port s.trace.length i) →
      (_sd_software_trans env s cnt dir).2.trace
        = sectors dir s.hndl.sd_port cnt.toNat ++ s.trace ∧
      (_sd_software_trans env s cnt dir).1 = s.hndl.error) ∧
    (∀ k : Nat, (k : Int) < cnt →
      (∀ i, i < k → cycle_ok env dir s.hndl.sd_port s.trace.length i) →
      ((cycle_wait env s.hndl.sd_port s.trace.length k).ret ≠ SD_OK →
        (_sd_software_trans env s cnt dir).2.trace
          = Call.sddev_int_wait s.hndl.sd_port SD_TIMEOUT_MULTIPLE
              :: (sectors dir s.hndl.sd_port k ++ s.trace) ∧
        (_sd_software_trans env s cnt dir).1
          = (if s.hndl.error = SD_OK then SD_ERR_HOST_TOE else s.hndl.error)) ∧
      ((cycle_wait env s.hndl.sd_port s.trace.length k).ret = SD_OK →
        (cycle_wait env s.hndl.sd_port s.trace.length k).int_info2
          &&& SD_INFO2_MASK_ERR ≠ 0 →
        (_sd_software_trans env s cnt dir).2.trace
          = Call.sd_check_info2_err
              :: Call.sddev_int_wait s.hndl.sd_port SD_TIMEOUT_MULTIPLE
              :: (sectors dir s.hndl.sd_port k ++ s.trace) ∧
        (_sd_software_trans env s cnt dir).1
          = (cycle_check env s.trace.length k).error) ∧
      ((cycle_wait env s.hndl.sd_port s.trace.length k).ret = SD_OK →
        (cycle_wait env s.hndl.sd_port s.trace.length k).int_info2
          &&& SD_INFO2_MASK_ERR = 0 →
        (cycle_transfer env dir s.hndl.sd_port s.trace.length k).ret ≠ SD_OK →
        (_sd_software_trans env s cnt dir).2.trace
          = sector_cycle dir s.hndl.sd_port k
              ++ (sectors dir s.hndl.sd_port k ++ s.trace) ∧
        (_sd_software_trans env s cnt dir).1
          = (if s.hndl.error = SD_OK then SD_ERR_CPU_IF else s.hndl.error))) ∧
    (cnt ≤ 0 → _sd_software_trans env s cnt dir = (s.hndl.error, s)) ∧
    (∀ n, (sectors dir s.hndl.sd_port n).countP Call.is_transfer = n) := by
  refine ⟨rfl, ?_, ?_, ?_, fun n => sectors_transfers dir _ n⟩
  · intro _ hall
    have h := loop_run env dir s.hndl.sd_port s.trace cnt.toNat 0 s rfl rfl
      (fun i _ hi => hall i (by omega))
    rw [Nat.zero_add] at h
    exact ⟨h.1, h.2⟩
  · intro k hk hall
    have h := loop_stop env dir s.hndl.sd_port s.trace k cnt.toNat 0 s rfl rfl
      (Nat.zero_le _) (by omega) (fun i _ hi => hall i hi)
    exact h
  · intro h
    have h0 : cnt.toNat = 0 := by omega
    simp only [_sd_software_trans, h0, software_trans_loop]

/-- Witness of `software_trans_cycles`: a read of 3 sectors that completes, one whose
second wait times out, one whose second wait ends with an error flag, and one whose
second transfer fails. -/
theorem software_trans_cycles_witness :
    (_sd_software_trans env_ok sd_clean 3 SD_TRANS_READ).2.trace
      = sectors SD_TRANS_READ 0 3 ∧
    (_sd_software_trans (env_wait_fail_at 3) sd_clean 3 SD_TRANS_READ).2.trace
      = Call.sddev_int_wait 0 SD_TIMEOUT_MULTIPLE :: sectors SD_TRANS_READ 0 1 ∧
    (_sd_software_trans (env_wait_fail_at 3) sd_clean 3 SD_TRANS_READ).1
      = SD_ERR_HOST_TOE ∧
    (_sd_software_trans (env_flag_at 3) sd_clean 3 SD_TRANS_READ).1 = SD_ERR_CRC ∧
    (_sd_software_trans (env_sector_fail 512) sd_clean 3 SD_TRANS_READ).2.trace
      = [Call.sddev_read_data_at 0 512 512, Call.sd_clear_info 0 SD_INFO2_MASK_RE,
         Call.sddev_int_wait 0 SD_TIMEOUT_MULTIPLE,
         Call.sddev_read_data_at 0 0 512, Call.sd_clear_info 0 SD_INFO2_MASK_RE,
         Call.sddev_int_wait 0 SD_TIMEOUT_MULTIPLE] ∧
    (_sd_software_trans (env_sector_fail 512) sd_clean 3 SD_TRANS_READ).1
      = SD_ERR_CPU_IF := by
  have a := (software_trans_cycles env_ok sd_clean 3 SD_TRANS_READ).2.1 (by decide)
    (fun i hi => by
      have h3 : i < 3 := by omega
      interval_cases i <;> decide)
  have b := ((software_trans_cycles (env_wait_fail_at 3) sd_clean 3 SD_TRANS_READ).2.2.1
    1 (by decide) (by decide)).1 (by decide)
  have c := ((software_trans_cycles (env_flag_at 3) sd_clean 3 SD_TRANS_READ).2.2.1
    1 (by decide) (by decide)).2.1 (by decide) (by decide)
  have d := ((software_trans_cycles (env_sector_fail 512) sd_clean 3 SD_TRANS_READ).2.2.1
    1 (by decide) (by decide)).2.2 (by decide) (by decide) (by decide)
  exact ⟨a.1, b.1, b.2, c.2, d.1, d.2⟩

end Sdhi
